import Mathlib

/-!
# NetAdapterCx: request queue and power policy

A shallow embedding of the request queue of `cx/sys/nxrequestqueue.cpp` (the
handler-chain lookup `FIND_REQUEST_HANDLER`, `NxRequestQueue::DispatchRequest`,
`QueueNdisOidRequest`, `DisconnectRequest`, `CancelRequests`) and of the power policy of
`netcx/adapter/powerpolicy/nxpowerpolicy.cpp` (`AddWakePattern`, `AddProtocolOffload`,
`RemoveWakePattern`, `RemoveProtocolOffload`, `SetParameters`, the recomputation of
the enabled flags, the enumeration routines `UpdatePowerOffloadList` and
`UpdateWakeSourceList`, and the capability descriptor of `InitializeNdisCapabilities`).

Modelling conventions

* A singly linked, NULL-terminated handler chain is a `List`; the `Next` pointer of a
  node is the tail of the list.  A pointer to a node of a chain is the position of the
  node in the chain, a possibly-NULL pointer is an `Option`.
* A client callback (a C function pointer) is a number, a callback slot that may be
  NULL is an `Option Nat`.
* Calls that leave the queue (client callbacks, `NxRequest::Complete`) are recorded, in
  program order, as a list of `Event`s.
* `NTSTATUS` is a signed 32-bit integer, embedded in `Int`; unsigned 32-bit quantities
  (oids, buffer lengths, flag words) are only compared and combined with `&` and `|`,
  never added, and are embedded in `Nat`.
-/

set_option autoImplicit false

namespace NetAdapterCx

/-! ## Status codes -/

/-- The type `NTSTATUS` is a signed 32-bit integer (`LONG`). -/
abbrev NTSTATUS := Int

/-- Value `0x00000000` of ntstatus.h. -/
def STATUS_SUCCESS : NTSTATUS := 0

/-- Value `0xC0000023` of ntstatus.h, read as a signed 32-bit integer. -/
def STATUS_BUFFER_TOO_SMALL : NTSTATUS := 0xC0000023 - 2 ^ 32

/-- Value `0xC00000BB` of ntstatus.h, read as a signed 32-bit integer. -/
def STATUS_NOT_SUPPORTED : NTSTATUS := 0xC00000BB - 2 ^ 32

/-- Value `0xC0000225` of ntstatus.h, read as a signed 32-bit integer. -/
def STATUS_NOT_FOUND : NTSTATUS := 0xC0000225 - 2 ^ 32

/-- The test `NT_SUCCESS(Status)`, which is `((NTSTATUS)(Status)) >= 0`. -/
def NT_SUCCESS (Status : NTSTATUS) : Bool := decide (0 ≤ Status)

/-! ## Request types (`NDIS_REQUEST_TYPE`) -/

/-- Enumerator 0 of `NDIS_REQUEST_TYPE`. -/
def NdisRequestQueryInformation : Nat := 0

/-- Enumerator 1 of `NDIS_REQUEST_TYPE`. -/
def NdisRequestSetInformation : Nat := 1

/-- Enumerator 2 of `NDIS_REQUEST_TYPE`. -/
def NdisRequestQueryStatistics : Nat := 2

/-- Enumerator 12 of `NDIS_REQUEST_TYPE` (after Open, Close, Send, TransferData, Reset
and Generic1 to Generic4). -/
def NdisRequestMethod : Nat := 12

/-! ## Data model -/

/-- A node of a handler chain.  The three C types `NET_REQUEST_QUEUE_SET_DATA_HANDLER`,
`NET_REQUEST_QUEUE_QUERY_DATA_HANDLER` and `NET_REQUEST_QUEUE_METHOD_HANDLER` carry the
same fields and differ only in the name of the callback (`EvtRequestSetData`,
`EvtRequestQueryData`, `EvtRequestMethod`), here `EvtRequest`.  The `Next` field is the
tail of the list that holds the node. -/
structure NET_REQUEST_QUEUE_HANDLER where
  Oid : Nat
  EvtRequest : Nat
  MinimumInputLength : Nat
  MinimumOutputLength : Nat
deriving DecidableEq, Repr

/-- The fields of `NET_REQUEST_QUEUE_CONFIG` that `DispatchRequest` reads. -/
structure NET_REQUEST_QUEUE_CONFIG where
  SetDataHandlers : List NET_REQUEST_QUEUE_HANDLER
  QueryDataHandlers : List NET_REQUEST_QUEUE_HANDLER
  MethodHandlers : List NET_REQUEST_QUEUE_HANDLER
  EvtRequestDefaultSetData : Option Nat
  EvtRequestDefaultQueryData : Option Nat
  EvtRequestDefaultMethod : Option Nat
  EvtRequestDefault : Option Nat
deriving DecidableEq, Repr

/-- The fields of `NDIS_OID_REQUEST` that the queue reads. -/
structure NDIS_OID_REQUEST where
  RequestType : Nat
  RequestId : Nat
deriving DecidableEq, Repr

/-- The fields of `NxRequest` that the queue reads; `FxObject` is the NETREQUEST handle
returned by `GetFxObject()`. -/
structure NxRequest where
  FxObject : Nat
  m_NdisOidRequest : NDIS_OID_REQUEST
  m_Oid : Nat
  m_InputOutputBuffer : Nat
  m_InputBufferLength : Nat
  m_OutputBufferLength : Nat
deriving DecidableEq, Repr

/-- The fields of `NxRequestQueue` that `DispatchRequest` reads; `FxObject` is the
NETREQUESTQUEUE handle returned by `GetFxObject()`. -/
structure NxRequestQueue where
  FxObject : Nat
  m_Config : NET_REQUEST_QUEUE_CONFIG
deriving DecidableEq, Repr

/-- A call that leaves `DispatchRequest`.  For a chain handler, `Handler` is the node
through which the call is made and `Fn` the function pointer read from it; the other
arguments are the actual parameters of the call, in order. -/
inductive Event where
  | EvtRequestSetData (Handler Fn Queue Request Buffer InputBufferLength : Nat)
  | EvtRequestQueryData (Handler Fn Queue Request Buffer OutputBufferLength : Nat)
  | EvtRequestMethod (Handler Fn Queue Request Buffer InputBufferLength
      OutputBufferLength : Nat)
  | EvtRequestDefaultSetData (Fn Queue Request Oid Buffer InputBufferLength : Nat)
  | EvtRequestDefaultQueryData (Fn Queue Request Oid Buffer OutputBufferLength : Nat)
  | EvtRequestDefaultMethod (Fn Queue Request Oid Buffer InputBufferLength
      OutputBufferLength : Nat)
  | EvtRequestDefault (Fn Queue Request RequestType Oid Buffer InputBufferLength
      OutputBufferLength : Nat)
  | Complete (Request : Nat) (Status : NTSTATUS)
deriving DecidableEq, Repr

/-! ## Handler lookup -/

/-- The `while (entry != NULL)` loop of `FIND_REQUEST_HANDLER`.  The cursor `entry` is
the remaining chain together with the position `pos` of its first node; the pair
`(*Status, *Handler)` is the state the loop body assigns to.  `break` returns the state,
`entry = entry->Next` continues with the tail. -/
def FIND_REQUEST_HANDLER.scan (Oid InputBufferLength OutputBufferLength : Nat) :
    List NET_REQUEST_QUEUE_HANDLER → Nat → NTSTATUS × Option Nat → NTSTATUS × Option Nat
  | [], _, st => st
  | entry :: Next, pos, st =>
    if entry.Oid = Oid then
      if entry.MinimumInputLength > InputBufferLength then
        (STATUS_BUFFER_TOO_SMALL, st.2)
      else if entry.MinimumOutputLength > OutputBufferLength then
        (STATUS_BUFFER_TOO_SMALL, st.2)
      else
        (STATUS_SUCCESS, some pos)
    else
      FIND_REQUEST_HANDLER.scan Oid InputBufferLength OutputBufferLength Next (pos + 1) st

/-- The lookup `FIND_REQUEST_HANDLER(Type, First, Oid, InputBufferLength,
OutputBufferLength, Status, Handler)`: the state starts as `(STATUS_NOT_FOUND, NULL)`
and the chain is scanned from `First`.  The result is `(*Status, *Handler)`. -/
def FIND_REQUEST_HANDLER (First : List NET_REQUEST_QUEUE_HANDLER)
    (Oid InputBufferLength OutputBufferLength : Nat) : NTSTATUS × Option Nat :=
  FIND_REQUEST_HANDLER.scan Oid InputBufferLength OutputBufferLength First 0
    (STATUS_NOT_FOUND, none)

/-- Node `i` of `chain` is `entry`, it carries `Oid`, and no node before it does: the
first node in list order whose oid matches. -/
def IsFirstMatch (chain : List NET_REQUEST_QUEUE_HANDLER) (Oid i : Nat)
    (entry : NET_REQUEST_QUEUE_HANDLER) : Prop :=
  chain[i]? = some entry ∧ entry.Oid = Oid ∧ ∀ g ∈ chain.take i, g.Oid ≠ Oid

instance (chain : List NET_REQUEST_QUEUE_HANDLER) (Oid i : Nat)
    (entry : NET_REQUEST_QUEUE_HANDLER) : Decidable (IsFirstMatch chain Oid i entry) := by
  unfold IsFirstMatch
  infer_instance

/-! ## Dispatch -/

/-- The tail of `DispatchRequest` reached by `break` from the `switch`: no handler and no
per-category default took the request.  When `m_Config.EvtRequestDefault` is NULL the
request is completed with `STATUS_NOT_SUPPORTED`, otherwise the global default runs. -/
def NxRequestQueue.DispatchRequest.fallback (q : NxRequestQueue) (NxRequest : NxRequest) :
    List Event :=
  match q.m_Config.EvtRequestDefault with
  | none => [Event.Complete NxRequest.FxObject STATUS_NOT_SUPPORTED]
  | some fn =>
    [Event.EvtRequestDefault fn q.FxObject NxRequest.FxObject
      NxRequest.m_NdisOidRequest.RequestType NxRequest.m_Oid NxRequest.m_InputOutputBuffer
      NxRequest.m_InputBufferLength NxRequest.m_OutputBufferLength]

/-- The routine `NxRequestQueue::DispatchRequest`.  The result is the list of calls made,
in order; `none` stands for a dereference of a NULL handler pointer.  Each `goto Exit`
returns the calls made so far, each `break` continues with `fallback`. -/
def NxRequestQueue.DispatchRequest (q : NxRequestQueue) (NxRequest : NxRequest) :
    Option (List Event) :=
  if NxRequest.m_NdisOidRequest.RequestType = NdisRequestSetInformation then
    match FIND_REQUEST_HANDLER q.m_Config.SetDataHandlers NxRequest.m_Oid
        NxRequest.m_InputBufferLength NxRequest.m_OutputBufferLength with
    | (status, setDataHandler) =>
      if NT_SUCCESS status then
        match setDataHandler with
        | none => none
        | some p =>
          match q.m_Config.SetDataHandlers[p]? with
          | none => none
          | some entry =>
            some [Event.EvtRequestSetData p entry.EvtRequest q.FxObject NxRequest.FxObject
              NxRequest.m_InputOutputBuffer NxRequest.m_InputBufferLength]
      else if status = STATUS_NOT_FOUND then
        match q.m_Config.EvtRequestDefaultSetData with
        | some fn =>
          some [Event.EvtRequestDefaultSetData fn q.FxObject NxRequest.FxObject
            NxRequest.m_Oid NxRequest.m_InputOutputBuffer NxRequest.m_InputBufferLength]
        | none => some (NxRequestQueue.DispatchRequest.fallback q NxRequest)
      else if !NT_SUCCESS status then
        some [Event.Complete NxRequest.FxObject status]
      else
        some (NxRequestQueue.DispatchRequest.fallback q NxRequest)
  else if NxRequest.m_NdisOidRequest.RequestType = NdisRequestQueryInformation ∨
      NxRequest.m_NdisOidRequest.RequestType = NdisRequestQueryStatistics then
    match FIND_REQUEST_HANDLER q.m_Config.QueryDataHandlers NxRequest.m_Oid
        NxRequest.m_InputBufferLength NxRequest.m_OutputBufferLength with
    | (status, queryDataHandler) =>
      if NT_SUCCESS status then
        match queryDataHandler with
        | none => none
        | some p =>
          match q.m_Config.QueryDataHandlers[p]? with
          | none => none
          | some entry =>
            some [Event.EvtRequestQueryData p entry.EvtRequest q.FxObject
              NxRequest.FxObject NxRequest.m_InputOutputBuffer
              NxRequest.m_OutputBufferLength]
      else if status = STATUS_NOT_FOUND then
        match q.m_Config.EvtRequestDefaultQueryData with
        | some fn =>
          some [Event.EvtRequestDefaultQueryData fn q.FxObject NxRequest.FxObject
            NxRequest.m_Oid NxRequest.m_InputOutputBuffer NxRequest.m_OutputBufferLength]
        | none => some (NxRequestQueue.DispatchRequest.fallback q NxRequest)
      else if !NT_SUCCESS status then
        some [Event.Complete NxRequest.FxObject status]
      else
        some (NxRequestQueue.DispatchRequest.fallback q NxRequest)
  else if NxRequest.m_NdisOidRequest.RequestType = NdisRequestMethod then
    match FIND_REQUEST_HANDLER q.m_Config.MethodHandlers NxRequest.m_Oid
        NxRequest.m_InputBufferLength NxRequest.m_OutputBufferLength with
    | (status, methodHandler) =>
      if NT_SUCCESS status then
        match methodHandler with
        | none => none
        | some p =>
          match q.m_Config.MethodHandlers[p]? with
          | none => none
          | some entry =>
            some [Event.EvtRequestMethod p entry.EvtRequest q.FxObject NxRequest.FxObject
              NxRequest.m_InputOutputBuffer NxRequest.m_InputBufferLength
              NxRequest.m_OutputBufferLength]
      else if status = STATUS_NOT_FOUND then
        match q.m_Config.EvtRequestDefaultMethod with
        | some fn =>
          some [Event.EvtRequestDefaultMethod fn q.FxObject NxRequest.FxObject
            NxRequest.m_Oid NxRequest.m_InputOutputBuffer NxRequest.m_InputBufferLength
            NxRequest.m_OutputBufferLength]
        | none => some (NxRequestQueue.DispatchRequest.fallback q NxRequest)
      else if !NT_SUCCESS status then
        some [Event.Complete NxRequest.FxObject status]
      else
        some (NxRequestQueue.DispatchRequest.fallback q NxRequest)
  else
    some [Event.Complete NxRequest.FxObject STATUS_NOT_SUPPORTED]

/-! ## Classification of calls -/

/-- The call is made through a node of a handler chain. -/
def Event.isHandlerCall : Event → Bool
  | .EvtRequestSetData .. => true
  | .EvtRequestQueryData .. => true
  | .EvtRequestMethod .. => true
  | _ => false

/-- The call is to a per-category default callback. -/
def Event.isCategoryDefaultCall : Event → Bool
  | .EvtRequestDefaultSetData .. => true
  | .EvtRequestDefaultQueryData .. => true
  | .EvtRequestDefaultMethod .. => true
  | _ => false

/-- The call is to the global default callback `EvtRequestDefault`. -/
def Event.isGlobalDefaultCall : Event → Bool
  | .EvtRequestDefault .. => true
  | _ => false

/-- The call is to a default callback, per-category or global. -/
def Event.isDefaultCall (e : Event) : Bool :=
  e.isCategoryDefaultCall || e.isGlobalDefaultCall

/-- The call is to a client callback of any kind. -/
def Event.isCallback (e : Event) : Bool :=
  e.isHandlerCall || e.isDefaultCall

/-- The call completes the request. -/
def Event.isComplete : Event → Bool
  | .Complete .. => true
  | _ => false

/-- The call completes the request with a failure status. -/
def Event.isFailureComplete : Event → Bool
  | .Complete _ Status => !NT_SUCCESS Status
  | _ => false

/-- Number of events of a trace that satisfy `p`. -/
def countEvents (p : Event → Bool) (trace : List Event) : Nat :=
  (trace.filter p).length

/-- The chain that the specification assigns to a request type: set-information to the
set-data chain, query-information and query-statistics to the query-data chain, method to
the method chain, and no chain to any other type. -/
def specChain (Config : NET_REQUEST_QUEUE_CONFIG) (RequestType : Nat) :
    Option (List NET_REQUEST_QUEUE_HANDLER) :=
  if RequestType = NdisRequestSetInformation then some Config.SetDataHandlers
  else if RequestType = NdisRequestQueryInformation then some Config.QueryDataHandlers
  else if RequestType = NdisRequestQueryStatistics then some Config.QueryDataHandlers
  else if RequestType = NdisRequestMethod then some Config.MethodHandlers
  else none

/-- The per-category default callback that the specification assigns to a request type. -/
def specCategoryDefault (Config : NET_REQUEST_QUEUE_CONFIG) (RequestType : Nat) :
    Option Nat :=
  if RequestType = NdisRequestSetInformation then Config.EvtRequestDefaultSetData
  else if RequestType = NdisRequestQueryInformation then Config.EvtRequestDefaultQueryData
  else if RequestType = NdisRequestQueryStatistics then Config.EvtRequestDefaultQueryData
  else if RequestType = NdisRequestMethod then Config.EvtRequestDefaultMethod
  else none

/-- The call of a chain handler as the specification describes it for a request type:
the callback of node `p`, which is `entry`, with the buffers of the request. -/
def specHandlerCall (q : NxRequestQueue) (r : NxRequest) (p : Nat)
    (entry : NET_REQUEST_QUEUE_HANDLER) : Event :=
  if r.m_NdisOidRequest.RequestType = NdisRequestSetInformation then
    Event.EvtRequestSetData p entry.EvtRequest q.FxObject r.FxObject r.m_InputOutputBuffer
      r.m_InputBufferLength
  else if r.m_NdisOidRequest.RequestType = NdisRequestMethod then
    Event.EvtRequestMethod p entry.EvtRequest q.FxObject r.FxObject r.m_InputOutputBuffer
      r.m_InputBufferLength r.m_OutputBufferLength
  else
    Event.EvtRequestQueryData p entry.EvtRequest q.FxObject r.FxObject
      r.m_InputOutputBuffer r.m_OutputBufferLength

/-- The call of a per-category default as the specification describes it for a request
type: callback `fn` with the oid and the buffers of the request. -/
def specCategoryDefaultCall (q : NxRequestQueue) (r : NxRequest) (fn : Nat) : Event :=
  if r.m_NdisOidRequest.RequestType = NdisRequestSetInformation then
    Event.EvtRequestDefaultSetData fn q.FxObject r.FxObject r.m_Oid r.m_InputOutputBuffer
      r.m_InputBufferLength
  else if r.m_NdisOidRequest.RequestType = NdisRequestMethod then
    Event.EvtRequestDefaultMethod fn q.FxObject r.FxObject r.m_Oid r.m_InputOutputBuffer
      r.m_InputBufferLength r.m_OutputBufferLength
  else
    Event.EvtRequestDefaultQueryData fn q.FxObject r.FxObject r.m_Oid
      r.m_InputOutputBuffer r.m_OutputBufferLength

/-! ## Sample inputs -/

/-- A configuration with two set-data nodes for oid 7 (the first asks for 16 input bytes,
the second for none), a set-data node for oid 9, a query-data node for oid 5, a method
node for oid 9, and the four default callbacks given as parameters. -/
def sampleConfig (dSet dQuery dMethod dGlobal : Option Nat) : NET_REQUEST_QUEUE_CONFIG :=
  NET_REQUEST_QUEUE_CONFIG.mk
    [⟨7, 101, 16, 0⟩, ⟨7, 102, 0, 0⟩, ⟨9, 103, 0, 0⟩]
    [⟨5, 201, 0, 4⟩]
    [⟨9, 301, 2, 2⟩]
    dSet dQuery dMethod dGlobal

/-- A queue with handle 1000 over `sampleConfig`. -/
def sampleQueue (dSet dQuery dMethod dGlobal : Option Nat) : NxRequestQueue :=
  NxRequestQueue.mk 1000 (sampleConfig dSet dQuery dMethod dGlobal)

/-- A request with handle 2000, request id 1 and buffer 77. -/
def sampleRequest (RequestType Oid InputBufferLength OutputBufferLength : Nat) :
    NxRequest :=
  NxRequest.mk 2000 ⟨RequestType, 1⟩ Oid 77 InputBufferLength OutputBufferLength

/-! ## In-flight request tracking

The in-flight list `m_RequestsListHead` is an intrusive doubly linked list threaded
through the `m_QueueListEntry` member of the requests.  It is embedded as the `List` of
the request objects it links, in list order; the list owns the state of its members.  A
request object is identified by its NETREQUEST handle (`FxObject`), which stands for the
`PNxRequest` pointer.  Effects of calls that leave the queue (client callbacks,
`NxRequest::Complete`, `NxRequest::Cancel`, NDIS) are not part of the state: such calls
are recorded in the trace only.  `NT_ASSERT`s are not embedded. -/

/-- An `NxRequest` object as the queue sees it: `Request` holds the members that
`DispatchRequest` reads, the other fields are the members that the queue writes.  A
`LIST_ENTRY` member is `true` when its `Flink` and `Blink` are not NULL, and `false`
after `InitializeListEntry`. -/
structure NxRequestObject where
  Request : NxRequest
  m_CancellationStarted : Bool
  m_QueueListEntry : Bool
  m_CancelTempListEntry : Bool
  m_NxQueue : Option Nat
deriving DecidableEq, Repr

/-- The handle of a request object, `GetFxObject()`. -/
def NxRequestObject.GetFxObject (r : NxRequestObject) : Nat := r.Request.FxObject

/-- A step of the queue routines that is visible outside the routine, in program order:
the spin lock, the changes of the in-flight list, the calls made by `DispatchRequest`,
the completion of a raw NDIS request, the calls on a request being cancelled. -/
inductive QueueEvent where
  | KeAcquireSpinLock
  | KeReleaseSpinLock
  | InsertTailList (Request : Nat)
  | RemoveEntryList (Request : Nat)
  | Dispatch (Call : Event)
  | NdisMOidRequestComplete (NdisAdapterHandle : Nat) (NdisOidRequest : NDIS_OID_REQUEST)
      (Status : Nat)
  | WdfObjectReferenceWithTag (Request : Nat)
  | Cancel (Request : Nat)
  | WdfObjectDereferenceWithTag (Request : Nat)
deriving DecidableEq, Repr

/-- State and trace left by `QueueNdisOidRequest`. -/
structure QueueNdisOidRequestResult where
  m_RequestsListHead : List NxRequestObject
  Trace : List QueueEvent
deriving DecidableEq, Repr

/-- The routine `NxRequestQueue::QueueNdisOidRequest`.  `Create` stands for
`NxRequest::_Create` and yields the status and the created object,
`NdisConvertNtStatusToNdisStatus` is the NDIS conversion, `m_NdisAdapterHandle` the
handle of the adapter.  The result is `none` when `DispatchRequest` dereferences a NULL
handler. -/
def NxRequestQueue.QueueNdisOidRequest (q : NxRequestQueue) (m_NdisAdapterHandle : Nat)
    (NdisConvertNtStatusToNdisStatus : NTSTATUS → Nat)
    (Create : NDIS_OID_REQUEST → NTSTATUS × NxRequestObject)
    (m_RequestsListHead : List NxRequestObject) (NdisOidRequest : NDIS_OID_REQUEST) :
    Option QueueNdisOidRequestResult :=
  match Create NdisOidRequest with
  | (status, nxRequest) =>
    if !NT_SUCCESS status then
      some ⟨m_RequestsListHead,
        [QueueEvent.NdisMOidRequestComplete m_NdisAdapterHandle NdisOidRequest
          (NdisConvertNtStatusToNdisStatus status)]⟩
    else
      match q.DispatchRequest nxRequest.Request with
      | none => none
      | some calls =>
        some ⟨m_RequestsListHead ++
            [{ nxRequest with m_QueueListEntry := true, m_NxQueue := some q.FxObject }],
          [QueueEvent.KeAcquireSpinLock, QueueEvent.InsertTailList nxRequest.GetFxObject,
            QueueEvent.KeReleaseSpinLock] ++ calls.map QueueEvent.Dispatch⟩

/-- State and trace left by `DisconnectRequest`; `NxRequest` is the disconnected object
after the call. -/
structure DisconnectRequestResult where
  m_RequestsListHead : List NxRequestObject
  NxRequest : NxRequestObject
  Trace : List QueueEvent
deriving DecidableEq, Repr

/-- The routine `NxRequestQueue::DisconnectRequest` for the request with handle
`NxRequest`.  `RemoveEntryList` unlinks the object with that handle; an object that is in
no list has NULL links, which `RemoveEntryList` dereferences: the result is `none`. -/
def NxRequestQueue.DisconnectRequest (m_RequestsListHead : List NxRequestObject)
    (NxRequest : Nat) : Option DisconnectRequestResult :=
  match m_RequestsListHead.find? (fun r => r.GetFxObject == NxRequest) with
  | none => none
  | some r =>
    some ⟨m_RequestsListHead.eraseP (fun r => r.GetFxObject == NxRequest),
      { r with m_QueueListEntry := false, m_NxQueue := none },
      [QueueEvent.KeAcquireSpinLock, QueueEvent.RemoveEntryList NxRequest,
        QueueEvent.KeReleaseSpinLock]⟩

/-- The first loop of `CancelRequests` (`FOR_ALL_IN_LIST` over the in-flight list, run
under the lock).  The result is the in-flight list with the members updated in place,
the handles appended to `tmpCancelList` in order, and the calls made. -/
def NxRequestQueue.CancelRequests.mark (RequestId : Nat) :
    List NxRequestObject → List NxRequestObject × List Nat × List QueueEvent
  | [] => ([], [], [])
  | currNxRequest :: rest =>
    match NxRequestQueue.CancelRequests.mark RequestId rest with
    | (rest1, tmpCancelList, trace) =>
      if currNxRequest.Request.m_NdisOidRequest.RequestId ≠ RequestId then
        (currNxRequest :: rest1, tmpCancelList, trace)
      else if currNxRequest.m_CancellationStarted then
        (currNxRequest :: rest1, tmpCancelList, trace)
      else
        ({ currNxRequest with m_CancellationStarted := true, m_CancelTempListEntry := true }
            :: rest1,
          currNxRequest.GetFxObject :: tmpCancelList,
          QueueEvent.WdfObjectReferenceWithTag currNxRequest.GetFxObject :: trace)

/-- The member write `InitializeListEntry(&currNxRequest->m_CancelTempListEntry)` on the
object with handle `h`. -/
def clearCancelTempListEntry (h : Nat) (requests : List NxRequestObject) :
    List NxRequestObject :=
  requests.map fun r => if r.GetFxObject = h then { r with m_CancelTempListEntry := false } else r

/-- The second loop of `CancelRequests` (`FOR_ALL_IN_LIST_SAFE` over `tmpCancelList`, run
after the lock is released): `Cancel`, unlink from `tmpCancelList`, clear the link,
drop the reference.  The result is the in-flight list, what is left of `tmpCancelList`,
and the calls made. -/
def NxRequestQueue.CancelRequests.cancelAll :
    List Nat → List NxRequestObject → List NxRequestObject × List Nat × List QueueEvent
  | [], requests => (requests, [], [])
  | currNxRequest :: nextNxRequest, requests =>
    match NxRequestQueue.CancelRequests.cancelAll nextNxRequest
        (clearCancelTempListEntry currNxRequest requests) with
    | (requests1, tmpCancelList, trace) =>
      (requests1, tmpCancelList,
        QueueEvent.Cancel currNxRequest ::
          QueueEvent.WdfObjectDereferenceWithTag currNxRequest :: trace)

/-- State and trace left by `CancelRequests`; `tmpCancelList` is the local list at the
end of the routine. -/
structure CancelRequestsResult where
  m_RequestsListHead : List NxRequestObject
  tmpCancelList : List Nat
  Trace : List QueueEvent
deriving DecidableEq, Repr

/-- The routine `NxRequestQueue::CancelRequests`. -/
def NxRequestQueue.CancelRequests (m_RequestsListHead : List NxRequestObject)
    (RequestId : Nat) : CancelRequestsResult :=
  match NxRequestQueue.CancelRequests.mark RequestId m_RequestsListHead with
  | (marked, tmpCancelList, trace1) =>
    match NxRequestQueue.CancelRequests.cancelAll tmpCancelList marked with
    | (requests, tmpLeft, trace2) =>
      ⟨requests, tmpLeft,
        QueueEvent.KeAcquireSpinLock :: trace1 ++
          QueueEvent.KeReleaseSpinLock :: trace2⟩

/-! ## Reading a queue trace -/

/-- The call is visible to the client: a chain handler, a default callback, a completion
of the request (by `DispatchRequest` or of the raw NDIS request), or `Cancel`. -/
def QueueEvent.isClientVisible : QueueEvent → Bool
  | .Dispatch _ => true
  | .NdisMOidRequestComplete .. => true
  | .Cancel _ => true
  | _ => false

/-- The event is a call made by `DispatchRequest`. -/
def QueueEvent.isDispatch : QueueEvent → Bool
  | .Dispatch _ => true
  | _ => false

/-- Scan of a trace with the state of the lock (`held`): `false` as soon as a
client-visible call is made while the lock is held, the lock is acquired while held, or
released while not held. -/
def lockDiscipline.go : Bool → List QueueEvent → Bool
  | _, [] => true
  | held, .KeAcquireSpinLock :: rest => !held && lockDiscipline.go true rest
  | held, .KeReleaseSpinLock :: rest => held && lockDiscipline.go false rest
  | held, e :: rest => !(held && e.isClientVisible) && lockDiscipline.go held rest

/-- The trace keeps every client-visible call outside the acquire/release pairs of the
lock, starting with the lock not held. -/
def lockDiscipline (trace : List QueueEvent) : Bool := lockDiscipline.go false trace

/-- The lock is held after the trace, when it was `held` before. -/
def lockHeldAfter : Bool → List QueueEvent → Bool
  | held, [] => held
  | _, .KeAcquireSpinLock :: rest => lockHeldAfter true rest
  | _, .KeReleaseSpinLock :: rest => lockHeldAfter false rest
  | held, _ :: rest => lockHeldAfter held rest

/-- The handles linked in the in-flight list after the trace, from the handles linked
before it: `InsertTailList` appends, `RemoveEntryList` unlinks. -/
def inFlightAfter : List Nat → List QueueEvent → List Nat
  | handles, [] => handles
  | handles, .InsertTailList h :: rest => inFlightAfter (handles ++ [h]) rest
  | handles, .RemoveEntryList h :: rest => inFlightAfter (handles.erase h) rest
  | handles, _ :: rest => inFlightAfter handles rest

/-- The handles on which `Cancel` is called, in order. -/
def cancelled : List QueueEvent → List Nat
  | [] => []
  | .Cancel h :: rest => h :: cancelled rest
  | _ :: rest => cancelled rest

/-- The request is one that `CancelRequests(RequestId)` has to cancel: its request id
is `RequestId` and its cancellation has not started. -/
def toCancel (RequestId : Nat) (r : NxRequestObject) : Bool :=
  r.Request.m_NdisOidRequest.RequestId == RequestId && !r.m_CancellationStarted

/-- The handles on which `Cancel` is called by two successive calls
`CancelRequests(RequestId); CancelRequests(RequestId)`, the second one on the in-flight
list left by the first. -/
def cancelledByTwoCalls (requests : List NxRequestObject) (RequestId : Nat) : List Nat :=
  cancelled ((NxRequestQueue.CancelRequests requests RequestId).Trace ++
    (NxRequestQueue.CancelRequests
      (NxRequestQueue.CancelRequests requests RequestId).m_RequestsListHead
      RequestId).Trace)

/-- A sample of `NxRequest::_Create`: it fails with `STATUS_NOT_SUPPORTED` for a raw
request with id 0, and otherwise wraps the raw request into an object with handle 2000
for oid 9, not yet linked and without a queue. -/
def sampleCreate (NdisOidRequest : NDIS_OID_REQUEST) : NTSTATUS × NxRequestObject :=
  (if NdisOidRequest.RequestId = 0 then STATUS_NOT_SUPPORTED else STATUS_SUCCESS,
    NxRequestObject.mk (NxRequest.mk 2000 NdisOidRequest 9 77 0 0) false false false none)

/-- A sample of `NdisConvertNtStatusToNdisStatus`: the status as an unsigned 32-bit
value. -/
def sampleConvert (Status : NTSTATUS) : Nat := (Status % 2 ^ 32).toNat

/-- A request object with handle `h`, request id `id` and the given cancellation flag,
linked in the in-flight list of queue 1000. -/
def sampleObject (h id : Nat) (started : Bool) : NxRequestObject :=
  NxRequestObject.mk (NxRequest.mk h ⟨NdisRequestSetInformation, id⟩ 7 77 4 8) started true
    false (some 1000)

/-! ## Power policy (`netcx/adapter/powerpolicy/nxpowerpolicy.cpp`)

The two singly linked lists of the policy are `List`s in list order.  Constants of the
NDIS and NT headers are fields of `NdisConstants`, and every routine takes the record
as its first argument; the enumerations are inductive types.  What the routines obtain
from code outside this file (the entry factories, the client preview callback) is an
argument of the routine: the value that the call returns. -/

/-- The type `NDIS_STATUS` is a signed integer (`int`). -/
abbrev NDIS_STATUS := Int

/-- The constants of the NDIS and NT headers that the power policy uses. -/
structure NdisConstants where
  NDIS_STATUS_SUCCESS : NDIS_STATUS
  NDIS_STATUS_FAILURE : NDIS_STATUS
  NDIS_STATUS_NOT_SUPPORTED : NDIS_STATUS
  NDIS_STATUS_INVALID_PARAMETER : NDIS_STATUS
  NDIS_STATUS_FILE_NOT_FOUND : NDIS_STATUS
  NDIS_STATUS_PM_WOL_PATTERN_LIST_FULL : NDIS_STATUS
  NDIS_STATUS_PM_PROTOCOL_OFFLOAD_LIST_FULL : NDIS_STATUS
  STATUS_NDIS_PM_WOL_PATTERN_LIST_FULL : NTSTATUS
  STATUS_NDIS_PM_PROTOCOL_OFFLOAD_LIST_FULL : NTSTATUS
  sizeof_NDIS_PM_WOL_PATTERN : Nat
  sizeof_NDIS_PM_PROTOCOL_OFFLOAD : Nat
  sizeof_NDIS_PM_PARAMETERS : Nat
  sizeof_ULONG : Nat
  NDIS_PM_WOL_BITMAP_PATTERN_ENABLED : Nat
  NDIS_PM_WOL_MAGIC_PACKET_ENABLED : Nat
  NDIS_PM_PROTOCOL_OFFLOAD_ARP_ENABLED : Nat
  NDIS_PM_PROTOCOL_OFFLOAD_NS_ENABLED : Nat
  NDIS_PM_WAKE_ON_LINK_CHANGE_ENABLED : Nat
  NDIS_PM_WAKE_ON_MEDIA_DISCONNECT_ENABLED : Nat
  NDIS_PM_SELECTIVE_SUSPEND_ENABLED : Nat
  NDIS_PM_AOAC_NAPS_ENABLED : Nat
deriving DecidableEq, Repr

/-- The enumeration `NDIS_PM_WOL_PACKET`; `Other` is any enumerator that
`AddWakePattern` does not name. -/
inductive NDIS_PM_WOL_PACKET where
  | NdisPMWoLPacketBitmapPattern
  | NdisPMWoLPacketMagicPacket
  | Other (value : Nat)
deriving DecidableEq, Repr

/-- The enumeration `NDIS_PM_PROTOCOL_OFFLOAD_TYPE`; `Other` is any enumerator that
`AddProtocolOffload` does not name. -/
inductive NDIS_PM_PROTOCOL_OFFLOAD_TYPE where
  | NdisPMProtocolOffloadIdIPv4ARP
  | NdisPMProtocolOffloadIdIPv6NS
  | Other (value : Nat)
deriving DecidableEq, Repr

/-- The enumeration `NET_WAKE_SOURCE_TYPE`; `Other` is any enumerator that
`UpdatePatternEntryEnabledField` does not name. -/
inductive NET_WAKE_SOURCE_TYPE where
  | NetWakeSourceTypeBitmapPattern
  | NetWakeSourceTypeMagicPacket
  | Other (value : Nat)
deriving DecidableEq, Repr

/-- The enumeration `NET_POWER_OFFLOAD_TYPE`; `Other` is any enumerator that
`UpdateProtocolOffloadEntryEnabledField` does not name. -/
inductive NET_POWER_OFFLOAD_TYPE where
  | NetPowerOffloadTypeArp
  | NetPowerOffloadTypeNS
  | Other (value : Nat)
deriving DecidableEq, Repr

/-- The fields of `NDIS_PM_PARAMETERS`: the three that `SetParameters` reads and the
object header, which is copied with them. -/
structure NDIS_PM_PARAMETERS where
  Header : Nat
  EnabledWoLPacketPatterns : Nat
  EnabledProtocolOffloads : Nat
  WakeUpFlags : Nat
deriving DecidableEq, Repr

/-- The fields of `NDIS_PM_WOL_PATTERN` that name the pattern and its type. -/
structure NDIS_PM_WOL_PATTERN where
  WoLPacketType : NDIS_PM_WOL_PACKET
  PatternId : Nat
deriving DecidableEq, Repr

/-- The fields of `NDIS_PM_PROTOCOL_OFFLOAD` that name the offload and its type. -/
structure NDIS_PM_PROTOCOL_OFFLOAD where
  ProtocolOffloadType : NDIS_PM_PROTOCOL_OFFLOAD_TYPE
  ProtocolOffloadId : Nat
deriving DecidableEq, Repr

/-- The set-information data of an OID request (`NDIS_OID_REQUEST::_REQUEST_DATA::_SET`):
the information buffer, read as a value of type `α`, and its length in bytes. -/
structure SET_INFORMATION (α : Type) where
  InformationBuffer : α
  InformationBufferLength : Nat
deriving DecidableEq, Repr

/-- An `NxWakePattern` object, by its accessors: `GetHandle()`, `GetID()`, `GetType()`
and `IsEnabled()`, the flag that `SetEnabled()` writes. -/
structure NxWakePattern where
  GetHandle : Nat
  GetID : Nat
  GetType : NET_WAKE_SOURCE_TYPE
  IsEnabled : Bool
deriving DecidableEq, Repr

/-- An `NxPowerOffload` object, by its accessors: `GetHandle()`, `GetID()`, `GetType()`
and `IsEnabled()`, the flag that `SetEnabled()` writes. -/
structure NxPowerOffload where
  GetHandle : Nat
  GetID : Nat
  GetType : NET_POWER_OFFLOAD_TYPE
  IsEnabled : Bool
deriving DecidableEq, Repr

/-- A built-in wake source (`NxWakeMediaChange`, `NxWakePacketFilterMatch`): the argument
of the last `SetWakeUpFlags` call, `none` before the first call. -/
structure NxWakeBuiltin where
  WakeUpFlags : Option Nat
deriving DecidableEq, Repr

/-- The capability `NET_ADAPTER_POWER_OFFLOAD_ARP_CAPABILITIES`. -/
structure NET_ADAPTER_POWER_OFFLOAD_ARP_CAPABILITIES where
  ArpOffload : Bool
  MaximumOffloadCount : Nat
deriving DecidableEq, Repr

/-- The capability `NET_ADAPTER_POWER_OFFLOAD_NS_CAPABILITIES`. -/
structure NET_ADAPTER_POWER_OFFLOAD_NS_CAPABILITIES where
  NSOffload : Bool
  MaximumOffloadCount : Nat
deriving DecidableEq, Repr

/-- The capability `NET_ADAPTER_WAKE_BITMAP_CAPABILITIES`. -/
structure NET_ADAPTER_WAKE_BITMAP_CAPABILITIES where
  BitmapPattern : Bool
  MaximumPatternCount : Nat
  MaximumPatternSize : Nat
deriving DecidableEq, Repr

/-- The capability `NET_ADAPTER_WAKE_MAGIC_PACKET_CAPABILITIES`. -/
structure NET_ADAPTER_WAKE_MAGIC_PACKET_CAPABILITIES where
  MagicPacket : Bool
deriving DecidableEq, Repr

/-- The capability `NET_ADAPTER_WAKE_MEDIA_CHANGE_CAPABILITIES`. -/
structure NET_ADAPTER_WAKE_MEDIA_CHANGE_CAPABILITIES where
  MediaConnect : Bool
  MediaDisconnect : Bool
deriving DecidableEq, Repr

/-- The capability `NET_ADAPTER_WAKE_PACKET_FILTER_CAPABILITIES`. -/
structure NET_ADAPTER_WAKE_PACKET_FILTER_CAPABILITIES where
  PacketFilterMatch : Bool
deriving DecidableEq, Repr

/-- The preview callbacks of `NET_DEVICE_POWER_POLICY_EVENT_CALLBACKS` that the policy
calls; a callback that is not registered is `none`. -/
structure NET_DEVICE_POWER_POLICY_EVENT_CALLBACKS where
  EvtDevicePreviewBitmapPattern : Option Nat
  EvtDevicePreviewArpOffload : Option Nat
  EvtDevicePreviewNSOffload : Option Nat
deriving DecidableEq, Repr

/-- The members of `NxPowerPolicy`. -/
structure NxPowerPolicy where
  m_device : Nat
  m_adapter : Nat
  m_powerPolicyEventCallbacks : NET_DEVICE_POWER_POLICY_EVENT_CALLBACKS
  m_powerOffloadArpCapabilities : NET_ADAPTER_POWER_OFFLOAD_ARP_CAPABILITIES
  m_powerOffloadNSCapabilities : NET_ADAPTER_POWER_OFFLOAD_NS_CAPABILITIES
  m_wakeBitmapCapabilities : NET_ADAPTER_WAKE_BITMAP_CAPABILITIES
  m_magicPacketCapabilities : NET_ADAPTER_WAKE_MAGIC_PACKET_CAPABILITIES
  m_wakeMediaChangeCapabilities : NET_ADAPTER_WAKE_MEDIA_CHANGE_CAPABILITIES
  m_wakePacketFilterCapabilities : NET_ADAPTER_WAKE_PACKET_FILTER_CAPABILITIES
  m_PMParameters : NDIS_PM_PARAMETERS
  m_WakeListHead : List NxWakePattern
  m_ProtocolOffloadListHead : List NxPowerOffload
  m_wakeOnMediaChange : NxWakeBuiltin
  m_wakeOnPacketFilterMatch : NxWakeBuiltin
deriving DecidableEq, Repr

/-- A call that leaves an add routine, in program order.  A call of an entry factory
carries the adapter and the descriptor it is given; a call of a client preview callback
carries the function pointer, the device and the handle of the entry under preview. -/
inductive PolicyEvent where
  | NxWakeBitmapPattern_CreateFromNdisWoLPattern (Adapter : Nat)
      (ndisWolPattern : NDIS_PM_WOL_PATTERN)
  | NxWakeMagicPacket_CreateFromNdisWoLPattern (Adapter : Nat)
      (ndisWolPattern : NDIS_PM_WOL_PATTERN)
  | NxArpOffload_CreateFromNdisPmOffload (Adapter : Nat)
      (ndisProtocolOffload : NDIS_PM_PROTOCOL_OFFLOAD)
  | NxNSOffload_CreateFromNdisPmOffload (Adapter : Nat)
      (ndisProtocolOffload : NDIS_PM_PROTOCOL_OFFLOAD)
  | PreviewWakeSource (Fn Device Handle : Nat)
  | PreviewPowerOffload (Fn Device Handle : Nat)
deriving DecidableEq, Repr

/-- What an add or remove routine leaves: the returned status, the policy, and the
calls made to the entry factories and to the client. -/
structure PolicyResult where
  Status : NDIS_STATUS
  Policy : NxPowerPolicy
  Calls : List PolicyEvent
deriving DecidableEq, Repr

/-- The result `r` of the rest of a routine, reached after the call `call` was made. -/
def PolicyResult.after (call : PolicyEvent) (r : PolicyResult) : PolicyResult :=
  { r with Calls := call :: r.Calls }

/-- The bit test `!!(Value & Mask)`. -/
def testMask (Value Mask : Nat) : Bool := decide (Value &&& Mask ≠ 0)

/-- The routine `NxPowerPolicy::UpdatePatternEntryEnabledField`: the entry with its
enabled flag recomputed from `m_PMParameters`. -/
def NxPowerPolicy.UpdatePatternEntryEnabledField (K : NdisConstants) (p : NxPowerPolicy)
    (Entry : NxWakePattern) : NxWakePattern :=
  { Entry with
    IsEnabled :=
      match Entry.GetType with
      | .NetWakeSourceTypeBitmapPattern =>
        testMask p.m_PMParameters.EnabledWoLPacketPatterns
          K.NDIS_PM_WOL_BITMAP_PATTERN_ENABLED
      | .NetWakeSourceTypeMagicPacket =>
        testMask p.m_PMParameters.EnabledWoLPacketPatterns
          K.NDIS_PM_WOL_MAGIC_PACKET_ENABLED
      | .Other _ => false }

/-- The routine `NxPowerPolicy::UpdateProtocolOffloadEntryEnabledField`: the entry with
its enabled flag recomputed from `m_PMParameters`; in the `default` case the flag is
`false` (the assertion is not embedded). -/
def NxPowerPolicy.UpdateProtocolOffloadEntryEnabledField (K : NdisConstants)
    (p : NxPowerPolicy) (Entry : NxPowerOffload) : NxPowerOffload :=
  { Entry with
    IsEnabled :=
      match Entry.GetType with
      | .NetPowerOffloadTypeArp =>
        testMask p.m_PMParameters.EnabledProtocolOffloads
          K.NDIS_PM_PROTOCOL_OFFLOAD_ARP_ENABLED
      | .NetPowerOffloadTypeNS =>
        testMask p.m_PMParameters.EnabledProtocolOffloads
          K.NDIS_PM_PROTOCOL_OFFLOAD_NS_ENABLED
      | .Other _ => false }

/-- The end of `AddWakePattern`, after the `switch`: the preview callback, when there is
one, then the enabled flag and `PushEntryList`.  `previewStatus` is what the callback
returns when it is called. -/
def NxPowerPolicy.AddWakePattern.finish (K : NdisConstants) (p : NxPowerPolicy)
    (wakePattern : NxWakePattern) (pfnPreview : Option Nat) (previewStatus : NTSTATUS) :
    PolicyResult :=
  match pfnPreview with
  | some fn =>
    if previewStatus = K.STATUS_NDIS_PM_WOL_PATTERN_LIST_FULL then
      ⟨K.NDIS_STATUS_PM_WOL_PATTERN_LIST_FULL, p,
        [PolicyEvent.PreviewWakeSource fn p.m_device wakePattern.GetHandle]⟩
    else if previewStatus ≠ STATUS_SUCCESS then
      ⟨K.NDIS_STATUS_FAILURE, p,
        [PolicyEvent.PreviewWakeSource fn p.m_device wakePattern.GetHandle]⟩
    else
      ⟨K.NDIS_STATUS_SUCCESS,
        { p with m_WakeListHead :=
            p.UpdatePatternEntryEnabledField K wakePattern :: p.m_WakeListHead },
        [PolicyEvent.PreviewWakeSource fn p.m_device wakePattern.GetHandle]⟩
  | none =>
    ⟨K.NDIS_STATUS_SUCCESS,
      { p with m_WakeListHead :=
          p.UpdatePatternEntryEnabledField K wakePattern :: p.m_WakeListHead },
      []⟩

/-- The routine `NxPowerPolicy::AddWakePattern`.  `bitmapCreated` and `magicCreated` are
what `NxWakeBitmapPattern::CreateFromNdisWoLPattern` and
`NxWakeMagicPacket::CreateFromNdisWoLPattern` return for the buffer (status and entry)
when they are called, `previewStatus` what the preview callback returns when it is
called.  The calls of the factories and of the callback are recorded in `Calls`. -/
def NxPowerPolicy.AddWakePattern (K : NdisConstants) (p : NxPowerPolicy)
    (SetInformation : SET_INFORMATION NDIS_PM_WOL_PATTERN)
    (bitmapCreated magicCreated : NDIS_STATUS × NxWakePattern) (previewStatus : NTSTATUS) :
    PolicyResult :=
  if SetInformation.InformationBufferLength < K.sizeof_NDIS_PM_WOL_PATTERN then
    ⟨K.NDIS_STATUS_INVALID_PARAMETER, p, []⟩
  else
    match SetInformation.InformationBuffer.WoLPacketType with
    | .NdisPMWoLPacketBitmapPattern =>
      if !p.m_wakeBitmapCapabilities.BitmapPattern then
        ⟨K.NDIS_STATUS_NOT_SUPPORTED, p, []⟩
      else if bitmapCreated.1 ≠ K.NDIS_STATUS_SUCCESS then
        ⟨bitmapCreated.1, p,
          [PolicyEvent.NxWakeBitmapPattern_CreateFromNdisWoLPattern p.m_adapter
            SetInformation.InformationBuffer]⟩
      else
        PolicyResult.after
          (PolicyEvent.NxWakeBitmapPattern_CreateFromNdisWoLPattern p.m_adapter
            SetInformation.InformationBuffer)
          (NxPowerPolicy.AddWakePattern.finish K p bitmapCreated.2
            p.m_powerPolicyEventCallbacks.EvtDevicePreviewBitmapPattern previewStatus)
    | .NdisPMWoLPacketMagicPacket =>
      if !p.m_magicPacketCapabilities.MagicPacket then
        ⟨K.NDIS_STATUS_NOT_SUPPORTED, p, []⟩
      else if magicCreated.1 ≠ K.NDIS_STATUS_SUCCESS then
        ⟨magicCreated.1, p,
          [PolicyEvent.NxWakeMagicPacket_CreateFromNdisWoLPattern p.m_adapter
            SetInformation.InformationBuffer]⟩
      else
        PolicyResult.after
          (PolicyEvent.NxWakeMagicPacket_CreateFromNdisWoLPattern p.m_adapter
            SetInformation.InformationBuffer)
          (NxPowerPolicy.AddWakePattern.finish K p magicCreated.2 none previewStatus)
    | .Other _ => ⟨K.NDIS_STATUS_NOT_SUPPORTED, p, []⟩

/-- The end of `AddProtocolOffload`, after the `switch`: the preview callback, when there
is one, then the enabled flag and `PushEntryList`. -/
def NxPowerPolicy.AddProtocolOffload.finish (K : NdisConstants) (p : NxPowerPolicy)
    (powerOffload : NxPowerOffload) (pfnPreview : Option Nat) (previewStatus : NTSTATUS) :
    PolicyResult :=
  match pfnPreview with
  | some fn =>
    if previewStatus = K.STATUS_NDIS_PM_PROTOCOL_OFFLOAD_LIST_FULL then
      ⟨K.NDIS_STATUS_PM_PROTOCOL_OFFLOAD_LIST_FULL, p,
        [PolicyEvent.PreviewPowerOffload fn p.m_device powerOffload.GetHandle]⟩
    else if previewStatus ≠ STATUS_SUCCESS then
      ⟨K.NDIS_STATUS_FAILURE, p,
        [PolicyEvent.PreviewPowerOffload fn p.m_device powerOffload.GetHandle]⟩
    else
      ⟨K.NDIS_STATUS_SUCCESS,
        { p with m_ProtocolOffloadListHead :=
            p.UpdateProtocolOffloadEntryEnabledField K powerOffload ::
              p.m_ProtocolOffloadListHead },
        [PolicyEvent.PreviewPowerOffload fn p.m_device powerOffload.GetHandle]⟩
  | none =>
    ⟨K.NDIS_STATUS_SUCCESS,
      { p with m_ProtocolOffloadListHead :=
          p.UpdateProtocolOffloadEntryEnabledField K powerOffload ::
            p.m_ProtocolOffloadListHead },
      []⟩

/-- The routine `NxPowerPolicy::AddProtocolOffload`.  `arpCreated` and `nsCreated` are
what `NxArpOffload::CreateFromNdisPmOffload` and `NxNSOffload::CreateFromNdisPmOffload`
return for the buffer when they are called, `previewStatus` what the preview callback
returns when it is called.  The calls of the factories and of the callback are recorded
in `Calls`. -/
def NxPowerPolicy.AddProtocolOffload (K : NdisConstants) (p : NxPowerPolicy)
    (SetInformation : SET_INFORMATION NDIS_PM_PROTOCOL_OFFLOAD)
    (arpCreated nsCreated : NDIS_STATUS × NxPowerOffload) (previewStatus : NTSTATUS) :
    PolicyResult :=
  if SetInformation.InformationBufferLength < K.sizeof_NDIS_PM_PROTOCOL_OFFLOAD then
    ⟨K.NDIS_STATUS_INVALID_PARAMETER, p, []⟩
  else
    match SetInformation.InformationBuffer.ProtocolOffloadType with
    | .NdisPMProtocolOffloadIdIPv4ARP =>
      if !p.m_powerOffloadArpCapabilities.ArpOffload then
        ⟨K.NDIS_STATUS_NOT_SUPPORTED, p, []⟩
      else if arpCreated.1 ≠ K.NDIS_STATUS_SUCCESS then
        ⟨arpCreated.1, p,
          [PolicyEvent.NxArpOffload_CreateFromNdisPmOffload p.m_adapter
            SetInformation.InformationBuffer]⟩
      else
        PolicyResult.after
          (PolicyEvent.NxArpOffload_CreateFromNdisPmOffload p.m_adapter
            SetInformation.InformationBuffer)
          (NxPowerPolicy.AddProtocolOffload.finish K p arpCreated.2
            p.m_powerPolicyEventCallbacks.EvtDevicePreviewArpOffload previewStatus)
    | .NdisPMProtocolOffloadIdIPv6NS =>
      if !p.m_powerOffloadNSCapabilities.NSOffload then
        ⟨K.NDIS_STATUS_NOT_SUPPORTED, p, []⟩
      else if nsCreated.1 ≠ K.NDIS_STATUS_SUCCESS then
        ⟨nsCreated.1, p,
          [PolicyEvent.NxNSOffload_CreateFromNdisPmOffload p.m_adapter
            SetInformation.InformationBuffer]⟩
      else
        PolicyResult.after
          (PolicyEvent.NxNSOffload_CreateFromNdisPmOffload p.m_adapter
            SetInformation.InformationBuffer)
          (NxPowerPolicy.AddProtocolOffload.finish K p nsCreated.2
            p.m_powerPolicyEventCallbacks.EvtDevicePreviewNSOffload previewStatus)
    | .Other _ => ⟨K.NDIS_STATUS_NOT_SUPPORTED, p, []⟩

/-- The loop of `RemoveWakePatternByID` over the list from `listEntry` on: the entry
that is unlinked, `none` for `nullptr`, and the list that is left. -/
def NxPowerPolicy.RemoveWakePatternByID.go (PatternID : Nat) :
    List NxWakePattern → Option NxWakePattern × List NxWakePattern
  | [] => (none, [])
  | wakePattern :: Next =>
    if wakePattern.GetID = PatternID then
      (some wakePattern, Next)
    else
      match NxPowerPolicy.RemoveWakePatternByID.go PatternID Next with
      | (removed, rest) => (removed, wakePattern :: rest)

/-- The routine `NxPowerPolicy::RemoveWakePatternByID`: the removed entry and the policy. -/
def NxPowerPolicy.RemoveWakePatternByID (p : NxPowerPolicy) (PatternID : Nat) :
    Option NxWakePattern × NxPowerPolicy :=
  match NxPowerPolicy.RemoveWakePatternByID.go PatternID p.m_WakeListHead with
  | (removed, rest) => (removed, { p with m_WakeListHead := rest })

/-- The routine `NxPowerPolicy::RemoveWakePattern`; the buffer is read as a `ULONG`. -/
def NxPowerPolicy.RemoveWakePattern (K : NdisConstants) (p : NxPowerPolicy)
    (SetInformation : SET_INFORMATION Nat) : PolicyResult :=
  if SetInformation.InformationBufferLength < K.sizeof_ULONG then
    ⟨K.NDIS_STATUS_INVALID_PARAMETER, p, []⟩
  else
    match p.RemoveWakePatternByID SetInformation.InformationBuffer with
    | (none, p1) => ⟨K.NDIS_STATUS_FILE_NOT_FOUND, p1, []⟩
    | (some _, p1) => ⟨K.NDIS_STATUS_SUCCESS, p1, []⟩

/-- The loop of `RemovePowerOffloadByID` over the list from `listEntry` on. -/
def NxPowerPolicy.RemovePowerOffloadByID.go (OffloadID : Nat) :
    List NxPowerOffload → Option NxPowerOffload × List NxPowerOffload
  | [] => (none, [])
  | powerOffload :: Next =>
    if powerOffload.GetID = OffloadID then
      (some powerOffload, Next)
    else
      match NxPowerPolicy.RemovePowerOffloadByID.go OffloadID Next with
      | (removed, rest) => (removed, powerOffload :: rest)

/-- The routine `NxPowerPolicy::RemovePowerOffloadByID`: the removed entry and the
policy. -/
def NxPowerPolicy.RemovePowerOffloadByID (p : NxPowerPolicy) (OffloadID : Nat) :
    Option NxPowerOffload × NxPowerPolicy :=
  match NxPowerPolicy.RemovePowerOffloadByID.go OffloadID p.m_ProtocolOffloadListHead with
  | (removed, rest) => (removed, { p with m_ProtocolOffloadListHead := rest })

/-- The routine `NxPowerPolicy::RemoveProtocolOffload`; the buffer is read as a `ULONG`. -/
def NxPowerPolicy.RemoveProtocolOffload (K : NdisConstants) (p : NxPowerPolicy)
    (SetInformation : SET_INFORMATION Nat) : PolicyResult :=
  if SetInformation.InformationBufferLength < K.sizeof_ULONG then
    ⟨K.NDIS_STATUS_INVALID_PARAMETER, p, []⟩
  else
    match p.RemovePowerOffloadByID SetInformation.InformationBuffer with
    | (none, p1) => ⟨K.NDIS_STATUS_FILE_NOT_FOUND, p1, []⟩
    | (some _, p1) => ⟨K.NDIS_STATUS_SUCCESS, p1, []⟩

/-- The test `PmParams->WakeUpFlags & (NDIS_PM_SELECTIVE_SUSPEND_ENABLED |
NDIS_PM_AOAC_NAPS_ENABLED)` of `SetParameters`. -/
def NxPowerPolicy.SetParameters.isSelectiveSuspend (K : NdisConstants)
    (PmParams : NDIS_PM_PARAMETERS) : Bool :=
  testMask PmParams.WakeUpFlags
    (K.NDIS_PM_SELECTIVE_SUSPEND_ENABLED ||| K.NDIS_PM_AOAC_NAPS_ENABLED)

/-- The first block of `SetParameters`: the contents of the buffer `PmParams` after the
writes that the routine makes to it. -/
def NxPowerPolicy.SetParameters.adjust (K : NdisConstants) (p : NxPowerPolicy)
    (PmParams : NDIS_PM_PARAMETERS) : NDIS_PM_PARAMETERS :=
  if NxPowerPolicy.SetParameters.isSelectiveSuspend K PmParams then
    let flags1 :=
      if p.m_wakeMediaChangeCapabilities.MediaConnect then
        PmParams.WakeUpFlags ||| K.NDIS_PM_WAKE_ON_LINK_CHANGE_ENABLED
      else PmParams.WakeUpFlags
    let flags2 :=
      if p.m_wakeMediaChangeCapabilities.MediaDisconnect then
        flags1 ||| K.NDIS_PM_WAKE_ON_MEDIA_DISCONNECT_ENABLED
      else flags1
    { PmParams with WakeUpFlags := flags2, EnabledWoLPacketPatterns := 0 }
  else PmParams

/-- The value of `supportedWakeUpFlags` in `SetParameters`. -/
def NxPowerPolicy.SetParameters.supportedWakeUpFlags (K : NdisConstants)
    (p : NxPowerPolicy) : Nat :=
  let flags0 := 0
  let flags1 :=
    if p.m_wakeMediaChangeCapabilities.MediaConnect then
      flags0 ||| K.NDIS_PM_WAKE_ON_LINK_CHANGE_ENABLED
    else flags0
  let flags2 :=
    if p.m_wakeMediaChangeCapabilities.MediaDisconnect then
      flags1 ||| K.NDIS_PM_WAKE_ON_MEDIA_DISCONNECT_ENABLED
    else flags1
  if p.m_wakePacketFilterCapabilities.PacketFilterMatch then
    flags2 ||| (K.NDIS_PM_SELECTIVE_SUSPEND_ENABLED ||| K.NDIS_PM_AOAC_NAPS_ENABLED)
  else flags2

/-- The block `if (updateWakeUpEvents)` of `SetParameters`, on the policy that already
holds the new `m_PMParameters`. -/
def NxPowerPolicy.SetParameters.updateWakeUpEvents (K : NdisConstants)
    (p : NxPowerPolicy) : NxPowerPolicy :=
  let effectiveWakeUpFlags :=
    p.m_PMParameters.WakeUpFlags &&& NxPowerPolicy.SetParameters.supportedWakeUpFlags K p
  { p with
    m_wakeOnMediaChange := ⟨some effectiveWakeUpFlags⟩,
    m_wakeOnPacketFilterMatch := ⟨some effectiveWakeUpFlags⟩ }

/-- What `SetParameters` leaves: the returned status, the policy, and the contents of
the caller's buffer, which the routine writes to. -/
structure SetParametersResult where
  Status : NDIS_STATUS
  Policy : NxPowerPolicy
  PmParams : NDIS_PM_PARAMETERS
deriving DecidableEq, Repr

/-- The routine `NxPowerPolicy::SetParameters`. -/
def NxPowerPolicy.SetParameters (K : NdisConstants) (p : NxPowerPolicy)
    (Set : SET_INFORMATION NDIS_PM_PARAMETERS) : SetParametersResult :=
  if Set.InformationBufferLength < K.sizeof_NDIS_PM_PARAMETERS then
    ⟨K.NDIS_STATUS_INVALID_PARAMETER, p, Set.InformationBuffer⟩
  else
    let PmParams := NxPowerPolicy.SetParameters.adjust K p Set.InformationBuffer
    let updateWakeUpEvents : Bool :=
      decide (p.m_PMParameters.WakeUpFlags ≠ PmParams.WakeUpFlags)
    let updateWakePatterns : Bool :=
      decide (p.m_PMParameters.EnabledWoLPacketPatterns ≠ PmParams.EnabledWoLPacketPatterns)
    let updateProtocolOffload : Bool :=
      decide (p.m_PMParameters.EnabledProtocolOffloads ≠ PmParams.EnabledProtocolOffloads)
    let p1 := { p with m_PMParameters := PmParams }
    let p2 :=
      if updateWakeUpEvents then NxPowerPolicy.SetParameters.updateWakeUpEvents K p1 else p1
    let p3 :=
      if updateWakePatterns then
        { p2 with m_WakeListHead :=
            p2.m_WakeListHead.map (p2.UpdatePatternEntryEnabledField K) }
      else p2
    let p4 :=
      if updateProtocolOffload then
        { p3 with m_ProtocolOffloadListHead :=
            p3.m_ProtocolOffloadListHead.map (p3.UpdateProtocolOffloadEntryEnabledField K) }
      else p3
    ⟨K.NDIS_STATUS_SUCCESS, p4, PmParams⟩

/-! ## Sequences of policy requests -/

/-- A request to the policy, with what the code outside the policy returns while the
request is served. -/
inductive PolicyCall where
  | AddWakePattern (SetInformation : SET_INFORMATION NDIS_PM_WOL_PATTERN)
      (bitmapCreated magicCreated : NDIS_STATUS × NxWakePattern) (previewStatus : NTSTATUS)
  | AddProtocolOffload (SetInformation : SET_INFORMATION NDIS_PM_PROTOCOL_OFFLOAD)
      (arpCreated nsCreated : NDIS_STATUS × NxPowerOffload) (previewStatus : NTSTATUS)
  | RemoveWakePattern (SetInformation : SET_INFORMATION Nat)
  | RemoveProtocolOffload (SetInformation : SET_INFORMATION Nat)
  | SetParameters (Set : SET_INFORMATION NDIS_PM_PARAMETERS)
deriving DecidableEq, Repr

/-- The policy after one request. -/
def PolicyCall.run (K : NdisConstants) (p : NxPowerPolicy) : PolicyCall → NxPowerPolicy
  | .AddWakePattern s b m v => (p.AddWakePattern K s b m v).Policy
  | .AddProtocolOffload s a n v => (p.AddProtocolOffload K s a n v).Policy
  | .RemoveWakePattern s => (p.RemoveWakePattern K s).Policy
  | .RemoveProtocolOffload s => (p.RemoveProtocolOffload K s).Policy
  | .SetParameters s => (p.SetParameters K s).Policy

/-- The policy after a sequence of requests, served in order. -/
def runCalls (K : NdisConstants) (p : NxPowerPolicy) (calls : List PolicyCall) :
    NxPowerPolicy :=
  calls.foldl (PolicyCall.run K) p

/-- Every entry of the two lists has the enabled flag that its type and the stored
snapshot `m_PMParameters` give: the bitmap-pattern and magic-packet bits of
`EnabledWoLPacketPatterns` for wake patterns, the ARP and NS bits of
`EnabledProtocolOffloads` for offloads. -/
def EnabledFromSnapshot (K : NdisConstants) (p : NxPowerPolicy) : Prop :=
  (∀ e ∈ p.m_WakeListHead,
    (e.GetType = .NetWakeSourceTypeBitmapPattern →
      e.IsEnabled = testMask p.m_PMParameters.EnabledWoLPacketPatterns
        K.NDIS_PM_WOL_BITMAP_PATTERN_ENABLED) ∧
    (e.GetType = .NetWakeSourceTypeMagicPacket →
      e.IsEnabled = testMask p.m_PMParameters.EnabledWoLPacketPatterns
        K.NDIS_PM_WOL_MAGIC_PACKET_ENABLED)) ∧
  (∀ e ∈ p.m_ProtocolOffloadListHead,
    (e.GetType = .NetPowerOffloadTypeArp →
      e.IsEnabled = testMask p.m_PMParameters.EnabledProtocolOffloads
        K.NDIS_PM_PROTOCOL_OFFLOAD_ARP_ENABLED) ∧
    (e.GetType = .NetPowerOffloadTypeNS →
      e.IsEnabled = testMask p.m_PMParameters.EnabledProtocolOffloads
        K.NDIS_PM_PROTOCOL_OFFLOAD_NS_ENABLED))

instance (K : NdisConstants) (p : NxPowerPolicy) : Decidable (EnabledFromSnapshot K p) := by
  unfold EnabledFromSnapshot
  infer_instance

/-- Sample values for the header constants. -/
def sampleConstants : NdisConstants where
  NDIS_STATUS_SUCCESS := 0
  NDIS_STATUS_FAILURE := 0xC0000001 - 2 ^ 32
  NDIS_STATUS_NOT_SUPPORTED := 0xC00000BB - 2 ^ 32
  NDIS_STATUS_INVALID_PARAMETER := 0xC000000D - 2 ^ 32
  NDIS_STATUS_FILE_NOT_FOUND := 0xC001001B - 2 ^ 32
  NDIS_STATUS_PM_WOL_PATTERN_LIST_FULL := 0xC0232004 - 2 ^ 32
  NDIS_STATUS_PM_PROTOCOL_OFFLOAD_LIST_FULL := 0xC0232005 - 2 ^ 32
  STATUS_NDIS_PM_WOL_PATTERN_LIST_FULL := 0xC0232004 - 2 ^ 32
  STATUS_NDIS_PM_PROTOCOL_OFFLOAD_LIST_FULL := 0xC0232005 - 2 ^ 32
  sizeof_NDIS_PM_WOL_PATTERN := 64
  sizeof_NDIS_PM_PROTOCOL_OFFLOAD := 64
  sizeof_NDIS_PM_PARAMETERS := 16
  sizeof_ULONG := 4
  NDIS_PM_WOL_BITMAP_PATTERN_ENABLED := 0x1
  NDIS_PM_WOL_MAGIC_PACKET_ENABLED := 0x2
  NDIS_PM_PROTOCOL_OFFLOAD_ARP_ENABLED := 0x1
  NDIS_PM_PROTOCOL_OFFLOAD_NS_ENABLED := 0x2
  NDIS_PM_WAKE_ON_LINK_CHANGE_ENABLED := 0x1
  NDIS_PM_WAKE_ON_MEDIA_DISCONNECT_ENABLED := 0x2
  NDIS_PM_SELECTIVE_SUSPEND_ENABLED := 0x10
  NDIS_PM_AOAC_NAPS_ENABLED := 0x40

/-- A policy with empty lists, a zero snapshot, every capability declared except
wake on media disconnect, and the bitmap-pattern preview callback 600. -/
def samplePolicy : NxPowerPolicy where
  m_device := 10
  m_adapter := 11
  m_powerPolicyEventCallbacks := ⟨some 600, none, none⟩
  m_powerOffloadArpCapabilities := ⟨true, 4⟩
  m_powerOffloadNSCapabilities := ⟨true, 4⟩
  m_wakeBitmapCapabilities := ⟨true, 8, 128⟩
  m_magicPacketCapabilities := ⟨true⟩
  m_wakeMediaChangeCapabilities := ⟨true, false⟩
  m_wakePacketFilterCapabilities := ⟨true⟩
  m_PMParameters := ⟨0, 0, 0, 0⟩
  m_WakeListHead := []
  m_ProtocolOffloadListHead := []
  m_wakeOnMediaChange := ⟨none⟩
  m_wakeOnPacketFilterMatch := ⟨none⟩

/-- A sequence of requests: a bitmap pattern and an ARP offload are added, the stack
enables bitmap patterns and ARP offloads, a magic packet and an NS offload are added,
the stack then enables magic packets and both offloads, and the ARP offload is removed. -/
def sampleCalls : List PolicyCall :=
  [.AddWakePattern ⟨⟨.NdisPMWoLPacketBitmapPattern, 1⟩, 64⟩
      (0, ⟨701, 1, .NetWakeSourceTypeBitmapPattern, false⟩)
      (0, ⟨702, 1, .NetWakeSourceTypeMagicPacket, false⟩) 0,
    .AddProtocolOffload ⟨⟨.NdisPMProtocolOffloadIdIPv4ARP, 1⟩, 64⟩
      (0, ⟨801, 1, .NetPowerOffloadTypeArp, false⟩)
      (0, ⟨802, 1, .NetPowerOffloadTypeNS, false⟩) 0,
    .SetParameters ⟨⟨0, 0x1, 0x1, 0⟩, 16⟩,
    .AddWakePattern ⟨⟨.NdisPMWoLPacketMagicPacket, 2⟩, 64⟩
      (0, ⟨703, 2, .NetWakeSourceTypeBitmapPattern, false⟩)
      (0, ⟨704, 2, .NetWakeSourceTypeMagicPacket, false⟩) 0,
    .AddProtocolOffload ⟨⟨.NdisPMProtocolOffloadIdIPv6NS, 2⟩, 64⟩
      (0, ⟨803, 2, .NetPowerOffloadTypeArp, false⟩)
      (0, ⟨804, 2, .NetPowerOffloadTypeNS, false⟩) 0,
    .SetParameters ⟨⟨0, 0x2, 0x3, 0⟩, 16⟩,
    .RemoveProtocolOffload ⟨1, 4⟩]

/-! ## Reading the results of the policy routines -/

/-- The call is a call of a client preview callback. -/
def PolicyEvent.isPreview : PolicyEvent → Bool
  | .PreviewWakeSource .. => true
  | .PreviewPowerOffload .. => true
  | _ => false

/-- The call is a call of an entry factory. -/
def PolicyEvent.isFactory : PolicyEvent → Bool
  | .NxWakeBitmapPattern_CreateFromNdisWoLPattern .. => true
  | .NxWakeMagicPacket_CreateFromNdisWoLPattern .. => true
  | .NxArpOffload_CreateFromNdisPmOffload .. => true
  | .NxNSOffload_CreateFromNdisPmOffload .. => true
  | _ => false

/-- What identifies a wake entry, apart from its enabled flag. -/
def NxWakePattern.identity (e : NxWakePattern) : Nat × Nat × NET_WAKE_SOURCE_TYPE :=
  (e.GetHandle, e.GetID, e.GetType)

/-- What identifies an offload entry, apart from its enabled flag. -/
def NxPowerOffload.identity (e : NxPowerOffload) : Nat × Nat × NET_POWER_OFFLOAD_TYPE :=
  (e.GetHandle, e.GetID, e.GetType)

/-- The supported mask as the specification describes it: the link-change bit when
MediaConnect is declared, the media-disconnect bit when MediaDisconnect is declared, the
selective-suspend and AOAC/NAPS bits when PacketFilterMatch is declared. -/
def specSupportedMask (K : NdisConstants) (p : NxPowerPolicy) : Nat :=
  ((if p.m_wakeMediaChangeCapabilities.MediaConnect then
      K.NDIS_PM_WAKE_ON_LINK_CHANGE_ENABLED else 0) |||
    (if p.m_wakeMediaChangeCapabilities.MediaDisconnect then
      K.NDIS_PM_WAKE_ON_MEDIA_DISCONNECT_ENABLED else 0)) |||
    (if p.m_wakePacketFilterCapabilities.PacketFilterMatch then
      K.NDIS_PM_SELECTIVE_SUSPEND_ENABLED ||| K.NDIS_PM_AOAC_NAPS_ENABLED else 0)

/-- The four wake-up flag constants are flags of their own: none is zero, and the
link-change flag, the media-disconnect flag and the pair of mode flags share no bit. -/
def WakeUpFlagsDistinct (K : NdisConstants) : Prop :=
  K.NDIS_PM_WAKE_ON_LINK_CHANGE_ENABLED ≠ 0 ∧
  K.NDIS_PM_WAKE_ON_MEDIA_DISCONNECT_ENABLED ≠ 0 ∧
  K.NDIS_PM_SELECTIVE_SUSPEND_ENABLED ≠ 0 ∧
  K.NDIS_PM_AOAC_NAPS_ENABLED ≠ 0 ∧
  K.NDIS_PM_WAKE_ON_LINK_CHANGE_ENABLED &&& K.NDIS_PM_WAKE_ON_MEDIA_DISCONNECT_ENABLED = 0 ∧
  K.NDIS_PM_WAKE_ON_LINK_CHANGE_ENABLED &&& K.NDIS_PM_SELECTIVE_SUSPEND_ENABLED = 0 ∧
  K.NDIS_PM_WAKE_ON_LINK_CHANGE_ENABLED &&& K.NDIS_PM_AOAC_NAPS_ENABLED = 0 ∧
  K.NDIS_PM_WAKE_ON_MEDIA_DISCONNECT_ENABLED &&& K.NDIS_PM_SELECTIVE_SUSPEND_ENABLED = 0 ∧
  K.NDIS_PM_WAKE_ON_MEDIA_DISCONNECT_ENABLED &&& K.NDIS_PM_AOAC_NAPS_ENABLED = 0

instance (K : NdisConstants) : Decidable (WakeUpFlagsDistinct K) := by
  unfold WakeUpFlagsDistinct
  infer_instance

/-- The entry that an `AddWakePattern` request brings to the wake list according to the
specification: the buffer is long enough, the subtype is bitmap pattern or magic packet
with its capability declared, the factory of the subtype succeeds, and, for a bitmap
pattern with a registered preview callback, the callback returns `STATUS_SUCCESS`. -/
def specWakePatternAdmitted (K : NdisConstants) (p : NxPowerPolicy)
    (SetInformation : SET_INFORMATION NDIS_PM_WOL_PATTERN)
    (bitmapCreated magicCreated : NDIS_STATUS × NxWakePattern) (previewStatus : NTSTATUS) :
    Option NxWakePattern :=
  if K.sizeof_NDIS_PM_WOL_PATTERN ≤ SetInformation.InformationBufferLength then
    match SetInformation.InformationBuffer.WoLPacketType with
    | .NdisPMWoLPacketBitmapPattern =>
      if p.m_wakeBitmapCapabilities.BitmapPattern = true ∧
          bitmapCreated.1 = K.NDIS_STATUS_SUCCESS ∧
          (p.m_powerPolicyEventCallbacks.EvtDevicePreviewBitmapPattern = none ∨
            (previewStatus ≠ K.STATUS_NDIS_PM_WOL_PATTERN_LIST_FULL ∧
              previewStatus = STATUS_SUCCESS)) then
        some bitmapCreated.2
      else none
    | .NdisPMWoLPacketMagicPacket =>
      if p.m_magicPacketCapabilities.MagicPacket = true ∧
          magicCreated.1 = K.NDIS_STATUS_SUCCESS then
        some magicCreated.2
      else none
    | .Other _ => none
  else none

/-- The entry that an `AddProtocolOffload` request brings to the offload list according
to the specification: the buffer is long enough, the subtype is IPv4 ARP or IPv6 NS
with its capability declared, the factory of the subtype succeeds, and a registered
preview callback of the subtype returns `STATUS_SUCCESS`. -/
def specProtocolOffloadAdmitted (K : NdisConstants) (p : NxPowerPolicy)
    (SetInformation : SET_INFORMATION NDIS_PM_PROTOCOL_OFFLOAD)
    (arpCreated nsCreated : NDIS_STATUS × NxPowerOffload) (previewStatus : NTSTATUS) :
    Option NxPowerOffload :=
  if K.sizeof_NDIS_PM_PROTOCOL_OFFLOAD ≤ SetInformation.InformationBufferLength then
    match SetInformation.InformationBuffer.ProtocolOffloadType with
    | .NdisPMProtocolOffloadIdIPv4ARP =>
      if p.m_powerOffloadArpCapabilities.ArpOffload = true ∧
          arpCreated.1 = K.NDIS_STATUS_SUCCESS ∧
          (p.m_powerPolicyEventCallbacks.EvtDevicePreviewArpOffload = none ∨
            (previewStatus ≠ K.STATUS_NDIS_PM_PROTOCOL_OFFLOAD_LIST_FULL ∧
              previewStatus = STATUS_SUCCESS)) then
        some arpCreated.2
      else none
    | .NdisPMProtocolOffloadIdIPv6NS =>
      if p.m_powerOffloadNSCapabilities.NSOffload = true ∧
          nsCreated.1 = K.NDIS_STATUS_SUCCESS ∧
          (p.m_powerPolicyEventCallbacks.EvtDevicePreviewNSOffload = none ∨
            (previewStatus ≠ K.STATUS_NDIS_PM_PROTOCOL_OFFLOAD_LIST_FULL ∧
              previewStatus = STATUS_SUCCESS)) then
        some nsCreated.2
      else none
    | .Other _ => none
  else none

/-- A policy like `samplePolicy` with one bitmap pattern (handle 711, id 5, disabled) in
the wake list and one ARP offload (handle 811, id 7, disabled) in the offload list. -/
def samplePolicyWithEntries : NxPowerPolicy :=
  { samplePolicy with
    m_WakeListHead := [⟨711, 5, .NetWakeSourceTypeBitmapPattern, false⟩]
    m_ProtocolOffloadListHead := [⟨811, 7, .NetPowerOffloadTypeArp, false⟩] }

/-- A policy like `samplePolicy` that declares no capability and registers no preview
callback. -/
def samplePolicyNoCapabilities : NxPowerPolicy :=
  { samplePolicy with
    m_powerPolicyEventCallbacks := ⟨none, none, none⟩
    m_powerOffloadArpCapabilities := ⟨false, 0⟩
    m_powerOffloadNSCapabilities := ⟨false, 0⟩
    m_wakeBitmapCapabilities := ⟨false, 0, 0⟩
    m_magicPacketCapabilities := ⟨false⟩
    m_wakeMediaChangeCapabilities := ⟨false, false⟩
    m_wakePacketFilterCapabilities := ⟨false⟩ }

/-- A policy like `samplePolicy` with a preview callback registered for each kind of
offload (601 for ARP, 602 for NS) besides the one for bitmap patterns. -/
def samplePolicyWithPreviews : NxPowerPolicy :=
  { samplePolicy with m_powerPolicyEventCallbacks := ⟨some 600, some 601, some 602⟩ }

/-- A policy like `samplePolicyWithEntries` after the stack has enabled bitmap patterns
and ARP offloads: the snapshot holds both bits and both entries are enabled. -/
def samplePolicyNegotiated : NxPowerPolicy :=
  { samplePolicy with
    m_PMParameters := ⟨0, 0x1, 0x1, 0⟩
    m_WakeListHead := [⟨711, 5, .NetWakeSourceTypeBitmapPattern, true⟩]
    m_ProtocolOffloadListHead := [⟨811, 7, .NetPowerOffloadTypeArp, true⟩] }

/-- A policy like `samplePolicy` in which two wake entries carry the identifier 6 and
two offloads the identifier 7; the snapshot enables magic packets and NS offloads. -/
def samplePolicyRepeatedId : NxPowerPolicy :=
  { samplePolicy with
    m_PMParameters := ⟨0, 0x2, 0x2, 0⟩
    m_WakeListHead :=
      [⟨711, 5, .NetWakeSourceTypeBitmapPattern, false⟩,
        ⟨712, 6, .NetWakeSourceTypeMagicPacket, true⟩,
        ⟨713, 6, .NetWakeSourceTypeBitmapPattern, false⟩]
    m_ProtocolOffloadListHead :=
      [⟨811, 7, .NetPowerOffloadTypeArp, false⟩,
        ⟨812, 7, .NetPowerOffloadTypeNS, true⟩] }


/-! ## Enumeration of the lists (`UpdatePowerOffloadList`, `UpdateWakeSourceList`)

The caller's collection is seen through the calls `List->PushEntry(entry)` that a
routine makes on it: a routine yields the arguments of those calls, in program order.
Both routines are `const` members: they read the policy and leave it as it is.  The
classes of the two built-in wake sources are not part of the policy; what their
`IsEnabled()` returns is an argument of `UpdateWakeSourceList`. -/

/-- A wake source as `UpdateWakeSourceList` hands it to the caller's collection (an
`NxWakeSource *`): an entry of the wake list, or one of the two built-in members of the
policy. -/
inductive NxWakeSource where
  | WakePattern (entry : NxWakePattern)
  | m_wakeOnMediaChange (source : NxWakeBuiltin)
  | m_wakeOnPacketFilterMatch (source : NxWakeBuiltin)
deriving DecidableEq, Repr

/-- What an enumeration routine leaves: the policy, and the arguments of its
`List->PushEntry` calls, in program order. -/
structure UpdateListResult (α : Type) where
  Policy : NxPowerPolicy
  PushEntry : List α
deriving DecidableEq, Repr

/-- The loop of `UpdatePowerOffloadList` over the list from `link` on: the entries
pushed. -/
def NxPowerPolicy.UpdatePowerOffloadList.go (IsInPowerTransition : Bool) :
    List NxPowerOffload → List NxPowerOffload
  | [] => []
  | entry :: Next =>
    let addToList := !IsInPowerTransition || entry.IsEnabled
    if addToList then
      entry :: NxPowerPolicy.UpdatePowerOffloadList.go IsInPowerTransition Next
    else
      NxPowerPolicy.UpdatePowerOffloadList.go IsInPowerTransition Next

/-- The routine `NxPowerPolicy::UpdatePowerOffloadList`. -/
def NxPowerPolicy.UpdatePowerOffloadList (p : NxPowerPolicy) (IsInPowerTransition : Bool) :
    UpdateListResult NxPowerOffload :=
  ⟨p, NxPowerPolicy.UpdatePowerOffloadList.go IsInPowerTransition p.m_ProtocolOffloadListHead⟩

/-- The loop of `UpdateWakeSourceList` over the wake list from `link` on: the entries
pushed. -/
def NxPowerPolicy.UpdateWakeSourceList.go (IsInPowerTransition : Bool) :
    List NxWakePattern → List NxWakeSource
  | [] => []
  | entry :: Next =>
    let addToList := !IsInPowerTransition || entry.IsEnabled
    if addToList then
      NxWakeSource.WakePattern entry ::
        NxPowerPolicy.UpdateWakeSourceList.go IsInPowerTransition Next
    else
      NxPowerPolicy.UpdateWakeSourceList.go IsInPowerTransition Next

/-- The routine `NxPowerPolicy::UpdateWakeSourceList`.  `MediaChangeIsEnabled` and
`PacketFilterMatchIsEnabled` stand for `NxWakeMediaChange::IsEnabled` and
`NxWakePacketFilterMatch::IsEnabled`, read on the built-in members of the policy. -/
def NxPowerPolicy.UpdateWakeSourceList
    (MediaChangeIsEnabled PacketFilterMatchIsEnabled : NxWakeBuiltin → Bool)
    (p : NxPowerPolicy) (IsInPowerTransition : Bool) : UpdateListResult NxWakeSource :=
  let clientSupportsWakeOnMediaChange :=
    p.m_wakeMediaChangeCapabilities.MediaConnect ||
      p.m_wakeMediaChangeCapabilities.MediaDisconnect
  let addMediaChange :=
    (!IsInPowerTransition && clientSupportsWakeOnMediaChange) ||
      MediaChangeIsEnabled p.m_wakeOnMediaChange
  let addPacketFilterMatch :=
    (!IsInPowerTransition && p.m_wakePacketFilterCapabilities.PacketFilterMatch) ||
      PacketFilterMatchIsEnabled p.m_wakeOnPacketFilterMatch
  ⟨p,
    NxPowerPolicy.UpdateWakeSourceList.go IsInPowerTransition p.m_WakeListHead ++
      (if addMediaChange then [NxWakeSource.m_wakeOnMediaChange p.m_wakeOnMediaChange]
        else []) ++
      (if addPacketFilterMatch then
        [NxWakeSource.m_wakeOnPacketFilterMatch p.m_wakeOnPacketFilterMatch]
        else [])⟩

/-- The wake-list entry behind a pushed wake source, `none` for a built-in source. -/
def NxWakeSource.asWakePattern : NxWakeSource → Option NxWakePattern
  | .WakePattern entry => some entry
  | _ => none

/-- The pushed wake source is the built-in media-change source. -/
def NxWakeSource.isMediaChange : NxWakeSource → Bool
  | .m_wakeOnMediaChange _ => true
  | _ => false

/-- The pushed wake source is the built-in packet-filter-match source. -/
def NxWakeSource.isPacketFilterMatch : NxWakeSource → Bool
  | .m_wakeOnPacketFilterMatch _ => true
  | _ => false

/-- The inclusion rule for a built-in wake source, in the words of the specification:
not in a transition and the capability declared, or in a transition and the enabled flag
of the built-in set. -/
def specBuiltinIncluded (IsInPowerTransition declared enabled : Bool) : Prop :=
  (IsInPowerTransition = false ∧ declared = true) ∨
    (IsInPowerTransition = true ∧ enabled = true)

instance (IsInPowerTransition declared enabled : Bool) :
    Decidable (specBuiltinIncluded IsInPowerTransition declared enabled) := by
  unfold specBuiltinIncluded
  infer_instance

/-- A built-in media-change source that is enabled when the flags it was last given hold
the link-change or the media-disconnect flag, and not enabled before it is given
flags. -/
def sampleMediaChangeIsEnabled (K : NdisConstants) (source : NxWakeBuiltin) : Bool :=
  match source.WakeUpFlags with
  | none => false
  | some flags =>
    testMask flags
      (K.NDIS_PM_WAKE_ON_LINK_CHANGE_ENABLED ||| K.NDIS_PM_WAKE_ON_MEDIA_DISCONNECT_ENABLED)

/-- A built-in packet-filter-match source that is enabled when the flags it was last
given hold the selective-suspend or the AOAC/NAPS flag, and not enabled before it is
given flags. -/
def samplePacketFilterMatchIsEnabled (K : NdisConstants) (source : NxWakeBuiltin) : Bool :=
  match source.WakeUpFlags with
  | none => false
  | some flags =>
    testMask flags (K.NDIS_PM_SELECTIVE_SUSPEND_ENABLED ||| K.NDIS_PM_AOAC_NAPS_ENABLED)

/-- Each built-in wake source of the policy has been given no flags yet, or was last
given flags masked by the supported mask of the policy. -/
def BuiltinsMasked (K : NdisConstants) (p : NxPowerPolicy) : Prop :=
  (p.m_wakeOnMediaChange = ⟨none⟩ ∨
    ∃ flags, p.m_wakeOnMediaChange = ⟨some (flags &&& specSupportedMask K p)⟩) ∧
  (p.m_wakeOnPacketFilterMatch = ⟨none⟩ ∨
    ∃ flags, p.m_wakeOnPacketFilterMatch = ⟨some (flags &&& specSupportedMask K p)⟩)

/-! ## The capability descriptor (`InitializeNdisCapabilities`) -/

/-- The constants of the NDIS headers that `InitializeNdisCapabilities` uses besides
`NDIS_PM_WOL_MAGIC_PACKET_ENABLED`: the header values of the descriptor, the `SUPPORTED`
flags and the device power state D2. -/
structure NdisCapabilityConstants where
  NDIS_OBJECT_TYPE_DEFAULT : Nat
  NDIS_SIZEOF_NDIS_PM_CAPABILITIES_REVISION_2 : Nat
  NDIS_PM_CAPABILITIES_REVISION_2 : Nat
  NDIS_PM_WAKE_ON_MEDIA_CONNECT_SUPPORTED : Nat
  NDIS_PM_WAKE_ON_MEDIA_DISCONNECT_SUPPORTED : Nat
  NDIS_PM_WOL_MAGIC_PACKET_SUPPORTED : Nat
  NDIS_PM_WOL_BITMAP_PATTERN_SUPPORTED : Nat
  NDIS_PM_SELECTIVE_SUSPEND_SUPPORTED : Nat
  NDIS_PM_PROTOCOL_OFFLOAD_ARP_SUPPORTED : Nat
  NDIS_PM_PROTOCOL_OFFLOAD_NS_SUPPORTED : Nat
  NdisDeviceStateD2 : Nat
deriving DecidableEq, Repr

/-- The object header `NDIS_OBJECT_HEADER`; `ObjectType` is its member `Type`. -/
structure NDIS_OBJECT_HEADER where
  ObjectType : Nat
  Revision : Nat
  Size : Nat
deriving DecidableEq, Repr

/-- The descriptor `NDIS_PM_CAPABILITIES`.  A device power state is the value of its
enumerator; the value 0 is what `= {}` leaves in a field. -/
structure NDIS_PM_CAPABILITIES where
  Header : NDIS_OBJECT_HEADER
  Flags : Nat
  SupportedWoLPacketPatterns : Nat
  NumTotalWoLPatterns : Nat
  MaxWoLPatternSize : Nat
  MaxWoLPatternOffset : Nat
  MaxWoLPacketSaveBuffer : Nat
  SupportedProtocolOffloads : Nat
  NumArpOffloadIPv4Addresses : Nat
  NumNSOffloadIPv6Addresses : Nat
  MinMagicPacketWakeUp : Nat
  MinPatternWakeUp : Nat
  MinLinkChangeWakeUp : Nat
  SupportedWakeUpEvents : Nat
  MediaSpecificWakeUpEvents : Nat
deriving DecidableEq, Repr

/-- The value `static_cast<ULONG>(n)` of a `size_t`. -/
def static_cast_ULONG (n : Nat) : Nat := n % 2 ^ 32

/-- The first part of `NxPowerPolicy::InitializeNdisCapabilities`, statement by
statement: the descriptor is cleared, the header and `MediaSpecificWakeUpEvents` are
set, and each declared capability adds its flag and its limits. -/
def NxPowerPolicy.InitializeNdisCapabilities.declare (S : NdisCapabilityConstants)
    (p : NxPowerPolicy) (MediaSpecificWakeUpEvents : Nat) : NDIS_PM_CAPABILITIES :=
  let c0 : NDIS_PM_CAPABILITIES :=
    { Header := ⟨S.NDIS_OBJECT_TYPE_DEFAULT, S.NDIS_PM_CAPABILITIES_REVISION_2,
        S.NDIS_SIZEOF_NDIS_PM_CAPABILITIES_REVISION_2⟩
      Flags := 0
      SupportedWoLPacketPatterns := 0
      NumTotalWoLPatterns := 0
      MaxWoLPatternSize := 0
      MaxWoLPatternOffset := 0
      MaxWoLPacketSaveBuffer := 0
      SupportedProtocolOffloads := 0
      NumArpOffloadIPv4Addresses := 0
      NumNSOffloadIPv6Addresses := 0
      MinMagicPacketWakeUp := 0
      MinPatternWakeUp := 0
      MinLinkChangeWakeUp := 0
      SupportedWakeUpEvents := 0
      MediaSpecificWakeUpEvents := MediaSpecificWakeUpEvents }
  let c1 : NDIS_PM_CAPABILITIES :=
    if p.m_wakeMediaChangeCapabilities.MediaConnect then
      { c0 with SupportedWakeUpEvents :=
          c0.SupportedWakeUpEvents ||| S.NDIS_PM_WAKE_ON_MEDIA_CONNECT_SUPPORTED }
    else c0
  let c2 : NDIS_PM_CAPABILITIES :=
    if p.m_wakeMediaChangeCapabilities.MediaDisconnect then
      { c1 with SupportedWakeUpEvents :=
          c1.SupportedWakeUpEvents ||| S.NDIS_PM_WAKE_ON_MEDIA_DISCONNECT_SUPPORTED }
    else c1
  let c3 : NDIS_PM_CAPABILITIES :=
    if p.m_magicPacketCapabilities.MagicPacket then
      { c2 with SupportedWoLPacketPatterns :=
          c2.SupportedWoLPacketPatterns ||| S.NDIS_PM_WOL_MAGIC_PACKET_SUPPORTED }
    else c2
  let c4 : NDIS_PM_CAPABILITIES :=
    if p.m_wakeBitmapCapabilities.BitmapPattern then
      { c3 with SupportedWoLPacketPatterns :=
          c3.SupportedWoLPacketPatterns ||| S.NDIS_PM_WOL_BITMAP_PATTERN_SUPPORTED }
    else c3
  let c5 : NDIS_PM_CAPABILITIES :=
    { c4 with
      MaxWoLPatternSize := static_cast_ULONG p.m_wakeBitmapCapabilities.MaximumPatternSize
      NumTotalWoLPatterns :=
        static_cast_ULONG p.m_wakeBitmapCapabilities.MaximumPatternCount }
  let c6 : NDIS_PM_CAPABILITIES :=
    if p.m_wakePacketFilterCapabilities.PacketFilterMatch then
      { c5 with Flags := c5.Flags ||| S.NDIS_PM_SELECTIVE_SUSPEND_SUPPORTED }
    else c5
  let c7 : NDIS_PM_CAPABILITIES :=
    if p.m_powerOffloadArpCapabilities.ArpOffload then
      { c6 with
        SupportedProtocolOffloads :=
          c6.SupportedProtocolOffloads ||| S.NDIS_PM_PROTOCOL_OFFLOAD_ARP_SUPPORTED
        NumArpOffloadIPv4Addresses :=
          static_cast_ULONG p.m_powerOffloadArpCapabilities.MaximumOffloadCount }
    else c6
  if p.m_powerOffloadNSCapabilities.NSOffload then
    { c7 with
      SupportedProtocolOffloads :=
        c7.SupportedProtocolOffloads ||| S.NDIS_PM_PROTOCOL_OFFLOAD_NS_SUPPORTED
      NumNSOffloadIPv6Addresses :=
        static_cast_ULONG p.m_powerOffloadNSCapabilities.MaximumOffloadCount }
  else c7

/-- The last part of `NxPowerPolicy::InitializeNdisCapabilities`, on the descriptor `c`
that the first part leaves: the three tests that set a minimum wake-up state. -/
def NxPowerPolicy.InitializeNdisCapabilities.wakeUpStates (K : NdisConstants)
    (S : NdisCapabilityConstants) (c : NDIS_PM_CAPABILITIES) : NDIS_PM_CAPABILITIES :=
  let c1 : NDIS_PM_CAPABILITIES :=
    if c.SupportedWoLPacketPatterns &&& S.NDIS_PM_WOL_BITMAP_PATTERN_SUPPORTED ≠ 0 then
      { c with MinPatternWakeUp := S.NdisDeviceStateD2 }
    else c
  let c2 : NDIS_PM_CAPABILITIES :=
    if c1.SupportedWoLPacketPatterns &&& K.NDIS_PM_WOL_MAGIC_PACKET_ENABLED ≠ 0 then
      { c1 with MinMagicPacketWakeUp := S.NdisDeviceStateD2 }
    else c1
  if c2.SupportedWakeUpEvents &&& S.NDIS_PM_WAKE_ON_MEDIA_CONNECT_SUPPORTED ≠ 0 then
    { c2 with MinLinkChangeWakeUp := S.NdisDeviceStateD2 }
  else c2

/-- The routine `NxPowerPolicy::InitializeNdisCapabilities`: the descriptor written to
`*NdisPowerCapabilities`. -/
def NxPowerPolicy.InitializeNdisCapabilities (K : NdisConstants)
    (S : NdisCapabilityConstants) (p : NxPowerPolicy) (MediaSpecificWakeUpEvents : Nat) :
    NDIS_PM_CAPABILITIES :=
  NxPowerPolicy.InitializeNdisCapabilities.wakeUpStates K S
    (NxPowerPolicy.InitializeNdisCapabilities.declare S p MediaSpecificWakeUpEvents)

/-- The capability state of a policy: the six capability members. -/
def NxPowerPolicy.capabilities (p : NxPowerPolicy) :
    NET_ADAPTER_POWER_OFFLOAD_ARP_CAPABILITIES × NET_ADAPTER_POWER_OFFLOAD_NS_CAPABILITIES ×
      NET_ADAPTER_WAKE_BITMAP_CAPABILITIES × NET_ADAPTER_WAKE_MAGIC_PACKET_CAPABILITIES ×
      NET_ADAPTER_WAKE_MEDIA_CHANGE_CAPABILITIES ×
      NET_ADAPTER_WAKE_PACKET_FILTER_CAPABILITIES :=
  (p.m_powerOffloadArpCapabilities, p.m_powerOffloadNSCapabilities,
    p.m_wakeBitmapCapabilities, p.m_magicPacketCapabilities,
    p.m_wakeMediaChangeCapabilities, p.m_wakePacketFilterCapabilities)

/-- In each field of the descriptor the `SUPPORTED` flags are flags of their own: none is
zero, and the two flags of a field share no bit. -/
def SupportedFlagsDistinct (S : NdisCapabilityConstants) : Prop :=
  S.NDIS_PM_WAKE_ON_MEDIA_CONNECT_SUPPORTED ≠ 0 ∧
  S.NDIS_PM_WAKE_ON_MEDIA_DISCONNECT_SUPPORTED ≠ 0 ∧
  S.NDIS_PM_WOL_MAGIC_PACKET_SUPPORTED ≠ 0 ∧
  S.NDIS_PM_WOL_BITMAP_PATTERN_SUPPORTED ≠ 0 ∧
  S.NDIS_PM_SELECTIVE_SUSPEND_SUPPORTED ≠ 0 ∧
  S.NDIS_PM_PROTOCOL_OFFLOAD_ARP_SUPPORTED ≠ 0 ∧
  S.NDIS_PM_PROTOCOL_OFFLOAD_NS_SUPPORTED ≠ 0 ∧
  S.NDIS_PM_WAKE_ON_MEDIA_CONNECT_SUPPORTED &&&
    S.NDIS_PM_WAKE_ON_MEDIA_DISCONNECT_SUPPORTED = 0 ∧
  S.NDIS_PM_WOL_MAGIC_PACKET_SUPPORTED &&& S.NDIS_PM_WOL_BITMAP_PATTERN_SUPPORTED = 0 ∧
  S.NDIS_PM_PROTOCOL_OFFLOAD_ARP_SUPPORTED &&& S.NDIS_PM_PROTOCOL_OFFLOAD_NS_SUPPORTED = 0

instance (S : NdisCapabilityConstants) : Decidable (SupportedFlagsDistinct S) := by
  unfold SupportedFlagsDistinct
  infer_instance

/-- Sample values for the constants of the capability descriptor. -/
def sampleCapabilityConstants : NdisCapabilityConstants where
  NDIS_OBJECT_TYPE_DEFAULT := 0x80
  NDIS_SIZEOF_NDIS_PM_CAPABILITIES_REVISION_2 := 64
  NDIS_PM_CAPABILITIES_REVISION_2 := 2
  NDIS_PM_WAKE_ON_MEDIA_CONNECT_SUPPORTED := 0x1
  NDIS_PM_WAKE_ON_MEDIA_DISCONNECT_SUPPORTED := 0x2
  NDIS_PM_WOL_MAGIC_PACKET_SUPPORTED := 0x2
  NDIS_PM_WOL_BITMAP_PATTERN_SUPPORTED := 0x1
  NDIS_PM_SELECTIVE_SUSPEND_SUPPORTED := 0x2
  NDIS_PM_PROTOCOL_OFFLOAD_ARP_SUPPORTED := 0x1
  NDIS_PM_PROTOCOL_OFFLOAD_NS_SUPPORTED := 0x2
  NdisDeviceStateD2 := 3

/-- A policy like `samplePolicyNoCapabilities` that declares wake on media disconnect
and nothing else. -/
def samplePolicyMediaDisconnectOnly : NxPowerPolicy :=
  { samplePolicyNoCapabilities with m_wakeMediaChangeCapabilities := ⟨false, true⟩ }

/-! ## Reading the trace of a cancellation -/

/-- The handles on which `WdfObjectReferenceWithTag` is called, in order. -/
def referenced : List QueueEvent → List Nat
  | [] => []
  | .WdfObjectReferenceWithTag h :: rest => h :: referenced rest
  | _ :: rest => referenced rest

/-- The handles on which `WdfObjectDereferenceWithTag` is called, in order. -/
def dereferenced : List QueueEvent → List Nat
  | [] => []
  | .WdfObjectDereferenceWithTag h :: rest => h :: dereferenced rest
  | _ :: rest => dereferenced rest

/-- What ties a request object to the in-flight list: the request, the link
`m_QueueListEntry` and the queue. -/
def NxRequestObject.tracking (r : NxRequestObject) : NxRequest × Bool × Option Nat :=
  (r.Request, r.m_QueueListEntry, r.m_NxQueue)

/-! ## Identifiers and types of the entries -/

/-- The request links no entry whose identifier an entry of the targeted list already
carries: for an add request that brings an entry to its list, no entry of that list has
the identifier of the new entry.  Every other request passes. -/
def PolicyCall.linksFreshId (K : NdisConstants) (p : NxPowerPolicy) : PolicyCall → Bool
  | .AddWakePattern s b m v =>
    match specWakePatternAdmitted K p s b m v with
    | some e => p.m_WakeListHead.all (fun x => x.GetID != e.GetID)
    | none => true
  | .AddProtocolOffload s a n v =>
    match specProtocolOffloadAdmitted K p s a n v with
    | some e => p.m_ProtocolOffloadListHead.all (fun x => x.GetID != e.GetID)
    | none => true
  | _ => true

/-- Every request of the sequence, served in order from the policy `p`, links no entry
whose identifier an entry of the targeted list already carries. -/
def FreshIdentifiers (K : NdisConstants) : NxPowerPolicy → List PolicyCall → Bool
  | _, [] => true
  | p, c :: rest => c.linksFreshId K p && FreshIdentifiers K (c.run K p) rest

/-- No two entries of the wake list have the same identifier, and no two entries of the
offload list have the same identifier. -/
def UniqueIdentifiers (p : NxPowerPolicy) : Prop :=
  (p.m_WakeListHead.map NxWakePattern.GetID).Nodup ∧
    (p.m_ProtocolOffloadListHead.map NxPowerOffload.GetID).Nodup

instance (p : NxPowerPolicy) : Decidable (UniqueIdentifiers p) := by
  unfold UniqueIdentifiers
  infer_instance

/-- The request is an add request or a remove request. -/
def PolicyCall.isAddOrRemove : PolicyCall → Bool
  | .SetParameters _ => false
  | _ => true

/-- The `default` case of `UpdateProtocolOffloadEntryEnabledField`, where the assertion
"Unexpected protocol offload type" stands, is reached for the entry. -/
def NxPowerPolicy.UpdateProtocolOffloadEntryEnabledField.asserts (Entry : NxPowerOffload) :
    Bool :=
  match Entry.GetType with
  | .NetPowerOffloadTypeArp => false
  | .NetPowerOffloadTypeNS => false
  | .Other _ => true

/-- The entries that the end of `AddProtocolOffload` passes to
`UpdateProtocolOffloadEntryEnabledField`: the new entry, when the preview callback does
not end the routine before the call. -/
def NxPowerPolicy.AddProtocolOffload.finish.updated (K : NdisConstants)
    (powerOffload : NxPowerOffload) (pfnPreview : Option Nat) (previewStatus : NTSTATUS) :
    List NxPowerOffload :=
  match pfnPreview with
  | some _ =>
    if previewStatus = K.STATUS_NDIS_PM_PROTOCOL_OFFLOAD_LIST_FULL then []
    else if previewStatus ≠ STATUS_SUCCESS then []
    else [powerOffload]
  | none => [powerOffload]

/-- The entries that `AddProtocolOffload` passes to
`UpdateProtocolOffloadEntryEnabledField`, in program order. -/
def NxPowerPolicy.AddProtocolOffload.updated (K : NdisConstants) (p : NxPowerPolicy)
    (SetInformation : SET_INFORMATION NDIS_PM_PROTOCOL_OFFLOAD)
    (arpCreated nsCreated : NDIS_STATUS × NxPowerOffload) (previewStatus : NTSTATUS) :
    List NxPowerOffload :=
  if SetInformation.InformationBufferLength < K.sizeof_NDIS_PM_PROTOCOL_OFFLOAD then []
  else
    match SetInformation.InformationBuffer.ProtocolOffloadType with
    | .NdisPMProtocolOffloadIdIPv4ARP =>
      if !p.m_powerOffloadArpCapabilities.ArpOffload then []
      else if arpCreated.1 ≠ K.NDIS_STATUS_SUCCESS then []
      else
        NxPowerPolicy.AddProtocolOffload.finish.updated K arpCreated.2
          p.m_powerPolicyEventCallbacks.EvtDevicePreviewArpOffload previewStatus
    | .NdisPMProtocolOffloadIdIPv6NS =>
      if !p.m_powerOffloadNSCapabilities.NSOffload then []
      else if nsCreated.1 ≠ K.NDIS_STATUS_SUCCESS then []
      else
        NxPowerPolicy.AddProtocolOffload.finish.updated K nsCreated.2
          p.m_powerPolicyEventCallbacks.EvtDevicePreviewNSOffload previewStatus
    | .Other _ => []

/-- The entries that `SetParameters` passes to `UpdateProtocolOffloadEntryEnabledField`,
in program order: the offload list as it stands, when `updateProtocolOffload` holds. -/
def NxPowerPolicy.SetParameters.updatedOffloads (K : NdisConstants) (p : NxPowerPolicy)
    (Set : SET_INFORMATION NDIS_PM_PARAMETERS) : List NxPowerOffload :=
  if Set.InformationBufferLength < K.sizeof_NDIS_PM_PARAMETERS then []
  else
    let PmParams := NxPowerPolicy.SetParameters.adjust K p Set.InformationBuffer
    let updateProtocolOffload : Bool :=
      decide (p.m_PMParameters.EnabledProtocolOffloads ≠ PmParams.EnabledProtocolOffloads)
    if updateProtocolOffload then p.m_ProtocolOffloadListHead else []

/-- The entries that a request passes to `UpdateProtocolOffloadEntryEnabledField`; the
routines for wake patterns and the remove routines do not call it. -/
def PolicyCall.updatedOffloads (K : NdisConstants) (p : NxPowerPolicy) :
    PolicyCall → List NxPowerOffload
  | .AddProtocolOffload s a n v => NxPowerPolicy.AddProtocolOffload.updated K p s a n v
  | .SetParameters s => NxPowerPolicy.SetParameters.updatedOffloads K p s
  | _ => []

/-- The factories of an `AddProtocolOffload` request yield entries of their own type:
the ARP factory an ARP entry, the NS factory an NS entry.  Every other request passes. -/
def PolicyCall.factoriesTyped : PolicyCall → Bool
  | .AddProtocolOffload _ a n _ =>
    a.2.GetType == .NetPowerOffloadTypeArp && n.2.GetType == .NetPowerOffloadTypeNS
  | _ => true

/-- Every entry of the offload list has the type ARP or NS. -/
def OffloadsTyped (p : NxPowerPolicy) : Prop :=
  ∀ e ∈ p.m_ProtocolOffloadListHead,
    e.GetType = .NetPowerOffloadTypeArp ∨ e.GetType = .NetPowerOffloadTypeNS

instance (p : NxPowerPolicy) : Decidable (OffloadsTyped p) := by
  unfold OffloadsTyped
  infer_instance

/-- Two add requests for bitmap patterns that carry the same identifier 3; the factory
makes the entry 703 for the first and the entry 705 for the second. -/
def sampleRepeatedAdds : List PolicyCall :=
  [.AddWakePattern ⟨⟨.NdisPMWoLPacketBitmapPattern, 3⟩, 64⟩
      (0, ⟨703, 3, .NetWakeSourceTypeBitmapPattern, false⟩)
      (0, ⟨704, 3, .NetWakeSourceTypeMagicPacket, false⟩) 0,
    .AddWakePattern ⟨⟨.NdisPMWoLPacketBitmapPattern, 3⟩, 64⟩
      (0, ⟨705, 3, .NetWakeSourceTypeBitmapPattern, false⟩)
      (0, ⟨706, 3, .NetWakeSourceTypeMagicPacket, false⟩) 0]

/-! ## Lemmas on the lookup loop -/

theorem STATUS_BUFFER_TOO_SMALL_ne_NOT_FOUND : STATUS_BUFFER_TOO_SMALL ≠ STATUS_NOT_FOUND := by
  decide

theorem STATUS_SUCCESS_ne_NOT_FOUND : STATUS_SUCCESS ≠ STATUS_NOT_FOUND := by
  decide

theorem NT_SUCCESS_STATUS_SUCCESS : NT_SUCCESS STATUS_SUCCESS = true := by
  decide

theorem NT_SUCCESS_STATUS_NOT_FOUND : NT_SUCCESS STATUS_NOT_FOUND = false := by
  decide

theorem NT_SUCCESS_STATUS_BUFFER_TOO_SMALL : NT_SUCCESS STATUS_BUFFER_TOO_SMALL = false := by
  decide

theorem NT_SUCCESS_STATUS_NOT_SUPPORTED : NT_SUCCESS STATUS_NOT_SUPPORTED = false := by
  decide

/-- A node at a position below `i` belongs to the first `i` nodes. -/
theorem mem_take_of_getElem? {α : Type} {l : List α} {i j : Nat} {a : α}
    (h : l[j]? = some a) (hj : j < i) : a ∈ l.take i := by
  rw [List.mem_iff_getElem?]
  exact ⟨j, by rw [List.getElem?_take_of_lt hj]; exact h⟩

/-- A chain without a node carrying `Oid` leaves the state of the loop untouched. -/
theorem FIND_REQUEST_HANDLER.scan_no_match (Oid inLen outLen : Nat)
    (chain : List NET_REQUEST_QUEUE_HANDLER) (pos : Nat) (st : NTSTATUS × Option Nat)
    (h : ∀ g ∈ chain, g.Oid ≠ Oid) :
    FIND_REQUEST_HANDLER.scan Oid inLen outLen chain pos st = st := by
  induction chain generalizing pos with
  | nil => rfl
  | cons entry Next ih =>
    have hne : entry.Oid ≠ Oid := h entry (List.mem_cons_self _ _)
    simp only [FIND_REQUEST_HANDLER.scan, if_neg hne]
    exact ih (pos + 1) (fun g hg => h g (List.mem_cons_of_mem _ hg))

/-- The loop stops at the first node carrying `Oid` and decides on that node alone. -/
theorem FIND_REQUEST_HANDLER.scan_first_match (Oid inLen outLen : Nat)
    (chain : List NET_REQUEST_QUEUE_HANDLER) (pos : Nat) (st : NTSTATUS × Option Nat)
    (i : Nat) (entry : NET_REQUEST_QUEUE_HANDLER) (h : IsFirstMatch chain Oid i entry) :
    FIND_REQUEST_HANDLER.scan Oid inLen outLen chain pos st =
      if entry.MinimumInputLength > inLen ∨ entry.MinimumOutputLength > outLen then
        (STATUS_BUFFER_TOO_SMALL, st.2)
      else (STATUS_SUCCESS, some (pos + i)) := by
  induction chain generalizing pos i with
  | nil =>
    obtain ⟨h1, _, _⟩ := h
    simp at h1
  | cons e Next ih =>
    obtain ⟨h1, h2, h3⟩ := h
    cases i with
    | zero =>
      simp only [List.getElem?_cons_zero, Option.some.injEq] at h1
      subst h1
      simp only [FIND_REQUEST_HANDLER.scan, if_pos h2, Nat.add_zero]
      by_cases hin : e.MinimumInputLength > inLen
      · simp [hin]
      · by_cases hout : e.MinimumOutputLength > outLen
        · simp [hin, hout]
        · simp [hin, hout]
    | succ k =>
      have hne : e.Oid ≠ Oid := h3 e (by simp)
      simp only [List.getElem?_cons_succ] at h1
      have hk : IsFirstMatch Next Oid k entry :=
        ⟨h1, h2, fun g hg => h3 g (by simp [hg])⟩
      simp only [FIND_REQUEST_HANDLER.scan, if_neg hne]
      rw [ih (pos + 1) k hk]
      have : pos + 1 + k = pos + (k + 1) := by omega
      rw [this]

/-- A chain with a node carrying `Oid` has a first such node. -/
theorem exists_isFirstMatch (Oid : Nat) (chain : List NET_REQUEST_QUEUE_HANDLER)
    (h : ∃ g ∈ chain, g.Oid = Oid) : ∃ i entry, IsFirstMatch chain Oid i entry := by
  induction chain with
  | nil =>
    obtain ⟨g, hg, _⟩ := h
    simp at hg
  | cons e Next ih =>
    by_cases he : e.Oid = Oid
    · exact ⟨0, e, by simp, he, by simp⟩
    · obtain ⟨g, hg, hgo⟩ := h
      have hmem : g ∈ Next := by
        rcases List.mem_cons.mp hg with hge | hgn
        · exact absurd (hge ▸ hgo) he
        · exact hgn
      obtain ⟨i, entry, h1, h2, h3⟩ := ih ⟨g, hmem, hgo⟩
      refine ⟨i + 1, entry, by simpa using h1, h2, ?_⟩
      intro g2 hg2
      rw [List.take_succ_cons, List.mem_cons] at hg2
      rcases hg2 with hge | hgn
      · exact hge ▸ he
      · exact h3 g2 hgn

/-- The first match of a chain, if any, is unique. -/
theorem IsFirstMatch.unique {chain : List NET_REQUEST_QUEUE_HANDLER} {Oid i j : Nat}
    {a b : NET_REQUEST_QUEUE_HANDLER} (ha : IsFirstMatch chain Oid i a)
    (hb : IsFirstMatch chain Oid j b) : i = j ∧ a = b := by
  obtain ⟨a1, a2, a3⟩ := ha
  obtain ⟨b1, b2, b3⟩ := hb
  have hij : i = j := by
    rcases Nat.lt_trichotomy i j with hlt | heq | hgt
    · exact absurd a2 (b3 a (mem_take_of_getElem? a1 hlt))
    · exact heq
    · exact absurd b2 (a3 b (mem_take_of_getElem? b1 hgt))
  subst hij
  rw [a1] at b1
  exact ⟨rfl, Option.some.inj b1⟩

/-- The three results of the lookup, by cases on the chain. -/
theorem FIND_REQUEST_HANDLER.cases (chain : List NET_REQUEST_QUEUE_HANDLER)
    (Oid inLen outLen : Nat) :
    ((∀ g ∈ chain, g.Oid ≠ Oid) ∧
        FIND_REQUEST_HANDLER chain Oid inLen outLen = (STATUS_NOT_FOUND, none)) ∨
      (∃ i entry, IsFirstMatch chain Oid i entry ∧
        (entry.MinimumInputLength > inLen ∨ entry.MinimumOutputLength > outLen) ∧
        FIND_REQUEST_HANDLER chain Oid inLen outLen = (STATUS_BUFFER_TOO_SMALL, none)) ∨
      (∃ i entry, IsFirstMatch chain Oid i entry ∧
        entry.MinimumInputLength ≤ inLen ∧ entry.MinimumOutputLength ≤ outLen ∧
        FIND_REQUEST_HANDLER chain Oid inLen outLen = (STATUS_SUCCESS, some i)) := by
  by_cases hex : ∃ g ∈ chain, g.Oid = Oid
  · obtain ⟨i, entry, hfm⟩ := exists_isFirstMatch Oid chain hex
    have hscan := FIND_REQUEST_HANDLER.scan_first_match Oid inLen outLen chain 0
      (STATUS_NOT_FOUND, none) i entry hfm
    by_cases hsmall : entry.MinimumInputLength > inLen ∨ entry.MinimumOutputLength > outLen
    · right; left
      refine ⟨i, entry, hfm, hsmall, ?_⟩
      rw [FIND_REQUEST_HANDLER, hscan, if_pos hsmall]
    · right; right
      have h1 : entry.MinimumInputLength ≤ inLen := by
        by_contra hc; exact hsmall (Or.inl (by omega))
      have h2 : entry.MinimumOutputLength ≤ outLen := by
        by_contra hc; exact hsmall (Or.inr (by omega))
      refine ⟨i, entry, hfm, h1, h2, ?_⟩
      rw [FIND_REQUEST_HANDLER, hscan, if_neg hsmall, Nat.zero_add]
  · left
    have hno : ∀ g ∈ chain, g.Oid ≠ Oid := fun g hg hgo => hex ⟨g, hg, hgo⟩
    exact ⟨hno, FIND_REQUEST_HANDLER.scan_no_match Oid inLen outLen chain 0 _ hno⟩

/-! ## Claims on the lookup -/

/-- C1: when the first node in list order whose `Oid` equals the oid has minimum lengths
within the supplied lengths, the lookup yields `STATUS_SUCCESS` and the handler is that
first node; it is no other node, in particular no later node carrying the same oid. -/
theorem C1_find_success_returns_first_match (chain : List NET_REQUEST_QUEUE_HANDLER)
    (Oid inLen outLen i : Nat) (entry : NET_REQUEST_QUEUE_HANDLER)
    (hfirst : IsFirstMatch chain Oid i entry)
    (hin : entry.MinimumInputLength ≤ inLen) (hout : entry.MinimumOutputLength ≤ outLen) :
    FIND_REQUEST_HANDLER chain Oid inLen outLen = (STATUS_SUCCESS, some i) ∧
      ∀ j, j ≠ i → (FIND_REQUEST_HANDLER chain Oid inLen outLen).2 ≠ some j := by
  have hscan := FIND_REQUEST_HANDLER.scan_first_match Oid inLen outLen chain 0
    (STATUS_NOT_FOUND, none) i entry hfirst
  have hns : ¬ (entry.MinimumInputLength > inLen ∨ entry.MinimumOutputLength > outLen) := by
    omega
  have hres : FIND_REQUEST_HANDLER chain Oid inLen outLen = (STATUS_SUCCESS, some i) := by
    rw [FIND_REQUEST_HANDLER, hscan, if_neg hns, Nat.zero_add]
  refine ⟨hres, ?_⟩
  intro j hj hc
  rw [hres] at hc
  exact hj (Option.some.inj hc).symm

/-- Witness for C1: a chain with two nodes for oid 7; the first one is returned. -/
theorem C1_find_success_returns_first_match_witness :
    FIND_REQUEST_HANDLER [⟨3, 100, 0, 0⟩, ⟨7, 101, 4, 8⟩, ⟨7, 102, 0, 0⟩] 7 4 8 =
        (STATUS_SUCCESS, some 1) ∧
      ∀ j, j ≠ 1 →
        (FIND_REQUEST_HANDLER [⟨3, 100, 0, 0⟩, ⟨7, 101, 4, 8⟩, ⟨7, 102, 0, 0⟩] 7 4 8).2 ≠
          some j :=
  C1_find_success_returns_first_match [⟨3, 100, 0, 0⟩, ⟨7, 101, 4, 8⟩, ⟨7, 102, 0, 0⟩]
    7 4 8 1 ⟨7, 101, 4, 8⟩
    (by decide) (by decide) (by decide)

/-- C2: when the first node in list order whose `Oid` equals the oid has a minimum input
length above the input length or a minimum output length above the output length, the
lookup yields `STATUS_BUFFER_TOO_SMALL` with a NULL handler, whatever nodes follow. -/
theorem C2_find_too_small_at_first_match (chain : List NET_REQUEST_QUEUE_HANDLER)
    (Oid inLen outLen i : Nat) (entry : NET_REQUEST_QUEUE_HANDLER)
    (hfirst : IsFirstMatch chain Oid i entry)
    (hsmall : entry.MinimumInputLength > inLen ∨ entry.MinimumOutputLength > outLen) :
    FIND_REQUEST_HANDLER chain Oid inLen outLen = (STATUS_BUFFER_TOO_SMALL, none) := by
  rw [FIND_REQUEST_HANDLER,
    FIND_REQUEST_HANDLER.scan_first_match Oid inLen outLen chain 0 _ i entry hfirst,
    if_pos hsmall]

/-- Witness for C2: the first node for oid 7 needs 16 input bytes, the second one none;
with 4 bytes the lookup still fails with `STATUS_BUFFER_TOO_SMALL`. -/
theorem C2_find_too_small_at_first_match_witness :
    FIND_REQUEST_HANDLER [⟨7, 101, 16, 0⟩, ⟨7, 102, 0, 0⟩] 7 4 8 =
      (STATUS_BUFFER_TOO_SMALL, none) :=
  C2_find_too_small_at_first_match [⟨7, 101, 16, 0⟩, ⟨7, 102, 0, 0⟩] 7 4 8 0 ⟨7, 101, 16, 0⟩
    (by decide) (Or.inl (by decide))

/-- C3: for every chain, the empty one included, the lookup yields `STATUS_NOT_FOUND`
with a NULL handler if and only if no node of the chain has `Oid` equal to the oid. -/
theorem C3_find_not_found_iff_no_match (chain : List NET_REQUEST_QUEUE_HANDLER)
    (Oid inLen outLen : Nat) :
    FIND_REQUEST_HANDLER chain Oid inLen outLen = (STATUS_NOT_FOUND, none) ↔
      ∀ g ∈ chain, g.Oid ≠ Oid := by
  constructor
  · intro hres
    rcases FIND_REQUEST_HANDLER.cases chain Oid inLen outLen with
      ⟨hno, _⟩ | ⟨i, entry, _, _, h⟩ | ⟨i, entry, _, _, _, h⟩
    · exact hno
    · rw [h] at hres
      exact absurd (congrArg Prod.fst hres) STATUS_BUFFER_TOO_SMALL_ne_NOT_FOUND
    · rw [h] at hres
      exact absurd (congrArg Prod.fst hres) STATUS_SUCCESS_ne_NOT_FOUND
  · intro hno
    exact FIND_REQUEST_HANDLER.scan_no_match Oid inLen outLen chain 0 _ hno

/-! ## Lemmas on dispatch -/

/-- A request of a type outside the four recognised ones is completed at once. -/
theorem NxRequestQueue.DispatchRequest_unrecognised (q : NxRequestQueue) (r : NxRequest)
    (h1 : r.m_NdisOidRequest.RequestType ≠ NdisRequestSetInformation)
    (h2 : r.m_NdisOidRequest.RequestType ≠ NdisRequestQueryInformation)
    (h3 : r.m_NdisOidRequest.RequestType ≠ NdisRequestQueryStatistics)
    (h4 : r.m_NdisOidRequest.RequestType ≠ NdisRequestMethod) :
    q.DispatchRequest r = some [Event.Complete r.FxObject STATUS_NOT_SUPPORTED] := by
  unfold NxRequestQueue.DispatchRequest
  simp [h1, h2, h3, h4]

/-- Dispatch when the lookup in the selected chain succeeds. -/
theorem NxRequestQueue.DispatchRequest_found (q : NxRequestQueue) (r : NxRequest)
    (chain : List NET_REQUEST_QUEUE_HANDLER) (i : Nat) (entry : NET_REQUEST_QUEUE_HANDLER)
    (hc : specChain q.m_Config r.m_NdisOidRequest.RequestType = some chain)
    (hf : FIND_REQUEST_HANDLER chain r.m_Oid r.m_InputBufferLength r.m_OutputBufferLength =
      (STATUS_SUCCESS, some i))
    (he : chain[i]? = some entry) :
    q.DispatchRequest r = some [specHandlerCall q r i entry] := by
  unfold specChain at hc
  unfold NxRequestQueue.DispatchRequest specHandlerCall
  split_ifs at hc with h1 h2 h3 h4 <;>
    simp only [Option.some.injEq] at hc <;> subst hc <;>
    simp [*, NT_SUCCESS_STATUS_SUCCESS, NdisRequestSetInformation,
      NdisRequestQueryInformation, NdisRequestQueryStatistics, NdisRequestMethod]

/-- Dispatch when the lookup in the selected chain reports a buffer that is too small. -/
theorem NxRequestQueue.DispatchRequest_too_small (q : NxRequestQueue) (r : NxRequest)
    (chain : List NET_REQUEST_QUEUE_HANDLER)
    (hc : specChain q.m_Config r.m_NdisOidRequest.RequestType = some chain)
    (hf : FIND_REQUEST_HANDLER chain r.m_Oid r.m_InputBufferLength r.m_OutputBufferLength =
      (STATUS_BUFFER_TOO_SMALL, none)) :
    q.DispatchRequest r = some [Event.Complete r.FxObject STATUS_BUFFER_TOO_SMALL] := by
  unfold specChain at hc
  unfold NxRequestQueue.DispatchRequest
  split_ifs at hc with h1 h2 h3 h4 <;>
    simp only [Option.some.injEq] at hc <;> subst hc <;>
    simp [*, NT_SUCCESS_STATUS_BUFFER_TOO_SMALL, STATUS_BUFFER_TOO_SMALL_ne_NOT_FOUND,
      NdisRequestSetInformation, NdisRequestQueryInformation, NdisRequestQueryStatistics,
      NdisRequestMethod]

/-- Dispatch when the selected chain has no node for the oid and the per-category default
is registered. -/
theorem NxRequestQueue.DispatchRequest_category_default (q : NxRequestQueue) (r : NxRequest)
    (chain : List NET_REQUEST_QUEUE_HANDLER) (fn : Nat)
    (hc : specChain q.m_Config r.m_NdisOidRequest.RequestType = some chain)
    (hf : FIND_REQUEST_HANDLER chain r.m_Oid r.m_InputBufferLength r.m_OutputBufferLength =
      (STATUS_NOT_FOUND, none))
    (hd : specCategoryDefault q.m_Config r.m_NdisOidRequest.RequestType = some fn) :
    q.DispatchRequest r = some [specCategoryDefaultCall q r fn] := by
  unfold specChain at hc
  unfold specCategoryDefault at hd
  unfold NxRequestQueue.DispatchRequest specCategoryDefaultCall
  split_ifs at hc with h1 h2 h3 h4 <;>
    simp only [Option.some.injEq] at hc <;> subst hc <;>
    simp [*, NdisRequestSetInformation, NdisRequestQueryInformation,
      NdisRequestQueryStatistics, NdisRequestMethod] at hd <;>
    simp [*, NT_SUCCESS_STATUS_NOT_FOUND, NdisRequestSetInformation,
      NdisRequestQueryInformation, NdisRequestQueryStatistics, NdisRequestMethod]

/-- Dispatch when the selected chain has no node for the oid and no per-category default
is registered: the tail of the routine decides. -/
theorem NxRequestQueue.DispatchRequest_fallback (q : NxRequestQueue) (r : NxRequest)
    (chain : List NET_REQUEST_QUEUE_HANDLER)
    (hc : specChain q.m_Config r.m_NdisOidRequest.RequestType = some chain)
    (hf : FIND_REQUEST_HANDLER chain r.m_Oid r.m_InputBufferLength r.m_OutputBufferLength =
      (STATUS_NOT_FOUND, none))
    (hd : specCategoryDefault q.m_Config r.m_NdisOidRequest.RequestType = none) :
    q.DispatchRequest r = some (NxRequestQueue.DispatchRequest.fallback q r) := by
  unfold specChain at hc
  unfold specCategoryDefault at hd
  unfold NxRequestQueue.DispatchRequest
  split_ifs at hc with h1 h2 h3 h4 <;>
    simp only [Option.some.injEq] at hc <;> subst hc <;>
    simp [*, NdisRequestSetInformation, NdisRequestQueryInformation,
      NdisRequestQueryStatistics, NdisRequestMethod] at hd <;>
    simp [*, NT_SUCCESS_STATUS_NOT_FOUND, NdisRequestSetInformation,
      NdisRequestQueryInformation, NdisRequestQueryStatistics, NdisRequestMethod]

/-- A type without a chain is none of the four recognised types. -/
theorem specChain_eq_none (Config : NET_REQUEST_QUEUE_CONFIG) (RequestType : Nat)
    (h : specChain Config RequestType = none) :
    RequestType ≠ NdisRequestSetInformation ∧ RequestType ≠ NdisRequestQueryInformation ∧
      RequestType ≠ NdisRequestQueryStatistics ∧ RequestType ≠ NdisRequestMethod := by
  unfold specChain at h
  split_ifs at h with h1 h2 h3 h4
  exact ⟨h1, h2, h3, h4⟩

/-- The global default call made by the tail of `DispatchRequest`. -/
theorem NxRequestQueue.DispatchRequest.fallback_some (q : NxRequestQueue) (r : NxRequest)
    (fn : Nat) (h : q.m_Config.EvtRequestDefault = some fn) :
    NxRequestQueue.DispatchRequest.fallback q r =
      [Event.EvtRequestDefault fn q.FxObject r.FxObject r.m_NdisOidRequest.RequestType
        r.m_Oid r.m_InputOutputBuffer r.m_InputBufferLength r.m_OutputBufferLength] := by
  simp [NxRequestQueue.DispatchRequest.fallback, h]

/-- The completion made by the tail of `DispatchRequest` without a global default. -/
theorem NxRequestQueue.DispatchRequest.fallback_none (q : NxRequestQueue) (r : NxRequest)
    (h : q.m_Config.EvtRequestDefault = none) :
    NxRequestQueue.DispatchRequest.fallback q r =
      [Event.Complete r.FxObject STATUS_NOT_SUPPORTED] := by
  simp [NxRequestQueue.DispatchRequest.fallback, h]

/-- Every path through `DispatchRequest`: the six ways a call can end, each with the
single call it makes. -/
theorem NxRequestQueue.DispatchRequest_cases (q : NxRequestQueue) (r : NxRequest) :
    (∃ chain i entry, specChain q.m_Config r.m_NdisOidRequest.RequestType = some chain ∧
        IsFirstMatch chain r.m_Oid i entry ∧
        q.DispatchRequest r = some [specHandlerCall q r i entry]) ∨
      (∃ chain, specChain q.m_Config r.m_NdisOidRequest.RequestType = some chain ∧
        q.DispatchRequest r = some [Event.Complete r.FxObject STATUS_BUFFER_TOO_SMALL]) ∨
      (∃ chain fn, specChain q.m_Config r.m_NdisOidRequest.RequestType = some chain ∧
        q.DispatchRequest r = some [specCategoryDefaultCall q r fn]) ∨
      (∃ chain fn, specChain q.m_Config r.m_NdisOidRequest.RequestType = some chain ∧
        q.DispatchRequest r = some [Event.EvtRequestDefault fn q.FxObject r.FxObject
          r.m_NdisOidRequest.RequestType r.m_Oid r.m_InputOutputBuffer
          r.m_InputBufferLength r.m_OutputBufferLength]) ∨
      q.DispatchRequest r = some [Event.Complete r.FxObject STATUS_NOT_SUPPORTED] := by
  cases hc : specChain q.m_Config r.m_NdisOidRequest.RequestType with
  | none =>
    obtain ⟨h1, h2, h3, h4⟩ := specChain_eq_none _ _ hc
    exact Or.inr (Or.inr (Or.inr (Or.inr
      (NxRequestQueue.DispatchRequest_unrecognised q r h1 h2 h3 h4))))
  | some chain =>
    rcases FIND_REQUEST_HANDLER.cases chain r.m_Oid r.m_InputBufferLength
        r.m_OutputBufferLength with
      ⟨_, hf⟩ | ⟨i, entry, _, _, hf⟩ | ⟨i, entry, hfm, _, _, hf⟩
    · cases hd : specCategoryDefault q.m_Config r.m_NdisOidRequest.RequestType with
      | some fn =>
        exact Or.inr (Or.inr (Or.inl ⟨chain, fn, rfl,
          NxRequestQueue.DispatchRequest_category_default q r chain fn hc hf hd⟩))
      | none =>
        have hfb := NxRequestQueue.DispatchRequest_fallback q r chain hc hf hd
        cases hg : q.m_Config.EvtRequestDefault with
        | some fn =>
          rw [NxRequestQueue.DispatchRequest.fallback_some q r fn hg] at hfb
          exact Or.inr (Or.inr (Or.inr (Or.inl ⟨chain, fn, rfl, hfb⟩)))
        | none =>
          rw [NxRequestQueue.DispatchRequest.fallback_none q r hg] at hfb
          exact Or.inr (Or.inr (Or.inr (Or.inr hfb)))
    · exact Or.inr (Or.inl ⟨chain, rfl,
        NxRequestQueue.DispatchRequest_too_small q r chain hc hf⟩)
    · exact Or.inl ⟨chain, i, entry, rfl, hfm,
        NxRequestQueue.DispatchRequest_found q r chain i entry hc hf hfm.1⟩

/-- A chain handler call is counted as a handler call only. -/
theorem specHandlerCall_kind (q : NxRequestQueue) (r : NxRequest) (i : Nat)
    (entry : NET_REQUEST_QUEUE_HANDLER) :
    (specHandlerCall q r i entry).isHandlerCall = true ∧
      (specHandlerCall q r i entry).isDefaultCall = false ∧
      (specHandlerCall q r i entry).isComplete = false ∧
      (specHandlerCall q r i entry).isFailureComplete = false := by
  unfold specHandlerCall
  split_ifs <;> exact ⟨rfl, rfl, rfl, rfl⟩

/-- A per-category default call is counted as a default call only. -/
theorem specCategoryDefaultCall_kind (q : NxRequestQueue) (r : NxRequest) (fn : Nat) :
    (specCategoryDefaultCall q r fn).isHandlerCall = false ∧
      (specCategoryDefaultCall q r fn).isCategoryDefaultCall = true ∧
      (specCategoryDefaultCall q r fn).isGlobalDefaultCall = false ∧
      (specCategoryDefaultCall q r fn).isComplete = false ∧
      (specCategoryDefaultCall q r fn).isFailureComplete = false := by
  unfold specCategoryDefaultCall
  split_ifs <;> exact ⟨rfl, rfl, rfl, rfl, rfl⟩

/-! ## Claims on dispatch -/

/-- C4: for every request and every queue configuration, one call of `DispatchRequest`
makes exactly one call, and that call is exactly one of: a chain handler, a default
callback (per-category or global), a completion with a failure status. -/
theorem C4_dispatch_exactly_one_outcome (q : NxRequestQueue) (r : NxRequest) :
    ∃ trace, q.DispatchRequest r = some trace ∧ trace.length = 1 ∧
      countEvents Event.isHandlerCall trace + countEvents Event.isDefaultCall trace +
        countEvents Event.isFailureComplete trace = 1 := by
  rcases NxRequestQueue.DispatchRequest_cases q r with
    ⟨_, i, entry, _, _, h⟩ | ⟨_, _, h⟩ | ⟨_, fn, _, h⟩ | ⟨_, fn, _, h⟩ | h
  · obtain ⟨k1, k2, _, k4⟩ := specHandlerCall_kind q r i entry
    exact ⟨_, h, rfl, by simp [countEvents, List.filter, k1, k2, k4]⟩
  · exact ⟨_, h, rfl, by
      simp [countEvents, List.filter, Event.isDefaultCall, Event.isHandlerCall,
        Event.isCategoryDefaultCall, Event.isGlobalDefaultCall, Event.isFailureComplete,
        NT_SUCCESS_STATUS_BUFFER_TOO_SMALL]⟩
  · obtain ⟨k1, k2, k3, _, k5⟩ := specCategoryDefaultCall_kind q r fn
    exact ⟨_, h, rfl, by simp [countEvents, List.filter, Event.isDefaultCall, k1, k2, k3, k5]⟩
  · exact ⟨_, h, rfl, by
      simp [countEvents, List.filter, Event.isDefaultCall, Event.isHandlerCall,
        Event.isCategoryDefaultCall, Event.isGlobalDefaultCall, Event.isFailureComplete]⟩
  · exact ⟨_, h, rfl, by
      simp [countEvents, List.filter, Event.isDefaultCall, Event.isHandlerCall,
        Event.isCategoryDefaultCall, Event.isGlobalDefaultCall, Event.isFailureComplete,
        NT_SUCCESS_STATUS_NOT_SUPPORTED]⟩

/-- The lookup fails with `STATUS_BUFFER_TOO_SMALL` when the first match is too demanding. -/
theorem FIND_REQUEST_HANDLER.too_small_of_first (chain : List NET_REQUEST_QUEUE_HANDLER)
    (Oid inLen outLen i : Nat) (entry : NET_REQUEST_QUEUE_HANDLER)
    (hfirst : IsFirstMatch chain Oid i entry)
    (hsmall : entry.MinimumInputLength > inLen ∨ entry.MinimumOutputLength > outLen) :
    FIND_REQUEST_HANDLER chain Oid inLen outLen = (STATUS_BUFFER_TOO_SMALL, none) := by
  rw [FIND_REQUEST_HANDLER,
    FIND_REQUEST_HANDLER.scan_first_match Oid inLen outLen chain 0 _ i entry hfirst,
    if_pos hsmall]

/-- A successful lookup returns a node of the chain that carries the oid. -/
theorem FIND_REQUEST_HANDLER.success_node (chain : List NET_REQUEST_QUEUE_HANDLER)
    (Oid inLen outLen i : Nat)
    (hf : FIND_REQUEST_HANDLER chain Oid inLen outLen = (STATUS_SUCCESS, some i)) :
    ∃ entry, IsFirstMatch chain Oid i entry := by
  rcases FIND_REQUEST_HANDLER.cases chain Oid inLen outLen with
    ⟨_, h⟩ | ⟨_, _, _, _, h⟩ | ⟨k, entry, hfm, _, _, h⟩
  · rw [h] at hf
    exact absurd (congrArg Prod.snd hf) (by simp)
  · rw [h] at hf
    exact absurd (congrArg Prod.snd hf) (by simp)
  · rw [h] at hf
    have hk : k = i := Option.some.inj (congrArg Prod.snd hf)
    exact ⟨entry, hk ▸ hfm⟩

/-- C5: for a request of a recognised type whose category chain has a first oid-matching
node with a minimum input or output length above the request's length, `DispatchRequest`
completes the request with `STATUS_BUFFER_TOO_SMALL` and calls no default callback,
per-category or global, whether or not they are registered. -/
theorem C5_dispatch_too_small_completes (q : NxRequestQueue) (r : NxRequest)
    (chain : List NET_REQUEST_QUEUE_HANDLER) (i : Nat) (entry : NET_REQUEST_QUEUE_HANDLER)
    (hc : specChain q.m_Config r.m_NdisOidRequest.RequestType = some chain)
    (hfirst : IsFirstMatch chain r.m_Oid i entry)
    (hsmall : entry.MinimumInputLength > r.m_InputBufferLength ∨
      entry.MinimumOutputLength > r.m_OutputBufferLength) :
    ∃ trace, q.DispatchRequest r = some trace ∧
      trace = [Event.Complete r.FxObject STATUS_BUFFER_TOO_SMALL] ∧
      countEvents Event.isDefaultCall trace = 0 ∧
      countEvents Event.isHandlerCall trace = 0 :=
  ⟨_, NxRequestQueue.DispatchRequest_too_small q r chain hc
      (FIND_REQUEST_HANDLER.too_small_of_first chain _ _ _ i entry hfirst hsmall),
    rfl, rfl, rfl⟩

/-- Witness for C5: a set-information request for oid 7 with 4 input bytes; the first
node for oid 7 asks for 16, and both defaults are registered. -/
theorem C5_dispatch_too_small_completes_witness :
    ∃ trace, (sampleQueue (some 401) (some 402) (some 403) (some 400)).DispatchRequest
        (sampleRequest NdisRequestSetInformation 7 4 8) = some trace ∧
      trace = [Event.Complete 2000 STATUS_BUFFER_TOO_SMALL] ∧
      countEvents Event.isDefaultCall trace = 0 ∧
      countEvents Event.isHandlerCall trace = 0 :=
  C5_dispatch_too_small_completes (sampleQueue (some 401) (some 402) (some 403) (some 400))
    (sampleRequest NdisRequestSetInformation 7 4 8)
    [⟨7, 101, 16, 0⟩, ⟨7, 102, 0, 0⟩, ⟨9, 103, 0, 0⟩] 0 ⟨7, 101, 16, 0⟩ rfl
    (by decide) (Or.inl (by decide))

/-- C6: `DispatchRequest` searches only the chain selected by the request type.  When the
lookup in that chain succeeds with node `i`, the single call made is the callback of
node `i` of that chain, with no completion and no default call; and whatever the
configuration, a chain handler that is called is a node of the selected chain carrying
the request's oid, so a node of another category's chain is never called. -/
theorem C6_dispatch_found_invokes_selected_chain (q : NxRequestQueue) (r : NxRequest) :
    (∀ chain i, specChain q.m_Config r.m_NdisOidRequest.RequestType = some chain →
      FIND_REQUEST_HANDLER chain r.m_Oid r.m_InputBufferLength r.m_OutputBufferLength =
        (STATUS_SUCCESS, some i) →
      ∃ entry trace, chain[i]? = some entry ∧ entry.Oid = r.m_Oid ∧
        q.DispatchRequest r = some trace ∧ trace = [specHandlerCall q r i entry] ∧
        countEvents Event.isHandlerCall trace = 1 ∧
        countEvents Event.isComplete trace = 0 ∧
        countEvents Event.isDefaultCall trace = 0) ∧
    (∀ trace e, q.DispatchRequest r = some trace → e ∈ trace → e.isHandlerCall = true →
      ∃ chain i entry, specChain q.m_Config r.m_NdisOidRequest.RequestType = some chain ∧
        chain[i]? = some entry ∧ entry.Oid = r.m_Oid ∧ e = specHandlerCall q r i entry) := by
  constructor
  · intro chain i hc hf
    obtain ⟨entry, hfm⟩ := FIND_REQUEST_HANDLER.success_node chain _ _ _ i hf
    obtain ⟨k1, k2, k3, _⟩ := specHandlerCall_kind q r i entry
    exact ⟨entry, _, hfm.1, hfm.2.1,
      NxRequestQueue.DispatchRequest_found q r chain i entry hc hf hfm.1, rfl,
      by simp [countEvents, List.filter, k1], by simp [countEvents, List.filter, k3],
      by simp [countEvents, List.filter, k2]⟩
  · intro trace e ht he hk
    rcases NxRequestQueue.DispatchRequest_cases q r with
      ⟨chain, i, entry, hc, hfm, h⟩ | ⟨_, _, h⟩ | ⟨_, fn, _, h⟩ | ⟨_, fn, _, h⟩ | h
    · rw [h] at ht
      have hte : trace = [specHandlerCall q r i entry] := (Option.some.inj ht).symm
      rw [hte, List.mem_singleton] at he
      exact ⟨chain, i, entry, hc, hfm.1, hfm.2.1, he⟩
    · rw [h] at ht
      have hte := (Option.some.inj ht).symm
      rw [hte, List.mem_singleton] at he
      rw [he] at hk
      exact absurd hk (by simp [Event.isHandlerCall])
    · rw [h] at ht
      have hte := (Option.some.inj ht).symm
      rw [hte, List.mem_singleton] at he
      rw [he, (specCategoryDefaultCall_kind q r fn).1] at hk
      exact absurd hk (by simp)
    · rw [h] at ht
      have hte := (Option.some.inj ht).symm
      rw [hte, List.mem_singleton] at he
      rw [he] at hk
      exact absurd hk (by simp [Event.isHandlerCall])
    · rw [h] at ht
      have hte := (Option.some.inj ht).symm
      rw [hte, List.mem_singleton] at he
      rw [he] at hk
      exact absurd hk (by simp [Event.isHandlerCall])

/-- Witness for C6: a set-information request for oid 9.  Oid 9 has a node in the
set-data chain (node 2, callback 103) and one in the method chain (callback 301); the
set-data node is the one called. -/
theorem C6_dispatch_found_invokes_selected_chain_witness :
    ∃ entry trace,
      ([⟨7, 101, 16, 0⟩, ⟨7, 102, 0, 0⟩, ⟨9, 103, 0, 0⟩] :
        List NET_REQUEST_QUEUE_HANDLER)[2]? = some entry ∧ entry.Oid = 9 ∧
      (sampleQueue (some 401) (some 402) (some 403) (some 400)).DispatchRequest
        (sampleRequest NdisRequestSetInformation 9 0 0) = some trace ∧
      trace = [specHandlerCall (sampleQueue (some 401) (some 402) (some 403) (some 400))
        (sampleRequest NdisRequestSetInformation 9 0 0) 2 entry] ∧
      countEvents Event.isHandlerCall trace = 1 ∧
      countEvents Event.isComplete trace = 0 ∧
      countEvents Event.isDefaultCall trace = 0 :=
  (C6_dispatch_found_invokes_selected_chain
      (sampleQueue (some 401) (some 402) (some 403) (some 400))
      (sampleRequest NdisRequestSetInformation 9 0 0)).1
    [⟨7, 101, 16, 0⟩, ⟨7, 102, 0, 0⟩, ⟨9, 103, 0, 0⟩] 2 rfl (by decide)

/-- C7: for a request of a recognised type whose category chain has no node with the
request's oid and whose per-category default is registered, `DispatchRequest` makes one
call, to that per-category default with the request's oid; it does not call the global
default and does not complete the request. -/
theorem C7_dispatch_category_default (q : NxRequestQueue) (r : NxRequest)
    (chain : List NET_REQUEST_QUEUE_HANDLER) (fn : Nat)
    (hc : specChain q.m_Config r.m_NdisOidRequest.RequestType = some chain)
    (hno : ∀ g ∈ chain, g.Oid ≠ r.m_Oid)
    (hd : specCategoryDefault q.m_Config r.m_NdisOidRequest.RequestType = some fn) :
    ∃ trace, q.DispatchRequest r = some trace ∧
      trace = [specCategoryDefaultCall q r fn] ∧
      countEvents Event.isCategoryDefaultCall trace = 1 ∧
      countEvents Event.isGlobalDefaultCall trace = 0 ∧
      countEvents Event.isComplete trace = 0 := by
  obtain ⟨_, k2, k3, k4, _⟩ := specCategoryDefaultCall_kind q r fn
  exact ⟨_, NxRequestQueue.DispatchRequest_category_default q r chain fn hc
      (FIND_REQUEST_HANDLER.scan_no_match _ _ _ chain 0 _ hno) hd, rfl,
    by simp [countEvents, List.filter, k2], by simp [countEvents, List.filter, k3],
    by simp [countEvents, List.filter, k4]⟩

/-- Witness for C7: a query-statistics request for oid 8, which has no node in the
query-data chain; `EvtRequestDefaultQueryData` (402) is called with oid 8, although the
global default (400) is registered too. -/
theorem C7_dispatch_category_default_witness :
    ∃ trace, (sampleQueue (some 401) (some 402) (some 403) (some 400)).DispatchRequest
        (sampleRequest NdisRequestQueryStatistics 8 0 4) = some trace ∧
      trace = [specCategoryDefaultCall (sampleQueue (some 401) (some 402) (some 403) (some 400))
        (sampleRequest NdisRequestQueryStatistics 8 0 4) 402] ∧
      countEvents Event.isCategoryDefaultCall trace = 1 ∧
      countEvents Event.isGlobalDefaultCall trace = 0 ∧
      countEvents Event.isComplete trace = 0 :=
  C7_dispatch_category_default (sampleQueue (some 401) (some 402) (some 403) (some 400))
    (sampleRequest NdisRequestQueryStatistics 8 0 4) [⟨5, 201, 0, 4⟩] 402 rfl
    (by decide) rfl

/-- C8: for a request of a recognised type whose category chain has no node with the
request's oid and whose per-category default is not registered, a registered global
default `EvtRequestDefault` is called once, with the request's type and oid, and the
request is not completed. -/
theorem C8_dispatch_global_default (q : NxRequestQueue) (r : NxRequest)
    (chain : List NET_REQUEST_QUEUE_HANDLER) (fn : Nat)
    (hc : specChain q.m_Config r.m_NdisOidRequest.RequestType = some chain)
    (hno : ∀ g ∈ chain, g.Oid ≠ r.m_Oid)
    (hd : specCategoryDefault q.m_Config r.m_NdisOidRequest.RequestType = none)
    (hg : q.m_Config.EvtRequestDefault = some fn) :
    ∃ trace, q.DispatchRequest r = some trace ∧
      trace = [Event.EvtRequestDefault fn q.FxObject r.FxObject
        r.m_NdisOidRequest.RequestType r.m_Oid r.m_InputOutputBuffer
        r.m_InputBufferLength r.m_OutputBufferLength] ∧
      countEvents Event.isGlobalDefaultCall trace = 1 ∧
      countEvents Event.isComplete trace = 0 := by
  have h := NxRequestQueue.DispatchRequest_fallback q r chain hc
    (FIND_REQUEST_HANDLER.scan_no_match _ _ _ chain 0 _ hno) hd
  rw [NxRequestQueue.DispatchRequest.fallback_some q r fn hg] at h
  exact ⟨_, h, rfl, rfl, rfl⟩

/-- Witness for C8: a method request for oid 8 with only the global default (400)
registered. -/
theorem C8_dispatch_global_default_witness :
    ∃ trace, (sampleQueue none none none (some 400)).DispatchRequest
        (sampleRequest NdisRequestMethod 8 2 2) = some trace ∧
      trace = [Event.EvtRequestDefault 400 1000 2000 NdisRequestMethod 8 77 2 2] ∧
      countEvents Event.isGlobalDefaultCall trace = 1 ∧
      countEvents Event.isComplete trace = 0 :=
  C8_dispatch_global_default (sampleQueue none none none (some 400))
    (sampleRequest NdisRequestMethod 8 2 2) [⟨9, 301, 2, 2⟩] 400 rfl (by decide) rfl rfl

/-- C9: for a request of a recognised type, when its oid has no node in the category
chain and neither the per-category default nor the global default is registered,
`DispatchRequest` completes the request with `STATUS_NOT_SUPPORTED` and calls no
callback. -/
theorem C9_dispatch_not_supported (q : NxRequestQueue) (r : NxRequest)
    (chain : List NET_REQUEST_QUEUE_HANDLER)
    (hc : specChain q.m_Config r.m_NdisOidRequest.RequestType = some chain)
    (hno : ∀ g ∈ chain, g.Oid ≠ r.m_Oid)
    (hd : specCategoryDefault q.m_Config r.m_NdisOidRequest.RequestType = none)
    (hg : q.m_Config.EvtRequestDefault = none) :
    ∃ trace, q.DispatchRequest r = some trace ∧
      trace = [Event.Complete r.FxObject STATUS_NOT_SUPPORTED] ∧
      countEvents Event.isCallback trace = 0 := by
  have h := NxRequestQueue.DispatchRequest_fallback q r chain hc
    (FIND_REQUEST_HANDLER.scan_no_match _ _ _ chain 0 _ hno) hd
  rw [NxRequestQueue.DispatchRequest.fallback_none q r hg] at h
  exact ⟨_, h, rfl, rfl⟩

/-- Witness for C9: a set-information request for oid 8 on a queue without defaults. -/
theorem C9_dispatch_not_supported_witness :
    ∃ trace, (sampleQueue none none none none).DispatchRequest
        (sampleRequest NdisRequestSetInformation 8 64 64) = some trace ∧
      trace = [Event.Complete 2000 STATUS_NOT_SUPPORTED] ∧
      countEvents Event.isCallback trace = 0 :=
  C9_dispatch_not_supported (sampleQueue none none none none)
    (sampleRequest NdisRequestSetInformation 8 64 64)
    [⟨7, 101, 16, 0⟩, ⟨7, 102, 0, 0⟩, ⟨9, 103, 0, 0⟩] rfl (by decide) rfl rfl

/-- C10: a request whose type is none of set-information, query-information,
query-statistics and method is completed with `STATUS_NOT_SUPPORTED` and no callback is
called, whatever the chains contain and whichever defaults are registered. -/
theorem C10_dispatch_unrecognised_type (q : NxRequestQueue) (r : NxRequest)
    (h1 : r.m_NdisOidRequest.RequestType ≠ NdisRequestSetInformation)
    (h2 : r.m_NdisOidRequest.RequestType ≠ NdisRequestQueryInformation)
    (h3 : r.m_NdisOidRequest.RequestType ≠ NdisRequestQueryStatistics)
    (h4 : r.m_NdisOidRequest.RequestType ≠ NdisRequestMethod) :
    ∃ trace, q.DispatchRequest r = some trace ∧
      trace = [Event.Complete r.FxObject STATUS_NOT_SUPPORTED] ∧
      countEvents Event.isCallback trace = 0 :=
  ⟨_, NxRequestQueue.DispatchRequest_unrecognised q r h1 h2 h3 h4, rfl, rfl⟩

/-- Witness for C10: a request of type 3 (`NdisRequestOpen`) for oid 7, which has nodes
in the set-data chain, on a queue with all four defaults registered. -/
theorem C10_dispatch_unrecognised_type_witness :
    ∃ trace, (sampleQueue (some 401) (some 402) (some 403) (some 400)).DispatchRequest
        (sampleRequest 3 7 64 64) = some trace ∧
      trace = [Event.Complete 2000 STATUS_NOT_SUPPORTED] ∧
      countEvents Event.isCallback trace = 0 :=
  C10_dispatch_unrecognised_type (sampleQueue (some 401) (some 402) (some 403) (some 400))
    (sampleRequest 3 7 64 64) (by decide) (by decide) (by decide) (by decide)

/-! ## Lemmas on cancellation -/

theorem cancelled_append (a b : List QueueEvent) :
    cancelled (a ++ b) = cancelled a ++ cancelled b := by
  induction a with
  | nil => rfl
  | cons e rest ih => cases e <;> simp [cancelled, ih]

/-- The first loop of `CancelRequests`, in closed form. -/
theorem NxRequestQueue.CancelRequests.mark_eq (RequestId : Nat)
    (requests : List NxRequestObject) :
    NxRequestQueue.CancelRequests.mark RequestId requests =
      (requests.map (fun r => if toCancel RequestId r = true then
          { r with m_CancellationStarted := true, m_CancelTempListEntry := true } else r),
        (requests.filter (toCancel RequestId)).map NxRequestObject.GetFxObject,
        (requests.filter (toCancel RequestId)).map
          (fun r => QueueEvent.WdfObjectReferenceWithTag r.GetFxObject)) := by
  induction requests with
  | nil => rfl
  | cons r rest ih =>
    simp only [NxRequestQueue.CancelRequests.mark, ih]
    by_cases hid : r.Request.m_NdisOidRequest.RequestId = RequestId
    · cases hs : r.m_CancellationStarted
      · have ht : toCancel RequestId r = true := by simp [toCancel, hid, hs]
        simp [hid, hs, ht, List.filter_cons]
      · have ht : toCancel RequestId r = false := by simp [toCancel, hs]
        simp [hid, hs, ht, List.filter_cons]
    · have ht : toCancel RequestId r = false := by simp [toCancel, hid]
      simp [hid, ht, List.filter_cons]

/-- Clearing the cancel link keeps the length of the list. -/
theorem clearCancelTempListEntry_map_started (h : Nat) (requests : List NxRequestObject) :
    (clearCancelTempListEntry h requests).map (fun r => r.m_CancellationStarted) =
      requests.map (fun r => r.m_CancellationStarted) := by
  induction requests with
  | nil => rfl
  | cons r rest ih =>
    simp only [clearCancelTempListEntry, List.map_cons, List.map_map] at ih ⊢
    by_cases hh : r.GetFxObject = h <;> simp [hh, ih]

theorem clearCancelTempListEntry_map_Request (h : Nat) (requests : List NxRequestObject) :
    (clearCancelTempListEntry h requests).map (fun r => r.Request) =
      requests.map (fun r => r.Request) := by
  induction requests with
  | nil => rfl
  | cons r rest ih =>
    simp only [clearCancelTempListEntry, List.map_cons, List.map_map] at ih ⊢
    by_cases hh : r.GetFxObject = h <;> simp [hh, ih]

/-- The second loop of `CancelRequests`: it empties `tmpCancelList`, calls `Cancel` once
per handle in order, and leaves request ids, handles and cancellation flags alone. -/
theorem NxRequestQueue.CancelRequests.cancelAll_spec (tmp : List Nat)
    (requests : List NxRequestObject) :
    (NxRequestQueue.CancelRequests.cancelAll tmp requests).2.1 = [] ∧
      cancelled (NxRequestQueue.CancelRequests.cancelAll tmp requests).2.2 = tmp ∧
      (NxRequestQueue.CancelRequests.cancelAll tmp requests).1.map
          (fun r => r.m_CancellationStarted) =
        requests.map (fun r => r.m_CancellationStarted) ∧
      (NxRequestQueue.CancelRequests.cancelAll tmp requests).1.map (fun r => r.Request) =
        requests.map (fun r => r.Request) := by
  induction tmp generalizing requests with
  | nil => exact ⟨rfl, rfl, rfl, rfl⟩
  | cons h next ih =>
    obtain ⟨i1, i2, i3, i4⟩ := ih (clearCancelTempListEntry h requests)
    simp only [NxRequestQueue.CancelRequests.cancelAll]
    refine ⟨i1, ?_, ?_, ?_⟩
    · simp [cancelled, i2]
    · rw [i3, clearCancelTempListEntry_map_started]
    · rw [i4, clearCancelTempListEntry_map_Request]

theorem cancelled_map_reference (requests : List NxRequestObject) :
    cancelled (requests.map
      (fun r => QueueEvent.WdfObjectReferenceWithTag r.GetFxObject)) = [] := by
  induction requests with
  | nil => rfl
  | cons r rest ih => simp [cancelled, ih]

/-- The calls of `Cancel` made by `CancelRequests` and the flags it leaves. -/
theorem NxRequestQueue.CancelRequests_spec (requests : List NxRequestObject)
    (RequestId : Nat) :
    cancelled (NxRequestQueue.CancelRequests requests RequestId).Trace =
        (requests.filter (toCancel RequestId)).map NxRequestObject.GetFxObject ∧
      (NxRequestQueue.CancelRequests requests RequestId).m_RequestsListHead.map
          (fun r => r.m_CancellationStarted) =
        requests.map (fun r => r.m_CancellationStarted || toCancel RequestId r) ∧
      (NxRequestQueue.CancelRequests requests RequestId).m_RequestsListHead.map
          (fun r => r.Request) = requests.map (fun r => r.Request) ∧
      (NxRequestQueue.CancelRequests requests RequestId).tmpCancelList = [] := by
  simp only [NxRequestQueue.CancelRequests, NxRequestQueue.CancelRequests.mark_eq]
  obtain ⟨i1, i2, i3, i4⟩ := NxRequestQueue.CancelRequests.cancelAll_spec
    ((requests.filter (toCancel RequestId)).map NxRequestObject.GetFxObject)
    (requests.map (fun r => if toCancel RequestId r = true then
      { r with m_CancellationStarted := true, m_CancelTempListEntry := true } else r))
  refine ⟨?_, ?_, ?_, i1⟩
  · rw [show ∀ (a : QueueEvent) (l1 l2 : List QueueEvent), a :: l1 ++ l2 = [a] ++ (l1 ++ l2)
        from fun _ _ _ => rfl, cancelled_append, cancelled_append, cancelled_map_reference]
    simp [cancelled, i2]
  · rw [i3, List.map_map]
    apply List.map_congr_left
    intro r _
    by_cases hc : toCancel RequestId r = true
    · simp [hc]
    · simp only [Bool.not_eq_true] at hc
      simp [hc]
  · rw [i4, List.map_map]
    apply List.map_congr_left
    intro r _
    by_cases hc : toCancel RequestId r = true <;> simp [hc]

/-- With pairwise distinct handles, the handles of the members selected by `p` hold each
selected member once and no other member. -/
theorem filter_handles_count (requests : List NxRequestObject)
    (p : NxRequestObject → Bool)
    (hnodup : (requests.map NxRequestObject.GetFxObject).Nodup) :
    (∀ r ∈ requests, p r = true →
        ((requests.filter p).map NxRequestObject.GetFxObject).count r.GetFxObject = 1) ∧
      (∀ r ∈ requests, p r = false →
        r.GetFxObject ∉ (requests.filter p).map NxRequestObject.GetFxObject) := by
  have hsub : ((requests.filter p).map NxRequestObject.GetFxObject).Nodup :=
    hnodup.sublist (List.Sublist.map _ (List.filter_sublist _))
  constructor
  · intro r hr hp
    exact List.count_eq_one_of_mem hsub
      (List.mem_map.mpr ⟨r, List.mem_filter.mpr ⟨hr, hp⟩, rfl⟩)
  · intro r hr hp hmem
    obtain ⟨r2, hr2, heq⟩ := List.mem_map.mp hmem
    obtain ⟨hr2mem, hp2⟩ := List.mem_filter.mp hr2
    have : r2 = r := List.inj_on_of_nodup_map hnodup hr2mem hr heq
    rw [this, hp] at hp2
    exact absurd hp2 (by simp)

/-- After a call of `CancelRequests(RequestId)` no member is left to cancel for that
identifier. -/
theorem toCancel_false_of_marked (RequestId : Nat) (before after : List NxRequestObject)
    (hreq : after.map (fun r => r.Request) = before.map (fun r => r.Request))
    (hflag : after.map (fun r => r.m_CancellationStarted) =
      before.map (fun r => r.m_CancellationStarted || toCancel RequestId r)) :
    ∀ r ∈ after, toCancel RequestId r = false := by
  induction before generalizing after with
  | nil =>
    intro r hr
    have : after = [] := by simpa using hreq
    rw [this] at hr
    exact absurd hr (List.not_mem_nil r)
  | cons b rest ih =>
    cases after with
    | nil => intro r hr; exact absurd hr (List.not_mem_nil r)
    | cons a arest =>
      simp only [List.map_cons, List.cons.injEq] at hreq hflag
      intro r hr
      rcases List.mem_cons.mp hr with hra | hrr
      · subst hra
        have h1 := hreq.1
        have h2 := hflag.1
        unfold toCancel at h2 ⊢
        rw [h1, h2]
        cases b.m_CancellationStarted <;>
          cases (b.Request.m_NdisOidRequest.RequestId == RequestId) <;> rfl
      · exact ih arest hreq.2 hflag.2 r hrr

/-! ## Claims on cancellation -/

/-- C11: `CancelRequests(id)` calls `Cancel` once on each request of the in-flight list
whose `RequestId` equals `id` and whose `m_CancellationStarted` was not set at the start
of the call, in list order, and on no other request; afterwards the flag is set on those
requests and unchanged on every other one. -/
theorem C11_cancel_requests_exactly_eligible (requests : List NxRequestObject)
    (RequestId : Nat)
    (hnodup : (requests.map NxRequestObject.GetFxObject).Nodup) :
    cancelled (NxRequestQueue.CancelRequests requests RequestId).Trace =
        (requests.filter (toCancel RequestId)).map NxRequestObject.GetFxObject ∧
      (∀ r ∈ requests, toCancel RequestId r = true →
        (cancelled (NxRequestQueue.CancelRequests requests RequestId).Trace).count
          r.GetFxObject = 1) ∧
      (∀ r ∈ requests, toCancel RequestId r = false →
        r.GetFxObject ∉ cancelled (NxRequestQueue.CancelRequests requests RequestId).Trace) ∧
      (NxRequestQueue.CancelRequests requests RequestId).m_RequestsListHead.map
          (fun r => r.m_CancellationStarted) =
        requests.map (fun r => r.m_CancellationStarted || toCancel RequestId r) ∧
      (NxRequestQueue.CancelRequests requests RequestId).m_RequestsListHead.map
          (fun r => r.Request) = requests.map (fun r => r.Request) := by
  obtain ⟨h1, h2, h3, _⟩ := NxRequestQueue.CancelRequests_spec requests RequestId
  obtain ⟨c1, c2⟩ := filter_handles_count requests (toCancel RequestId) hnodup
  rw [h1]
  exact ⟨rfl, c1, c2, h2, h3⟩

/-- Witness for C11: four requests in flight; 2000 and 2003 carry id 1 and are not being
cancelled, 2001 carries id 2, 2002 carries id 1 and is already being cancelled. -/
theorem C11_cancel_requests_exactly_eligible_witness :
    cancelled (NxRequestQueue.CancelRequests [sampleObject 2000 1 false,
        sampleObject 2001 2 false, sampleObject 2002 1 true, sampleObject 2003 1 false]
        1).Trace = [2000, 2003] ∧
      (NxRequestQueue.CancelRequests [sampleObject 2000 1 false,
        sampleObject 2001 2 false, sampleObject 2002 1 true, sampleObject 2003 1 false]
        1).m_RequestsListHead.map (fun r => r.m_CancellationStarted) =
        [true, false, true, true] :=
  ⟨(C11_cancel_requests_exactly_eligible [sampleObject 2000 1 false,
      sampleObject 2001 2 false, sampleObject 2002 1 true, sampleObject 2003 1 false] 1
      (by decide)).1,
    (C11_cancel_requests_exactly_eligible [sampleObject 2000 1 false,
      sampleObject 2001 2 false, sampleObject 2002 1 true, sampleObject 2003 1 false] 1
      (by decide)).2.2.2.1⟩

/-- C12, as stated, fails: a request that carries the identifier and whose cancellation
had started before the first of the two calls is a matching request, and the two calls
call `Cancel` on it zero times, not once. -/
theorem C12_counterexample :
    ¬ (∀ r ∈ [sampleObject 2000 1 true], r.Request.m_NdisOidRequest.RequestId = 1 →
      (cancelledByTwoCalls [sampleObject 2000 1 true] 1).count r.GetFxObject = 1) := by
  decide

/-- C12, amended: two successive calls `CancelRequests(id); CancelRequests(id)` call
`Cancel` once in total on each request that carries `id` and whose cancellation had not
started before the first call, and on no other request; the second call calls `Cancel`
on no request. -/
theorem C12_cancel_twice_once_in_total (requests : List NxRequestObject)
    (RequestId : Nat)
    (hnodup : (requests.map NxRequestObject.GetFxObject).Nodup) :
    cancelled (NxRequestQueue.CancelRequests
        (NxRequestQueue.CancelRequests requests RequestId).m_RequestsListHead
        RequestId).Trace = [] ∧
      cancelledByTwoCalls requests RequestId =
        (requests.filter (toCancel RequestId)).map NxRequestObject.GetFxObject ∧
      (∀ r ∈ requests, toCancel RequestId r = true →
        (cancelledByTwoCalls requests RequestId).count r.GetFxObject = 1) ∧
      (∀ r ∈ requests, toCancel RequestId r = false →
        r.GetFxObject ∉ cancelledByTwoCalls requests RequestId) := by
  obtain ⟨h1, h2, h3, _⟩ := NxRequestQueue.CancelRequests_spec requests RequestId
  obtain ⟨g1, _, _, _⟩ := NxRequestQueue.CancelRequests_spec
    (NxRequestQueue.CancelRequests requests RequestId).m_RequestsListHead RequestId
  have hnone := toCancel_false_of_marked RequestId requests _ h3 h2
  have hsecond : cancelled (NxRequestQueue.CancelRequests
      (NxRequestQueue.CancelRequests requests RequestId).m_RequestsListHead
      RequestId).Trace = [] := by
    rw [g1, List.filter_eq_nil_iff.mpr (fun r hr => by simp [hnone r hr])]
    rfl
  have htotal : cancelledByTwoCalls requests RequestId =
      (requests.filter (toCancel RequestId)).map NxRequestObject.GetFxObject := by
    rw [cancelledByTwoCalls, cancelled_append, hsecond, h1, List.append_nil]
  obtain ⟨c1, c2⟩ := filter_handles_count requests (toCancel RequestId) hnodup
  rw [htotal]
  exact ⟨hsecond, rfl, c1, c2⟩

/-- Witness for C12: the second call cancels nothing, the two calls together cancel
2000 and 2003 once each. -/
theorem C12_cancel_twice_once_in_total_witness :
    cancelled (NxRequestQueue.CancelRequests
        (NxRequestQueue.CancelRequests [sampleObject 2000 1 false,
          sampleObject 2001 2 false, sampleObject 2002 1 true, sampleObject 2003 1 false]
          1).m_RequestsListHead 1).Trace = [] ∧
      cancelledByTwoCalls [sampleObject 2000 1 false, sampleObject 2001 2 false,
        sampleObject 2002 1 true, sampleObject 2003 1 false] 1 = [2000, 2003] :=
  ⟨(C12_cancel_twice_once_in_total [sampleObject 2000 1 false,
      sampleObject 2001 2 false, sampleObject 2002 1 true, sampleObject 2003 1 false] 1
      (by decide)).1,
    (C12_cancel_twice_once_in_total [sampleObject 2000 1 false,
      sampleObject 2001 2 false, sampleObject 2002 1 true, sampleObject 2003 1 false] 1
      (by decide)).2.1⟩

/-! ## Lemmas on admission and disconnection -/

/-- A call of `DispatchRequest` makes exactly one call. -/
theorem NxRequestQueue.DispatchRequest_single (q : NxRequestQueue) (r : NxRequest) :
    ∃ e, q.DispatchRequest r = some [e] := by
  rcases NxRequestQueue.DispatchRequest_cases q r with
    ⟨_, _, _, _, _, h⟩ | ⟨_, _, h⟩ | ⟨_, _, _, h⟩ | ⟨_, _, _, h⟩ | h <;> exact ⟨_, h⟩

/-- Calls of `DispatchRequest` do not change the in-flight list. -/
theorem inFlightAfter_of_dispatch (handles : List Nat) (trace : List QueueEvent)
    (h : ∀ e ∈ trace, e.isDispatch = true) : inFlightAfter handles trace = handles := by
  induction trace generalizing handles with
  | nil => rfl
  | cons e rest ih =>
    have he := h e (List.mem_cons_self _ _)
    have hrest := ih handles (fun x hx => h x (List.mem_cons_of_mem _ hx))
    cases e <;> simp_all [inFlightAfter, QueueEvent.isDispatch]

/-- Calls of `DispatchRequest` made with the lock not held keep the discipline and leave
the lock not held. -/
theorem lockDiscipline_of_dispatch (trace : List QueueEvent)
    (h : ∀ e ∈ trace, e.isDispatch = true) :
    lockDiscipline.go false trace = true ∧ lockHeldAfter false trace = false := by
  induction trace with
  | nil => exact ⟨rfl, rfl⟩
  | cons e rest ih =>
    have he := h e (List.mem_cons_self _ _)
    have hrest := ih (fun x hx => h x (List.mem_cons_of_mem _ hx))
    cases e <;> simp_all [lockDiscipline.go, lockHeldAfter, QueueEvent.isDispatch]

theorem isDispatch_of_mem_map (calls : List Event) :
    ∀ e ∈ calls.map QueueEvent.Dispatch, e.isDispatch = true := by
  intro e he
  obtain ⟨c, _, hc⟩ := List.mem_map.mp he
  rw [← hc]
  rfl

/-- Taking references under the lock keeps the discipline. -/
theorem lockDiscipline_references (requests : List NxRequestObject)
    (rest : List QueueEvent) :
    lockDiscipline.go true (requests.map
        (fun r => QueueEvent.WdfObjectReferenceWithTag r.GetFxObject) ++ rest) =
      lockDiscipline.go true rest ∧
    lockHeldAfter true (requests.map
        (fun r => QueueEvent.WdfObjectReferenceWithTag r.GetFxObject) ++ rest) =
      lockHeldAfter true rest := by
  induction requests with
  | nil => exact ⟨rfl, rfl⟩
  | cons r tl ih =>
    simp [lockDiscipline.go, lockHeldAfter, QueueEvent.isClientVisible, ih.1, ih.2]

/-- The trace of the second loop of `CancelRequests` neither takes nor drops the lock. -/
theorem NxRequestQueue.CancelRequests.cancelAll_lock (tmp : List Nat)
    (requests : List NxRequestObject) :
    lockDiscipline.go false (NxRequestQueue.CancelRequests.cancelAll tmp requests).2.2 =
        true ∧
      lockHeldAfter false (NxRequestQueue.CancelRequests.cancelAll tmp requests).2.2 =
        false := by
  induction tmp generalizing requests with
  | nil => exact ⟨rfl, rfl⟩
  | cons h next ih =>
    obtain ⟨i1, i2⟩ := ih (clearCancelTempListEntry h requests)
    simp [NxRequestQueue.CancelRequests.cancelAll, lockDiscipline.go, lockHeldAfter, i1, i2]

/-- Lookup and removal by handle in a list whose handles are pairwise distinct. -/
theorem find_erase_of_split (l1 l2 : List NxRequestObject) (r : NxRequestObject)
    (h1 : ∀ x ∈ l1, x.GetFxObject ≠ r.GetFxObject) :
    (l1 ++ r :: l2).find? (fun x => x.GetFxObject == r.GetFxObject) = some r ∧
      (l1 ++ r :: l2).eraseP (fun x => x.GetFxObject == r.GetFxObject) = l1 ++ l2 := by
  induction l1 with
  | nil => simp
  | cons a tl ih =>
    have ha : a.GetFxObject ≠ r.GetFxObject := h1 a (List.mem_cons_self _ _)
    obtain ⟨i1, i2⟩ := ih (fun x hx => h1 x (List.mem_cons_of_mem _ hx))
    have hb : (a.GetFxObject == r.GetFxObject) = false := by simpa using ha
    constructor
    · simp only [List.cons_append, List.find?_cons, hb, i1]
    · simp only [List.cons_append, List.eraseP_cons, hb, i2, cond_false]

/-! ## Claims on admission, disconnection and the lock -/

/-- C13: when `NxRequest::_Create` returns a failure status, `QueueNdisOidRequest`
completes the raw request once, with that status converted to an NDIS status, leaves the
in-flight list unchanged and makes no call of `DispatchRequest`. -/
theorem C13_queue_create_failure_completes_raw (q : NxRequestQueue)
    (m_NdisAdapterHandle : Nat) (NdisConvertNtStatusToNdisStatus : NTSTATUS → Nat)
    (Create : NDIS_OID_REQUEST → NTSTATUS × NxRequestObject)
    (requests : List NxRequestObject) (NdisOidRequest : NDIS_OID_REQUEST)
    (hfail : NT_SUCCESS (Create NdisOidRequest).1 = false) :
    ∃ res, q.QueueNdisOidRequest m_NdisAdapterHandle NdisConvertNtStatusToNdisStatus Create
        requests NdisOidRequest = some res ∧
      res.m_RequestsListHead = requests ∧
      res.Trace = [QueueEvent.NdisMOidRequestComplete m_NdisAdapterHandle NdisOidRequest
        (NdisConvertNtStatusToNdisStatus (Create NdisOidRequest).1)] ∧
      ∀ e ∈ res.Trace, e.isDispatch = false := by
  refine ⟨⟨requests, [QueueEvent.NdisMOidRequestComplete m_NdisAdapterHandle NdisOidRequest
    (NdisConvertNtStatusToNdisStatus (Create NdisOidRequest).1)]⟩, ?_, rfl, rfl, ?_⟩
  · simp [NxRequestQueue.QueueNdisOidRequest, hfail]
  · intro e he
    rw [List.mem_singleton] at he
    rw [he]
    rfl

/-- Witness for C13: `sampleCreate` fails on a raw request with id 0; the raw request is
completed with the converted `STATUS_NOT_SUPPORTED` and the in-flight list is as before. -/
theorem C13_queue_create_failure_completes_raw_witness :
    ∃ res, (sampleQueue none none none (some 400)).QueueNdisOidRequest 500 sampleConvert
        sampleCreate [sampleObject 2001 2 false] ⟨NdisRequestSetInformation, 0⟩ = some res ∧
      res.m_RequestsListHead = [sampleObject 2001 2 false] ∧
      res.Trace = [QueueEvent.NdisMOidRequestComplete 500 ⟨NdisRequestSetInformation, 0⟩
        (sampleConvert (sampleCreate ⟨NdisRequestSetInformation, 0⟩).1)] ∧
      ∀ e ∈ res.Trace, e.isDispatch = false :=
  C13_queue_create_failure_completes_raw (sampleQueue none none none (some 400)) 500
    sampleConvert sampleCreate [sampleObject 2001 2 false] ⟨NdisRequestSetInformation, 0⟩
    (by decide)

/-- C14: when `NxRequest::_Create` succeeds, `QueueNdisOidRequest` links the new request
at the tail of the in-flight list, the earlier members staying in place, and then makes
the calls of one `DispatchRequest` on it (a single call); whenever such a call is made,
the request is linked in the in-flight list and the lock is not held. -/
theorem C14_queue_inserts_then_dispatches (q : NxRequestQueue)
    (m_NdisAdapterHandle : Nat) (NdisConvertNtStatusToNdisStatus : NTSTATUS → Nat)
    (Create : NDIS_OID_REQUEST → NTSTATUS × NxRequestObject)
    (requests : List NxRequestObject) (NdisOidRequest : NDIS_OID_REQUEST)
    (hok : NT_SUCCESS (Create NdisOidRequest).1 = true) :
    ∃ res call, q.DispatchRequest (Create NdisOidRequest).2.Request = some [call] ∧
      q.QueueNdisOidRequest m_NdisAdapterHandle NdisConvertNtStatusToNdisStatus Create
        requests NdisOidRequest = some res ∧
      res.m_RequestsListHead = requests ++
        [{ (Create NdisOidRequest).2 with
            m_QueueListEntry := true, m_NxQueue := some q.FxObject }] ∧
      res.Trace = [QueueEvent.KeAcquireSpinLock,
        QueueEvent.InsertTailList (Create NdisOidRequest).2.GetFxObject,
        QueueEvent.KeReleaseSpinLock, QueueEvent.Dispatch call] ∧
      (∀ pre c post, res.Trace = pre ++ QueueEvent.Dispatch c :: post →
        (Create NdisOidRequest).2.GetFxObject ∈
            inFlightAfter (requests.map NxRequestObject.GetFxObject) pre ∧
          lockHeldAfter false pre = false) ∧
      inFlightAfter (requests.map NxRequestObject.GetFxObject) res.Trace =
        res.m_RequestsListHead.map NxRequestObject.GetFxObject := by
  obtain ⟨call, hcall⟩ := NxRequestQueue.DispatchRequest_single q
    (Create NdisOidRequest).2.Request
  refine ⟨⟨requests ++ [{ (Create NdisOidRequest).2 with
      m_QueueListEntry := true, m_NxQueue := some q.FxObject }],
    [QueueEvent.KeAcquireSpinLock,
      QueueEvent.InsertTailList (Create NdisOidRequest).2.GetFxObject,
      QueueEvent.KeReleaseSpinLock, QueueEvent.Dispatch call]⟩, call, hcall, ?_, rfl, rfl,
    ?_, ?_⟩
  · simp [NxRequestQueue.QueueNdisOidRequest, hok, hcall]
  · intro pre c post hsplit
    rcases pre with _ | ⟨a, _ | ⟨b, _ | ⟨d, _ | ⟨e, tl⟩⟩⟩⟩
    · simp at hsplit
    · simp at hsplit
    · simp at hsplit
    · simp only [List.cons_append, List.nil_append, List.cons.injEq] at hsplit
      obtain ⟨ha, hb, hd, _⟩ := hsplit
      subst ha hb hd
      simp [inFlightAfter, lockHeldAfter]
    · simp only [List.cons_append, List.cons.injEq] at hsplit
      obtain ⟨_, _, _, _, htl⟩ := hsplit
      simp at htl
  · simp [inFlightAfter, NxRequestObject.GetFxObject]

/-- Witness for C14: `sampleCreate` wraps a set-information request with id 5; the new
object 2000 is linked behind 2001 and the set-data handler for oid 9 is called. -/
theorem C14_queue_inserts_then_dispatches_witness :
    ∃ res call, (sampleQueue none none none (some 400)).DispatchRequest
        (sampleCreate ⟨NdisRequestSetInformation, 5⟩).2.Request = some [call] ∧
      (sampleQueue none none none (some 400)).QueueNdisOidRequest 500 sampleConvert
        sampleCreate [sampleObject 2001 2 false] ⟨NdisRequestSetInformation, 5⟩ = some res ∧
      res.m_RequestsListHead = [sampleObject 2001 2 false] ++
        [{ (sampleCreate ⟨NdisRequestSetInformation, 5⟩).2 with
            m_QueueListEntry := true, m_NxQueue := some 1000 }] ∧
      res.Trace = [QueueEvent.KeAcquireSpinLock, QueueEvent.InsertTailList 2000,
        QueueEvent.KeReleaseSpinLock, QueueEvent.Dispatch call] ∧
      (∀ pre c post, res.Trace = pre ++ QueueEvent.Dispatch c :: post →
        2000 ∈ inFlightAfter [2001] pre ∧ lockHeldAfter false pre = false) ∧
      inFlightAfter [2001] res.Trace =
        res.m_RequestsListHead.map NxRequestObject.GetFxObject :=
  C14_queue_inserts_then_dispatches (sampleQueue none none none (some 400)) 500
    sampleConvert sampleCreate [sampleObject 2001 2 false] ⟨NdisRequestSetInformation, 5⟩
    (by decide)

/-- C15: for an in-flight list that contains request `r`, `DisconnectRequest(r)` removes
`r` and nothing else: `r` is no longer in the list, the other members keep their order,
the list links of `r` are NULL and its queue pointer is NULL. -/
theorem C15_disconnect_removes_exactly_r (requests : List NxRequestObject)
    (r : NxRequestObject) (hmem : r ∈ requests)
    (hnodup : (requests.map NxRequestObject.GetFxObject).Nodup) :
    ∃ res before after, NxRequestQueue.DisconnectRequest requests r.GetFxObject = some res ∧
      requests = before ++ r :: after ∧
      res.m_RequestsListHead = before ++ after ∧
      (∀ x ∈ res.m_RequestsListHead, x.GetFxObject ≠ r.GetFxObject) ∧
      res.NxRequest = { r with m_QueueListEntry := false, m_NxQueue := none } ∧
      res.NxRequest.m_QueueListEntry = false ∧ res.NxRequest.m_NxQueue = none := by
  obtain ⟨before, after, hsplit⟩ := List.append_of_mem hmem
  subst hsplit
  rw [List.map_append, List.map_cons] at hnodup
  have hdisj : ∀ x ∈ before ++ after, x.GetFxObject ≠ r.GetFxObject := by
    intro x hx heq
    rcases List.mem_append.mp hx with hb | ha
    · have h1 : r.GetFxObject ∈ before.map NxRequestObject.GetFxObject :=
        List.mem_map.mpr ⟨x, hb, heq⟩
      exact (List.nodup_append.mp hnodup).2.2 h1 (List.mem_cons_self _ _)
    · have h2 : r.GetFxObject ∈ after.map NxRequestObject.GetFxObject :=
        List.mem_map.mpr ⟨x, ha, heq⟩
      exact (List.nodup_cons.mp (List.nodup_append.mp hnodup).2.1).1 h2
  obtain ⟨hfind, herase⟩ := find_erase_of_split before after r
    (fun x hx => hdisj x (List.mem_append_left _ hx))
  refine ⟨⟨before ++ after, { r with m_QueueListEntry := false, m_NxQueue := none },
    [QueueEvent.KeAcquireSpinLock, QueueEvent.RemoveEntryList r.GetFxObject,
      QueueEvent.KeReleaseSpinLock]⟩, before, after, ?_, rfl, rfl, hdisj, rfl, rfl, rfl⟩
  simp only [NxRequestQueue.DisconnectRequest, hfind, herase]

/-- Witness for C15: request 2001 is disconnected from an in-flight list of three. -/
theorem C15_disconnect_removes_exactly_r_witness :
    ∃ res before after,
      NxRequestQueue.DisconnectRequest [sampleObject 2000 1 false, sampleObject 2001 2 false,
        sampleObject 2002 1 true] (sampleObject 2001 2 false).GetFxObject = some res ∧
      [sampleObject 2000 1 false, sampleObject 2001 2 false, sampleObject 2002 1 true] =
        before ++ sampleObject 2001 2 false :: after ∧
      res.m_RequestsListHead = before ++ after ∧
      (∀ x ∈ res.m_RequestsListHead, x.GetFxObject ≠ (sampleObject 2001 2 false).GetFxObject) ∧
      res.NxRequest =
        { sampleObject 2001 2 false with m_QueueListEntry := false, m_NxQueue := none } ∧
      res.NxRequest.m_QueueListEntry = false ∧ res.NxRequest.m_NxQueue = none :=
  C15_disconnect_removes_exactly_r [sampleObject 2000 1 false, sampleObject 2001 2 false,
    sampleObject 2002 1 true] (sampleObject 2001 2 false) (by decide) (by decide)

/-- C16: in the traces of `QueueNdisOidRequest`, `DisconnectRequest` and
`CancelRequests`, no client-visible call (chain handler, default callback, completion,
`Cancel`) is made between an acquire of the in-flight list lock and its release, and
the lock is not held when the routine returns. -/
theorem C16_no_client_call_under_lock (q : NxRequestQueue)
    (m_NdisAdapterHandle : Nat) (NdisConvertNtStatusToNdisStatus : NTSTATUS → Nat)
    (Create : NDIS_OID_REQUEST → NTSTATUS × NxRequestObject)
    (requests : List NxRequestObject) (NdisOidRequest : NDIS_OID_REQUEST)
    (NxRequest RequestId : Nat) :
    (∃ res, q.QueueNdisOidRequest m_NdisAdapterHandle NdisConvertNtStatusToNdisStatus
        Create requests NdisOidRequest = some res ∧
      lockDiscipline res.Trace = true ∧ lockHeldAfter false res.Trace = false) ∧
    (∀ res, NxRequestQueue.DisconnectRequest requests NxRequest = some res →
      lockDiscipline res.Trace = true ∧ lockHeldAfter false res.Trace = false) ∧
    lockDiscipline (NxRequestQueue.CancelRequests requests RequestId).Trace = true ∧
    lockHeldAfter false (NxRequestQueue.CancelRequests requests RequestId).Trace = false := by
  refine ⟨?_, ?_, ?_⟩
  · cases hs : NT_SUCCESS (Create NdisOidRequest).1 with
    | false =>
      exact ⟨⟨requests, [QueueEvent.NdisMOidRequestComplete m_NdisAdapterHandle
          NdisOidRequest (NdisConvertNtStatusToNdisStatus (Create NdisOidRequest).1)]⟩,
        by simp [NxRequestQueue.QueueNdisOidRequest, hs], rfl, rfl⟩
    | true =>
      obtain ⟨call, hcall⟩ := NxRequestQueue.DispatchRequest_single q
        (Create NdisOidRequest).2.Request
      exact ⟨⟨requests ++ [{ (Create NdisOidRequest).2 with
            m_QueueListEntry := true, m_NxQueue := some q.FxObject }],
          [QueueEvent.KeAcquireSpinLock,
            QueueEvent.InsertTailList (Create NdisOidRequest).2.GetFxObject,
            QueueEvent.KeReleaseSpinLock, QueueEvent.Dispatch call]⟩,
        by simp [NxRequestQueue.QueueNdisOidRequest, hs, hcall], rfl, rfl⟩
  · intro res hres
    unfold NxRequestQueue.DisconnectRequest at hres
    split at hres
    · exact absurd hres (by simp)
    · simp only [Option.some.injEq] at hres
      subst hres
      exact ⟨rfl, rfl⟩
  · simp only [NxRequestQueue.CancelRequests, NxRequestQueue.CancelRequests.mark_eq,
      lockDiscipline]
    obtain ⟨c1, c2⟩ := NxRequestQueue.CancelRequests.cancelAll_lock
      ((requests.filter (toCancel RequestId)).map NxRequestObject.GetFxObject)
      (requests.map (fun r => if toCancel RequestId r = true then
        { r with m_CancellationStarted := true, m_CancelTempListEntry := true } else r))
    obtain ⟨r1, r2⟩ := lockDiscipline_references (requests.filter (toCancel RequestId))
      (QueueEvent.KeReleaseSpinLock ::
        (NxRequestQueue.CancelRequests.cancelAll
          ((requests.filter (toCancel RequestId)).map NxRequestObject.GetFxObject)
          (requests.map (fun r => if toCancel RequestId r = true then
            { r with m_CancellationStarted := true, m_CancelTempListEntry := true }
            else r))).2.2)
    constructor
    · rw [List.cons_append, lockDiscipline.go, r1, lockDiscipline.go, c1]
      rfl
    · rw [List.cons_append, lockHeldAfter, r2, lockHeldAfter, c2]

/-- Witness for C16: cancellation of id 1 on an in-flight list of three; both requests
are cancelled after the lock is released. -/
theorem C16_no_client_call_under_lock_witness :
    lockDiscipline (NxRequestQueue.CancelRequests [sampleObject 2000 1 false,
        sampleObject 2001 2 false, sampleObject 2003 1 false] 1).Trace = true ∧
      lockHeldAfter false (NxRequestQueue.CancelRequests [sampleObject 2000 1 false,
        sampleObject 2001 2 false, sampleObject 2003 1 false] 1).Trace = false :=
  (C16_no_client_call_under_lock (sampleQueue none none none (some 400)) 500 sampleConvert
    sampleCreate [sampleObject 2000 1 false, sampleObject 2001 2 false,
      sampleObject 2003 1 false] ⟨NdisRequestSetInformation, 5⟩ 2001 1).2.2

/-! ## Lemmas on the power policy -/

theorem lor_eq_zero_iff (a b : Nat) : a ||| b = 0 ↔ a = 0 ∧ b = 0 := by
  constructor
  · intro h
    have hbits : ∀ i, a.testBit i = false ∧ b.testBit i = false := by
      intro i
      have hi : (a ||| b).testBit i = false := by rw [h]; exact Nat.zero_testBit i
      rw [Nat.testBit_or, Bool.or_eq_false_iff] at hi
      exact hi
    exact ⟨Nat.eq_of_testBit_eq (fun i => by rw [(hbits i).1, Nat.zero_testBit]),
      Nat.eq_of_testBit_eq (fun i => by rw [(hbits i).2, Nat.zero_testBit])⟩
  · rintro ⟨ha, hb⟩
    rw [ha, hb]
    rfl

/-- A value meets the union of two masks when it meets one of them. -/
theorem testMask_lor (Value a b : Nat) :
    testMask Value (a ||| b) = (testMask Value a || testMask Value b) := by
  unfold testMask
  rw [Nat.and_or_distrib_left]
  by_cases ha : Value &&& a = 0 <;> by_cases hb : Value &&& b = 0 <;>
    simp [lor_eq_zero_iff, ha, hb]

/-- The enabled flag written by `UpdatePatternEntryEnabledField` is the one that the
entry type and the snapshot give. -/
theorem NxPowerPolicy.UpdatePatternEntryEnabledField_ok (K : NdisConstants)
    (p : NxPowerPolicy) (e : NxWakePattern) :
    ((p.UpdatePatternEntryEnabledField K e).GetType = .NetWakeSourceTypeBitmapPattern →
      (p.UpdatePatternEntryEnabledField K e).IsEnabled =
        testMask p.m_PMParameters.EnabledWoLPacketPatterns
          K.NDIS_PM_WOL_BITMAP_PATTERN_ENABLED) ∧
    ((p.UpdatePatternEntryEnabledField K e).GetType = .NetWakeSourceTypeMagicPacket →
      (p.UpdatePatternEntryEnabledField K e).IsEnabled =
        testMask p.m_PMParameters.EnabledWoLPacketPatterns
          K.NDIS_PM_WOL_MAGIC_PACKET_ENABLED) := by
  unfold NxPowerPolicy.UpdatePatternEntryEnabledField
  constructor <;> intro h <;> simp only at h <;> simp only [h]

/-- The enabled flag written by `UpdateProtocolOffloadEntryEnabledField` is the one that
the entry type and the snapshot give. -/
theorem NxPowerPolicy.UpdateProtocolOffloadEntryEnabledField_ok (K : NdisConstants)
    (p : NxPowerPolicy) (e : NxPowerOffload) :
    ((p.UpdateProtocolOffloadEntryEnabledField K e).GetType = .NetPowerOffloadTypeArp →
      (p.UpdateProtocolOffloadEntryEnabledField K e).IsEnabled =
        testMask p.m_PMParameters.EnabledProtocolOffloads
          K.NDIS_PM_PROTOCOL_OFFLOAD_ARP_ENABLED) ∧
    ((p.UpdateProtocolOffloadEntryEnabledField K e).GetType = .NetPowerOffloadTypeNS →
      (p.UpdateProtocolOffloadEntryEnabledField K e).IsEnabled =
        testMask p.m_PMParameters.EnabledProtocolOffloads
          K.NDIS_PM_PROTOCOL_OFFLOAD_NS_ENABLED) := by
  unfold NxPowerPolicy.UpdateProtocolOffloadEntryEnabledField
  constructor <;> intro h <;> simp only at h <;> simp only [h]

/-- The removal loop leaves only entries of the list it was given. -/
theorem NxPowerPolicy.RemoveWakePatternByID_go_subset (PatternID : Nat)
    (l : List NxWakePattern) :
    ∀ e ∈ (NxPowerPolicy.RemoveWakePatternByID.go PatternID l).2, e ∈ l := by
  induction l with
  | nil => intro e he; exact he
  | cons a rest ih =>
    intro e he
    unfold NxPowerPolicy.RemoveWakePatternByID.go at he
    split_ifs at he with hid
    · exact List.mem_cons_of_mem _ he
    · rcases List.mem_cons.mp he with h1 | h2
      · exact h1 ▸ List.mem_cons_self _ _
      · exact List.mem_cons_of_mem _ (ih e h2)

theorem NxPowerPolicy.RemovePowerOffloadByID_go_subset (OffloadID : Nat)
    (l : List NxPowerOffload) :
    ∀ e ∈ (NxPowerPolicy.RemovePowerOffloadByID.go OffloadID l).2, e ∈ l := by
  induction l with
  | nil => intro e he; exact he
  | cons a rest ih =>
    intro e he
    unfold NxPowerPolicy.RemovePowerOffloadByID.go at he
    split_ifs at he with hid
    · exact List.mem_cons_of_mem _ he
    · rcases List.mem_cons.mp he with h1 | h2
      · exact h1 ▸ List.mem_cons_self _ _
      · exact List.mem_cons_of_mem _ (ih e h2)

/-- The recomputation of a wake entry reads the snapshot only. -/
theorem NxPowerPolicy.UpdatePatternEntryEnabledField_congr (K : NdisConstants)
    (p q : NxPowerPolicy) (h : p.m_PMParameters = q.m_PMParameters) :
    p.UpdatePatternEntryEnabledField K = q.UpdatePatternEntryEnabledField K := by
  funext e
  simp only [NxPowerPolicy.UpdatePatternEntryEnabledField, h]

/-- The recomputation of an offload entry reads the snapshot only. -/
theorem NxPowerPolicy.UpdateProtocolOffloadEntryEnabledField_congr (K : NdisConstants)
    (p q : NxPowerPolicy) (h : p.m_PMParameters = q.m_PMParameters) :
    p.UpdateProtocolOffloadEntryEnabledField K =
      q.UpdateProtocolOffloadEntryEnabledField K := by
  funext e
  simp only [NxPowerPolicy.UpdateProtocolOffloadEntryEnabledField, h]

/-- The status, the buffer, the snapshot and the lists after `SetParameters` on a buffer
of sufficient length. -/
theorem NxPowerPolicy.SetParameters_state (K : NdisConstants) (p : NxPowerPolicy)
    (Set : SET_INFORMATION NDIS_PM_PARAMETERS)
    (hlen : ¬ Set.InformationBufferLength < K.sizeof_NDIS_PM_PARAMETERS) :
    (p.SetParameters K Set).Status = K.NDIS_STATUS_SUCCESS ∧
    (p.SetParameters K Set).PmParams =
      NxPowerPolicy.SetParameters.adjust K p Set.InformationBuffer ∧
    (p.SetParameters K Set).Policy.m_PMParameters =
      NxPowerPolicy.SetParameters.adjust K p Set.InformationBuffer ∧
    (p.SetParameters K Set).Policy.m_WakeListHead =
      (if p.m_PMParameters.EnabledWoLPacketPatterns ≠
          (NxPowerPolicy.SetParameters.adjust K p
            Set.InformationBuffer).EnabledWoLPacketPatterns then
        p.m_WakeListHead.map
          ((p.SetParameters K Set).Policy.UpdatePatternEntryEnabledField K)
      else p.m_WakeListHead) ∧
    (p.SetParameters K Set).Policy.m_ProtocolOffloadListHead =
      (if p.m_PMParameters.EnabledProtocolOffloads ≠
          (NxPowerPolicy.SetParameters.adjust K p
            Set.InformationBuffer).EnabledProtocolOffloads then
        p.m_ProtocolOffloadListHead.map
          ((p.SetParameters K Set).Policy.UpdateProtocolOffloadEntryEnabledField K)
      else p.m_ProtocolOffloadListHead) := by
  have hsnap : (p.SetParameters K Set).Policy.m_PMParameters =
      NxPowerPolicy.SetParameters.adjust K p Set.InformationBuffer := by
    unfold NxPowerPolicy.SetParameters
    rw [if_neg hlen]
    dsimp only
    split_ifs <;> rfl
  refine ⟨?_, ?_, hsnap, ?_, ?_⟩
  · unfold NxPowerPolicy.SetParameters
    rw [if_neg hlen]
  · unfold NxPowerPolicy.SetParameters
    rw [if_neg hlen]
  · rw [NxPowerPolicy.UpdatePatternEntryEnabledField_congr K _
      { p with m_PMParameters :=
          NxPowerPolicy.SetParameters.adjust K p Set.InformationBuffer } hsnap]
    unfold NxPowerPolicy.SetParameters
    rw [if_neg hlen]
    dsimp only
    split_ifs <;> first | rfl | simp_all [NxPowerPolicy.SetParameters.updateWakeUpEvents]
  · rw [NxPowerPolicy.UpdateProtocolOffloadEntryEnabledField_congr K _
      { p with m_PMParameters :=
          NxPowerPolicy.SetParameters.adjust K p Set.InformationBuffer } hsnap]
    unfold NxPowerPolicy.SetParameters
    rw [if_neg hlen]
    dsimp only
    split_ifs <;> first | rfl | simp_all [NxPowerPolicy.SetParameters.updateWakeUpEvents]

/-- The policy after the end of `AddWakePattern`: unchanged, or with the recomputed
entry pushed on the wake list. -/
theorem NxPowerPolicy.AddWakePattern_finish_policy (K : NdisConstants) (p : NxPowerPolicy)
    (e : NxWakePattern) (pfn : Option Nat) (v : NTSTATUS) :
    (NxPowerPolicy.AddWakePattern.finish K p e pfn v).Policy = p ∨
      (NxPowerPolicy.AddWakePattern.finish K p e pfn v).Policy =
        { p with m_WakeListHead :=
            p.UpdatePatternEntryEnabledField K e :: p.m_WakeListHead } := by
  unfold NxPowerPolicy.AddWakePattern.finish
  cases pfn with
  | none => exact Or.inr rfl
  | some fn =>
    dsimp only
    split_ifs
    · exact Or.inl rfl
    · exact Or.inl rfl
    · exact Or.inr rfl

/-- The policy after `AddWakePattern`: unchanged, or with one recomputed entry pushed on
the wake list. -/
theorem NxPowerPolicy.AddWakePattern_policy (K : NdisConstants) (p : NxPowerPolicy)
    (s : SET_INFORMATION NDIS_PM_WOL_PATTERN)
    (b m : NDIS_STATUS × NxWakePattern) (v : NTSTATUS) :
    (p.AddWakePattern K s b m v).Policy = p ∨
      ∃ e, (p.AddWakePattern K s b m v).Policy =
        { p with m_WakeListHead :=
            p.UpdatePatternEntryEnabledField K e :: p.m_WakeListHead } := by
  have hb := NxPowerPolicy.AddWakePattern_finish_policy K p b.2
    p.m_powerPolicyEventCallbacks.EvtDevicePreviewBitmapPattern v
  have hm := NxPowerPolicy.AddWakePattern_finish_policy K p m.2 none v
  unfold NxPowerPolicy.AddWakePattern
  split_ifs <;> (try split) <;>
    first
    | exact Or.inl rfl
    | exact hb.imp id (fun h => ⟨_, h⟩)
    | exact hm.imp id (fun h => ⟨_, h⟩)

/-- The policy after the end of `AddProtocolOffload`: unchanged, or with the recomputed
entry pushed on the offload list. -/
theorem NxPowerPolicy.AddProtocolOffload_finish_policy (K : NdisConstants)
    (p : NxPowerPolicy) (e : NxPowerOffload) (pfn : Option Nat) (v : NTSTATUS) :
    (NxPowerPolicy.AddProtocolOffload.finish K p e pfn v).Policy = p ∨
      (NxPowerPolicy.AddProtocolOffload.finish K p e pfn v).Policy =
        { p with m_ProtocolOffloadListHead :=
            p.UpdateProtocolOffloadEntryEnabledField K e ::
              p.m_ProtocolOffloadListHead } := by
  unfold NxPowerPolicy.AddProtocolOffload.finish
  cases pfn with
  | none => exact Or.inr rfl
  | some fn =>
    dsimp only
    split_ifs
    · exact Or.inl rfl
    · exact Or.inl rfl
    · exact Or.inr rfl

/-- The policy after `AddProtocolOffload`: unchanged, or with one recomputed entry pushed
on the offload list. -/
theorem NxPowerPolicy.AddProtocolOffload_policy (K : NdisConstants) (p : NxPowerPolicy)
    (s : SET_INFORMATION NDIS_PM_PROTOCOL_OFFLOAD)
    (a n : NDIS_STATUS × NxPowerOffload) (v : NTSTATUS) :
    (p.AddProtocolOffload K s a n v).Policy = p ∨
      ∃ e, (p.AddProtocolOffload K s a n v).Policy =
        { p with m_ProtocolOffloadListHead :=
            p.UpdateProtocolOffloadEntryEnabledField K e ::
              p.m_ProtocolOffloadListHead } := by
  have ha := NxPowerPolicy.AddProtocolOffload_finish_policy K p a.2
    p.m_powerPolicyEventCallbacks.EvtDevicePreviewArpOffload v
  have hn := NxPowerPolicy.AddProtocolOffload_finish_policy K p n.2
    p.m_powerPolicyEventCallbacks.EvtDevicePreviewNSOffload v
  unfold NxPowerPolicy.AddProtocolOffload
  split_ifs <;> (try split) <;>
    first
    | exact Or.inl rfl
    | exact ha.imp id (fun h => ⟨_, h⟩)
    | exact hn.imp id (fun h => ⟨_, h⟩)

/-- The policy after `RemoveWakePattern`: the wake list loses entries at most, the rest
of the policy is as before. -/
theorem NxPowerPolicy.RemoveWakePattern_policy (K : NdisConstants) (p : NxPowerPolicy)
    (s : SET_INFORMATION Nat) :
    ∃ l, (∀ e ∈ l, e ∈ p.m_WakeListHead) ∧
      (p.RemoveWakePattern K s).Policy = { p with m_WakeListHead := l } := by
  unfold NxPowerPolicy.RemoveWakePattern
  split_ifs
  · exact ⟨p.m_WakeListHead, fun _ h => h, rfl⟩
  · have hsub := NxPowerPolicy.RemoveWakePatternByID_go_subset s.InformationBuffer
      p.m_WakeListHead
    unfold NxPowerPolicy.RemoveWakePatternByID
    rcases hgo : NxPowerPolicy.RemoveWakePatternByID.go s.InformationBuffer
      p.m_WakeListHead with ⟨removed, rest⟩
    rw [hgo] at hsub
    cases removed <;> exact ⟨rest, hsub, rfl⟩

/-- The policy after `RemoveProtocolOffload`: the offload list loses entries at most,
the rest of the policy is as before. -/
theorem NxPowerPolicy.RemoveProtocolOffload_policy (K : NdisConstants) (p : NxPowerPolicy)
    (s : SET_INFORMATION Nat) :
    ∃ l, (∀ e ∈ l, e ∈ p.m_ProtocolOffloadListHead) ∧
      (p.RemoveProtocolOffload K s).Policy = { p with m_ProtocolOffloadListHead := l } := by
  unfold NxPowerPolicy.RemoveProtocolOffload
  split_ifs
  · exact ⟨p.m_ProtocolOffloadListHead, fun _ h => h, rfl⟩
  · have hsub := NxPowerPolicy.RemovePowerOffloadByID_go_subset s.InformationBuffer
      p.m_ProtocolOffloadListHead
    unfold NxPowerPolicy.RemovePowerOffloadByID
    rcases hgo : NxPowerPolicy.RemovePowerOffloadByID.go s.InformationBuffer
      p.m_ProtocolOffloadListHead with ⟨removed, rest⟩
    rw [hgo] at hsub
    cases removed <;> exact ⟨rest, hsub, rfl⟩

/-- Each request keeps the enabled flags in line with the stored snapshot. -/
theorem PolicyCall.run_preserves (K : NdisConstants) (p : NxPowerPolicy) (c : PolicyCall)
    (h : EnabledFromSnapshot K p) : EnabledFromSnapshot K (c.run K p) := by
  obtain ⟨hw, ho⟩ := h
  cases c with
  | AddWakePattern s b m v =>
    rcases NxPowerPolicy.AddWakePattern_policy K p s b m v with heq | ⟨e, heq⟩
    · simp only [PolicyCall.run, heq]
      exact ⟨hw, ho⟩
    · simp only [PolicyCall.run, heq]
      refine ⟨?_, ho⟩
      intro x hx
      rcases List.mem_cons.mp hx with h1 | h2
      · rw [h1]
        exact NxPowerPolicy.UpdatePatternEntryEnabledField_ok K p e
      · exact hw x h2
  | AddProtocolOffload s a n v =>
    rcases NxPowerPolicy.AddProtocolOffload_policy K p s a n v with heq | ⟨e, heq⟩
    · simp only [PolicyCall.run, heq]
      exact ⟨hw, ho⟩
    · simp only [PolicyCall.run, heq]
      refine ⟨hw, ?_⟩
      intro x hx
      rcases List.mem_cons.mp hx with h1 | h2
      · rw [h1]
        exact NxPowerPolicy.UpdateProtocolOffloadEntryEnabledField_ok K p e
      · exact ho x h2
  | RemoveWakePattern s =>
    obtain ⟨l, hsub, heq⟩ := NxPowerPolicy.RemoveWakePattern_policy K p s
    simp only [PolicyCall.run, heq]
    exact ⟨fun x hx => hw x (hsub x hx), ho⟩
  | RemoveProtocolOffload s =>
    obtain ⟨l, hsub, heq⟩ := NxPowerPolicy.RemoveProtocolOffload_policy K p s
    simp only [PolicyCall.run, heq]
    exact ⟨hw, fun x hx => ho x (hsub x hx)⟩
  | SetParameters s =>
    simp only [PolicyCall.run]
    by_cases hlen : s.InformationBufferLength < K.sizeof_NDIS_PM_PARAMETERS
    · have hsame : (p.SetParameters K s).Policy = p := by
        simp [NxPowerPolicy.SetParameters, hlen]
      rw [hsame]
      exact ⟨hw, ho⟩
    · obtain ⟨_, _, hsnap, hwl, hol⟩ := NxPowerPolicy.SetParameters_state K p s hlen
      constructor
      · intro x hx
        rw [hwl] at hx
        split_ifs at hx with hchg
        · obtain ⟨y, _, hy⟩ := List.mem_map.mp hx
          rw [← hy]
          exact NxPowerPolicy.UpdatePatternEntryEnabledField_ok K _ y
        · have hsame : (p.SetParameters K s).Policy.m_PMParameters.EnabledWoLPacketPatterns =
              p.m_PMParameters.EnabledWoLPacketPatterns := by
            rw [hsnap]
            exact (not_not.mp hchg).symm
          rw [hsame]
          exact hw x hx
      · intro x hx
        rw [hol] at hx
        split_ifs at hx with hchg
        · obtain ⟨y, _, hy⟩ := List.mem_map.mp hx
          rw [← hy]
          exact NxPowerPolicy.UpdateProtocolOffloadEntryEnabledField_ok K _ y
        · have hsame : (p.SetParameters K s).Policy.m_PMParameters.EnabledProtocolOffloads =
              p.m_PMParameters.EnabledProtocolOffloads := by
            rw [hsnap]
            exact (not_not.mp hchg).symm
          rw [hsame]
          exact ho x hx

/-- A sequence of requests keeps the enabled flags in line with the stored snapshot. -/
theorem runCalls_preserves (K : NdisConstants) (p : NxPowerPolicy) (calls : List PolicyCall)
    (h : EnabledFromSnapshot K p) : EnabledFromSnapshot K (runCalls K p calls) := by
  induction calls generalizing p with
  | nil => exact h
  | cons c rest ih =>
    exact ih (c.run K p) (PolicyCall.run_preserves K p c h)

/-- The mode test of `SetParameters` holds when one of the two mode bits is set. -/
theorem NxPowerPolicy.SetParameters.isSelectiveSuspend_iff (K : NdisConstants)
    (PmParams : NDIS_PM_PARAMETERS) :
    NxPowerPolicy.SetParameters.isSelectiveSuspend K PmParams = true ↔
      PmParams.WakeUpFlags &&& K.NDIS_PM_SELECTIVE_SUSPEND_ENABLED ≠ 0 ∨
        PmParams.WakeUpFlags &&& K.NDIS_PM_AOAC_NAPS_ENABLED ≠ 0 := by
  unfold NxPowerPolicy.SetParameters.isSelectiveSuspend
  rw [testMask_lor]
  simp [testMask]

/-! ## Claims on the power policy -/

/-- C17: in every policy state reached from a policy with empty lists by any sequence of
`AddWakePattern`, `AddProtocolOffload`, `RemoveWakePattern`, `RemoveProtocolOffload`
and `SetParameters` requests, each wake entry has the enabled flag given by the
bitmap-pattern bit (for a bitmap pattern) or the magic-packet bit (for a magic packet)
of the stored `EnabledWoLPacketPatterns`, and each offload entry the one given by the
ARP bit or the NS bit of the stored `EnabledProtocolOffloads`: a function of the entry
type and the current snapshot only. -/
theorem C17_enabled_flag_follows_snapshot (K : NdisConstants) (p : NxPowerPolicy)
    (calls : List PolicyCall) (hwake : p.m_WakeListHead = [])
    (hoffload : p.m_ProtocolOffloadListHead = []) :
    EnabledFromSnapshot K (runCalls K p calls) := by
  apply runCalls_preserves
  unfold EnabledFromSnapshot
  rw [hwake, hoffload]
  exact ⟨fun e he => absurd he (List.not_mem_nil e), fun e he => absurd he (List.not_mem_nil e)⟩

/-- Witness for C17: the sample sequence of requests on the sample policy. -/
theorem C17_enabled_flag_follows_snapshot_witness :
    EnabledFromSnapshot sampleConstants (runCalls sampleConstants samplePolicy sampleCalls) :=
  C17_enabled_flag_follows_snapshot sampleConstants samplePolicy sampleCalls rfl rfl

/-- C18: for a parameters buffer of sufficient length whose `WakeUpFlags` have the
selective-suspend bit or the AOAC/NAPS bit, the snapshot stored by `SetParameters` has
`EnabledWoLPacketPatterns` equal to 0, whatever the buffer held in that field. -/
theorem C18_selective_suspend_zeroes_wol_patterns (K : NdisConstants) (p : NxPowerPolicy)
    (Set : SET_INFORMATION NDIS_PM_PARAMETERS)
    (hlen : K.sizeof_NDIS_PM_PARAMETERS ≤ Set.InformationBufferLength)
    (hmode : Set.InformationBuffer.WakeUpFlags &&& K.NDIS_PM_SELECTIVE_SUSPEND_ENABLED ≠ 0 ∨
      Set.InformationBuffer.WakeUpFlags &&& K.NDIS_PM_AOAC_NAPS_ENABLED ≠ 0) :
    (p.SetParameters K Set).Policy.m_PMParameters.EnabledWoLPacketPatterns = 0 ∧
      (p.SetParameters K Set).Status = K.NDIS_STATUS_SUCCESS := by
  obtain ⟨hst, _, hsnap, _, _⟩ := NxPowerPolicy.SetParameters_state K p Set (by omega)
  have hm := (NxPowerPolicy.SetParameters.isSelectiveSuspend_iff K Set.InformationBuffer).mpr
    hmode
  rw [hsnap]
  simp [NxPowerPolicy.SetParameters.adjust, hm, hst]

/-- Witness for C18: the buffer asks for both WoL pattern kinds (0x3) together with
selective suspend (0x10); the stored `EnabledWoLPacketPatterns` is 0. -/
theorem C18_selective_suspend_zeroes_wol_patterns_witness :
    (samplePolicy.SetParameters sampleConstants
        ⟨⟨0, 0x3, 0x2, 0x10⟩, 16⟩).Policy.m_PMParameters.EnabledWoLPacketPatterns = 0 ∧
      (samplePolicy.SetParameters sampleConstants ⟨⟨0, 0x3, 0x2, 0x10⟩, 16⟩).Status =
        sampleConstants.NDIS_STATUS_SUCCESS :=
  C18_selective_suspend_zeroes_wol_patterns sampleConstants samplePolicy
    ⟨⟨0, 0x3, 0x2, 0x10⟩, 16⟩ (by decide) (Or.inl (by decide))

/-- C19: for a parameters buffer of sufficient length, when the incoming `WakeUpFlags`
have the selective-suspend bit or the AOAC/NAPS bit, the stored `WakeUpFlags` are the
incoming flags OR-ed with the link-change bit exactly when MediaConnect is declared and
with the media-disconnect bit exactly when MediaDisconnect is declared; when neither
mode bit is set, the incoming `WakeUpFlags` are stored and left in the buffer as they
came. -/
theorem C19_wake_up_flags_stored (K : NdisConstants) (p : NxPowerPolicy)
    (Set : SET_INFORMATION NDIS_PM_PARAMETERS)
    (hlen : K.sizeof_NDIS_PM_PARAMETERS ≤ Set.InformationBufferLength) :
    ((Set.InformationBuffer.WakeUpFlags &&& K.NDIS_PM_SELECTIVE_SUSPEND_ENABLED ≠ 0 ∨
        Set.InformationBuffer.WakeUpFlags &&& K.NDIS_PM_AOAC_NAPS_ENABLED ≠ 0) →
      (p.SetParameters K Set).Policy.m_PMParameters.WakeUpFlags =
        (Set.InformationBuffer.WakeUpFlags |||
          (if p.m_wakeMediaChangeCapabilities.MediaConnect then
            K.NDIS_PM_WAKE_ON_LINK_CHANGE_ENABLED else 0)) |||
          (if p.m_wakeMediaChangeCapabilities.MediaDisconnect then
            K.NDIS_PM_WAKE_ON_MEDIA_DISCONNECT_ENABLED else 0)) ∧
    ((Set.InformationBuffer.WakeUpFlags &&& K.NDIS_PM_SELECTIVE_SUSPEND_ENABLED = 0 ∧
        Set.InformationBuffer.WakeUpFlags &&& K.NDIS_PM_AOAC_NAPS_ENABLED = 0) →
      (p.SetParameters K Set).Policy.m_PMParameters.WakeUpFlags =
          Set.InformationBuffer.WakeUpFlags ∧
        (p.SetParameters K Set).PmParams.WakeUpFlags =
          Set.InformationBuffer.WakeUpFlags) := by
  obtain ⟨_, hbuf, hsnap, _, _⟩ := NxPowerPolicy.SetParameters_state K p Set (by omega)
  have hiff := NxPowerPolicy.SetParameters.isSelectiveSuspend_iff K Set.InformationBuffer
  rw [hsnap, hbuf]
  constructor
  · intro hmode
    have hm := hiff.mpr hmode
    cases hc : p.m_wakeMediaChangeCapabilities.MediaConnect <;>
      cases hd : p.m_wakeMediaChangeCapabilities.MediaDisconnect <;>
      simp [NxPowerPolicy.SetParameters.adjust, hm, hc, hd]
  · rintro ⟨h1, h2⟩
    have hm : NxPowerPolicy.SetParameters.isSelectiveSuspend K Set.InformationBuffer =
        false := by
      rw [Bool.eq_false_iff]
      intro hc
      rcases hiff.mp hc with h | h
      · exact h h1
      · exact h h2
    simp [NxPowerPolicy.SetParameters.adjust, hm]

/-- Witness for C19: selective suspend (0x10) with MediaConnect declared and
MediaDisconnect not declared stores 0x11. -/
theorem C19_wake_up_flags_stored_witness :
    (samplePolicy.SetParameters sampleConstants
      ⟨⟨0, 0x3, 0x2, 0x10⟩, 16⟩).Policy.m_PMParameters.WakeUpFlags = 0x11 :=
  (C19_wake_up_flags_stored sampleConstants samplePolicy ⟨⟨0, 0x3, 0x2, 0x10⟩, 16⟩
    (by decide)).1 (Or.inl (by decide))

/-- C20: for a parameters buffer of sufficient length whose `WakeUpFlags` have neither
the selective-suspend bit nor the AOAC/NAPS bit, the snapshot stored by `SetParameters`
has the incoming `WakeUpFlags`, `EnabledWoLPacketPatterns` and
`EnabledProtocolOffloads` (it is the incoming buffer), equal to the previous snapshot or
not. -/
theorem C20_parameters_stored_unconditionally (K : NdisConstants) (p : NxPowerPolicy)
    (Set : SET_INFORMATION NDIS_PM_PARAMETERS)
    (hlen : K.sizeof_NDIS_PM_PARAMETERS ≤ Set.InformationBufferLength)
    (hss : Set.InformationBuffer.WakeUpFlags &&& K.NDIS_PM_SELECTIVE_SUSPEND_ENABLED = 0)
    (haoac : Set.InformationBuffer.WakeUpFlags &&& K.NDIS_PM_AOAC_NAPS_ENABLED = 0) :
    (p.SetParameters K Set).Policy.m_PMParameters.WakeUpFlags =
        Set.InformationBuffer.WakeUpFlags ∧
      (p.SetParameters K Set).Policy.m_PMParameters.EnabledWoLPacketPatterns =
        Set.InformationBuffer.EnabledWoLPacketPatterns ∧
      (p.SetParameters K Set).Policy.m_PMParameters.EnabledProtocolOffloads =
        Set.InformationBuffer.EnabledProtocolOffloads ∧
      (p.SetParameters K Set).Policy.m_PMParameters = Set.InformationBuffer := by
  obtain ⟨_, _, hsnap, _, _⟩ := NxPowerPolicy.SetParameters_state K p Set (by omega)
  have hm : NxPowerPolicy.SetParameters.isSelectiveSuspend K Set.InformationBuffer =
      false := by
    rw [Bool.eq_false_iff]
    intro hc
    rcases (NxPowerPolicy.SetParameters.isSelectiveSuspend_iff K Set.InformationBuffer).mp hc
      with h | h
    · exact h hss
    · exact h haoac
  have hadj : NxPowerPolicy.SetParameters.adjust K p Set.InformationBuffer =
      Set.InformationBuffer := by
    simp [NxPowerPolicy.SetParameters.adjust, hm]
  rw [hsnap, hadj]
  exact ⟨rfl, rfl, rfl, rfl⟩

/-- Witness for C20: the same buffer is stored twice in a row; the second call, whose
values equal the stored snapshot, stores them as well. -/
theorem C20_parameters_stored_unconditionally_witness :
    ((samplePolicy.SetParameters sampleConstants ⟨⟨0, 0x3, 0x2, 0x1⟩, 16⟩).Policy.SetParameters
        sampleConstants ⟨⟨0, 0x3, 0x2, 0x1⟩, 16⟩).Policy.m_PMParameters = ⟨0, 0x3, 0x2, 0x1⟩ :=
  (C20_parameters_stored_unconditionally sampleConstants
    (samplePolicy.SetParameters sampleConstants ⟨⟨0, 0x3, 0x2, 0x1⟩, 16⟩).Policy
    ⟨⟨0, 0x3, 0x2, 0x1⟩, 16⟩ (by decide) (by decide) (by decide)).2.2.2

/-! ## Lemmas on the results of the add routines -/

/-- `AddWakePattern` on a buffer that is too short. -/
theorem NxPowerPolicy.AddWakePattern_short (K : NdisConstants) (p : NxPowerPolicy)
    (s : SET_INFORMATION NDIS_PM_WOL_PATTERN) (b m : NDIS_STATUS × NxWakePattern)
    (v : NTSTATUS) (h : s.InformationBufferLength < K.sizeof_NDIS_PM_WOL_PATTERN) :
    p.AddWakePattern K s b m v = ⟨K.NDIS_STATUS_INVALID_PARAMETER, p, []⟩ := by
  simp [NxPowerPolicy.AddWakePattern, h]

/-- `AddWakePattern` for a bitmap pattern, on a buffer that is long enough. -/
theorem NxPowerPolicy.AddWakePattern_bitmap (K : NdisConstants) (p : NxPowerPolicy)
    (s : SET_INFORMATION NDIS_PM_WOL_PATTERN) (b m : NDIS_STATUS × NxWakePattern)
    (v : NTSTATUS) (hlen : ¬ s.InformationBufferLength < K.sizeof_NDIS_PM_WOL_PATTERN)
    (ht : s.InformationBuffer.WoLPacketType = .NdisPMWoLPacketBitmapPattern) :
    p.AddWakePattern K s b m v =
      if p.m_wakeBitmapCapabilities.BitmapPattern = false then
        ⟨K.NDIS_STATUS_NOT_SUPPORTED, p, []⟩
      else if b.1 ≠ K.NDIS_STATUS_SUCCESS then
        ⟨b.1, p, [PolicyEvent.NxWakeBitmapPattern_CreateFromNdisWoLPattern p.m_adapter
          s.InformationBuffer]⟩
      else
        PolicyResult.after
          (PolicyEvent.NxWakeBitmapPattern_CreateFromNdisWoLPattern p.m_adapter
            s.InformationBuffer)
          (NxPowerPolicy.AddWakePattern.finish K p b.2
            p.m_powerPolicyEventCallbacks.EvtDevicePreviewBitmapPattern v) := by
  simp only [NxPowerPolicy.AddWakePattern, if_neg hlen, ht]
  cases p.m_wakeBitmapCapabilities.BitmapPattern <;> simp

/-- `AddWakePattern` for a magic packet, on a buffer that is long enough. -/
theorem NxPowerPolicy.AddWakePattern_magic (K : NdisConstants) (p : NxPowerPolicy)
    (s : SET_INFORMATION NDIS_PM_WOL_PATTERN) (b m : NDIS_STATUS × NxWakePattern)
    (v : NTSTATUS) (hlen : ¬ s.InformationBufferLength < K.sizeof_NDIS_PM_WOL_PATTERN)
    (ht : s.InformationBuffer.WoLPacketType = .NdisPMWoLPacketMagicPacket) :
    p.AddWakePattern K s b m v =
      if p.m_magicPacketCapabilities.MagicPacket = false then
        ⟨K.NDIS_STATUS_NOT_SUPPORTED, p, []⟩
      else if m.1 ≠ K.NDIS_STATUS_SUCCESS then
        ⟨m.1, p, [PolicyEvent.NxWakeMagicPacket_CreateFromNdisWoLPattern p.m_adapter
          s.InformationBuffer]⟩
      else
        PolicyResult.after
          (PolicyEvent.NxWakeMagicPacket_CreateFromNdisWoLPattern p.m_adapter
            s.InformationBuffer)
          (NxPowerPolicy.AddWakePattern.finish K p m.2 none v) := by
  simp only [NxPowerPolicy.AddWakePattern, if_neg hlen, ht]
  cases p.m_magicPacketCapabilities.MagicPacket <;> simp

/-- `AddWakePattern` for any other subtype, on a buffer that is long enough. -/
theorem NxPowerPolicy.AddWakePattern_other (K : NdisConstants) (p : NxPowerPolicy)
    (s : SET_INFORMATION NDIS_PM_WOL_PATTERN) (b m : NDIS_STATUS × NxWakePattern)
    (v : NTSTATUS) (hlen : ¬ s.InformationBufferLength < K.sizeof_NDIS_PM_WOL_PATTERN)
    (n : Nat) (ht : s.InformationBuffer.WoLPacketType = .Other n) :
    p.AddWakePattern K s b m v = ⟨K.NDIS_STATUS_NOT_SUPPORTED, p, []⟩ := by
  simp only [NxPowerPolicy.AddWakePattern, if_neg hlen, ht]

/-- `AddProtocolOffload` on a buffer that is too short. -/
theorem NxPowerPolicy.AddProtocolOffload_short (K : NdisConstants) (p : NxPowerPolicy)
    (s : SET_INFORMATION NDIS_PM_PROTOCOL_OFFLOAD) (a n : NDIS_STATUS × NxPowerOffload)
    (v : NTSTATUS) (h : s.InformationBufferLength < K.sizeof_NDIS_PM_PROTOCOL_OFFLOAD) :
    p.AddProtocolOffload K s a n v = ⟨K.NDIS_STATUS_INVALID_PARAMETER, p, []⟩ := by
  simp [NxPowerPolicy.AddProtocolOffload, h]

/-- `AddProtocolOffload` for an IPv4 ARP offload, on a buffer that is long enough. -/
theorem NxPowerPolicy.AddProtocolOffload_arp (K : NdisConstants) (p : NxPowerPolicy)
    (s : SET_INFORMATION NDIS_PM_PROTOCOL_OFFLOAD) (a n : NDIS_STATUS × NxPowerOffload)
    (v : NTSTATUS)
    (hlen : ¬ s.InformationBufferLength < K.sizeof_NDIS_PM_PROTOCOL_OFFLOAD)
    (ht : s.InformationBuffer.ProtocolOffloadType = .NdisPMProtocolOffloadIdIPv4ARP) :
    p.AddProtocolOffload K s a n v =
      if p.m_powerOffloadArpCapabilities.ArpOffload = false then
        ⟨K.NDIS_STATUS_NOT_SUPPORTED, p, []⟩
      else if a.1 ≠ K.NDIS_STATUS_SUCCESS then
        ⟨a.1, p, [PolicyEvent.NxArpOffload_CreateFromNdisPmOffload p.m_adapter
          s.InformationBuffer]⟩
      else
        PolicyResult.after
          (PolicyEvent.NxArpOffload_CreateFromNdisPmOffload p.m_adapter
            s.InformationBuffer)
          (NxPowerPolicy.AddProtocolOffload.finish K p a.2
            p.m_powerPolicyEventCallbacks.EvtDevicePreviewArpOffload v) := by
  simp only [NxPowerPolicy.AddProtocolOffload, if_neg hlen, ht]
  cases p.m_powerOffloadArpCapabilities.ArpOffload <;> simp

/-- `AddProtocolOffload` for an IPv6 NS offload, on a buffer that is long enough. -/
theorem NxPowerPolicy.AddProtocolOffload_ns (K : NdisConstants) (p : NxPowerPolicy)
    (s : SET_INFORMATION NDIS_PM_PROTOCOL_OFFLOAD) (a n : NDIS_STATUS × NxPowerOffload)
    (v : NTSTATUS)
    (hlen : ¬ s.InformationBufferLength < K.sizeof_NDIS_PM_PROTOCOL_OFFLOAD)
    (ht : s.InformationBuffer.ProtocolOffloadType = .NdisPMProtocolOffloadIdIPv6NS) :
    p.AddProtocolOffload K s a n v =
      if p.m_powerOffloadNSCapabilities.NSOffload = false then
        ⟨K.NDIS_STATUS_NOT_SUPPORTED, p, []⟩
      else if n.1 ≠ K.NDIS_STATUS_SUCCESS then
        ⟨n.1, p, [PolicyEvent.NxNSOffload_CreateFromNdisPmOffload p.m_adapter
          s.InformationBuffer]⟩
      else
        PolicyResult.after
          (PolicyEvent.NxNSOffload_CreateFromNdisPmOffload p.m_adapter
            s.InformationBuffer)
          (NxPowerPolicy.AddProtocolOffload.finish K p n.2
            p.m_powerPolicyEventCallbacks.EvtDevicePreviewNSOffload v) := by
  simp only [NxPowerPolicy.AddProtocolOffload, if_neg hlen, ht]
  cases p.m_powerOffloadNSCapabilities.NSOffload <;> simp

/-- `AddProtocolOffload` for any other subtype, on a buffer that is long enough. -/
theorem NxPowerPolicy.AddProtocolOffload_other (K : NdisConstants) (p : NxPowerPolicy)
    (s : SET_INFORMATION NDIS_PM_PROTOCOL_OFFLOAD) (a n : NDIS_STATUS × NxPowerOffload)
    (v : NTSTATUS)
    (hlen : ¬ s.InformationBufferLength < K.sizeof_NDIS_PM_PROTOCOL_OFFLOAD)
    (k : Nat) (ht : s.InformationBuffer.ProtocolOffloadType = .Other k) :
    p.AddProtocolOffload K s a n v = ⟨K.NDIS_STATUS_NOT_SUPPORTED, p, []⟩ := by
  simp only [NxPowerPolicy.AddProtocolOffload, if_neg hlen, ht]

/-! ## Lemmas on the supported mask -/

/-- A value absorbs its own bits taken through a mask. -/
theorem lor_land_absorb (x a : Nat) : x ||| (a &&& x) = x := by
  apply Nat.eq_of_testBit_eq
  intro i
  simp only [Nat.testBit_or, Nat.testBit_and]
  cases x.testBit i <;> cases a.testBit i <;> rfl

/-- The absorption law with the operands of the disjunction exchanged. -/
theorem land_lor_absorb (x a : Nat) : (a &&& x) ||| x = x := by
  rw [Nat.or_comm, lor_land_absorb]

/-- Bitwise conjunction distributes over bitwise disjunction on the right. -/
theorem lor_land_distrib (x y z : Nat) : (x ||| y) &&& z = (x &&& z) ||| (y &&& z) := by
  rw [Nat.and_comm, Nat.and_or_distrib_left, Nat.and_comm z x, Nat.and_comm z y]

/-- Every bit of `Value &&& Mask` is a bit of `Mask`. -/
theorem testBit_of_land (Value Mask i : Nat) (h : (Value &&& Mask).testBit i = true) :
    Mask.testBit i = true := by
  rw [Nat.testBit_and, Bool.and_eq_true] at h
  exact h.2

/-- The mask computed by `SetParameters` is the one that the specification describes. -/
theorem NxPowerPolicy.SetParameters.supportedWakeUpFlags_eq (K : NdisConstants)
    (p : NxPowerPolicy) :
    NxPowerPolicy.SetParameters.supportedWakeUpFlags K p = specSupportedMask K p := by
  unfold NxPowerPolicy.SetParameters.supportedWakeUpFlags specSupportedMask
  cases p.m_wakeMediaChangeCapabilities.MediaConnect <;>
    cases p.m_wakeMediaChangeCapabilities.MediaDisconnect <;>
    cases p.m_wakePacketFilterCapabilities.PacketFilterMatch <;> simp

/-- With flag constants that share no bit, the supported mask holds each flag exactly
when the capability behind it is declared. -/
theorem specSupportedMask_contains (K : NdisConstants) (p : NxPowerPolicy)
    (hK : WakeUpFlagsDistinct K) :
    (specSupportedMask K p &&& K.NDIS_PM_WAKE_ON_LINK_CHANGE_ENABLED =
        K.NDIS_PM_WAKE_ON_LINK_CHANGE_ENABLED ↔
      p.m_wakeMediaChangeCapabilities.MediaConnect = true) ∧
    (specSupportedMask K p &&& K.NDIS_PM_WAKE_ON_MEDIA_DISCONNECT_ENABLED =
        K.NDIS_PM_WAKE_ON_MEDIA_DISCONNECT_ENABLED ↔
      p.m_wakeMediaChangeCapabilities.MediaDisconnect = true) ∧
    (specSupportedMask K p &&& K.NDIS_PM_SELECTIVE_SUSPEND_ENABLED =
        K.NDIS_PM_SELECTIVE_SUSPEND_ENABLED ↔
      p.m_wakePacketFilterCapabilities.PacketFilterMatch = true) ∧
    (specSupportedMask K p &&& K.NDIS_PM_AOAC_NAPS_ENABLED =
        K.NDIS_PM_AOAC_NAPS_ENABLED ↔
      p.m_wakePacketFilterCapabilities.PacketFilterMatch = true) := by
  obtain ⟨hL, hD, hS, hA, hLD, hLS, hLA, hDS, hDA⟩ := hK
  have hDL := (Nat.and_comm _ _).trans hLD
  have hSL := (Nat.and_comm _ _).trans hLS
  have hAL := (Nat.and_comm _ _).trans hLA
  have hSD := (Nat.and_comm _ _).trans hDS
  have hAD := (Nat.and_comm _ _).trans hDA
  have hL2 : ¬ 0 = K.NDIS_PM_WAKE_ON_LINK_CHANGE_ENABLED := fun h => hL h.symm
  have hD2 : ¬ 0 = K.NDIS_PM_WAKE_ON_MEDIA_DISCONNECT_ENABLED := fun h => hD h.symm
  have hS2 : ¬ 0 = K.NDIS_PM_SELECTIVE_SUSPEND_ENABLED := fun h => hS h.symm
  have hA2 : ¬ 0 = K.NDIS_PM_AOAC_NAPS_ENABLED := fun h => hA h.symm
  unfold specSupportedMask
  cases p.m_wakeMediaChangeCapabilities.MediaConnect <;>
    cases p.m_wakeMediaChangeCapabilities.MediaDisconnect <;>
    cases p.m_wakePacketFilterCapabilities.PacketFilterMatch <;>
    simp [lor_land_distrib, hLD, hLS, hLA, hDS, hDA, hDL, hSL, hAL, hSD, hAD,
      hL2, hD2, hS2, hA2, lor_land_absorb, land_lor_absorb]

/-- The built-in wake sources after `SetParameters` on a buffer that is long enough:
both hold the stored flags masked by `supportedWakeUpFlags` when the stored flags
change, and are untouched otherwise. -/
theorem NxPowerPolicy.SetParameters_builtins (K : NdisConstants) (p : NxPowerPolicy)
    (Set : SET_INFORMATION NDIS_PM_PARAMETERS)
    (hlen : ¬ Set.InformationBufferLength < K.sizeof_NDIS_PM_PARAMETERS) :
    (p.SetParameters K Set).Policy.m_wakeOnMediaChange =
      (if p.m_PMParameters.WakeUpFlags ≠
          (NxPowerPolicy.SetParameters.adjust K p Set.InformationBuffer).WakeUpFlags then
        ⟨some ((NxPowerPolicy.SetParameters.adjust K p Set.InformationBuffer).WakeUpFlags &&&
          NxPowerPolicy.SetParameters.supportedWakeUpFlags K p)⟩
      else p.m_wakeOnMediaChange) ∧
    (p.SetParameters K Set).Policy.m_wakeOnPacketFilterMatch =
      (if p.m_PMParameters.WakeUpFlags ≠
          (NxPowerPolicy.SetParameters.adjust K p Set.InformationBuffer).WakeUpFlags then
        ⟨some ((NxPowerPolicy.SetParameters.adjust K p Set.InformationBuffer).WakeUpFlags &&&
          NxPowerPolicy.SetParameters.supportedWakeUpFlags K p)⟩
      else p.m_wakeOnPacketFilterMatch) := by
  constructor <;>
  · unfold NxPowerPolicy.SetParameters
    rw [if_neg hlen]
    dsimp only
    split_ifs <;>
      first
      | rfl
      | simp_all [NxPowerPolicy.SetParameters.updateWakeUpEvents,
          NxPowerPolicy.SetParameters.supportedWakeUpFlags]

/-- C21: `SetParameters` on a buffer of valid length returns `NDIS_STATUS_SUCCESS`
whatever flags the request holds.  The mask it computes is the one of the specification,
and, the four flag constants sharing no bit, that mask contains the link-change flag iff
MediaConnect is declared, the media-disconnect flag iff MediaDisconnect is declared, and
the selective-suspend and AOAC/NAPS flags iff PacketFilterMatch is declared.  When the
call changes the stored `WakeUpFlags`, both built-in wake sources are given the stored
flags ANDed with the mask, a value of which every bit is a bit of the mask; when it does
not, no value is passed to them. -/
theorem C21_builtin_sources_get_masked_flags (K : NdisConstants) (p : NxPowerPolicy)
    (Set : SET_INFORMATION NDIS_PM_PARAMETERS)
    (hlen : ¬ Set.InformationBufferLength < K.sizeof_NDIS_PM_PARAMETERS) :
    (p.SetParameters K Set).Status = K.NDIS_STATUS_SUCCESS ∧
    NxPowerPolicy.SetParameters.supportedWakeUpFlags K p = specSupportedMask K p ∧
    (WakeUpFlagsDistinct K →
      (specSupportedMask K p &&& K.NDIS_PM_WAKE_ON_LINK_CHANGE_ENABLED =
          K.NDIS_PM_WAKE_ON_LINK_CHANGE_ENABLED ↔
        p.m_wakeMediaChangeCapabilities.MediaConnect = true) ∧
      (specSupportedMask K p &&& K.NDIS_PM_WAKE_ON_MEDIA_DISCONNECT_ENABLED =
          K.NDIS_PM_WAKE_ON_MEDIA_DISCONNECT_ENABLED ↔
        p.m_wakeMediaChangeCapabilities.MediaDisconnect = true) ∧
      (specSupportedMask K p &&& K.NDIS_PM_SELECTIVE_SUSPEND_ENABLED =
          K.NDIS_PM_SELECTIVE_SUSPEND_ENABLED ↔
        p.m_wakePacketFilterCapabilities.PacketFilterMatch = true) ∧
      (specSupportedMask K p &&& K.NDIS_PM_AOAC_NAPS_ENABLED =
          K.NDIS_PM_AOAC_NAPS_ENABLED ↔
        p.m_wakePacketFilterCapabilities.PacketFilterMatch = true)) ∧
    ((p.SetParameters K Set).Policy.m_PMParameters.WakeUpFlags ≠
        p.m_PMParameters.WakeUpFlags →
      (p.SetParameters K Set).Policy.m_wakeOnMediaChange =
        ⟨some ((p.SetParameters K Set).Policy.m_PMParameters.WakeUpFlags &&&
          specSupportedMask K p)⟩ ∧
      (p.SetParameters K Set).Policy.m_wakeOnPacketFilterMatch =
        ⟨some ((p.SetParameters K Set).Policy.m_PMParameters.WakeUpFlags &&&
          specSupportedMask K p)⟩ ∧
      ∀ i : Nat,
        ((p.SetParameters K Set).Policy.m_PMParameters.WakeUpFlags &&&
          specSupportedMask K p).testBit i = true →
        (specSupportedMask K p).testBit i = true) ∧
    ((p.SetParameters K Set).Policy.m_PMParameters.WakeUpFlags =
        p.m_PMParameters.WakeUpFlags →
      (p.SetParameters K Set).Policy.m_wakeOnMediaChange = p.m_wakeOnMediaChange ∧
      (p.SetParameters K Set).Policy.m_wakeOnPacketFilterMatch =
        p.m_wakeOnPacketFilterMatch) := by
  obtain ⟨hst, -, hsnap, -, -⟩ := NxPowerPolicy.SetParameters_state K p Set hlen
  obtain ⟨hm, hf⟩ := NxPowerPolicy.SetParameters_builtins K p Set hlen
  rw [NxPowerPolicy.SetParameters.supportedWakeUpFlags_eq] at hm hf
  rw [← hsnap] at hm hf
  refine ⟨hst, NxPowerPolicy.SetParameters.supportedWakeUpFlags_eq K p,
    specSupportedMask_contains K p, ?_, ?_⟩
  · intro hne
    rw [if_pos (fun h => hne h.symm)] at hm hf
    exact ⟨hm, hf, fun i h => testBit_of_land _ _ i h⟩
  · intro heq
    rw [if_neg (fun h => h heq.symm)] at hm hf
    exact ⟨hm, hf⟩

/-- C21 at a sample request: the stack asks for link change, media disconnect and
AOAC/NAPS on a policy that declares no wake on media disconnect; the call succeeds and
both built-in sources are given the flags without the media-disconnect bit. -/
theorem C21_builtin_sources_get_masked_flags_witness :
    (samplePolicy.SetParameters sampleConstants ⟨⟨0, 0, 0, 0x43⟩, 16⟩).Status = 0 ∧
    (samplePolicy.SetParameters sampleConstants ⟨⟨0, 0, 0, 0x43⟩, 16⟩).Policy.m_wakeOnMediaChange
      = ⟨some 0x41⟩ ∧
    (samplePolicy.SetParameters sampleConstants
      ⟨⟨0, 0, 0, 0x43⟩, 16⟩).Policy.m_wakeOnPacketFilterMatch = ⟨some 0x41⟩ ∧
    (specSupportedMask sampleConstants samplePolicy &&& 0x2 = 0x2 ↔
      samplePolicy.m_wakeMediaChangeCapabilities.MediaDisconnect = true) :=
  ⟨(C21_builtin_sources_get_masked_flags sampleConstants samplePolicy
      ⟨⟨0, 0, 0, 0x43⟩, 16⟩ (by decide)).1,
    ((C21_builtin_sources_get_masked_flags sampleConstants samplePolicy
      ⟨⟨0, 0, 0, 0x43⟩, 16⟩ (by decide)).2.2.2.1 (by decide)).1,
    ((C21_builtin_sources_get_masked_flags sampleConstants samplePolicy
      ⟨⟨0, 0, 0, 0x43⟩, 16⟩ (by decide)).2.2.2.1 (by decide)).2.1,
    ((C21_builtin_sources_get_masked_flags sampleConstants samplePolicy
      ⟨⟨0, 0, 0, 0x43⟩, 16⟩ (by decide)).2.2.1 (by decide)).2.1⟩

/-- C22: for every policy state, each of the five requests with an information buffer
shorter than what it reads (`NDIS_PM_WOL_PATTERN`, `NDIS_PM_PROTOCOL_OFFLOAD`, a `ULONG`
identifier, `NDIS_PM_PARAMETERS`) returns `NDIS_STATUS_INVALID_PARAMETER` and leaves the
whole policy as it was; no factory and no callback is called, and `SetParameters` leaves
the caller's buffer as it was. -/
theorem C22_short_buffer_is_invalid_parameter (K : NdisConstants) (p : NxPowerPolicy) :
    (∀ (s : SET_INFORMATION NDIS_PM_WOL_PATTERN) (b m : NDIS_STATUS × NxWakePattern)
        (v : NTSTATUS), s.InformationBufferLength < K.sizeof_NDIS_PM_WOL_PATTERN →
      (p.AddWakePattern K s b m v).Status = K.NDIS_STATUS_INVALID_PARAMETER ∧
      (p.AddWakePattern K s b m v).Policy = p ∧
      (p.AddWakePattern K s b m v).Calls = []) ∧
    (∀ (s : SET_INFORMATION NDIS_PM_PROTOCOL_OFFLOAD) (a n : NDIS_STATUS × NxPowerOffload)
        (v : NTSTATUS), s.InformationBufferLength < K.sizeof_NDIS_PM_PROTOCOL_OFFLOAD →
      (p.AddProtocolOffload K s a n v).Status = K.NDIS_STATUS_INVALID_PARAMETER ∧
      (p.AddProtocolOffload K s a n v).Policy = p ∧
      (p.AddProtocolOffload K s a n v).Calls = []) ∧
    (∀ s : SET_INFORMATION Nat, s.InformationBufferLength < K.sizeof_ULONG →
      (p.RemoveWakePattern K s).Status = K.NDIS_STATUS_INVALID_PARAMETER ∧
      (p.RemoveWakePattern K s).Policy = p) ∧
    (∀ s : SET_INFORMATION Nat, s.InformationBufferLength < K.sizeof_ULONG →
      (p.RemoveProtocolOffload K s).Status = K.NDIS_STATUS_INVALID_PARAMETER ∧
      (p.RemoveProtocolOffload K s).Policy = p) ∧
    (∀ s : SET_INFORMATION NDIS_PM_PARAMETERS,
      s.InformationBufferLength < K.sizeof_NDIS_PM_PARAMETERS →
      (p.SetParameters K s).Status = K.NDIS_STATUS_INVALID_PARAMETER ∧
      (p.SetParameters K s).Policy = p ∧
      (p.SetParameters K s).PmParams = s.InformationBuffer) := by
  refine ⟨?_, ?_, ?_, ?_, ?_⟩
  · intro s b m v h
    rw [NxPowerPolicy.AddWakePattern_short K p s b m v h]
    exact ⟨rfl, rfl, rfl⟩
  · intro s a n v h
    rw [NxPowerPolicy.AddProtocolOffload_short K p s a n v h]
    exact ⟨rfl, rfl, rfl⟩
  · intro s h
    unfold NxPowerPolicy.RemoveWakePattern
    rw [if_pos h]
    exact ⟨rfl, rfl⟩
  · intro s h
    unfold NxPowerPolicy.RemoveProtocolOffload
    rw [if_pos h]
    exact ⟨rfl, rfl⟩
  · intro s h
    unfold NxPowerPolicy.SetParameters
    rw [if_pos h]
    exact ⟨rfl, rfl, rfl⟩

/-- C22 at the request of the specification: `AddProtocolOffload` with a buffer of
length 2 on a policy with one offload returns `NDIS_STATUS_INVALID_PARAMETER` and the
policy, with its offload count of one, is as before. -/
theorem C22_short_buffer_is_invalid_parameter_witness :
    (2 : Nat) < sampleConstants.sizeof_NDIS_PM_PROTOCOL_OFFLOAD ∧
    (samplePolicyWithEntries.AddProtocolOffload sampleConstants
        ⟨⟨.NdisPMProtocolOffloadIdIPv4ARP, 9⟩, 2⟩
        (0, ⟨809, 9, .NetPowerOffloadTypeArp, false⟩)
        (0, ⟨810, 9, .NetPowerOffloadTypeNS, false⟩) 0).Status =
      sampleConstants.NDIS_STATUS_INVALID_PARAMETER ∧
    (samplePolicyWithEntries.AddProtocolOffload sampleConstants
        ⟨⟨.NdisPMProtocolOffloadIdIPv4ARP, 9⟩, 2⟩
        (0, ⟨809, 9, .NetPowerOffloadTypeArp, false⟩)
        (0, ⟨810, 9, .NetPowerOffloadTypeNS, false⟩) 0).Policy = samplePolicyWithEntries ∧
    (samplePolicyWithEntries.AddProtocolOffload sampleConstants
        ⟨⟨.NdisPMProtocolOffloadIdIPv4ARP, 9⟩, 2⟩
        (0, ⟨809, 9, .NetPowerOffloadTypeArp, false⟩)
        (0, ⟨810, 9, .NetPowerOffloadTypeNS, false⟩) 0).Calls = [] :=
  ⟨by decide,
    (C22_short_buffer_is_invalid_parameter sampleConstants samplePolicyWithEntries).2.1
      ⟨⟨.NdisPMProtocolOffloadIdIPv4ARP, 9⟩, 2⟩
      (0, ⟨809, 9, .NetPowerOffloadTypeArp, false⟩)
      (0, ⟨810, 9, .NetPowerOffloadTypeNS, false⟩) 0 (by decide)⟩

/-- C23: for every add request of valid length, `AddWakePattern` returns
`NDIS_STATUS_NOT_SUPPORTED` for a bitmap pattern when BitmapPattern is not declared, for
a magic packet when MagicPacket is not declared, and for every other subtype;
`AddProtocolOffload` returns it for IPv4 ARP when ArpOffload is not declared, for IPv6 NS
when NSOffload is not declared, and for every other subtype.  In the six cases no call
is made, neither of a factory nor of a preview callback, and the policy is as before. -/
theorem C23_undeclared_or_unknown_subtype_not_supported (K : NdisConstants)
    (p : NxPowerPolicy) :
    (∀ (s : SET_INFORMATION NDIS_PM_WOL_PATTERN) (b m : NDIS_STATUS × NxWakePattern)
        (v : NTSTATUS), ¬ s.InformationBufferLength < K.sizeof_NDIS_PM_WOL_PATTERN →
      (s.InformationBuffer.WoLPacketType = .NdisPMWoLPacketBitmapPattern ∧
          p.m_wakeBitmapCapabilities.BitmapPattern = false) ∨
        (s.InformationBuffer.WoLPacketType = .NdisPMWoLPacketMagicPacket ∧
          p.m_magicPacketCapabilities.MagicPacket = false) ∨
        (∃ n, s.InformationBuffer.WoLPacketType = .Other n) →
      (p.AddWakePattern K s b m v).Status = K.NDIS_STATUS_NOT_SUPPORTED ∧
      (p.AddWakePattern K s b m v).Calls = [] ∧
      (p.AddWakePattern K s b m v).Policy = p) ∧
    (∀ (s : SET_INFORMATION NDIS_PM_PROTOCOL_OFFLOAD) (a n : NDIS_STATUS × NxPowerOffload)
        (v : NTSTATUS), ¬ s.InformationBufferLength < K.sizeof_NDIS_PM_PROTOCOL_OFFLOAD →
      (s.InformationBuffer.ProtocolOffloadType = .NdisPMProtocolOffloadIdIPv4ARP ∧
          p.m_powerOffloadArpCapabilities.ArpOffload = false) ∨
        (s.InformationBuffer.ProtocolOffloadType = .NdisPMProtocolOffloadIdIPv6NS ∧
          p.m_powerOffloadNSCapabilities.NSOffload = false) ∨
        (∃ k, s.InformationBuffer.ProtocolOffloadType = .Other k) →
      (p.AddProtocolOffload K s a n v).Status = K.NDIS_STATUS_NOT_SUPPORTED ∧
      (p.AddProtocolOffload K s a n v).Calls = [] ∧
      (p.AddProtocolOffload K s a n v).Policy = p) := by
  constructor
  · intro s b m v hlen h
    rcases h with ⟨ht, hc⟩ | ⟨ht, hc⟩ | ⟨n, ht⟩
    · rw [NxPowerPolicy.AddWakePattern_bitmap K p s b m v hlen ht, if_pos hc]
      exact ⟨rfl, rfl, rfl⟩
    · rw [NxPowerPolicy.AddWakePattern_magic K p s b m v hlen ht, if_pos hc]
      exact ⟨rfl, rfl, rfl⟩
    · rw [NxPowerPolicy.AddWakePattern_other K p s b m v hlen n ht]
      exact ⟨rfl, rfl, rfl⟩
  · intro s a n v hlen h
    rcases h with ⟨ht, hc⟩ | ⟨ht, hc⟩ | ⟨k, ht⟩
    · rw [NxPowerPolicy.AddProtocolOffload_arp K p s a n v hlen ht, if_pos hc]
      exact ⟨rfl, rfl, rfl⟩
    · rw [NxPowerPolicy.AddProtocolOffload_ns K p s a n v hlen ht, if_pos hc]
      exact ⟨rfl, rfl, rfl⟩
    · rw [NxPowerPolicy.AddProtocolOffload_other K p s a n v hlen k ht]
      exact ⟨rfl, rfl, rfl⟩

/-- C23 at sample requests: a bitmap pattern on a policy that declares no capability,
and an offload of an unnamed subtype on the sample policy, are both not supported and
make no call. -/
theorem C23_undeclared_or_unknown_subtype_not_supported_witness :
    ((samplePolicyNoCapabilities.AddWakePattern sampleConstants
        ⟨⟨.NdisPMWoLPacketBitmapPattern, 3⟩, 64⟩
        (0, ⟨703, 3, .NetWakeSourceTypeBitmapPattern, false⟩)
        (0, ⟨704, 3, .NetWakeSourceTypeMagicPacket, false⟩) 0).Status =
        sampleConstants.NDIS_STATUS_NOT_SUPPORTED ∧
      (samplePolicyNoCapabilities.AddWakePattern sampleConstants
        ⟨⟨.NdisPMWoLPacketBitmapPattern, 3⟩, 64⟩
        (0, ⟨703, 3, .NetWakeSourceTypeBitmapPattern, false⟩)
        (0, ⟨704, 3, .NetWakeSourceTypeMagicPacket, false⟩) 0).Calls = [] ∧
      (samplePolicyNoCapabilities.AddWakePattern sampleConstants
        ⟨⟨.NdisPMWoLPacketBitmapPattern, 3⟩, 64⟩
        (0, ⟨703, 3, .NetWakeSourceTypeBitmapPattern, false⟩)
        (0, ⟨704, 3, .NetWakeSourceTypeMagicPacket, false⟩) 0).Policy =
        samplePolicyNoCapabilities) ∧
    ((samplePolicy.AddProtocolOffload sampleConstants
        ⟨⟨.Other 7, 3⟩, 64⟩
        (0, ⟨803, 3, .NetPowerOffloadTypeArp, false⟩)
        (0, ⟨804, 3, .NetPowerOffloadTypeNS, false⟩) 0).Status =
        sampleConstants.NDIS_STATUS_NOT_SUPPORTED ∧
      (samplePolicy.AddProtocolOffload sampleConstants
        ⟨⟨.Other 7, 3⟩, 64⟩
        (0, ⟨803, 3, .NetPowerOffloadTypeArp, false⟩)
        (0, ⟨804, 3, .NetPowerOffloadTypeNS, false⟩) 0).Calls = [] ∧
      (samplePolicy.AddProtocolOffload sampleConstants
        ⟨⟨.Other 7, 3⟩, 64⟩
        (0, ⟨803, 3, .NetPowerOffloadTypeArp, false⟩)
        (0, ⟨804, 3, .NetPowerOffloadTypeNS, false⟩) 0).Policy = samplePolicy) :=
  ⟨(C23_undeclared_or_unknown_subtype_not_supported sampleConstants
      samplePolicyNoCapabilities).1
      ⟨⟨.NdisPMWoLPacketBitmapPattern, 3⟩, 64⟩
      (0, ⟨703, 3, .NetWakeSourceTypeBitmapPattern, false⟩)
      (0, ⟨704, 3, .NetWakeSourceTypeMagicPacket, false⟩) 0 (by decide)
      (Or.inl ⟨rfl, rfl⟩),
    (C23_undeclared_or_unknown_subtype_not_supported sampleConstants samplePolicy).2
      ⟨⟨.Other 7, 3⟩, 64⟩
      (0, ⟨803, 3, .NetPowerOffloadTypeArp, false⟩)
      (0, ⟨804, 3, .NetPowerOffloadTypeNS, false⟩) 0 (by decide)
      (Or.inr (Or.inr ⟨7, rfl⟩))⟩

/-- C24: for every add request of valid length whose subtype has its capability
declared, a factory status other than `NDIS_STATUS_SUCCESS` is returned as it is by
`AddWakePattern` (bitmap pattern, magic packet) and by `AddProtocolOffload` (IPv4 ARP,
IPv6 NS); the call of the factory is the only call made, so the preview callback is not
called, and the policy is as before. -/
theorem C24_factory_failure_returned_verbatim (K : NdisConstants) (p : NxPowerPolicy) :
    (∀ (s : SET_INFORMATION NDIS_PM_WOL_PATTERN) (b m : NDIS_STATUS × NxWakePattern)
        (v : NTSTATUS), ¬ s.InformationBufferLength < K.sizeof_NDIS_PM_WOL_PATTERN →
      (s.InformationBuffer.WoLPacketType = .NdisPMWoLPacketBitmapPattern →
        p.m_wakeBitmapCapabilities.BitmapPattern = true → b.1 ≠ K.NDIS_STATUS_SUCCESS →
        (p.AddWakePattern K s b m v).Status = b.1 ∧
        (p.AddWakePattern K s b m v).Calls =
          [PolicyEvent.NxWakeBitmapPattern_CreateFromNdisWoLPattern p.m_adapter
            s.InformationBuffer] ∧
        (∀ c ∈ (p.AddWakePattern K s b m v).Calls, c.isPreview = false) ∧
        (p.AddWakePattern K s b m v).Policy = p) ∧
      (s.InformationBuffer.WoLPacketType = .NdisPMWoLPacketMagicPacket →
        p.m_magicPacketCapabilities.MagicPacket = true → m.1 ≠ K.NDIS_STATUS_SUCCESS →
        (p.AddWakePattern K s b m v).Status = m.1 ∧
        (p.AddWakePattern K s b m v).Calls =
          [PolicyEvent.NxWakeMagicPacket_CreateFromNdisWoLPattern p.m_adapter
            s.InformationBuffer] ∧
        (∀ c ∈ (p.AddWakePattern K s b m v).Calls, c.isPreview = false) ∧
        (p.AddWakePattern K s b m v).Policy = p)) ∧
    (∀ (s : SET_INFORMATION NDIS_PM_PROTOCOL_OFFLOAD) (a n : NDIS_STATUS × NxPowerOffload)
        (v : NTSTATUS), ¬ s.InformationBufferLength < K.sizeof_NDIS_PM_PROTOCOL_OFFLOAD →
      (s.InformationBuffer.ProtocolOffloadType = .NdisPMProtocolOffloadIdIPv4ARP →
        p.m_powerOffloadArpCapabilities.ArpOffload = true → a.1 ≠ K.NDIS_STATUS_SUCCESS →
        (p.AddProtocolOffload K s a n v).Status = a.1 ∧
        (p.AddProtocolOffload K s a n v).Calls =
          [PolicyEvent.NxArpOffload_CreateFromNdisPmOffload p.m_adapter
            s.InformationBuffer] ∧
        (∀ c ∈ (p.AddProtocolOffload K s a n v).Calls, c.isPreview = false) ∧
        (p.AddProtocolOffload K s a n v).Policy = p) ∧
      (s.InformationBuffer.ProtocolOffloadType = .NdisPMProtocolOffloadIdIPv6NS →
        p.m_powerOffloadNSCapabilities.NSOffload = true → n.1 ≠ K.NDIS_STATUS_SUCCESS →
        (p.AddProtocolOffload K s a n v).Status = n.1 ∧
        (p.AddProtocolOffload K s a n v).Calls =
          [PolicyEvent.NxNSOffload_CreateFromNdisPmOffload p.m_adapter
            s.InformationBuffer] ∧
        (∀ c ∈ (p.AddProtocolOffload K s a n v).Calls, c.isPreview = false) ∧
        (p.AddProtocolOffload K s a n v).Policy = p)) := by
  constructor
  · intro s b m v hlen
    constructor
    · intro ht hc hf
      rw [NxPowerPolicy.AddWakePattern_bitmap K p s b m v hlen ht, if_neg (by simp [hc]),
        if_pos hf]
      exact ⟨rfl, rfl, by simp [PolicyEvent.isPreview], rfl⟩
    · intro ht hc hf
      rw [NxPowerPolicy.AddWakePattern_magic K p s b m v hlen ht, if_neg (by simp [hc]),
        if_pos hf]
      exact ⟨rfl, rfl, by simp [PolicyEvent.isPreview], rfl⟩
  · intro s a n v hlen
    constructor
    · intro ht hc hf
      rw [NxPowerPolicy.AddProtocolOffload_arp K p s a n v hlen ht, if_neg (by simp [hc]),
        if_pos hf]
      exact ⟨rfl, rfl, by simp [PolicyEvent.isPreview], rfl⟩
    · intro ht hc hf
      rw [NxPowerPolicy.AddProtocolOffload_ns K p s a n v hlen ht, if_neg (by simp [hc]),
        if_pos hf]
      exact ⟨rfl, rfl, by simp [PolicyEvent.isPreview], rfl⟩

/-- C24 at a sample request: the bitmap-pattern factory fails with the status
`0xC000009A` (insufficient resources) on the sample policy, which has a preview callback
for bitmap patterns; the add returns that status and only the factory is called. -/
theorem C24_factory_failure_returned_verbatim_witness :
    (samplePolicy.AddWakePattern sampleConstants
        ⟨⟨.NdisPMWoLPacketBitmapPattern, 3⟩, 64⟩
        (0xC000009A - 2 ^ 32, ⟨703, 3, .NetWakeSourceTypeBitmapPattern, false⟩)
        (0, ⟨704, 3, .NetWakeSourceTypeMagicPacket, false⟩) 0).Status =
      0xC000009A - 2 ^ 32 ∧
    (samplePolicy.AddWakePattern sampleConstants
        ⟨⟨.NdisPMWoLPacketBitmapPattern, 3⟩, 64⟩
        (0xC000009A - 2 ^ 32, ⟨703, 3, .NetWakeSourceTypeBitmapPattern, false⟩)
        (0, ⟨704, 3, .NetWakeSourceTypeMagicPacket, false⟩) 0).Calls =
      [PolicyEvent.NxWakeBitmapPattern_CreateFromNdisWoLPattern 11
        ⟨.NdisPMWoLPacketBitmapPattern, 3⟩] ∧
    (∀ c ∈ (samplePolicy.AddWakePattern sampleConstants
        ⟨⟨.NdisPMWoLPacketBitmapPattern, 3⟩, 64⟩
        (0xC000009A - 2 ^ 32, ⟨703, 3, .NetWakeSourceTypeBitmapPattern, false⟩)
        (0, ⟨704, 3, .NetWakeSourceTypeMagicPacket, false⟩) 0).Calls,
      c.isPreview = false) ∧
    (samplePolicy.AddWakePattern sampleConstants
        ⟨⟨.NdisPMWoLPacketBitmapPattern, 3⟩, 64⟩
        (0xC000009A - 2 ^ 32, ⟨703, 3, .NetWakeSourceTypeBitmapPattern, false⟩)
        (0, ⟨704, 3, .NetWakeSourceTypeMagicPacket, false⟩) 0).Policy = samplePolicy :=
  ((C24_factory_failure_returned_verbatim sampleConstants samplePolicy).1
    ⟨⟨.NdisPMWoLPacketBitmapPattern, 3⟩, 64⟩
    (0xC000009A - 2 ^ 32, ⟨703, 3, .NetWakeSourceTypeBitmapPattern, false⟩)
    (0, ⟨704, 3, .NetWakeSourceTypeMagicPacket, false⟩) 0 (by decide)).1 rfl rfl (by decide)

/-- C25: when the entry was constructed (valid length, capability declared, factory
succeeded) and a preview callback `fn` is registered for the subtype, the add routine
calls the factory and then `fn` on the device and the handle of the new entry, and the
status that `fn` returns decides: the list-full status of the routine
(`STATUS_NDIS_PM_WOL_PATTERN_LIST_FULL` for `AddWakePattern`,
`STATUS_NDIS_PM_PROTOCOL_OFFLOAD_LIST_FULL` for `AddProtocolOffload`) gives the
`NDIS_STATUS_PM_..._LIST_FULL` status of the same name, every other status different
from `STATUS_SUCCESS` gives `NDIS_STATUS_FAILURE`, and `STATUS_SUCCESS`, which is not the
list-full status, gives `NDIS_STATUS_SUCCESS` with the entry linked. -/
theorem C25_preview_status_translation (K : NdisConstants) (p : NxPowerPolicy) :
    (∀ (s : SET_INFORMATION NDIS_PM_WOL_PATTERN) (b m : NDIS_STATUS × NxWakePattern)
        (v : NTSTATUS) (fn : Nat),
      ¬ s.InformationBufferLength < K.sizeof_NDIS_PM_WOL_PATTERN →
      s.InformationBuffer.WoLPacketType = .NdisPMWoLPacketBitmapPattern →
      p.m_wakeBitmapCapabilities.BitmapPattern = true →
      b.1 = K.NDIS_STATUS_SUCCESS →
      p.m_powerPolicyEventCallbacks.EvtDevicePreviewBitmapPattern = some fn →
      (p.AddWakePattern K s b m v).Calls =
        [PolicyEvent.NxWakeBitmapPattern_CreateFromNdisWoLPattern p.m_adapter
            s.InformationBuffer,
          PolicyEvent.PreviewWakeSource fn p.m_device b.2.GetHandle] ∧
      (v = K.STATUS_NDIS_PM_WOL_PATTERN_LIST_FULL →
        (p.AddWakePattern K s b m v).Status = K.NDIS_STATUS_PM_WOL_PATTERN_LIST_FULL) ∧
      (v ≠ K.STATUS_NDIS_PM_WOL_PATTERN_LIST_FULL → v ≠ STATUS_SUCCESS →
        (p.AddWakePattern K s b m v).Status = K.NDIS_STATUS_FAILURE) ∧
      (K.STATUS_NDIS_PM_WOL_PATTERN_LIST_FULL ≠ STATUS_SUCCESS → v = STATUS_SUCCESS →
        (p.AddWakePattern K s b m v).Status = K.NDIS_STATUS_SUCCESS ∧
        (p.AddWakePattern K s b m v).Policy.m_WakeListHead =
          p.UpdatePatternEntryEnabledField K b.2 :: p.m_WakeListHead)) ∧
    (∀ (s : SET_INFORMATION NDIS_PM_PROTOCOL_OFFLOAD) (a n : NDIS_STATUS × NxPowerOffload)
        (v : NTSTATUS) (fn : Nat),
      ¬ s.InformationBufferLength < K.sizeof_NDIS_PM_PROTOCOL_OFFLOAD →
      s.InformationBuffer.ProtocolOffloadType = .NdisPMProtocolOffloadIdIPv4ARP →
      p.m_powerOffloadArpCapabilities.ArpOffload = true →
      a.1 = K.NDIS_STATUS_SUCCESS →
      p.m_powerPolicyEventCallbacks.EvtDevicePreviewArpOffload = some fn →
      (p.AddProtocolOffload K s a n v).Calls =
        [PolicyEvent.NxArpOffload_CreateFromNdisPmOffload p.m_adapter s.InformationBuffer,
          PolicyEvent.PreviewPowerOffload fn p.m_device a.2.GetHandle] ∧
      (v = K.STATUS_NDIS_PM_PROTOCOL_OFFLOAD_LIST_FULL →
        (p.AddProtocolOffload K s a n v).Status =
          K.NDIS_STATUS_PM_PROTOCOL_OFFLOAD_LIST_FULL) ∧
      (v ≠ K.STATUS_NDIS_PM_PROTOCOL_OFFLOAD_LIST_FULL → v ≠ STATUS_SUCCESS →
        (p.AddProtocolOffload K s a n v).Status = K.NDIS_STATUS_FAILURE) ∧
      (K.STATUS_NDIS_PM_PROTOCOL_OFFLOAD_LIST_FULL ≠ STATUS_SUCCESS → v = STATUS_SUCCESS →
        (p.AddProtocolOffload K s a n v).Status = K.NDIS_STATUS_SUCCESS ∧
        (p.AddProtocolOffload K s a n v).Policy.m_ProtocolOffloadListHead =
          p.UpdateProtocolOffloadEntryEnabledField K a.2 :: p.m_ProtocolOffloadListHead)) ∧
    (∀ (s : SET_INFORMATION NDIS_PM_PROTOCOL_OFFLOAD) (a n : NDIS_STATUS × NxPowerOffload)
        (v : NTSTATUS) (fn : Nat),
      ¬ s.InformationBufferLength < K.sizeof_NDIS_PM_PROTOCOL_OFFLOAD →
      s.InformationBuffer.ProtocolOffloadType = .NdisPMProtocolOffloadIdIPv6NS →
      p.m_powerOffloadNSCapabilities.NSOffload = true →
      n.1 = K.NDIS_STATUS_SUCCESS →
      p.m_powerPolicyEventCallbacks.EvtDevicePreviewNSOffload = some fn →
      (p.AddProtocolOffload K s a n v).Calls =
        [PolicyEvent.NxNSOffload_CreateFromNdisPmOffload p.m_adapter s.InformationBuffer,
          PolicyEvent.PreviewPowerOffload fn p.m_device n.2.GetHandle] ∧
      (v = K.STATUS_NDIS_PM_PROTOCOL_OFFLOAD_LIST_FULL →
        (p.AddProtocolOffload K s a n v).Status =
          K.NDIS_STATUS_PM_PROTOCOL_OFFLOAD_LIST_FULL) ∧
      (v ≠ K.STATUS_NDIS_PM_PROTOCOL_OFFLOAD_LIST_FULL → v ≠ STATUS_SUCCESS →
        (p.AddProtocolOffload K s a n v).Status = K.NDIS_STATUS_FAILURE) ∧
      (K.STATUS_NDIS_PM_PROTOCOL_OFFLOAD_LIST_FULL ≠ STATUS_SUCCESS → v = STATUS_SUCCESS →
        (p.AddProtocolOffload K s a n v).Status = K.NDIS_STATUS_SUCCESS ∧
        (p.AddProtocolOffload K s a n v).Policy.m_ProtocolOffloadListHead =
          p.UpdateProtocolOffloadEntryEnabledField K n.2 :: p.m_ProtocolOffloadListHead)) := by
  refine ⟨?_, ?_, ?_⟩
  · intro s b m v fn hlen ht hc hb hfn
    rw [NxPowerPolicy.AddWakePattern_bitmap K p s b m v hlen ht, if_neg (by simp [hc]),
      if_neg (by simp [hb]), hfn]
    refine ⟨?_, ?_, ?_, ?_⟩
    · simp only [NxPowerPolicy.AddWakePattern.finish, PolicyResult.after]
      split_ifs <;> rfl
    · intro hv
      simp [NxPowerPolicy.AddWakePattern.finish, PolicyResult.after, hv]
    · intro hv hv2
      simp [NxPowerPolicy.AddWakePattern.finish, PolicyResult.after, hv, hv2]
    · intro hK hv
      subst hv
      simp [NxPowerPolicy.AddWakePattern.finish, PolicyResult.after, Ne.symm hK]
  · intro s a n v fn hlen ht hc ha hfn
    rw [NxPowerPolicy.AddProtocolOffload_arp K p s a n v hlen ht, if_neg (by simp [hc]),
      if_neg (by simp [ha]), hfn]
    refine ⟨?_, ?_, ?_, ?_⟩
    · simp only [NxPowerPolicy.AddProtocolOffload.finish, PolicyResult.after]
      split_ifs <;> rfl
    · intro hv
      simp [NxPowerPolicy.AddProtocolOffload.finish, PolicyResult.after, hv]
    · intro hv hv2
      simp [NxPowerPolicy.AddProtocolOffload.finish, PolicyResult.after, hv, hv2]
    · intro hK hv
      subst hv
      simp [NxPowerPolicy.AddProtocolOffload.finish, PolicyResult.after, Ne.symm hK]
  · intro s a n v fn hlen ht hc hn hfn
    rw [NxPowerPolicy.AddProtocolOffload_ns K p s a n v hlen ht, if_neg (by simp [hc]),
      if_neg (by simp [hn]), hfn]
    refine ⟨?_, ?_, ?_, ?_⟩
    · simp only [NxPowerPolicy.AddProtocolOffload.finish, PolicyResult.after]
      split_ifs <;> rfl
    · intro hv
      simp [NxPowerPolicy.AddProtocolOffload.finish, PolicyResult.after, hv]
    · intro hv hv2
      simp [NxPowerPolicy.AddProtocolOffload.finish, PolicyResult.after, hv, hv2]
    · intro hK hv
      subst hv
      simp [NxPowerPolicy.AddProtocolOffload.finish, PolicyResult.after, Ne.symm hK]

/-- C25 at sample requests on the sample policy, whose bitmap-pattern preview callback
is 600: list full from the callback gives `NDIS_STATUS_PM_WOL_PATTERN_LIST_FULL`,
`STATUS_UNSUCCESSFUL` gives `NDIS_STATUS_FAILURE`, and `STATUS_SUCCESS` gives success
with the entry linked; an NS offload previewed by callback 602 with list full gives
`NDIS_STATUS_PM_PROTOCOL_OFFLOAD_LIST_FULL`. -/
theorem C25_preview_status_translation_witness :
    (samplePolicy.AddWakePattern sampleConstants
        ⟨⟨.NdisPMWoLPacketBitmapPattern, 3⟩, 64⟩
        (0, ⟨703, 3, .NetWakeSourceTypeBitmapPattern, false⟩)
        (0, ⟨704, 3, .NetWakeSourceTypeMagicPacket, false⟩) (0xC0232004 - 2 ^ 32)).Status =
      sampleConstants.NDIS_STATUS_PM_WOL_PATTERN_LIST_FULL ∧
    (samplePolicy.AddWakePattern sampleConstants
        ⟨⟨.NdisPMWoLPacketBitmapPattern, 3⟩, 64⟩
        (0, ⟨703, 3, .NetWakeSourceTypeBitmapPattern, false⟩)
        (0, ⟨704, 3, .NetWakeSourceTypeMagicPacket, false⟩) (0xC0000001 - 2 ^ 32)).Status =
      sampleConstants.NDIS_STATUS_FAILURE ∧
    ((samplePolicy.AddWakePattern sampleConstants
        ⟨⟨.NdisPMWoLPacketBitmapPattern, 3⟩, 64⟩
        (0, ⟨703, 3, .NetWakeSourceTypeBitmapPattern, false⟩)
        (0, ⟨704, 3, .NetWakeSourceTypeMagicPacket, false⟩) 0).Status =
        sampleConstants.NDIS_STATUS_SUCCESS ∧
      (samplePolicy.AddWakePattern sampleConstants
        ⟨⟨.NdisPMWoLPacketBitmapPattern, 3⟩, 64⟩
        (0, ⟨703, 3, .NetWakeSourceTypeBitmapPattern, false⟩)
        (0, ⟨704, 3, .NetWakeSourceTypeMagicPacket, false⟩) 0).Policy.m_WakeListHead =
        [⟨703, 3, .NetWakeSourceTypeBitmapPattern, false⟩]) ∧
    (samplePolicyWithPreviews.AddProtocolOffload sampleConstants
        ⟨⟨.NdisPMProtocolOffloadIdIPv6NS, 3⟩, 64⟩
        (0, ⟨803, 3, .NetPowerOffloadTypeArp, false⟩)
        (0, ⟨804, 3, .NetPowerOffloadTypeNS, false⟩) (0xC0232005 - 2 ^ 32)).Status =
      sampleConstants.NDIS_STATUS_PM_PROTOCOL_OFFLOAD_LIST_FULL :=
  ⟨((C25_preview_status_translation sampleConstants samplePolicy).1
      ⟨⟨.NdisPMWoLPacketBitmapPattern, 3⟩, 64⟩
      (0, ⟨703, 3, .NetWakeSourceTypeBitmapPattern, false⟩)
      (0, ⟨704, 3, .NetWakeSourceTypeMagicPacket, false⟩) (0xC0232004 - 2 ^ 32) 600
      (by decide) rfl rfl rfl rfl).2.1 rfl,
    ((C25_preview_status_translation sampleConstants samplePolicy).1
      ⟨⟨.NdisPMWoLPacketBitmapPattern, 3⟩, 64⟩
      (0, ⟨703, 3, .NetWakeSourceTypeBitmapPattern, false⟩)
      (0, ⟨704, 3, .NetWakeSourceTypeMagicPacket, false⟩) (0xC0000001 - 2 ^ 32) 600
      (by decide) rfl rfl rfl rfl).2.2.1 (by decide) (by decide),
    ((C25_preview_status_translation sampleConstants samplePolicy).1
      ⟨⟨.NdisPMWoLPacketBitmapPattern, 3⟩, 64⟩
      (0, ⟨703, 3, .NetWakeSourceTypeBitmapPattern, false⟩)
      (0, ⟨704, 3, .NetWakeSourceTypeMagicPacket, false⟩) 0 600
      (by decide) rfl rfl rfl rfl).2.2.2 (by decide) rfl,
    ((C25_preview_status_translation sampleConstants samplePolicyWithPreviews).2.2
      ⟨⟨.NdisPMProtocolOffloadIdIPv6NS, 3⟩, 64⟩
      (0, ⟨803, 3, .NetPowerOffloadTypeArp, false⟩)
      (0, ⟨804, 3, .NetPowerOffloadTypeNS, false⟩) (0xC0232005 - 2 ^ 32) 602
      (by decide) rfl rfl rfl rfl).2.1 rfl⟩

/-! ## Lemmas on admitted entries -/

/-- The end of `AddWakePattern` when no preview callback rejects the entry. -/
theorem NxPowerPolicy.AddWakePattern_finish_pass (K : NdisConstants) (p : NxPowerPolicy)
    (e : NxWakePattern) (pfn : Option Nat) (v : NTSTATUS)
    (h : pfn = none ∨ (v ≠ K.STATUS_NDIS_PM_WOL_PATTERN_LIST_FULL ∧ v = STATUS_SUCCESS)) :
    (NxPowerPolicy.AddWakePattern.finish K p e pfn v).Status = K.NDIS_STATUS_SUCCESS ∧
    (NxPowerPolicy.AddWakePattern.finish K p e pfn v).Policy =
      { p with m_WakeListHead := p.UpdatePatternEntryEnabledField K e :: p.m_WakeListHead } := by
  unfold NxPowerPolicy.AddWakePattern.finish
  cases pfn with
  | none => exact ⟨rfl, rfl⟩
  | some fn =>
    rcases h with h | ⟨h1, h2⟩
    · cases h
    · dsimp only
      rw [if_neg h1, if_neg (not_not.mpr h2)]
      exact ⟨rfl, rfl⟩

/-- The end of `AddProtocolOffload` when no preview callback rejects the entry. -/
theorem NxPowerPolicy.AddProtocolOffload_finish_pass (K : NdisConstants)
    (p : NxPowerPolicy) (e : NxPowerOffload) (pfn : Option Nat) (v : NTSTATUS)
    (h : pfn = none ∨
      (v ≠ K.STATUS_NDIS_PM_PROTOCOL_OFFLOAD_LIST_FULL ∧ v = STATUS_SUCCESS)) :
    (NxPowerPolicy.AddProtocolOffload.finish K p e pfn v).Status = K.NDIS_STATUS_SUCCESS ∧
    (NxPowerPolicy.AddProtocolOffload.finish K p e pfn v).Policy =
      { p with m_ProtocolOffloadListHead :=
          p.UpdateProtocolOffloadEntryEnabledField K e :: p.m_ProtocolOffloadListHead } := by
  unfold NxPowerPolicy.AddProtocolOffload.finish
  cases pfn with
  | none => exact ⟨rfl, rfl⟩
  | some fn =>
    rcases h with h | ⟨h1, h2⟩
    · cases h
    · dsimp only
      rw [if_neg h1, if_neg (not_not.mpr h2)]
      exact ⟨rfl, rfl⟩

/-- An admitted wake entry is pushed on the wake list by `AddWakePattern`, which
succeeds. -/
theorem NxPowerPolicy.AddWakePattern_admitted (K : NdisConstants) (p : NxPowerPolicy)
    (s : SET_INFORMATION NDIS_PM_WOL_PATTERN) (b m : NDIS_STATUS × NxWakePattern)
    (v : NTSTATUS) (e : NxWakePattern) (h : specWakePatternAdmitted K p s b m v = some e) :
    (p.AddWakePattern K s b m v).Status = K.NDIS_STATUS_SUCCESS ∧
    (p.AddWakePattern K s b m v).Policy =
      { p with m_WakeListHead := p.UpdatePatternEntryEnabledField K e :: p.m_WakeListHead } := by
  unfold specWakePatternAdmitted at h
  by_cases hlen : K.sizeof_NDIS_PM_WOL_PATTERN ≤ s.InformationBufferLength
  · rw [if_pos hlen] at h
    have hlen2 : ¬ s.InformationBufferLength < K.sizeof_NDIS_PM_WOL_PATTERN := by omega
    cases ht : s.InformationBuffer.WoLPacketType with
    | NdisPMWoLPacketBitmapPattern =>
      rw [ht] at h
      dsimp only at h
      split_ifs at h with hc
      obtain ⟨hc1, hc2, hc3⟩ := hc
      cases h
      rw [NxPowerPolicy.AddWakePattern_bitmap K p s b m v hlen2 ht, if_neg (by simp [hc1]),
        if_neg (by simp [hc2])]
      exact NxPowerPolicy.AddWakePattern_finish_pass K p b.2 _ v hc3
    | NdisPMWoLPacketMagicPacket =>
      rw [ht] at h
      dsimp only at h
      split_ifs at h with hc
      obtain ⟨hc1, hc2⟩ := hc
      cases h
      rw [NxPowerPolicy.AddWakePattern_magic K p s b m v hlen2 ht, if_neg (by simp [hc1]),
        if_neg (by simp [hc2])]
      exact NxPowerPolicy.AddWakePattern_finish_pass K p m.2 none v (Or.inl rfl)
    | Other k =>
      rw [ht] at h
      cases h
  · rw [if_neg hlen] at h
    cases h

/-- An admitted offload entry is pushed on the offload list by `AddProtocolOffload`,
which succeeds. -/
theorem NxPowerPolicy.AddProtocolOffload_admitted (K : NdisConstants) (p : NxPowerPolicy)
    (s : SET_INFORMATION NDIS_PM_PROTOCOL_OFFLOAD) (a n : NDIS_STATUS × NxPowerOffload)
    (v : NTSTATUS) (e : NxPowerOffload)
    (h : specProtocolOffloadAdmitted K p s a n v = some e) :
    (p.AddProtocolOffload K s a n v).Status = K.NDIS_STATUS_SUCCESS ∧
    (p.AddProtocolOffload K s a n v).Policy =
      { p with m_ProtocolOffloadListHead :=
          p.UpdateProtocolOffloadEntryEnabledField K e :: p.m_ProtocolOffloadListHead } := by
  unfold specProtocolOffloadAdmitted at h
  by_cases hlen : K.sizeof_NDIS_PM_PROTOCOL_OFFLOAD ≤ s.InformationBufferLength
  · rw [if_pos hlen] at h
    have hlen2 : ¬ s.InformationBufferLength < K.sizeof_NDIS_PM_PROTOCOL_OFFLOAD := by omega
    cases ht : s.InformationBuffer.ProtocolOffloadType with
    | NdisPMProtocolOffloadIdIPv4ARP =>
      rw [ht] at h
      dsimp only at h
      split_ifs at h with hc
      obtain ⟨hc1, hc2, hc3⟩ := hc
      cases h
      rw [NxPowerPolicy.AddProtocolOffload_arp K p s a n v hlen2 ht, if_neg (by simp [hc1]),
        if_neg (by simp [hc2])]
      exact NxPowerPolicy.AddProtocolOffload_finish_pass K p a.2 _ v hc3
    | NdisPMProtocolOffloadIdIPv6NS =>
      rw [ht] at h
      dsimp only at h
      split_ifs at h with hc
      obtain ⟨hc1, hc2, hc3⟩ := hc
      cases h
      rw [NxPowerPolicy.AddProtocolOffload_ns K p s a n v hlen2 ht, if_neg (by simp [hc1]),
        if_neg (by simp [hc2])]
      exact NxPowerPolicy.AddProtocolOffload_finish_pass K p n.2 _ v hc3
    | Other k =>
      rw [ht] at h
      cases h
  · rw [if_neg hlen] at h
    cases h

/-- C26: for every policy state and every add request that passes validation, capability
check, factory and preview, bringing the entry `e`: `AddWakePattern` (resp.
`AddProtocolOffload`) returns `NDIS_STATUS_SUCCESS`; the wake list (resp. offload list)
afterwards is `e` with a recomputed enabled flag, followed by the previous list in its
order; the rest of the policy, the other list and the snapshot with it, is as before; and
the enabled flag of the new entry is the bit test of its type against the stored
snapshot. -/
theorem C26_admitted_entry_pushed_front (K : NdisConstants) (p : NxPowerPolicy) :
    (∀ (s : SET_INFORMATION NDIS_PM_WOL_PATTERN) (b m : NDIS_STATUS × NxWakePattern)
        (v : NTSTATUS) (e : NxWakePattern),
      specWakePatternAdmitted K p s b m v = some e →
      (p.AddWakePattern K s b m v).Status = K.NDIS_STATUS_SUCCESS ∧
      (∃ flag : Bool,
        (p.AddWakePattern K s b m v).Policy =
          { p with m_WakeListHead := { e with IsEnabled := flag } :: p.m_WakeListHead } ∧
        (e.GetType = .NetWakeSourceTypeBitmapPattern →
          flag = testMask p.m_PMParameters.EnabledWoLPacketPatterns
            K.NDIS_PM_WOL_BITMAP_PATTERN_ENABLED) ∧
        (e.GetType = .NetWakeSourceTypeMagicPacket →
          flag = testMask p.m_PMParameters.EnabledWoLPacketPatterns
            K.NDIS_PM_WOL_MAGIC_PACKET_ENABLED)) ∧
      (p.AddWakePattern K s b m v).Policy.m_ProtocolOffloadListHead =
        p.m_ProtocolOffloadListHead ∧
      (p.AddWakePattern K s b m v).Policy.m_PMParameters = p.m_PMParameters) ∧
    (∀ (s : SET_INFORMATION NDIS_PM_PROTOCOL_OFFLOAD) (a n : NDIS_STATUS × NxPowerOffload)
        (v : NTSTATUS) (e : NxPowerOffload),
      specProtocolOffloadAdmitted K p s a n v = some e →
      (p.AddProtocolOffload K s a n v).Status = K.NDIS_STATUS_SUCCESS ∧
      (∃ flag : Bool,
        (p.AddProtocolOffload K s a n v).Policy =
          { p with m_ProtocolOffloadListHead :=
              { e with IsEnabled := flag } :: p.m_ProtocolOffloadListHead } ∧
        (e.GetType = .NetPowerOffloadTypeArp →
          flag = testMask p.m_PMParameters.EnabledProtocolOffloads
            K.NDIS_PM_PROTOCOL_OFFLOAD_ARP_ENABLED) ∧
        (e.GetType = .NetPowerOffloadTypeNS →
          flag = testMask p.m_PMParameters.EnabledProtocolOffloads
            K.NDIS_PM_PROTOCOL_OFFLOAD_NS_ENABLED)) ∧
      (p.AddProtocolOffload K s a n v).Policy.m_WakeListHead = p.m_WakeListHead ∧
      (p.AddProtocolOffload K s a n v).Policy.m_PMParameters = p.m_PMParameters) := by
  constructor
  · intro s b m v e h
    obtain ⟨hst, hpol⟩ := NxPowerPolicy.AddWakePattern_admitted K p s b m v e h
    refine ⟨hst, ⟨(p.UpdatePatternEntryEnabledField K e).IsEnabled, hpol, ?_, ?_⟩, ?_, ?_⟩
    · exact (NxPowerPolicy.UpdatePatternEntryEnabledField_ok K p e).1
    · exact (NxPowerPolicy.UpdatePatternEntryEnabledField_ok K p e).2
    · rw [hpol]
    · rw [hpol]
  · intro s a n v e h
    obtain ⟨hst, hpol⟩ := NxPowerPolicy.AddProtocolOffload_admitted K p s a n v e h
    refine ⟨hst, ⟨(p.UpdateProtocolOffloadEntryEnabledField K e).IsEnabled, hpol, ?_, ?_⟩,
      ?_, ?_⟩
    · exact (NxPowerPolicy.UpdateProtocolOffloadEntryEnabledField_ok K p e).1
    · exact (NxPowerPolicy.UpdateProtocolOffloadEntryEnabledField_ok K p e).2
    · rw [hpol]
    · rw [hpol]

/-- C26 at a sample request: on a policy whose snapshot enables bitmap patterns, a
bitmap pattern that the preview callback accepts is pushed in front of the entry that
was there, enabled, and the offload list is as before. -/
theorem C26_admitted_entry_pushed_front_witness :
    (samplePolicyNegotiated.AddWakePattern sampleConstants
        ⟨⟨.NdisPMWoLPacketBitmapPattern, 3⟩, 64⟩
        (0, ⟨703, 3, .NetWakeSourceTypeBitmapPattern, false⟩)
        (0, ⟨704, 3, .NetWakeSourceTypeMagicPacket, false⟩) 0).Status = 0 ∧
    (samplePolicyNegotiated.AddWakePattern sampleConstants
        ⟨⟨.NdisPMWoLPacketBitmapPattern, 3⟩, 64⟩
        (0, ⟨703, 3, .NetWakeSourceTypeBitmapPattern, false⟩)
        (0, ⟨704, 3, .NetWakeSourceTypeMagicPacket, false⟩) 0).Policy.m_WakeListHead =
      [⟨703, 3, .NetWakeSourceTypeBitmapPattern, true⟩,
        ⟨711, 5, .NetWakeSourceTypeBitmapPattern, true⟩] ∧
    (samplePolicyNegotiated.AddWakePattern sampleConstants
        ⟨⟨.NdisPMWoLPacketBitmapPattern, 3⟩, 64⟩
        (0, ⟨703, 3, .NetWakeSourceTypeBitmapPattern, false⟩)
        (0, ⟨704, 3, .NetWakeSourceTypeMagicPacket, false⟩)
        0).Policy.m_ProtocolOffloadListHead =
      [⟨811, 7, .NetPowerOffloadTypeArp, true⟩] := by
  obtain ⟨h1, ⟨flag, h2, h3, -⟩, h4, -⟩ :=
    (C26_admitted_entry_pushed_front sampleConstants samplePolicyNegotiated).1
      ⟨⟨.NdisPMWoLPacketBitmapPattern, 3⟩, 64⟩
      (0, ⟨703, 3, .NetWakeSourceTypeBitmapPattern, false⟩)
      (0, ⟨704, 3, .NetWakeSourceTypeMagicPacket, false⟩) 0
      ⟨703, 3, .NetWakeSourceTypeBitmapPattern, false⟩ (by decide)
  have hf := h3 rfl
  refine ⟨h1, ?_, h4⟩
  rw [h2, hf]
  decide

/-! ## Lemmas on rejected entries -/

/-- The end of `AddWakePattern` links nothing unless it succeeds. -/
theorem NxPowerPolicy.AddWakePattern_finish_rejected (K : NdisConstants)
    (p : NxPowerPolicy) (e : NxWakePattern) (pfn : Option Nat) (v : NTSTATUS)
    (h : (NxPowerPolicy.AddWakePattern.finish K p e pfn v).Status ≠ K.NDIS_STATUS_SUCCESS) :
    (NxPowerPolicy.AddWakePattern.finish K p e pfn v).Policy = p := by
  unfold NxPowerPolicy.AddWakePattern.finish at h ⊢
  cases pfn with
  | none => exact absurd rfl h
  | some fn =>
    dsimp only at h ⊢
    split_ifs at h ⊢
    · rfl
    · rfl
    · exact absurd rfl h

/-- The end of `AddProtocolOffload` links nothing unless it succeeds. -/
theorem NxPowerPolicy.AddProtocolOffload_finish_rejected (K : NdisConstants)
    (p : NxPowerPolicy) (e : NxPowerOffload) (pfn : Option Nat) (v : NTSTATUS)
    (h : (NxPowerPolicy.AddProtocolOffload.finish K p e pfn v).Status ≠
      K.NDIS_STATUS_SUCCESS) :
    (NxPowerPolicy.AddProtocolOffload.finish K p e pfn v).Policy = p := by
  unfold NxPowerPolicy.AddProtocolOffload.finish at h ⊢
  cases pfn with
  | none => exact absurd rfl h
  | some fn =>
    dsimp only at h ⊢
    split_ifs at h ⊢
    · rfl
    · rfl
    · exact absurd rfl h

/-- C27: for every policy state and every add request, whatever the factories and the
preview callback return, if `AddWakePattern` (resp. `AddProtocolOffload`) returns a
status other than `NDIS_STATUS_SUCCESS`, the policy afterwards is the policy before: the
wake list, the offload list and the snapshot are as they were, and no entry was
linked. -/
theorem C27_failed_add_links_nothing (K : NdisConstants) (p : NxPowerPolicy) :
    (∀ (s : SET_INFORMATION NDIS_PM_WOL_PATTERN) (b m : NDIS_STATUS × NxWakePattern)
        (v : NTSTATUS),
      (p.AddWakePattern K s b m v).Status ≠ K.NDIS_STATUS_SUCCESS →
      (p.AddWakePattern K s b m v).Policy = p ∧
      (p.AddWakePattern K s b m v).Policy.m_WakeListHead = p.m_WakeListHead ∧
      (p.AddWakePattern K s b m v).Policy.m_ProtocolOffloadListHead =
        p.m_ProtocolOffloadListHead ∧
      (p.AddWakePattern K s b m v).Policy.m_PMParameters = p.m_PMParameters) ∧
    (∀ (s : SET_INFORMATION NDIS_PM_PROTOCOL_OFFLOAD) (a n : NDIS_STATUS × NxPowerOffload)
        (v : NTSTATUS),
      (p.AddProtocolOffload K s a n v).Status ≠ K.NDIS_STATUS_SUCCESS →
      (p.AddProtocolOffload K s a n v).Policy = p ∧
      (p.AddProtocolOffload K s a n v).Policy.m_WakeListHead = p.m_WakeListHead ∧
      (p.AddProtocolOffload K s a n v).Policy.m_ProtocolOffloadListHead =
        p.m_ProtocolOffloadListHead ∧
      (p.AddProtocolOffload K s a n v).Policy.m_PMParameters = p.m_PMParameters) := by
  constructor
  · intro s b m v h
    have key : (p.AddWakePattern K s b m v).Policy = p := by
      by_cases hlen : s.InformationBufferLength < K.sizeof_NDIS_PM_WOL_PATTERN
      · rw [NxPowerPolicy.AddWakePattern_short K p s b m v hlen]
      · cases ht : s.InformationBuffer.WoLPacketType with
        | NdisPMWoLPacketBitmapPattern =>
          rw [NxPowerPolicy.AddWakePattern_bitmap K p s b m v hlen ht] at h ⊢
          split_ifs at h ⊢
          · rfl
          · rfl
          · exact NxPowerPolicy.AddWakePattern_finish_rejected K p _ _ v h
        | NdisPMWoLPacketMagicPacket =>
          rw [NxPowerPolicy.AddWakePattern_magic K p s b m v hlen ht] at h ⊢
          split_ifs at h ⊢
          · rfl
          · rfl
          · exact NxPowerPolicy.AddWakePattern_finish_rejected K p _ _ v h
        | Other k =>
          rw [NxPowerPolicy.AddWakePattern_other K p s b m v hlen k ht]
    rw [key]
    exact ⟨rfl, rfl, rfl, rfl⟩
  · intro s a n v h
    have key : (p.AddProtocolOffload K s a n v).Policy = p := by
      by_cases hlen : s.InformationBufferLength < K.sizeof_NDIS_PM_PROTOCOL_OFFLOAD
      · rw [NxPowerPolicy.AddProtocolOffload_short K p s a n v hlen]
      · cases ht : s.InformationBuffer.ProtocolOffloadType with
        | NdisPMProtocolOffloadIdIPv4ARP =>
          rw [NxPowerPolicy.AddProtocolOffload_arp K p s a n v hlen ht] at h ⊢
          split_ifs at h ⊢
          · rfl
          · rfl
          · exact NxPowerPolicy.AddProtocolOffload_finish_rejected K p _ _ v h
        | NdisPMProtocolOffloadIdIPv6NS =>
          rw [NxPowerPolicy.AddProtocolOffload_ns K p s a n v hlen ht] at h ⊢
          split_ifs at h ⊢
          · rfl
          · rfl
          · exact NxPowerPolicy.AddProtocolOffload_finish_rejected K p _ _ v h
        | Other k =>
          rw [NxPowerPolicy.AddProtocolOffload_other K p s a n v hlen k ht]
    rw [key]
    exact ⟨rfl, rfl, rfl, rfl⟩

/-- C27 at a sample request: the preview callback of the sample policy reports a full
list for a bitmap pattern; the add fails and the policy, with its one wake entry and its
one offload, is the policy before the call. -/
theorem C27_failed_add_links_nothing_witness :
    (samplePolicyNegotiated.AddWakePattern sampleConstants
        ⟨⟨.NdisPMWoLPacketBitmapPattern, 3⟩, 64⟩
        (0, ⟨703, 3, .NetWakeSourceTypeBitmapPattern, false⟩)
        (0, ⟨704, 3, .NetWakeSourceTypeMagicPacket, false⟩) (0xC0232004 - 2 ^ 32)).Status ≠
      sampleConstants.NDIS_STATUS_SUCCESS ∧
    (samplePolicyNegotiated.AddWakePattern sampleConstants
        ⟨⟨.NdisPMWoLPacketBitmapPattern, 3⟩, 64⟩
        (0, ⟨703, 3, .NetWakeSourceTypeBitmapPattern, false⟩)
        (0, ⟨704, 3, .NetWakeSourceTypeMagicPacket, false⟩) (0xC0232004 - 2 ^ 32)).Policy =
      samplePolicyNegotiated :=
  ⟨by decide,
    ((C27_failed_add_links_nothing sampleConstants samplePolicyNegotiated).1
      ⟨⟨.NdisPMWoLPacketBitmapPattern, 3⟩, 64⟩
      (0, ⟨703, 3, .NetWakeSourceTypeBitmapPattern, false⟩)
      (0, ⟨704, 3, .NetWakeSourceTypeMagicPacket, false⟩) (0xC0232004 - 2 ^ 32)
      (by decide)).1⟩

/-! ## Lemmas on the removal loops -/

/-- The loop of `RemoveWakePatternByID` on a list without the identifier. -/
theorem NxPowerPolicy.RemoveWakePatternByID_go_absent (PatternID : Nat)
    (l : List NxWakePattern) (h : ∀ e ∈ l, e.GetID ≠ PatternID) :
    NxPowerPolicy.RemoveWakePatternByID.go PatternID l = (none, l) := by
  induction l with
  | nil => rfl
  | cons a rest ih =>
    unfold NxPowerPolicy.RemoveWakePatternByID.go
    rw [if_neg (h a (List.mem_cons_self _ _)),
      ih (fun e he => h e (List.mem_cons_of_mem _ he))]

/-- The loop of `RemoveWakePatternByID` on a list with the identifier: the first entry
that carries it is unlinked. -/
theorem NxPowerPolicy.RemoveWakePatternByID_go_present (PatternID : Nat)
    (l : List NxWakePattern) (h : ∃ e ∈ l, e.GetID = PatternID) :
    ∃ l1 e l2, l = l1 ++ e :: l2 ∧ e.GetID = PatternID ∧
      (∀ x ∈ l1, x.GetID ≠ PatternID) ∧
      NxPowerPolicy.RemoveWakePatternByID.go PatternID l = (some e, l1 ++ l2) := by
  induction l with
  | nil =>
    obtain ⟨e, he, -⟩ := h
    cases he
  | cons a rest ih =>
    by_cases hid : a.GetID = PatternID
    · refine ⟨[], a, rest, rfl, hid, fun x hx => absurd hx (List.not_mem_nil x), ?_⟩
      unfold NxPowerPolicy.RemoveWakePatternByID.go
      rw [if_pos hid]
      rfl
    · have hrest : ∃ e ∈ rest, e.GetID = PatternID := by
        obtain ⟨e, he, heid⟩ := h
        rcases List.mem_cons.mp he with h1 | h2
        · exact absurd (h1 ▸ heid) hid
        · exact ⟨e, h2, heid⟩
      obtain ⟨l1, e, l2, hl, he, hpre, hgo⟩ := ih hrest
      refine ⟨a :: l1, e, l2, by rw [hl]; rfl, he, ?_, ?_⟩
      · intro x hx
        rcases List.mem_cons.mp hx with h1 | h2
        · exact h1 ▸ hid
        · exact hpre x h2
      · unfold NxPowerPolicy.RemoveWakePatternByID.go
        rw [if_neg hid, hgo]
        rfl

/-- The loop of `RemovePowerOffloadByID` on a list without the identifier. -/
theorem NxPowerPolicy.RemovePowerOffloadByID_go_absent (OffloadID : Nat)
    (l : List NxPowerOffload) (h : ∀ e ∈ l, e.GetID ≠ OffloadID) :
    NxPowerPolicy.RemovePowerOffloadByID.go OffloadID l = (none, l) := by
  induction l with
  | nil => rfl
  | cons a rest ih =>
    unfold NxPowerPolicy.RemovePowerOffloadByID.go
    rw [if_neg (h a (List.mem_cons_self _ _)),
      ih (fun e he => h e (List.mem_cons_of_mem _ he))]

/-- The loop of `RemovePowerOffloadByID` on a list with the identifier: the first entry
that carries it is unlinked. -/
theorem NxPowerPolicy.RemovePowerOffloadByID_go_present (OffloadID : Nat)
    (l : List NxPowerOffload) (h : ∃ e ∈ l, e.GetID = OffloadID) :
    ∃ l1 e l2, l = l1 ++ e :: l2 ∧ e.GetID = OffloadID ∧
      (∀ x ∈ l1, x.GetID ≠ OffloadID) ∧
      NxPowerPolicy.RemovePowerOffloadByID.go OffloadID l = (some e, l1 ++ l2) := by
  induction l with
  | nil =>
    obtain ⟨e, he, -⟩ := h
    cases he
  | cons a rest ih =>
    by_cases hid : a.GetID = OffloadID
    · refine ⟨[], a, rest, rfl, hid, fun x hx => absurd hx (List.not_mem_nil x), ?_⟩
      unfold NxPowerPolicy.RemovePowerOffloadByID.go
      rw [if_pos hid]
      rfl
    · have hrest : ∃ e ∈ rest, e.GetID = OffloadID := by
        obtain ⟨e, he, heid⟩ := h
        rcases List.mem_cons.mp he with h1 | h2
        · exact absurd (h1 ▸ heid) hid
        · exact ⟨e, h2, heid⟩
      obtain ⟨l1, e, l2, hl, he, hpre, hgo⟩ := ih hrest
      refine ⟨a :: l1, e, l2, by rw [hl]; rfl, he, ?_, ?_⟩
      · intro x hx
        rcases List.mem_cons.mp hx with h1 | h2
        · exact h1 ▸ hid
        · exact hpre x h2
      · unfold NxPowerPolicy.RemovePowerOffloadByID.go
        rw [if_neg hid, hgo]
        rfl

/-- `RemoveWakePattern` on a buffer of valid length whose identifier is in the wake
list. -/
theorem NxPowerPolicy.RemoveWakePattern_present (K : NdisConstants) (p : NxPowerPolicy)
    (s : SET_INFORMATION Nat) (hlen : ¬ s.InformationBufferLength < K.sizeof_ULONG)
    (h : ∃ e ∈ p.m_WakeListHead, e.GetID = s.InformationBuffer) :
    ∃ l1 e l2, p.m_WakeListHead = l1 ++ e :: l2 ∧ e.GetID = s.InformationBuffer ∧
      (∀ x ∈ l1, x.GetID ≠ s.InformationBuffer) ∧
      p.RemoveWakePattern K s =
        ⟨K.NDIS_STATUS_SUCCESS, { p with m_WakeListHead := l1 ++ l2 }, []⟩ := by
  obtain ⟨l1, e, l2, hl, he, hpre, hgo⟩ :=
    NxPowerPolicy.RemoveWakePatternByID_go_present s.InformationBuffer p.m_WakeListHead h
  refine ⟨l1, e, l2, hl, he, hpre, ?_⟩
  unfold NxPowerPolicy.RemoveWakePattern NxPowerPolicy.RemoveWakePatternByID
  rw [if_neg hlen, hgo]

/-- `RemoveWakePattern` on a buffer of valid length whose identifier is not in the wake
list. -/
theorem NxPowerPolicy.RemoveWakePattern_absent (K : NdisConstants) (p : NxPowerPolicy)
    (s : SET_INFORMATION Nat) (hlen : ¬ s.InformationBufferLength < K.sizeof_ULONG)
    (h : ∀ e ∈ p.m_WakeListHead, e.GetID ≠ s.InformationBuffer) :
    p.RemoveWakePattern K s = ⟨K.NDIS_STATUS_FILE_NOT_FOUND, p, []⟩ := by
  unfold NxPowerPolicy.RemoveWakePattern NxPowerPolicy.RemoveWakePatternByID
  rw [if_neg hlen,
    NxPowerPolicy.RemoveWakePatternByID_go_absent s.InformationBuffer p.m_WakeListHead h]

/-- `RemoveProtocolOffload` on a buffer of valid length whose identifier is in the
offload list. -/
theorem NxPowerPolicy.RemoveProtocolOffload_present (K : NdisConstants)
    (p : NxPowerPolicy) (s : SET_INFORMATION Nat)
    (hlen : ¬ s.InformationBufferLength < K.sizeof_ULONG)
    (h : ∃ e ∈ p.m_ProtocolOffloadListHead, e.GetID = s.InformationBuffer) :
    ∃ l1 e l2, p.m_ProtocolOffloadListHead = l1 ++ e :: l2 ∧
      e.GetID = s.InformationBuffer ∧
      (∀ x ∈ l1, x.GetID ≠ s.InformationBuffer) ∧
      p.RemoveProtocolOffload K s =
        ⟨K.NDIS_STATUS_SUCCESS, { p with m_ProtocolOffloadListHead := l1 ++ l2 }, []⟩ := by
  obtain ⟨l1, e, l2, hl, he, hpre, hgo⟩ :=
    NxPowerPolicy.RemovePowerOffloadByID_go_present s.InformationBuffer
      p.m_ProtocolOffloadListHead h
  refine ⟨l1, e, l2, hl, he, hpre, ?_⟩
  unfold NxPowerPolicy.RemoveProtocolOffload NxPowerPolicy.RemovePowerOffloadByID
  rw [if_neg hlen, hgo]

/-- `RemoveProtocolOffload` on a buffer of valid length whose identifier is not in the
offload list. -/
theorem NxPowerPolicy.RemoveProtocolOffload_absent (K : NdisConstants)
    (p : NxPowerPolicy) (s : SET_INFORMATION Nat)
    (hlen : ¬ s.InformationBufferLength < K.sizeof_ULONG)
    (h : ∀ e ∈ p.m_ProtocolOffloadListHead, e.GetID ≠ s.InformationBuffer) :
    p.RemoveProtocolOffload K s = ⟨K.NDIS_STATUS_FILE_NOT_FOUND, p, []⟩ := by
  unfold NxPowerPolicy.RemoveProtocolOffload NxPowerPolicy.RemovePowerOffloadByID
  rw [if_neg hlen,
    NxPowerPolicy.RemovePowerOffloadByID_go_absent s.InformationBuffer
      p.m_ProtocolOffloadListHead h]

/-- C28: for every policy state and every remove request of valid length whose
identifier is carried by at least one entry of the targeted list, `RemoveWakePattern`
(resp. `RemoveProtocolOffload`) returns `NDIS_STATUS_SUCCESS`, and the targeted list
splits as `l1 ++ e :: l2` with `e` the first entry that carries the identifier (no entry
of `l1` carries it), the policy afterwards being the policy before with `l1 ++ l2` as
that list: the other entries, their order and their enabled flags, the other list and
the snapshot are as before. -/
theorem C28_remove_unlinks_first_match (K : NdisConstants) (p : NxPowerPolicy)
    (s : SET_INFORMATION Nat) (hlen : ¬ s.InformationBufferLength < K.sizeof_ULONG) :
    ((∃ e ∈ p.m_WakeListHead, e.GetID = s.InformationBuffer) →
      (p.RemoveWakePattern K s).Status = K.NDIS_STATUS_SUCCESS ∧
      (p.RemoveWakePattern K s).Policy.m_ProtocolOffloadListHead =
        p.m_ProtocolOffloadListHead ∧
      ∃ l1 e l2, p.m_WakeListHead = l1 ++ e :: l2 ∧ e.GetID = s.InformationBuffer ∧
        (∀ x ∈ l1, x.GetID ≠ s.InformationBuffer) ∧
        (p.RemoveWakePattern K s).Policy = { p with m_WakeListHead := l1 ++ l2 }) ∧
    ((∃ e ∈ p.m_ProtocolOffloadListHead, e.GetID = s.InformationBuffer) →
      (p.RemoveProtocolOffload K s).Status = K.NDIS_STATUS_SUCCESS ∧
      (p.RemoveProtocolOffload K s).Policy.m_WakeListHead = p.m_WakeListHead ∧
      ∃ l1 e l2, p.m_ProtocolOffloadListHead = l1 ++ e :: l2 ∧
        e.GetID = s.InformationBuffer ∧
        (∀ x ∈ l1, x.GetID ≠ s.InformationBuffer) ∧
        (p.RemoveProtocolOffload K s).Policy =
          { p with m_ProtocolOffloadListHead := l1 ++ l2 }) := by
  constructor
  · intro h
    obtain ⟨l1, e, l2, hl, he, hpre, hr⟩ := NxPowerPolicy.RemoveWakePattern_present K p s hlen h
    rw [hr]
    exact ⟨rfl, rfl, l1, e, l2, hl, he, hpre, rfl⟩
  · intro h
    obtain ⟨l1, e, l2, hl, he, hpre, hr⟩ :=
      NxPowerPolicy.RemoveProtocolOffload_present K p s hlen h
    rw [hr]
    exact ⟨rfl, rfl, l1, e, l2, hl, he, hpre, rfl⟩

/-- C28 at a sample request: of the two wake entries that carry the identifier 6, the
one nearer the head of the list (handle 712) is unlinked; the entry before it and the
second entry with the identifier stay, in their order and with their flags, and the
offload list is as before. -/
theorem C28_remove_unlinks_first_match_witness :
    (samplePolicyRepeatedId.RemoveWakePattern sampleConstants ⟨6, 4⟩).Status = 0 ∧
    (samplePolicyRepeatedId.RemoveWakePattern sampleConstants ⟨6, 4⟩).Policy.m_WakeListHead =
      [⟨711, 5, .NetWakeSourceTypeBitmapPattern, false⟩,
        ⟨713, 6, .NetWakeSourceTypeBitmapPattern, false⟩] ∧
    (samplePolicyRepeatedId.RemoveWakePattern sampleConstants
      ⟨6, 4⟩).Policy.m_ProtocolOffloadListHead =
      samplePolicyRepeatedId.m_ProtocolOffloadListHead :=
  ⟨((C28_remove_unlinks_first_match sampleConstants samplePolicyRepeatedId ⟨6, 4⟩
      (by decide)).1 ⟨⟨712, 6, .NetWakeSourceTypeMagicPacket, true⟩, by decide, rfl⟩).1,
    by decide,
    ((C28_remove_unlinks_first_match sampleConstants samplePolicyRepeatedId ⟨6, 4⟩
      (by decide)).1 ⟨⟨712, 6, .NetWakeSourceTypeMagicPacket, true⟩, by decide, rfl⟩).2.1⟩

/-- C29: for every policy state and every remove request of valid length,
`NDIS_STATUS_FILE_NOT_FOUND` being a status other than `NDIS_STATUS_SUCCESS`:
`RemoveWakePattern` returns `NDIS_STATUS_FILE_NOT_FOUND` if and only if no entry of the
wake list carries the requested identifier, `RemoveProtocolOffload` if and only if no
entry of the offload list carries it, and the policy, both lists with it, is then as
before.  Only the targeted list is searched: entries of the other list that carry the
identifier do not count. -/
theorem C29_remove_absent_is_file_not_found (K : NdisConstants) (p : NxPowerPolicy)
    (s : SET_INFORMATION Nat)
    (hK : K.NDIS_STATUS_FILE_NOT_FOUND ≠ K.NDIS_STATUS_SUCCESS)
    (hlen : ¬ s.InformationBufferLength < K.sizeof_ULONG) :
    ((p.RemoveWakePattern K s).Status = K.NDIS_STATUS_FILE_NOT_FOUND ↔
      ∀ e ∈ p.m_WakeListHead, e.GetID ≠ s.InformationBuffer) ∧
    ((∀ e ∈ p.m_WakeListHead, e.GetID ≠ s.InformationBuffer) →
      (p.RemoveWakePattern K s).Policy = p) ∧
    ((p.RemoveProtocolOffload K s).Status = K.NDIS_STATUS_FILE_NOT_FOUND ↔
      ∀ e ∈ p.m_ProtocolOffloadListHead, e.GetID ≠ s.InformationBuffer) ∧
    ((∀ e ∈ p.m_ProtocolOffloadListHead, e.GetID ≠ s.InformationBuffer) →
      (p.RemoveProtocolOffload K s).Policy = p) := by
  refine ⟨⟨?_, ?_⟩, ?_, ⟨?_, ?_⟩, ?_⟩
  · intro hst e he hid
    obtain ⟨l1, e1, l2, -, -, -, hr⟩ :=
      NxPowerPolicy.RemoveWakePattern_present K p s hlen ⟨e, he, hid⟩
    rw [hr] at hst
    exact hK hst.symm
  · intro h
    rw [NxPowerPolicy.RemoveWakePattern_absent K p s hlen h]
  · intro h
    rw [NxPowerPolicy.RemoveWakePattern_absent K p s hlen h]
  · intro hst e he hid
    obtain ⟨l1, e1, l2, -, -, -, hr⟩ :=
      NxPowerPolicy.RemoveProtocolOffload_present K p s hlen ⟨e, he, hid⟩
    rw [hr] at hst
    exact hK hst.symm
  · intro h
    rw [NxPowerPolicy.RemoveProtocolOffload_absent K p s hlen h]
  · intro h
    rw [NxPowerPolicy.RemoveProtocolOffload_absent K p s hlen h]

/-- C29 at a sample request: the identifier 7 is carried by two offloads and by no wake
entry; `RemoveWakePattern` reports it as not found and leaves the policy as it was. -/
theorem C29_remove_absent_is_file_not_found_witness :
    (∃ e ∈ samplePolicyRepeatedId.m_ProtocolOffloadListHead, e.GetID = 7) ∧
    (samplePolicyRepeatedId.RemoveWakePattern sampleConstants ⟨7, 4⟩).Status =
      sampleConstants.NDIS_STATUS_FILE_NOT_FOUND ∧
    (samplePolicyRepeatedId.RemoveWakePattern sampleConstants ⟨7, 4⟩).Policy =
      samplePolicyRepeatedId :=
  ⟨by decide,
    (C29_remove_absent_is_file_not_found sampleConstants samplePolicyRepeatedId ⟨7, 4⟩
      (by decide) (by decide)).1.2 (by decide),
    (C29_remove_absent_is_file_not_found sampleConstants samplePolicyRepeatedId ⟨7, 4⟩
      (by decide) (by decide)).2.1 (by decide)⟩

/-! ## Lemmas on a request sequence -/

/-- Without a mode bit in the request, `SetParameters` writes nothing to the buffer. -/
theorem NxPowerPolicy.SetParameters.adjust_plain (K : NdisConstants) (p : NxPowerPolicy)
    (PmParams : NDIS_PM_PARAMETERS)
    (h : NxPowerPolicy.SetParameters.isSelectiveSuspend K PmParams = false) :
    NxPowerPolicy.SetParameters.adjust K p PmParams = PmParams := by
  simp [NxPowerPolicy.SetParameters.adjust, h]

/-- The wake list after `SetParameters` for a request of valid length without a mode
bit; `ref` is any policy that holds the request as its snapshot. -/
theorem NxPowerPolicy.SetParameters_wake_list (K : NdisConstants) (p ref : NxPowerPolicy)
    (Set : SET_INFORMATION NDIS_PM_PARAMETERS)
    (hlen : ¬ Set.InformationBufferLength < K.sizeof_NDIS_PM_PARAMETERS)
    (hss : NxPowerPolicy.SetParameters.isSelectiveSuspend K Set.InformationBuffer = false)
    (href : ref.m_PMParameters = Set.InformationBuffer) :
    (p.SetParameters K Set).Policy.m_WakeListHead =
      (if p.m_PMParameters.EnabledWoLPacketPatterns ≠
          Set.InformationBuffer.EnabledWoLPacketPatterns then
        p.m_WakeListHead.map (ref.UpdatePatternEntryEnabledField K)
      else p.m_WakeListHead) := by
  obtain ⟨-, -, hsnap, hl, -⟩ := NxPowerPolicy.SetParameters_state K p Set hlen
  rw [NxPowerPolicy.SetParameters.adjust_plain K p _ hss] at hsnap hl
  rw [hl, NxPowerPolicy.UpdatePatternEntryEnabledField_congr K _ ref (hsnap.trans href.symm)]

/-- `RemoveWakePattern` on a buffer of valid length whose identifier is carried by the
head of the wake list. -/
theorem NxPowerPolicy.RemoveWakePattern_head (K : NdisConstants) (p : NxPowerPolicy)
    (s : SET_INFORMATION Nat) (hlen : ¬ s.InformationBufferLength < K.sizeof_ULONG)
    (e : NxWakePattern) (rest : List NxWakePattern)
    (hl : p.m_WakeListHead = e :: rest) (he : e.GetID = s.InformationBuffer) :
    p.RemoveWakePattern K s =
      ⟨K.NDIS_STATUS_SUCCESS, { p with m_WakeListHead := rest }, []⟩ := by
  unfold NxPowerPolicy.RemoveWakePattern NxPowerPolicy.RemoveWakePatternByID
  rw [if_neg hlen, hl]
  unfold NxPowerPolicy.RemoveWakePatternByID.go
  rw [if_pos he]

/-- The recomputation of the enabled flag keeps what identifies the entry. -/
theorem NxPowerPolicy.UpdatePatternEntryEnabledField_identity (K : NdisConstants)
    (p : NxPowerPolicy) (e : NxWakePattern) :
    (p.UpdatePatternEntryEnabledField K e).identity = e.identity := rfl

/-- The recomputation of the enabled flags keeps what identifies the entries. -/
theorem NxPowerPolicy.UpdatePatternEntryEnabledField_map_identity (K : NdisConstants)
    (p : NxPowerPolicy) (l : List NxWakePattern) :
    (l.map (p.UpdatePatternEntryEnabledField K)).map NxWakePattern.identity =
      l.map NxWakePattern.identity := by
  rw [List.map_map]
  rfl

/-- C30: on every policy that declares the bitmap-pattern capability, take an
`AddWakePattern` of valid length for a bitmap pattern with identifier `X`, for which the
factory succeeds with a bitmap entry carrying `X` and the preview callback is not
registered or returns `STATUS_SUCCESS`; then a `SetParameters` of valid length whose
`EnabledWoLPacketPatterns` has the bitmap-pattern bit and whose `WakeUpFlags` have
neither the selective-suspend nor the AOAC/NAPS bit; then a `RemoveWakePattern` of valid
length for `X`.  The add returns success and the wake list grows by one.  After
`SetParameters` the head of the wake list is the new entry, enabled.  The remove returns
success and the wake list then holds the entries that it held at the start, in their
order (the same handles, identifiers and types, hence the same length, and no entry when
it started empty), with the enabled flags that `SetParameters` alone gives them: the
list is the wake list that `SetParameters` leaves on the initial policy, and it is the
initial list itself when the request does not change `EnabledWoLPacketPatterns`. -/
theorem C30_add_enable_remove_round_trip (K : NdisConstants) (p : NxPowerPolicy)
    (sA : SET_INFORMATION NDIS_PM_WOL_PATTERN) (b m : NDIS_STATUS × NxWakePattern)
    (v : NTSTATUS) (Set : SET_INFORMATION NDIS_PM_PARAMETERS) (sR : SET_INFORMATION Nat)
    (hlenA : ¬ sA.InformationBufferLength < K.sizeof_NDIS_PM_WOL_PATTERN)
    (htype : sA.InformationBuffer.WoLPacketType = .NdisPMWoLPacketBitmapPattern)
    (hcap : p.m_wakeBitmapCapabilities.BitmapPattern = true)
    (hfac : b.1 = K.NDIS_STATUS_SUCCESS)
    (hid : b.2.GetID = sA.InformationBuffer.PatternId)
    (hty : b.2.GetType = .NetWakeSourceTypeBitmapPattern)
    (hprev : p.m_powerPolicyEventCallbacks.EvtDevicePreviewBitmapPattern = none ∨
      (v ≠ K.STATUS_NDIS_PM_WOL_PATTERN_LIST_FULL ∧ v = STATUS_SUCCESS))
    (hlenS : ¬ Set.InformationBufferLength < K.sizeof_NDIS_PM_PARAMETERS)
    (hbit : Set.InformationBuffer.EnabledWoLPacketPatterns &&&
      K.NDIS_PM_WOL_BITMAP_PATTERN_ENABLED ≠ 0)
    (hss : Set.InformationBuffer.WakeUpFlags &&& K.NDIS_PM_SELECTIVE_SUSPEND_ENABLED = 0)
    (hnaps : Set.InformationBuffer.WakeUpFlags &&& K.NDIS_PM_AOAC_NAPS_ENABLED = 0)
    (hlenR : ¬ sR.InformationBufferLength < K.sizeof_ULONG)
    (hX : sR.InformationBuffer = sA.InformationBuffer.PatternId) :
    let added := p.AddWakePattern K sA b m v
    let negotiated := added.Policy.SetParameters K Set
    let removed := negotiated.Policy.RemoveWakePattern K sR
    (added.Status = K.NDIS_STATUS_SUCCESS ∧
      added.Policy.m_WakeListHead.length = p.m_WakeListHead.length + 1) ∧
    (negotiated.Status = K.NDIS_STATUS_SUCCESS ∧
      ∃ e rest, negotiated.Policy.m_WakeListHead = e :: rest ∧
        e.identity = b.2.identity ∧ e.IsEnabled = true) ∧
    (removed.Status = K.NDIS_STATUS_SUCCESS ∧
      removed.Policy.m_WakeListHead.map NxWakePattern.identity =
        p.m_WakeListHead.map NxWakePattern.identity ∧
      removed.Policy.m_WakeListHead.length = p.m_WakeListHead.length ∧
      (p.m_WakeListHead = [] → removed.Policy.m_WakeListHead = []) ∧
      removed.Policy.m_WakeListHead = (p.SetParameters K Set).Policy.m_WakeListHead ∧
      (Set.InformationBuffer.EnabledWoLPacketPatterns =
          p.m_PMParameters.EnabledWoLPacketPatterns →
        removed.Policy.m_WakeListHead = p.m_WakeListHead)) := by
  intro added negotiated removed
  -- the add
  have hadd : added.Status = K.NDIS_STATUS_SUCCESS ∧
      added.Policy =
        { p with m_WakeListHead :=
            p.UpdatePatternEntryEnabledField K b.2 :: p.m_WakeListHead } := by
    show (p.AddWakePattern K sA b m v).Status = _ ∧ (p.AddWakePattern K sA b m v).Policy = _
    rw [NxPowerPolicy.AddWakePattern_bitmap K p sA b m v hlenA htype,
      if_neg (by simp [hcap]), if_neg (by simp [hfac])]
    exact NxPowerPolicy.AddWakePattern_finish_pass K p b.2 _ v hprev
  obtain ⟨hs1, hp1⟩ := hadd
  have hl1 : added.Policy.m_WakeListHead =
      p.UpdatePatternEntryEnabledField K b.2 :: p.m_WakeListHead := by rw [hp1]
  have hsnap1 : added.Policy.m_PMParameters = p.m_PMParameters := by rw [hp1]
  -- the request has no mode bit
  have hmode : NxPowerPolicy.SetParameters.isSelectiveSuspend K Set.InformationBuffer =
      false := by
    cases hc : NxPowerPolicy.SetParameters.isSelectiveSuspend K Set.InformationBuffer with
    | false => rfl
    | true =>
      rcases (NxPowerPolicy.SetParameters.isSelectiveSuspend_iff K _).mp hc with h | h
      · exact absurd hss h
      · exact absurd hnaps h
  have hbit2 : testMask Set.InformationBuffer.EnabledWoLPacketPatterns
      K.NDIS_PM_WOL_BITMAP_PATTERN_ENABLED = true := by
    simp [testMask, hbit]
  -- the lists after SetParameters, on the policy after the add and on the initial one
  obtain ⟨ref, href⟩ : ∃ ref : NxPowerPolicy, ref.m_PMParameters = Set.InformationBuffer :=
    ⟨{ p with m_PMParameters := Set.InformationBuffer }, rfl⟩
  have hl2 := NxPowerPolicy.SetParameters_wake_list K added.Policy ref Set hlenS hmode href
  have hl0 := NxPowerPolicy.SetParameters_wake_list K p ref Set hlenS hmode href
  rw [hsnap1, hl1] at hl2
  have hs2 : negotiated.Status = K.NDIS_STATUS_SUCCESS :=
    (NxPowerPolicy.SetParameters_state K added.Policy Set hlenS).1
  -- the head and the tail of the list after SetParameters
  have hsplit : ∃ e, negotiated.Policy.m_WakeListHead =
        e :: (p.SetParameters K Set).Policy.m_WakeListHead ∧
      e.identity = b.2.identity ∧ e.IsEnabled = true := by
    by_cases hch : p.m_PMParameters.EnabledWoLPacketPatterns ≠
        Set.InformationBuffer.EnabledWoLPacketPatterns
    · rw [if_pos hch] at hl2 hl0
      rw [List.map_cons] at hl2
      refine ⟨ref.UpdatePatternEntryEnabledField K (p.UpdatePatternEntryEnabledField K b.2),
        by rw [hl0]; exact hl2, rfl, ?_⟩
      rw [(NxPowerPolicy.UpdatePatternEntryEnabledField_ok K ref
        (p.UpdatePatternEntryEnabledField K b.2)).1 hty, href]
      exact hbit2
    · rw [if_neg hch] at hl2 hl0
      refine ⟨p.UpdatePatternEntryEnabledField K b.2, by rw [hl0]; exact hl2, rfl, ?_⟩
      rw [(NxPowerPolicy.UpdatePatternEntryEnabledField_ok K p b.2).1 hty, not_not.mp hch]
      exact hbit2
  obtain ⟨e, hl2e, hide, hen⟩ := hsplit
  have hidX : e.GetID = sR.InformationBuffer := by
    have h1 : e.identity.2.1 = b.2.identity.2.1 := by rw [hide]
    rw [hX, ← hid]
    exact h1
  have hrem := NxPowerPolicy.RemoveWakePattern_head K negotiated.Policy sR hlenR e _ hl2e hidX
  have hl3 : removed.Policy.m_WakeListHead = (p.SetParameters K Set).Policy.m_WakeListHead := by
    show (negotiated.Policy.RemoveWakePattern K sR).Policy.m_WakeListHead = _
    rw [hrem]
  have hid0 : (p.SetParameters K Set).Policy.m_WakeListHead.map NxWakePattern.identity =
      p.m_WakeListHead.map NxWakePattern.identity := by
    rw [hl0]
    split_ifs
    · exact NxPowerPolicy.UpdatePatternEntryEnabledField_map_identity K _ _
    · rfl
  refine ⟨⟨hs1, by rw [hl1]; rfl⟩, ⟨hs2, e, _, hl2e, hide, hen⟩, ?_, ?_, ?_, ?_, hl3, ?_⟩
  · show (negotiated.Policy.RemoveWakePattern K sR).Status = _
    rw [hrem]
  · rw [hl3, hid0]
  · have := congrArg List.length hid0
    rw [List.length_map, List.length_map] at this
    rw [hl3, this]
  · intro hempty
    rw [hl3, hl0, hempty]
    split_ifs <;> rfl
  · intro hsame
    rw [hl3, hl0, if_neg (not_not.mpr hsame.symm)]

/-- C30 at sample requests.  On the policy with one disabled bitmap pattern (identifier
5): the pattern 3 is added and the list holds two entries; the stack enables bitmap
patterns; the pattern 3 is removed and the list holds the entry 5 again.  On the policy
with an empty wake list the same requests leave an empty wake list. -/
theorem C30_add_enable_remove_round_trip_witness :
    ((samplePolicyWithEntries.AddWakePattern sampleConstants
          ⟨⟨.NdisPMWoLPacketBitmapPattern, 3⟩, 64⟩
          (0, ⟨703, 3, .NetWakeSourceTypeBitmapPattern, false⟩)
          (0, ⟨704, 3, .NetWakeSourceTypeMagicPacket, false⟩) 0).Status =
        sampleConstants.NDIS_STATUS_SUCCESS ∧
      (samplePolicyWithEntries.AddWakePattern sampleConstants
          ⟨⟨.NdisPMWoLPacketBitmapPattern, 3⟩, 64⟩
          (0, ⟨703, 3, .NetWakeSourceTypeBitmapPattern, false⟩)
          (0, ⟨704, 3, .NetWakeSourceTypeMagicPacket, false⟩) 0).Policy.m_WakeListHead.length =
        1 + 1) ∧
    ((((samplePolicyWithEntries.AddWakePattern sampleConstants
          ⟨⟨.NdisPMWoLPacketBitmapPattern, 3⟩, 64⟩
          (0, ⟨703, 3, .NetWakeSourceTypeBitmapPattern, false⟩)
          (0, ⟨704, 3, .NetWakeSourceTypeMagicPacket, false⟩) 0).Policy.SetParameters
        sampleConstants ⟨⟨0, 0x1, 0, 0x1⟩, 16⟩).Policy.RemoveWakePattern sampleConstants
        ⟨3, 4⟩).Status = sampleConstants.NDIS_STATUS_SUCCESS) ∧
    ((((samplePolicyWithEntries.AddWakePattern sampleConstants
          ⟨⟨.NdisPMWoLPacketBitmapPattern, 3⟩, 64⟩
          (0, ⟨703, 3, .NetWakeSourceTypeBitmapPattern, false⟩)
          (0, ⟨704, 3, .NetWakeSourceTypeMagicPacket, false⟩) 0).Policy.SetParameters
        sampleConstants ⟨⟨0, 0x1, 0, 0x1⟩, 16⟩).Policy.RemoveWakePattern sampleConstants
        ⟨3, 4⟩).Policy.m_WakeListHead.map NxWakePattern.identity =
      [(711, 5, .NetWakeSourceTypeBitmapPattern)]) ∧
    ((((samplePolicy.AddWakePattern sampleConstants
          ⟨⟨.NdisPMWoLPacketBitmapPattern, 3⟩, 64⟩
          (0, ⟨703, 3, .NetWakeSourceTypeBitmapPattern, false⟩)
          (0, ⟨704, 3, .NetWakeSourceTypeMagicPacket, false⟩) 0).Policy.SetParameters
        sampleConstants ⟨⟨0, 0x1, 0, 0x1⟩, 16⟩).Policy.RemoveWakePattern sampleConstants
        ⟨3, 4⟩).Policy.m_WakeListHead = []) :=
  ⟨(C30_add_enable_remove_round_trip sampleConstants samplePolicyWithEntries
      ⟨⟨.NdisPMWoLPacketBitmapPattern, 3⟩, 64⟩
      (0, ⟨703, 3, .NetWakeSourceTypeBitmapPattern, false⟩)
      (0, ⟨704, 3, .NetWakeSourceTypeMagicPacket, false⟩) 0 ⟨⟨0, 0x1, 0, 0x1⟩, 16⟩ ⟨3, 4⟩
      (by decide) rfl rfl rfl rfl rfl (Or.inr ⟨by decide, rfl⟩) (by decide) (by decide)
      (by decide) (by decide) (by decide) rfl).1,
    (C30_add_enable_remove_round_trip sampleConstants samplePolicyWithEntries
      ⟨⟨.NdisPMWoLPacketBitmapPattern, 3⟩, 64⟩
      (0, ⟨703, 3, .NetWakeSourceTypeBitmapPattern, false⟩)
      (0, ⟨704, 3, .NetWakeSourceTypeMagicPacket, false⟩) 0 ⟨⟨0, 0x1, 0, 0x1⟩, 16⟩ ⟨3, 4⟩
      (by decide) rfl rfl rfl rfl rfl (Or.inr ⟨by decide, rfl⟩) (by decide) (by decide)
      (by decide) (by decide) (by decide) rfl).2.2.1,
    (C30_add_enable_remove_round_trip sampleConstants samplePolicyWithEntries
      ⟨⟨.NdisPMWoLPacketBitmapPattern, 3⟩, 64⟩
      (0, ⟨703, 3, .NetWakeSourceTypeBitmapPattern, false⟩)
      (0, ⟨704, 3, .NetWakeSourceTypeMagicPacket, false⟩) 0 ⟨⟨0, 0x1, 0, 0x1⟩, 16⟩ ⟨3, 4⟩
      (by decide) rfl rfl rfl rfl rfl (Or.inr ⟨by decide, rfl⟩) (by decide) (by decide)
      (by decide) (by decide) (by decide) rfl).2.2.2.1,
    (C30_add_enable_remove_round_trip sampleConstants samplePolicy
      ⟨⟨.NdisPMWoLPacketBitmapPattern, 3⟩, 64⟩
      (0, ⟨703, 3, .NetWakeSourceTypeBitmapPattern, false⟩)
      (0, ⟨704, 3, .NetWakeSourceTypeMagicPacket, false⟩) 0 ⟨⟨0, 0x1, 0, 0x1⟩, 16⟩ ⟨3, 4⟩
      (by decide) rfl rfl rfl rfl rfl (Or.inr ⟨by decide, rfl⟩) (by decide) (by decide)
      (by decide) (by decide) (by decide) rfl).2.2.2.2.2.1 rfl⟩


/-! ## Lemmas on entries that are not admitted -/

/-- The end of `AddWakePattern` links nothing when the preview callback rejects the
entry. -/
theorem NxPowerPolicy.AddWakePattern_finish_stop (K : NdisConstants) (p : NxPowerPolicy)
    (e : NxWakePattern) (pfn : Option Nat) (v : NTSTATUS)
    (h : ¬ (pfn = none ∨ (v ≠ K.STATUS_NDIS_PM_WOL_PATTERN_LIST_FULL ∧ v = STATUS_SUCCESS))) :
    (NxPowerPolicy.AddWakePattern.finish K p e pfn v).Policy = p := by
  unfold NxPowerPolicy.AddWakePattern.finish
  cases pfn with
  | none => exact absurd (Or.inl rfl) h
  | some fn =>
    dsimp only
    split_ifs with h1 h2
    · rfl
    · rfl
    · exact absurd (Or.inr ⟨h1, not_not.mp h2⟩) h

/-- The end of `AddProtocolOffload` links nothing when the preview callback rejects the
entry. -/
theorem NxPowerPolicy.AddProtocolOffload_finish_stop (K : NdisConstants)
    (p : NxPowerPolicy) (e : NxPowerOffload) (pfn : Option Nat) (v : NTSTATUS)
    (h : ¬ (pfn = none ∨
      (v ≠ K.STATUS_NDIS_PM_PROTOCOL_OFFLOAD_LIST_FULL ∧ v = STATUS_SUCCESS))) :
    (NxPowerPolicy.AddProtocolOffload.finish K p e pfn v).Policy = p := by
  unfold NxPowerPolicy.AddProtocolOffload.finish
  cases pfn with
  | none => exact absurd (Or.inl rfl) h
  | some fn =>
    dsimp only
    split_ifs with h1 h2
    · rfl
    · rfl
    · exact absurd (Or.inr ⟨h1, not_not.mp h2⟩) h

/-- `AddWakePattern` leaves the policy as it is when the request brings no entry. -/
theorem NxPowerPolicy.AddWakePattern_not_admitted (K : NdisConstants) (p : NxPowerPolicy)
    (s : SET_INFORMATION NDIS_PM_WOL_PATTERN) (b m : NDIS_STATUS × NxWakePattern)
    (v : NTSTATUS) (h : specWakePatternAdmitted K p s b m v = none) :
    (p.AddWakePattern K s b m v).Policy = p := by
  unfold specWakePatternAdmitted at h
  by_cases hlen : K.sizeof_NDIS_PM_WOL_PATTERN ≤ s.InformationBufferLength
  · rw [if_pos hlen] at h
    have hlen2 : ¬ s.InformationBufferLength < K.sizeof_NDIS_PM_WOL_PATTERN := by omega
    cases ht : s.InformationBuffer.WoLPacketType with
    | NdisPMWoLPacketBitmapPattern =>
      rw [ht] at h
      dsimp only at h
      split_ifs at h with hc
      rw [NxPowerPolicy.AddWakePattern_bitmap K p s b m v hlen2 ht]
      split_ifs with h1 h2
      · rfl
      · rfl
      · refine NxPowerPolicy.AddWakePattern_finish_stop K p b.2 _ v (fun h3 => hc ⟨?_, ?_, h3⟩)
        · cases hb : p.m_wakeBitmapCapabilities.BitmapPattern
          · exact absurd hb h1
          · rfl
        · exact not_not.mp h2
    | NdisPMWoLPacketMagicPacket =>
      rw [ht] at h
      dsimp only at h
      split_ifs at h with hc
      rw [NxPowerPolicy.AddWakePattern_magic K p s b m v hlen2 ht]
      split_ifs with h1 h2
      · rfl
      · rfl
      · refine absurd ⟨?_, not_not.mp h2⟩ hc
        cases hb : p.m_magicPacketCapabilities.MagicPacket
        · exact absurd hb h1
        · rfl
    | Other k =>
      rw [NxPowerPolicy.AddWakePattern_other K p s b m v hlen2 k ht]
  · rw [NxPowerPolicy.AddWakePattern_short K p s b m v (by omega)]

/-- `AddProtocolOffload` leaves the policy as it is when the request brings no entry. -/
theorem NxPowerPolicy.AddProtocolOffload_not_admitted (K : NdisConstants)
    (p : NxPowerPolicy) (s : SET_INFORMATION NDIS_PM_PROTOCOL_OFFLOAD)
    (a n : NDIS_STATUS × NxPowerOffload) (v : NTSTATUS)
    (h : specProtocolOffloadAdmitted K p s a n v = none) :
    (p.AddProtocolOffload K s a n v).Policy = p := by
  unfold specProtocolOffloadAdmitted at h
  by_cases hlen : K.sizeof_NDIS_PM_PROTOCOL_OFFLOAD ≤ s.InformationBufferLength
  · rw [if_pos hlen] at h
    have hlen2 : ¬ s.InformationBufferLength < K.sizeof_NDIS_PM_PROTOCOL_OFFLOAD := by omega
    cases ht : s.InformationBuffer.ProtocolOffloadType with
    | NdisPMProtocolOffloadIdIPv4ARP =>
      rw [ht] at h
      dsimp only at h
      split_ifs at h with hc
      rw [NxPowerPolicy.AddProtocolOffload_arp K p s a n v hlen2 ht]
      split_ifs with h1 h2
      · rfl
      · rfl
      · refine NxPowerPolicy.AddProtocolOffload_finish_stop K p a.2 _ v
          (fun h3 => hc ⟨?_, ?_, h3⟩)
        · cases hb : p.m_powerOffloadArpCapabilities.ArpOffload
          · exact absurd hb h1
          · rfl
        · exact not_not.mp h2
    | NdisPMProtocolOffloadIdIPv6NS =>
      rw [ht] at h
      dsimp only at h
      split_ifs at h with hc
      rw [NxPowerPolicy.AddProtocolOffload_ns K p s a n v hlen2 ht]
      split_ifs with h1 h2
      · rfl
      · rfl
      · refine NxPowerPolicy.AddProtocolOffload_finish_stop K p n.2 _ v
          (fun h3 => hc ⟨?_, ?_, h3⟩)
        · cases hb : p.m_powerOffloadNSCapabilities.NSOffload
          · exact absurd hb h1
          · rfl
        · exact not_not.mp h2
    | Other k =>
      rw [NxPowerPolicy.AddProtocolOffload_other K p s a n v hlen2 k ht]
  · rw [NxPowerPolicy.AddProtocolOffload_short K p s a n v (by omega)]

/-! ## Lemmas on the identifiers of the entries -/

/-- `RemoveWakePattern` leaves a sublist of the wake list and the offload list as it
is. -/
theorem NxPowerPolicy.RemoveWakePattern_sublist (K : NdisConstants) (p : NxPowerPolicy)
    (s : SET_INFORMATION Nat) :
    (p.RemoveWakePattern K s).Policy.m_WakeListHead.Sublist p.m_WakeListHead ∧
      (p.RemoveWakePattern K s).Policy.m_ProtocolOffloadListHead =
        p.m_ProtocolOffloadListHead := by
  by_cases hlen : s.InformationBufferLength < K.sizeof_ULONG
  · have hsame : (p.RemoveWakePattern K s).Policy = p := by
      simp [NxPowerPolicy.RemoveWakePattern, hlen]
    rw [hsame]
    exact ⟨List.Sublist.refl _, rfl⟩
  · by_cases hex : ∃ e ∈ p.m_WakeListHead, e.GetID = s.InformationBuffer
    · obtain ⟨l1, e, l2, hl, -, -, hr⟩ := NxPowerPolicy.RemoveWakePattern_present K p s hlen hex
      rw [hr, hl]
      exact ⟨(List.Sublist.refl l1).append (List.sublist_cons_self e l2), rfl⟩
    · have habs : ∀ e ∈ p.m_WakeListHead, e.GetID ≠ s.InformationBuffer :=
        fun e he hid => hex ⟨e, he, hid⟩
      rw [NxPowerPolicy.RemoveWakePattern_absent K p s hlen habs]
      exact ⟨List.Sublist.refl _, rfl⟩

/-- `RemoveProtocolOffload` leaves a sublist of the offload list and the wake list as it
is. -/
theorem NxPowerPolicy.RemoveProtocolOffload_sublist (K : NdisConstants)
    (p : NxPowerPolicy) (s : SET_INFORMATION Nat) :
    (p.RemoveProtocolOffload K s).Policy.m_ProtocolOffloadListHead.Sublist
        p.m_ProtocolOffloadListHead ∧
      (p.RemoveProtocolOffload K s).Policy.m_WakeListHead = p.m_WakeListHead := by
  by_cases hlen : s.InformationBufferLength < K.sizeof_ULONG
  · have hsame : (p.RemoveProtocolOffload K s).Policy = p := by
      simp [NxPowerPolicy.RemoveProtocolOffload, hlen]
    rw [hsame]
    exact ⟨List.Sublist.refl _, rfl⟩
  · by_cases hex : ∃ e ∈ p.m_ProtocolOffloadListHead, e.GetID = s.InformationBuffer
    · obtain ⟨l1, e, l2, hl, -, -, hr⟩ :=
        NxPowerPolicy.RemoveProtocolOffload_present K p s hlen hex
      rw [hr, hl]
      exact ⟨(List.Sublist.refl l1).append (List.sublist_cons_self e l2), rfl⟩
    · have habs : ∀ e ∈ p.m_ProtocolOffloadListHead, e.GetID ≠ s.InformationBuffer :=
        fun e he hid => hex ⟨e, he, hid⟩
      rw [NxPowerPolicy.RemoveProtocolOffload_absent K p s hlen habs]
      exact ⟨List.Sublist.refl _, rfl⟩

/-- `SetParameters` keeps the entries of both lists, their order, their identifiers and
their types. -/
theorem NxPowerPolicy.SetParameters_entries (K : NdisConstants) (p : NxPowerPolicy)
    (Set : SET_INFORMATION NDIS_PM_PARAMETERS) :
    (p.SetParameters K Set).Policy.m_WakeListHead.map NxWakePattern.identity =
        p.m_WakeListHead.map NxWakePattern.identity ∧
      (p.SetParameters K Set).Policy.m_ProtocolOffloadListHead.map NxPowerOffload.identity =
        p.m_ProtocolOffloadListHead.map NxPowerOffload.identity := by
  by_cases hlen : Set.InformationBufferLength < K.sizeof_NDIS_PM_PARAMETERS
  · have hsame : (p.SetParameters K Set).Policy = p := by
      simp [NxPowerPolicy.SetParameters, hlen]
    rw [hsame]
    exact ⟨rfl, rfl⟩
  · obtain ⟨-, -, -, hw, ho⟩ := NxPowerPolicy.SetParameters_state K p Set hlen
    rw [hw, ho]
    constructor
    · split_ifs
      · rw [List.map_map]
        rfl
      · rfl
    · split_ifs
      · rw [List.map_map]
        rfl
      · rfl

/-- The identifiers of a list, read off what identifies its entries. -/
theorem map_GetID_of_identity (l1 l2 : List NxWakePattern)
    (h : l1.map NxWakePattern.identity = l2.map NxWakePattern.identity) :
    l1.map NxWakePattern.GetID = l2.map NxWakePattern.GetID := by
  have := congrArg (List.map (fun t : Nat × Nat × NET_WAKE_SOURCE_TYPE => t.2.1)) h
  simpa [List.map_map, Function.comp, NxWakePattern.identity] using this

/-- The identifiers and the types of a list, read off what identifies its entries. -/
theorem map_offload_of_identity (l1 l2 : List NxPowerOffload)
    (h : l1.map NxPowerOffload.identity = l2.map NxPowerOffload.identity) :
    l1.map NxPowerOffload.GetID = l2.map NxPowerOffload.GetID ∧
      l1.map NxPowerOffload.GetType = l2.map NxPowerOffload.GetType := by
  have h1 := congrArg (List.map (fun t : Nat × Nat × NET_POWER_OFFLOAD_TYPE => t.2.1)) h
  have h2 := congrArg (List.map (fun t : Nat × Nat × NET_POWER_OFFLOAD_TYPE => t.2.2)) h
  constructor
  · simpa [List.map_map, Function.comp, NxPowerOffload.identity] using h1
  · simpa [List.map_map, Function.comp, NxPowerOffload.identity] using h2

/-- A request that links no entry with an identifier already in its list keeps the
identifiers of each list pairwise distinct. -/
theorem PolicyCall.run_unique (K : NdisConstants) (p : NxPowerPolicy) (c : PolicyCall)
    (h : UniqueIdentifiers p) (hfresh : c.linksFreshId K p = true) :
    UniqueIdentifiers (c.run K p) := by
  obtain ⟨hw, ho⟩ := h
  cases c with
  | AddWakePattern s b m v =>
    have hrun : (PolicyCall.AddWakePattern s b m v).run K p =
        (p.AddWakePattern K s b m v).Policy := rfl
    rw [hrun]
    cases hspec : specWakePatternAdmitted K p s b m v with
    | none =>
      rw [NxPowerPolicy.AddWakePattern_not_admitted K p s b m v hspec]
      exact ⟨hw, ho⟩
    | some e =>
      rw [(NxPowerPolicy.AddWakePattern_admitted K p s b m v e hspec).2]
      refine ⟨?_, ho⟩
      simp only [PolicyCall.linksFreshId, hspec, List.all_eq_true, bne_iff_ne] at hfresh
      show (List.map NxWakePattern.GetID
        (p.UpdatePatternEntryEnabledField K e :: p.m_WakeListHead)).Nodup
      rw [List.map_cons, List.nodup_cons]
      refine ⟨?_, hw⟩
      intro hmem
      obtain ⟨x, hx, hid⟩ := List.mem_map.mp hmem
      exact hfresh x hx hid
  | AddProtocolOffload s a n v =>
    have hrun : (PolicyCall.AddProtocolOffload s a n v).run K p =
        (p.AddProtocolOffload K s a n v).Policy := rfl
    rw [hrun]
    cases hspec : specProtocolOffloadAdmitted K p s a n v with
    | none =>
      rw [NxPowerPolicy.AddProtocolOffload_not_admitted K p s a n v hspec]
      exact ⟨hw, ho⟩
    | some e =>
      rw [(NxPowerPolicy.AddProtocolOffload_admitted K p s a n v e hspec).2]
      refine ⟨hw, ?_⟩
      simp only [PolicyCall.linksFreshId, hspec, List.all_eq_true, bne_iff_ne] at hfresh
      show (List.map NxPowerOffload.GetID
        (p.UpdateProtocolOffloadEntryEnabledField K e :: p.m_ProtocolOffloadListHead)).Nodup
      rw [List.map_cons, List.nodup_cons]
      refine ⟨?_, ho⟩
      intro hmem
      obtain ⟨x, hx, hid⟩ := List.mem_map.mp hmem
      exact hfresh x hx hid
  | RemoveWakePattern s =>
    obtain ⟨hsub, hsame⟩ := NxPowerPolicy.RemoveWakePattern_sublist K p s
    exact ⟨hw.sublist (hsub.map _), by rw [show ((PolicyCall.RemoveWakePattern s).run K
      p).m_ProtocolOffloadListHead = _ from hsame]; exact ho⟩
  | RemoveProtocolOffload s =>
    obtain ⟨hsub, hsame⟩ := NxPowerPolicy.RemoveProtocolOffload_sublist K p s
    exact ⟨by rw [show ((PolicyCall.RemoveProtocolOffload s).run K p).m_WakeListHead = _
      from hsame]; exact hw, ho.sublist (hsub.map _)⟩
  | SetParameters s =>
    obtain ⟨h1, h2⟩ := NxPowerPolicy.SetParameters_entries K p s
    have g1 := map_GetID_of_identity _ _ h1
    have g2 := (map_offload_of_identity _ _ h2).1
    exact ⟨by rw [show ((PolicyCall.SetParameters s).run K p).m_WakeListHead.map
        NxWakePattern.GetID = _ from g1]; exact hw,
      by rw [show ((PolicyCall.SetParameters s).run K p).m_ProtocolOffloadListHead.map
        NxPowerOffload.GetID = _ from g2]; exact ho⟩

/-- A sequence of requests that link no entry with an identifier already in its list
keeps the identifiers of each list pairwise distinct. -/
theorem runCalls_unique (K : NdisConstants) (p : NxPowerPolicy) (calls : List PolicyCall)
    (h : UniqueIdentifiers p) (hfresh : FreshIdentifiers K p calls = true) :
    UniqueIdentifiers (runCalls K p calls) := by
  induction calls generalizing p with
  | nil => exact h
  | cons c rest ih =>
    simp only [FreshIdentifiers, Bool.and_eq_true] at hfresh
    exact ih (c.run K p) (PolicyCall.run_unique K p c h hfresh.1) hfresh.2

/-! ## Claims on the identifiers of the entries -/

/-- C31, as stated, fails: from the sample policy, whose lists are empty, two add
requests for bitmap patterns with the identifier 3 both succeed, and the wake list then
holds two entries with the identifier 3.  `AddWakePattern` does not look at the
identifiers of the entries in the list. -/
theorem C31_counterexample :
    samplePolicy.m_WakeListHead = [] ∧ samplePolicy.m_ProtocolOffloadListHead = [] ∧
    sampleRepeatedAdds.all PolicyCall.isAddOrRemove = true ∧
    (runCalls sampleConstants samplePolicy sampleRepeatedAdds).m_WakeListHead.map
      NxWakePattern.GetID = [3, 3] ∧
    ¬ UniqueIdentifiers (runCalls sampleConstants samplePolicy sampleRepeatedAdds) := by
  decide

/-- C31, amended: in every policy state reached from a policy with empty lists by any
sequence of add, remove and set-parameters requests in which no add request links an
entry whose identifier an entry of the targeted list already carries, no two entries of
the wake list have the same identifier and no two entries of the offload list have the
same identifier. -/
theorem C31_unique_identifiers_with_fresh_adds (K : NdisConstants) (p : NxPowerPolicy)
    (calls : List PolicyCall) (hwake : p.m_WakeListHead = [])
    (hoffload : p.m_ProtocolOffloadListHead = [])
    (hfresh : FreshIdentifiers K p calls = true) :
    UniqueIdentifiers (runCalls K p calls) := by
  apply runCalls_unique K p calls _ hfresh
  unfold UniqueIdentifiers
  rw [hwake, hoffload]
  exact ⟨List.nodup_nil, List.nodup_nil⟩

/-- Witness for the amended C31: the sample sequence of requests, in which the two wake
patterns carry the identifiers 1 and 2 and the two offloads the identifiers 1 and 2. -/
theorem C31_unique_identifiers_with_fresh_adds_witness :
    FreshIdentifiers sampleConstants samplePolicy sampleCalls = true ∧
    UniqueIdentifiers (runCalls sampleConstants samplePolicy sampleCalls) ∧
    (runCalls sampleConstants samplePolicy sampleCalls).m_WakeListHead.map
      NxWakePattern.GetID = [2, 1] :=
  ⟨by decide,
    C31_unique_identifiers_with_fresh_adds sampleConstants samplePolicy sampleCalls rfl rfl
      (by decide),
    by decide⟩

/-! ## Lemmas on the enumeration of the lists -/

/-- The loop of `UpdatePowerOffloadList`, in closed form. -/
theorem NxPowerPolicy.UpdatePowerOffloadList.go_eq (IsInPowerTransition : Bool)
    (l : List NxPowerOffload) :
    NxPowerPolicy.UpdatePowerOffloadList.go IsInPowerTransition l =
      l.filter (fun e => !IsInPowerTransition || e.IsEnabled) := by
  induction l with
  | nil => rfl
  | cons e rest ih =>
    unfold NxPowerPolicy.UpdatePowerOffloadList.go
    rw [ih, List.filter_cons]

/-- The loop of `UpdateWakeSourceList`, in closed form. -/
theorem NxPowerPolicy.UpdateWakeSourceList.go_wake (IsInPowerTransition : Bool)
    (l : List NxWakePattern) :
    NxPowerPolicy.UpdateWakeSourceList.go IsInPowerTransition l =
      (l.filter (fun e => !IsInPowerTransition || e.IsEnabled)).map
        NxWakeSource.WakePattern := by
  induction l with
  | nil => rfl
  | cons e rest ih =>
    unfold NxPowerPolicy.UpdateWakeSourceList.go
    rw [ih, List.filter_cons]
    dsimp only
    split_ifs <;> rfl

/-- The wake-list entries behind pushed wake-list entries. -/
theorem filterMap_asWakePattern_map (l : List NxWakePattern) :
    (l.map NxWakeSource.WakePattern).filterMap NxWakeSource.asWakePattern = l := by
  induction l with
  | nil => rfl
  | cons e rest ih => simp [NxWakeSource.asWakePattern, ih]

/-- The pushes of `UpdateWakeSourceList`: the selected wake-list entries in list order,
then the built-in sources that are added. -/
theorem NxPowerPolicy.UpdateWakeSourceList_pushes
    (mc pf : NxWakeBuiltin → Bool) (p : NxPowerPolicy) (IsInPowerTransition : Bool) :
    (NxPowerPolicy.UpdateWakeSourceList mc pf p IsInPowerTransition).PushEntry =
      (p.m_WakeListHead.filter (fun e => !IsInPowerTransition || e.IsEnabled)).map
          NxWakeSource.WakePattern ++
        ((if ((!IsInPowerTransition &&
              (p.m_wakeMediaChangeCapabilities.MediaConnect ||
                p.m_wakeMediaChangeCapabilities.MediaDisconnect)) ||
            mc p.m_wakeOnMediaChange) = true then
          [NxWakeSource.m_wakeOnMediaChange p.m_wakeOnMediaChange] else []) ++
        (if ((!IsInPowerTransition && p.m_wakePacketFilterCapabilities.PacketFilterMatch) ||
            pf p.m_wakeOnPacketFilterMatch) = true then
          [NxWakeSource.m_wakeOnPacketFilterMatch p.m_wakeOnPacketFilterMatch] else [])) := by
  unfold NxPowerPolicy.UpdateWakeSourceList
  rw [NxPowerPolicy.UpdateWakeSourceList.go_wake]
  simp only [List.append_assoc]

/-! ## Claims on the enumeration of the lists -/

/-- C32: for every policy state and both values of `IsInPowerTransition`,
`UpdatePowerOffloadList` pushes the entries `e` of the offload list with
`!IsInPowerTransition || e.IsEnabled`, each at its place in list order and nothing else:
the pushes are the offload list filtered by that condition.  `UpdateWakeSourceList`
pushes the wake-list entries with the same condition, in list order, before the
built-in sources: the wake-list entries among its pushes are the wake list filtered by
the condition.  Outside a transition that is every entry, in a transition the enabled
ones.  Neither routine changes the policy. -/
theorem C32_enumeration_pushes_selected_entries (p : NxPowerPolicy)
    (IsInPowerTransition : Bool) (MediaChangeIsEnabled PacketFilterMatchIsEnabled :
      NxWakeBuiltin → Bool) :
    ((p.UpdatePowerOffloadList IsInPowerTransition).PushEntry =
        p.m_ProtocolOffloadListHead.filter
          (fun e => !IsInPowerTransition || e.IsEnabled) ∧
      (p.UpdatePowerOffloadList IsInPowerTransition).Policy = p ∧
      (p.UpdatePowerOffloadList false).PushEntry = p.m_ProtocolOffloadListHead ∧
      (p.UpdatePowerOffloadList true).PushEntry =
        p.m_ProtocolOffloadListHead.filter (fun e => e.IsEnabled)) ∧
    ((NxPowerPolicy.UpdateWakeSourceList MediaChangeIsEnabled PacketFilterMatchIsEnabled p
          IsInPowerTransition).PushEntry.filterMap NxWakeSource.asWakePattern =
        p.m_WakeListHead.filter (fun e => !IsInPowerTransition || e.IsEnabled) ∧
      (∃ builtin,
        (NxPowerPolicy.UpdateWakeSourceList MediaChangeIsEnabled PacketFilterMatchIsEnabled p
          IsInPowerTransition).PushEntry =
          (p.m_WakeListHead.filter (fun e => !IsInPowerTransition || e.IsEnabled)).map
            NxWakeSource.WakePattern ++ builtin ∧
        ∀ x ∈ builtin, x.asWakePattern = none) ∧
      (NxPowerPolicy.UpdateWakeSourceList MediaChangeIsEnabled PacketFilterMatchIsEnabled p
        IsInPowerTransition).Policy = p ∧
      (NxPowerPolicy.UpdateWakeSourceList MediaChangeIsEnabled PacketFilterMatchIsEnabled p
          false).PushEntry.filterMap NxWakeSource.asWakePattern = p.m_WakeListHead ∧
      (NxPowerPolicy.UpdateWakeSourceList MediaChangeIsEnabled PacketFilterMatchIsEnabled p
          true).PushEntry.filterMap NxWakeSource.asWakePattern =
        p.m_WakeListHead.filter (fun e => e.IsEnabled)) := by
  have hbuiltin : ∀ T : Bool, ∀ x ∈
      ((if ((!T && (p.m_wakeMediaChangeCapabilities.MediaConnect ||
              p.m_wakeMediaChangeCapabilities.MediaDisconnect)) ||
            MediaChangeIsEnabled p.m_wakeOnMediaChange) = true then
          [NxWakeSource.m_wakeOnMediaChange p.m_wakeOnMediaChange] else []) ++
        (if ((!T && p.m_wakePacketFilterCapabilities.PacketFilterMatch) ||
            PacketFilterMatchIsEnabled p.m_wakeOnPacketFilterMatch) = true then
          [NxWakeSource.m_wakeOnPacketFilterMatch p.m_wakeOnPacketFilterMatch] else [])),
      x.asWakePattern = none := by
    intro T x hx
    rcases List.mem_append.mp hx with h | h
    · split_ifs at h
      · rw [List.mem_singleton.mp h]; rfl
      · exact absurd h (List.not_mem_nil x)
    · split_ifs at h
      · rw [List.mem_singleton.mp h]; rfl
      · exact absurd h (List.not_mem_nil x)
  have hwake : ∀ T : Bool,
      (NxPowerPolicy.UpdateWakeSourceList MediaChangeIsEnabled PacketFilterMatchIsEnabled p
        T).PushEntry.filterMap NxWakeSource.asWakePattern =
        p.m_WakeListHead.filter (fun e => !T || e.IsEnabled) := by
    intro T
    rw [NxPowerPolicy.UpdateWakeSourceList_pushes, List.filterMap_append,
      filterMap_asWakePattern_map, List.filterMap_eq_nil_iff.mpr (hbuiltin T),
      List.append_nil]
  refine ⟨⟨?_, rfl, ?_, ?_⟩, ⟨hwake _, ⟨_, NxPowerPolicy.UpdateWakeSourceList_pushes _ _ _ _,
    hbuiltin _⟩, rfl, ?_, ?_⟩⟩
  · exact NxPowerPolicy.UpdatePowerOffloadList.go_eq _ _
  · show NxPowerPolicy.UpdatePowerOffloadList.go false _ = _
    rw [NxPowerPolicy.UpdatePowerOffloadList.go_eq]
    simp
  · show NxPowerPolicy.UpdatePowerOffloadList.go true _ = _
    rw [NxPowerPolicy.UpdatePowerOffloadList.go_eq]
    simp
  · rw [hwake]
    simp
  · rw [hwake]
    simp

/-- C32 at a sample policy, whose wake list holds the entries 711 (disabled), 712
(enabled) and 713 (disabled) and whose offload list holds 811 (disabled) and 812
(enabled): in a power transition the enabled entries 712 and 812 are pushed, outside a
power transition every entry is, in list order. -/
theorem C32_enumeration_pushes_selected_entries_witness :
    (samplePolicyRepeatedId.UpdatePowerOffloadList true).PushEntry =
      [⟨812, 7, .NetPowerOffloadTypeNS, true⟩] ∧
    (samplePolicyRepeatedId.UpdatePowerOffloadList false).PushEntry =
      [⟨811, 7, .NetPowerOffloadTypeArp, false⟩, ⟨812, 7, .NetPowerOffloadTypeNS, true⟩] ∧
    (NxPowerPolicy.UpdateWakeSourceList (sampleMediaChangeIsEnabled sampleConstants)
        (samplePacketFilterMatchIsEnabled sampleConstants) samplePolicyRepeatedId
        true).PushEntry.filterMap NxWakeSource.asWakePattern =
      [⟨712, 6, .NetWakeSourceTypeMagicPacket, true⟩] ∧
    (NxPowerPolicy.UpdateWakeSourceList (sampleMediaChangeIsEnabled sampleConstants)
        (samplePacketFilterMatchIsEnabled sampleConstants) samplePolicyRepeatedId
        false).PushEntry.filterMap NxWakeSource.asWakePattern =
      samplePolicyRepeatedId.m_WakeListHead :=
  ⟨(C32_enumeration_pushes_selected_entries samplePolicyRepeatedId true
      (sampleMediaChangeIsEnabled sampleConstants)
      (samplePacketFilterMatchIsEnabled sampleConstants)).1.2.2.2,
    (C32_enumeration_pushes_selected_entries samplePolicyRepeatedId true
      (sampleMediaChangeIsEnabled sampleConstants)
      (samplePacketFilterMatchIsEnabled sampleConstants)).1.2.2.1,
    (C32_enumeration_pushes_selected_entries samplePolicyRepeatedId true
      (sampleMediaChangeIsEnabled sampleConstants)
      (samplePacketFilterMatchIsEnabled sampleConstants)).2.2.2.2.2,
    (C32_enumeration_pushes_selected_entries samplePolicyRepeatedId true
      (sampleMediaChangeIsEnabled sampleConstants)
      (samplePacketFilterMatchIsEnabled sampleConstants)).2.2.2.2.1⟩

/-! ## Lemmas on the built-in wake sources -/

/-- `SetParameters` leaves the declared capabilities as they are. -/
theorem NxPowerPolicy.SetParameters_capabilities (K : NdisConstants) (p : NxPowerPolicy)
    (Set : SET_INFORMATION NDIS_PM_PARAMETERS) :
    (p.SetParameters K Set).Policy.m_wakeMediaChangeCapabilities =
        p.m_wakeMediaChangeCapabilities ∧
      (p.SetParameters K Set).Policy.m_wakePacketFilterCapabilities =
        p.m_wakePacketFilterCapabilities := by
  unfold NxPowerPolicy.SetParameters
  split_ifs
  · exact ⟨rfl, rfl⟩
  · dsimp only
    constructor <;> split_ifs <;> rfl

/-- The supported mask reads the declared capabilities only. -/
theorem specSupportedMask_congr (K : NdisConstants) (p q : NxPowerPolicy)
    (h1 : q.m_wakeMediaChangeCapabilities = p.m_wakeMediaChangeCapabilities)
    (h2 : q.m_wakePacketFilterCapabilities = p.m_wakePacketFilterCapabilities) :
    specSupportedMask K q = specSupportedMask K p := by
  unfold specSupportedMask
  rw [h1, h2]

/-- Each request leaves the capabilities of the built-in sources as declared and gives
the built-in sources masked flags only. -/
theorem PolicyCall.run_builtins (K : NdisConstants) (p : NxPowerPolicy) (c : PolicyCall)
    (h : BuiltinsMasked K p) :
    (c.run K p).m_wakeMediaChangeCapabilities = p.m_wakeMediaChangeCapabilities ∧
      (c.run K p).m_wakePacketFilterCapabilities = p.m_wakePacketFilterCapabilities ∧
      BuiltinsMasked K (c.run K p) := by
  cases c with
  | AddWakePattern s b m v =>
    have hrun : (PolicyCall.AddWakePattern s b m v).run K p =
        (p.AddWakePattern K s b m v).Policy := rfl
    rcases NxPowerPolicy.AddWakePattern_policy K p s b m v with heq | ⟨e, heq⟩
    · rw [hrun, heq]
      exact ⟨rfl, rfl, h⟩
    · rw [hrun, heq]
      exact ⟨rfl, rfl, h⟩
  | AddProtocolOffload s a n v =>
    have hrun : (PolicyCall.AddProtocolOffload s a n v).run K p =
        (p.AddProtocolOffload K s a n v).Policy := rfl
    rcases NxPowerPolicy.AddProtocolOffload_policy K p s a n v with heq | ⟨e, heq⟩
    · rw [hrun, heq]
      exact ⟨rfl, rfl, h⟩
    · rw [hrun, heq]
      exact ⟨rfl, rfl, h⟩
  | RemoveWakePattern s =>
    have hrun : (PolicyCall.RemoveWakePattern s).run K p =
        (p.RemoveWakePattern K s).Policy := rfl
    obtain ⟨l, -, heq⟩ := NxPowerPolicy.RemoveWakePattern_policy K p s
    rw [hrun, heq]
    exact ⟨rfl, rfl, h⟩
  | RemoveProtocolOffload s =>
    have hrun : (PolicyCall.RemoveProtocolOffload s).run K p =
        (p.RemoveProtocolOffload K s).Policy := rfl
    obtain ⟨l, -, heq⟩ := NxPowerPolicy.RemoveProtocolOffload_policy K p s
    rw [hrun, heq]
    exact ⟨rfl, rfl, h⟩
  | SetParameters s =>
    simp only [PolicyCall.run]
    obtain ⟨hc1, hc2⟩ := NxPowerPolicy.SetParameters_capabilities K p s
    refine ⟨hc1, hc2, ?_⟩
    by_cases hlen : s.InformationBufferLength < K.sizeof_NDIS_PM_PARAMETERS
    · have hsame : (p.SetParameters K s).Policy = p := by
        simp [NxPowerPolicy.SetParameters, hlen]
      rw [hsame]
      exact h
    · obtain ⟨hm, hf⟩ := NxPowerPolicy.SetParameters_builtins K p s hlen
      unfold BuiltinsMasked
      rw [specSupportedMask_congr K p _ hc1 hc2, hm, hf,
        NxPowerPolicy.SetParameters.supportedWakeUpFlags_eq]
      split_ifs
      · exact ⟨Or.inr ⟨_, rfl⟩, Or.inr ⟨_, rfl⟩⟩
      · exact h

/-- A sequence of requests leaves the capabilities of the built-in sources as declared
and gives the built-in sources masked flags only. -/
theorem runCalls_builtins (K : NdisConstants) (p : NxPowerPolicy) (calls : List PolicyCall)
    (h : BuiltinsMasked K p) :
    (runCalls K p calls).m_wakeMediaChangeCapabilities = p.m_wakeMediaChangeCapabilities ∧
      (runCalls K p calls).m_wakePacketFilterCapabilities =
        p.m_wakePacketFilterCapabilities ∧
      BuiltinsMasked K (runCalls K p calls) := by
  induction calls generalizing p with
  | nil => exact ⟨rfl, rfl, h⟩
  | cons c rest ih =>
    obtain ⟨h1, h2, h3⟩ := PolicyCall.run_builtins K p c h
    obtain ⟨i1, i2, i3⟩ := ih (c.run K p) h3
    exact ⟨i1.trans h1, i2.trans h2, i3⟩

/-- Masked flags hold a media-change flag only when wake on media change is declared. -/
theorem masked_media_change_declared (K : NdisConstants) (p : NxPowerPolicy) (flags : Nat)
    (hK : WakeUpFlagsDistinct K)
    (h : (flags &&& specSupportedMask K p) &&&
      (K.NDIS_PM_WAKE_ON_LINK_CHANGE_ENABLED |||
        K.NDIS_PM_WAKE_ON_MEDIA_DISCONNECT_ENABLED) ≠ 0) :
    (p.m_wakeMediaChangeCapabilities.MediaConnect ||
      p.m_wakeMediaChangeCapabilities.MediaDisconnect) = true := by
  obtain ⟨-, -, -, -, -, hLS, hLA, hDS, hDA⟩ := hK
  have hSL := (Nat.and_comm _ _).trans hLS
  have hAL := (Nat.and_comm _ _).trans hLA
  have hSD := (Nat.and_comm _ _).trans hDS
  have hAD := (Nat.and_comm _ _).trans hDA
  by_contra hnot
  apply h
  simp only [Bool.or_eq_true, not_or, Bool.not_eq_true] at hnot
  unfold specSupportedMask
  rw [hnot.1, hnot.2, Nat.and_assoc]
  cases p.m_wakePacketFilterCapabilities.PacketFilterMatch <;>
    simp [lor_land_distrib, Nat.and_or_distrib_left, hSL, hAL, hSD, hAD]

/-- Masked flags hold a mode flag only when wake on packet filter match is declared. -/
theorem masked_packet_filter_declared (K : NdisConstants) (p : NxPowerPolicy) (flags : Nat)
    (hK : WakeUpFlagsDistinct K)
    (h : (flags &&& specSupportedMask K p) &&&
      (K.NDIS_PM_SELECTIVE_SUSPEND_ENABLED ||| K.NDIS_PM_AOAC_NAPS_ENABLED) ≠ 0) :
    p.m_wakePacketFilterCapabilities.PacketFilterMatch = true := by
  obtain ⟨-, -, -, -, -, hLS, hLA, hDS, hDA⟩ := hK
  by_contra hnot
  apply h
  simp only [Bool.not_eq_true] at hnot
  unfold specSupportedMask
  rw [hnot, Nat.and_assoc]
  cases p.m_wakeMediaChangeCapabilities.MediaConnect <;>
    cases p.m_wakeMediaChangeCapabilities.MediaDisconnect <;>
    simp [lor_land_distrib, Nat.and_or_distrib_left, hLS, hLA, hDS, hDA]

/-- The test of the code and the rule of the specification agree when the built-in is
enabled only with its capability declared. -/
theorem specBuiltinIncluded_iff (IsInPowerTransition declared enabled : Bool)
    (h : enabled = true → declared = true) :
    ((!IsInPowerTransition && declared) || enabled) = true ↔
      specBuiltinIncluded IsInPowerTransition declared enabled := by
  unfold specBuiltinIncluded
  cases IsInPowerTransition <;> cases declared <;> cases enabled <;> simp at h ⊢

/-- No pushed wake-list entry is a built-in source. -/
theorem any_builtin_map_WakePattern (l : List NxWakePattern) :
    (l.map NxWakeSource.WakePattern).any NxWakeSource.isMediaChange = false ∧
      (l.map NxWakeSource.WakePattern).any NxWakeSource.isPacketFilterMatch = false := by
  induction l with
  | nil => exact ⟨rfl, rfl⟩
  | cons e rest ih =>
    simp only [List.map_cons, List.any_cons, ih, NxWakeSource.isMediaChange,
      NxWakeSource.isPacketFilterMatch, Bool.or_self, and_self]

/-- The built-in media-change source is among the pushes of `UpdateWakeSourceList`
exactly when the test `addMediaChange` holds, and the packet-filter-match source exactly
when the test `addPacketFilterMatch` holds. -/
theorem NxPowerPolicy.UpdateWakeSourceList_builtins
    (mc pf : NxWakeBuiltin → Bool) (p : NxPowerPolicy) (IsInPowerTransition : Bool) :
    (NxPowerPolicy.UpdateWakeSourceList mc pf p IsInPowerTransition).PushEntry.any
        NxWakeSource.isMediaChange =
      ((!IsInPowerTransition &&
          (p.m_wakeMediaChangeCapabilities.MediaConnect ||
            p.m_wakeMediaChangeCapabilities.MediaDisconnect)) ||
        mc p.m_wakeOnMediaChange) ∧
    (NxPowerPolicy.UpdateWakeSourceList mc pf p IsInPowerTransition).PushEntry.any
        NxWakeSource.isPacketFilterMatch =
      ((!IsInPowerTransition && p.m_wakePacketFilterCapabilities.PacketFilterMatch) ||
        pf p.m_wakeOnPacketFilterMatch) := by
  rw [NxPowerPolicy.UpdateWakeSourceList_pushes]
  simp only [List.any_append, (any_builtin_map_WakePattern _).1,
    (any_builtin_map_WakePattern _).2, Bool.false_or]
  constructor <;> split_ifs <;>
    simp_all [NxWakeSource.isMediaChange, NxWakeSource.isPacketFilterMatch]

/-- C33: take a policy as constructed, with its capabilities declared and no flags given
to the built-in wake sources yet, and any sequence of requests after that.  A built-in
source reports itself enabled only when the flags it was last given hold one of its own
flags (link change or media disconnect for the media-change source, selective suspend or
AOAC/NAPS for the packet-filter-match source), and the flag constants share no bit.  Then
`UpdateWakeSourceList` pushes the media-change source if and only if (not in a power
transition and MediaConnect or MediaDisconnect is declared) or (in a power transition and
the source is enabled), and the packet-filter-match source if and only if (not in a power
transition and PacketFilterMatch is declared) or (in a power transition and the source is
enabled). -/
theorem C33_builtin_sources_inclusion (K : NdisConstants)
    (MediaChangeIsEnabled PacketFilterMatchIsEnabled : NxWakeBuiltin → Bool)
    (p0 : NxPowerPolicy) (calls : List PolicyCall) (IsInPowerTransition : Bool)
    (hK : WakeUpFlagsDistinct K)
    (hinit : p0.m_wakeOnMediaChange = ⟨none⟩ ∧ p0.m_wakeOnPacketFilterMatch = ⟨none⟩)
    (hmc0 : MediaChangeIsEnabled ⟨none⟩ = false)
    (hmc : ∀ flags, MediaChangeIsEnabled ⟨some flags⟩ = true →
      flags &&& (K.NDIS_PM_WAKE_ON_LINK_CHANGE_ENABLED |||
        K.NDIS_PM_WAKE_ON_MEDIA_DISCONNECT_ENABLED) ≠ 0)
    (hpf0 : PacketFilterMatchIsEnabled ⟨none⟩ = false)
    (hpf : ∀ flags, PacketFilterMatchIsEnabled ⟨some flags⟩ = true →
      flags &&& (K.NDIS_PM_SELECTIVE_SUSPEND_ENABLED ||| K.NDIS_PM_AOAC_NAPS_ENABLED) ≠ 0) :
    ((NxPowerPolicy.UpdateWakeSourceList MediaChangeIsEnabled PacketFilterMatchIsEnabled
          (runCalls K p0 calls) IsInPowerTransition).PushEntry.any
          NxWakeSource.isMediaChange = true ↔
        specBuiltinIncluded IsInPowerTransition
          (p0.m_wakeMediaChangeCapabilities.MediaConnect ||
            p0.m_wakeMediaChangeCapabilities.MediaDisconnect)
          (MediaChangeIsEnabled (runCalls K p0 calls).m_wakeOnMediaChange)) ∧
    ((NxPowerPolicy.UpdateWakeSourceList MediaChangeIsEnabled PacketFilterMatchIsEnabled
          (runCalls K p0 calls) IsInPowerTransition).PushEntry.any
          NxWakeSource.isPacketFilterMatch = true ↔
        specBuiltinIncluded IsInPowerTransition
          p0.m_wakePacketFilterCapabilities.PacketFilterMatch
          (PacketFilterMatchIsEnabled (runCalls K p0 calls).m_wakeOnPacketFilterMatch)) := by
  obtain ⟨hc1, hc2, hmcInv, hpfInv⟩ :=
    runCalls_builtins K p0 calls ⟨Or.inl hinit.1, Or.inl hinit.2⟩
  obtain ⟨hany1, hany2⟩ := NxPowerPolicy.UpdateWakeSourceList_builtins MediaChangeIsEnabled
    PacketFilterMatchIsEnabled (runCalls K p0 calls) IsInPowerTransition
  rw [hany1, hany2, hc1, hc2]
  constructor
  · apply specBuiltinIncluded_iff
    intro hen
    rcases hmcInv with h | ⟨flags, h⟩
    · rw [h, hmc0] at hen
      cases hen
    · rw [h] at hen
      rw [← hc1]
      exact masked_media_change_declared K _ flags hK (hmc _ hen)
  · apply specBuiltinIncluded_iff
    intro hen
    rcases hpfInv with h | ⟨flags, h⟩
    · rw [h, hpf0] at hen
      cases hen
    · rw [h] at hen
      rw [← hc2]
      exact masked_packet_filter_declared K _ flags hK (hpf _ hen)

/-- C33 at sample states.  On the sample policy (MediaConnect and PacketFilterMatch
declared) the stack sets the link-change, media-disconnect and AOAC/NAPS flags: in a
power transition both built-in sources are pushed.  On the policy without capabilities
the same request enables neither built-in, and outside a power transition the
media-change source is not pushed. -/
theorem C33_builtin_sources_inclusion_witness :
    (NxPowerPolicy.UpdateWakeSourceList (sampleMediaChangeIsEnabled sampleConstants)
        (samplePacketFilterMatchIsEnabled sampleConstants)
        (runCalls sampleConstants samplePolicy [.SetParameters ⟨⟨0, 0, 0, 0x43⟩, 16⟩])
        true).PushEntry.any NxWakeSource.isMediaChange = true ∧
    (NxPowerPolicy.UpdateWakeSourceList (sampleMediaChangeIsEnabled sampleConstants)
        (samplePacketFilterMatchIsEnabled sampleConstants)
        (runCalls sampleConstants samplePolicy [.SetParameters ⟨⟨0, 0, 0, 0x43⟩, 16⟩])
        true).PushEntry.any NxWakeSource.isPacketFilterMatch = true ∧
    ¬ (NxPowerPolicy.UpdateWakeSourceList (sampleMediaChangeIsEnabled sampleConstants)
        (samplePacketFilterMatchIsEnabled sampleConstants)
        (runCalls sampleConstants samplePolicyNoCapabilities
          [.SetParameters ⟨⟨0, 0, 0, 0x43⟩, 16⟩])
        false).PushEntry.any NxWakeSource.isMediaChange = true :=
  ⟨(C33_builtin_sources_inclusion sampleConstants
      (sampleMediaChangeIsEnabled sampleConstants)
      (samplePacketFilterMatchIsEnabled sampleConstants) samplePolicy
      [.SetParameters ⟨⟨0, 0, 0, 0x43⟩, 16⟩] true (by decide) ⟨rfl, rfl⟩ rfl
      (fun flags h => by simpa [sampleMediaChangeIsEnabled, testMask] using h) rfl
      (fun flags h => by simpa [samplePacketFilterMatchIsEnabled, testMask] using h)).1.mpr
      (by decide),
    (C33_builtin_sources_inclusion sampleConstants
      (sampleMediaChangeIsEnabled sampleConstants)
      (samplePacketFilterMatchIsEnabled sampleConstants) samplePolicy
      [.SetParameters ⟨⟨0, 0, 0, 0x43⟩, 16⟩] true (by decide) ⟨rfl, rfl⟩ rfl
      (fun flags h => by simpa [sampleMediaChangeIsEnabled, testMask] using h) rfl
      (fun flags h => by simpa [samplePacketFilterMatchIsEnabled, testMask] using h)).2.mpr
      (by decide),
    mt (C33_builtin_sources_inclusion sampleConstants
      (sampleMediaChangeIsEnabled sampleConstants)
      (samplePacketFilterMatchIsEnabled sampleConstants) samplePolicyNoCapabilities
      [.SetParameters ⟨⟨0, 0, 0, 0x43⟩, 16⟩] false (by decide) ⟨rfl, rfl⟩ rfl
      (fun flags h => by simpa [sampleMediaChangeIsEnabled, testMask] using h) rfl
      (fun flags h => by simpa [samplePacketFilterMatchIsEnabled, testMask] using h)).1.mp
      (by decide)⟩

/-! ## Lemmas on the capability descriptor -/

/-- The first part of `InitializeNdisCapabilities`, in closed form. -/
theorem NxPowerPolicy.InitializeNdisCapabilities.declare_eq (S : NdisCapabilityConstants)
    (p : NxPowerPolicy) (MediaSpecificWakeUpEvents : Nat) :
    NxPowerPolicy.InitializeNdisCapabilities.declare S p MediaSpecificWakeUpEvents =
      { Header := ⟨S.NDIS_OBJECT_TYPE_DEFAULT, S.NDIS_PM_CAPABILITIES_REVISION_2,
          S.NDIS_SIZEOF_NDIS_PM_CAPABILITIES_REVISION_2⟩
        Flags :=
          if p.m_wakePacketFilterCapabilities.PacketFilterMatch = true then
            S.NDIS_PM_SELECTIVE_SUSPEND_SUPPORTED else 0
        SupportedWoLPacketPatterns :=
          (if p.m_magicPacketCapabilities.MagicPacket = true then
              S.NDIS_PM_WOL_MAGIC_PACKET_SUPPORTED else 0) |||
            (if p.m_wakeBitmapCapabilities.BitmapPattern = true then
              S.NDIS_PM_WOL_BITMAP_PATTERN_SUPPORTED else 0)
        NumTotalWoLPatterns :=
          static_cast_ULONG p.m_wakeBitmapCapabilities.MaximumPatternCount
        MaxWoLPatternSize := static_cast_ULONG p.m_wakeBitmapCapabilities.MaximumPatternSize
        MaxWoLPatternOffset := 0
        MaxWoLPacketSaveBuffer := 0
        SupportedProtocolOffloads :=
          (if p.m_powerOffloadArpCapabilities.ArpOffload = true then
              S.NDIS_PM_PROTOCOL_OFFLOAD_ARP_SUPPORTED else 0) |||
            (if p.m_powerOffloadNSCapabilities.NSOffload = true then
              S.NDIS_PM_PROTOCOL_OFFLOAD_NS_SUPPORTED else 0)
        NumArpOffloadIPv4Addresses :=
          if p.m_powerOffloadArpCapabilities.ArpOffload = true then
            static_cast_ULONG p.m_powerOffloadArpCapabilities.MaximumOffloadCount else 0
        NumNSOffloadIPv6Addresses :=
          if p.m_powerOffloadNSCapabilities.NSOffload = true then
            static_cast_ULONG p.m_powerOffloadNSCapabilities.MaximumOffloadCount else 0
        MinMagicPacketWakeUp := 0
        MinPatternWakeUp := 0
        MinLinkChangeWakeUp := 0
        SupportedWakeUpEvents :=
          (if p.m_wakeMediaChangeCapabilities.MediaConnect = true then
              S.NDIS_PM_WAKE_ON_MEDIA_CONNECT_SUPPORTED else 0) |||
            (if p.m_wakeMediaChangeCapabilities.MediaDisconnect = true then
              S.NDIS_PM_WAKE_ON_MEDIA_DISCONNECT_SUPPORTED else 0)
        MediaSpecificWakeUpEvents := MediaSpecificWakeUpEvents } := by
  unfold NxPowerPolicy.InitializeNdisCapabilities.declare
  cases p.m_wakeMediaChangeCapabilities.MediaConnect <;>
    cases p.m_wakeMediaChangeCapabilities.MediaDisconnect <;>
    cases p.m_magicPacketCapabilities.MagicPacket <;>
    cases p.m_wakeBitmapCapabilities.BitmapPattern <;>
    cases p.m_wakePacketFilterCapabilities.PacketFilterMatch <;>
    cases p.m_powerOffloadArpCapabilities.ArpOffload <;>
    cases p.m_powerOffloadNSCapabilities.NSOffload <;> simp

/-- The last part of `InitializeNdisCapabilities`, in closed form. -/
theorem NxPowerPolicy.InitializeNdisCapabilities.wakeUpStates_eq (K : NdisConstants)
    (S : NdisCapabilityConstants) (c : NDIS_PM_CAPABILITIES) :
    NxPowerPolicy.InitializeNdisCapabilities.wakeUpStates K S c =
      { c with
        MinPatternWakeUp :=
          if c.SupportedWoLPacketPatterns &&& S.NDIS_PM_WOL_BITMAP_PATTERN_SUPPORTED ≠ 0 then
            S.NdisDeviceStateD2 else c.MinPatternWakeUp
        MinMagicPacketWakeUp :=
          if c.SupportedWoLPacketPatterns &&& K.NDIS_PM_WOL_MAGIC_PACKET_ENABLED ≠ 0 then
            S.NdisDeviceStateD2 else c.MinMagicPacketWakeUp
        MinLinkChangeWakeUp :=
          if c.SupportedWakeUpEvents &&& S.NDIS_PM_WAKE_ON_MEDIA_CONNECT_SUPPORTED ≠ 0 then
            S.NdisDeviceStateD2 else c.MinLinkChangeWakeUp } := by
  unfold NxPowerPolicy.InitializeNdisCapabilities.wakeUpStates
  by_cases h1 : c.SupportedWoLPacketPatterns &&& S.NDIS_PM_WOL_BITMAP_PATTERN_SUPPORTED ≠ 0 <;>
    by_cases h2 : c.SupportedWoLPacketPatterns &&& K.NDIS_PM_WOL_MAGIC_PACKET_ENABLED ≠ 0 <;>
    by_cases h3 : c.SupportedWakeUpEvents &&&
      S.NDIS_PM_WAKE_ON_MEDIA_CONNECT_SUPPORTED ≠ 0 <;>
    simp [h1, h2, h3]

/-- The descriptor of `InitializeNdisCapabilities`, in closed form. -/
theorem NxPowerPolicy.InitializeNdisCapabilities_eq (K : NdisConstants)
    (S : NdisCapabilityConstants) (p : NxPowerPolicy) (MediaSpecificWakeUpEvents : Nat) :
    p.InitializeNdisCapabilities K S MediaSpecificWakeUpEvents =
      { NxPowerPolicy.InitializeNdisCapabilities.declare S p MediaSpecificWakeUpEvents with
        MinPatternWakeUp :=
          if (NxPowerPolicy.InitializeNdisCapabilities.declare S p
              MediaSpecificWakeUpEvents).SupportedWoLPacketPatterns &&&
              S.NDIS_PM_WOL_BITMAP_PATTERN_SUPPORTED ≠ 0 then
            S.NdisDeviceStateD2 else 0
        MinMagicPacketWakeUp :=
          if (NxPowerPolicy.InitializeNdisCapabilities.declare S p
              MediaSpecificWakeUpEvents).SupportedWoLPacketPatterns &&&
              K.NDIS_PM_WOL_MAGIC_PACKET_ENABLED ≠ 0 then
            S.NdisDeviceStateD2 else 0
        MinLinkChangeWakeUp :=
          if (NxPowerPolicy.InitializeNdisCapabilities.declare S p
              MediaSpecificWakeUpEvents).SupportedWakeUpEvents &&&
              S.NDIS_PM_WAKE_ON_MEDIA_CONNECT_SUPPORTED ≠ 0 then
            S.NdisDeviceStateD2 else 0 } := by
  unfold NxPowerPolicy.InitializeNdisCapabilities
  rw [NxPowerPolicy.InitializeNdisCapabilities.wakeUpStates_eq]
  have h := NxPowerPolicy.InitializeNdisCapabilities.declare_eq S p MediaSpecificWakeUpEvents
  have h1 : (NxPowerPolicy.InitializeNdisCapabilities.declare S p
      MediaSpecificWakeUpEvents).MinPatternWakeUp = 0 := by rw [h]
  have h2 : (NxPowerPolicy.InitializeNdisCapabilities.declare S p
      MediaSpecificWakeUpEvents).MinMagicPacketWakeUp = 0 := by rw [h]
  have h3 : (NxPowerPolicy.InitializeNdisCapabilities.declare S p
      MediaSpecificWakeUpEvents).MinLinkChangeWakeUp = 0 := by rw [h]
  rw [h1, h2, h3]

/-- A field made of two flags that share no bit holds each flag exactly when the flag
was put in. -/
theorem two_flags_contains (a b : Bool) (x y : Nat) (hx : x ≠ 0) (hy : y ≠ 0)
    (hxy : x &&& y = 0) :
    ((((if a = true then x else 0) ||| (if b = true then y else 0)) &&& x = x) ↔ a = true) ∧
    ((((if a = true then x else 0) ||| (if b = true then y else 0)) &&& y = y) ↔ b = true) := by
  have hyx := (Nat.and_comm _ _).trans hxy
  have hx2 : ¬ 0 = x := fun h => hx h.symm
  have hy2 : ¬ 0 = y := fun h => hy h.symm
  cases a <;> cases b <;> simp [lor_land_distrib, hxy, hyx, hx2, hy2, lor_land_absorb,
    land_lor_absorb]

/-! ## Claims on the capability descriptor -/

/-- C34: for every capability state, the descriptor built by
`InitializeNdisCapabilities` has `SupportedWakeUpEvents` equal to the disjunction of the
MEDIA_CONNECT and MEDIA_DISCONNECT flags of the declared capabilities,
`SupportedWoLPacketPatterns` to that of the MAGIC_PACKET and BITMAP_PATTERN flags,
`SupportedProtocolOffloads` to that of the ARP and NS flags, and `Flags` to the
SELECTIVE_SUSPEND flag when PacketFilterMatch is declared and to 0 otherwise: no other
bit is set in the four fields.  The `SUPPORTED` flags of a field being non-zero and
sharing no bit, each field holds a flag if and only if the capability of the flag is
declared.  Two policies with the same capability state get the same descriptor for the
same `MediaSpecificWakeUpEvents`, which the descriptor holds as given. -/
theorem C34_descriptor_flags_follow_capabilities (K : NdisConstants)
    (S : NdisCapabilityConstants) (p : NxPowerPolicy) (MediaSpecificWakeUpEvents : Nat) :
    ((p.InitializeNdisCapabilities K S MediaSpecificWakeUpEvents).SupportedWakeUpEvents =
        ((if p.m_wakeMediaChangeCapabilities.MediaConnect = true then
            S.NDIS_PM_WAKE_ON_MEDIA_CONNECT_SUPPORTED else 0) |||
          (if p.m_wakeMediaChangeCapabilities.MediaDisconnect = true then
            S.NDIS_PM_WAKE_ON_MEDIA_DISCONNECT_SUPPORTED else 0)) ∧
      (p.InitializeNdisCapabilities K S MediaSpecificWakeUpEvents).SupportedWoLPacketPatterns =
        ((if p.m_magicPacketCapabilities.MagicPacket = true then
            S.NDIS_PM_WOL_MAGIC_PACKET_SUPPORTED else 0) |||
          (if p.m_wakeBitmapCapabilities.BitmapPattern = true then
            S.NDIS_PM_WOL_BITMAP_PATTERN_SUPPORTED else 0)) ∧
      (p.InitializeNdisCapabilities K S MediaSpecificWakeUpEvents).SupportedProtocolOffloads =
        ((if p.m_powerOffloadArpCapabilities.ArpOffload = true then
            S.NDIS_PM_PROTOCOL_OFFLOAD_ARP_SUPPORTED else 0) |||
          (if p.m_powerOffloadNSCapabilities.NSOffload = true then
            S.NDIS_PM_PROTOCOL_OFFLOAD_NS_SUPPORTED else 0)) ∧
      (p.InitializeNdisCapabilities K S MediaSpecificWakeUpEvents).Flags =
        (if p.m_wakePacketFilterCapabilities.PacketFilterMatch = true then
          S.NDIS_PM_SELECTIVE_SUSPEND_SUPPORTED else 0) ∧
      (p.InitializeNdisCapabilities K S MediaSpecificWakeUpEvents).MediaSpecificWakeUpEvents =
        MediaSpecificWakeUpEvents) ∧
    (SupportedFlagsDistinct S →
      ((p.InitializeNdisCapabilities K S MediaSpecificWakeUpEvents).SupportedWakeUpEvents &&&
            S.NDIS_PM_WAKE_ON_MEDIA_CONNECT_SUPPORTED =
          S.NDIS_PM_WAKE_ON_MEDIA_CONNECT_SUPPORTED ↔
        p.m_wakeMediaChangeCapabilities.MediaConnect = true) ∧
      ((p.InitializeNdisCapabilities K S MediaSpecificWakeUpEvents).SupportedWakeUpEvents &&&
            S.NDIS_PM_WAKE_ON_MEDIA_DISCONNECT_SUPPORTED =
          S.NDIS_PM_WAKE_ON_MEDIA_DISCONNECT_SUPPORTED ↔
        p.m_wakeMediaChangeCapabilities.MediaDisconnect = true) ∧
      ((p.InitializeNdisCapabilities K S
            MediaSpecificWakeUpEvents).SupportedWoLPacketPatterns &&&
            S.NDIS_PM_WOL_MAGIC_PACKET_SUPPORTED =
          S.NDIS_PM_WOL_MAGIC_PACKET_SUPPORTED ↔
        p.m_magicPacketCapabilities.MagicPacket = true) ∧
      ((p.InitializeNdisCapabilities K S
            MediaSpecificWakeUpEvents).SupportedWoLPacketPatterns &&&
            S.NDIS_PM_WOL_BITMAP_PATTERN_SUPPORTED =
          S.NDIS_PM_WOL_BITMAP_PATTERN_SUPPORTED ↔
        p.m_wakeBitmapCapabilities.BitmapPattern = true) ∧
      ((p.InitializeNdisCapabilities K S
            MediaSpecificWakeUpEvents).SupportedProtocolOffloads &&&
            S.NDIS_PM_PROTOCOL_OFFLOAD_ARP_SUPPORTED =
          S.NDIS_PM_PROTOCOL_OFFLOAD_ARP_SUPPORTED ↔
        p.m_powerOffloadArpCapabilities.ArpOffload = true) ∧
      ((p.InitializeNdisCapabilities K S
            MediaSpecificWakeUpEvents).SupportedProtocolOffloads &&&
            S.NDIS_PM_PROTOCOL_OFFLOAD_NS_SUPPORTED =
          S.NDIS_PM_PROTOCOL_OFFLOAD_NS_SUPPORTED ↔
        p.m_powerOffloadNSCapabilities.NSOffload = true) ∧
      ((p.InitializeNdisCapabilities K S MediaSpecificWakeUpEvents).Flags &&&
            S.NDIS_PM_SELECTIVE_SUSPEND_SUPPORTED =
          S.NDIS_PM_SELECTIVE_SUSPEND_SUPPORTED ↔
        p.m_wakePacketFilterCapabilities.PacketFilterMatch = true)) ∧
    (∀ q : NxPowerPolicy, q.capabilities = p.capabilities →
      q.InitializeNdisCapabilities K S MediaSpecificWakeUpEvents =
        p.InitializeNdisCapabilities K S MediaSpecificWakeUpEvents) := by
  have hfields : (p.InitializeNdisCapabilities K S
        MediaSpecificWakeUpEvents).SupportedWakeUpEvents =
        ((if p.m_wakeMediaChangeCapabilities.MediaConnect = true then
            S.NDIS_PM_WAKE_ON_MEDIA_CONNECT_SUPPORTED else 0) |||
          (if p.m_wakeMediaChangeCapabilities.MediaDisconnect = true then
            S.NDIS_PM_WAKE_ON_MEDIA_DISCONNECT_SUPPORTED else 0)) ∧
      (p.InitializeNdisCapabilities K S MediaSpecificWakeUpEvents).SupportedWoLPacketPatterns =
        ((if p.m_magicPacketCapabilities.MagicPacket = true then
            S.NDIS_PM_WOL_MAGIC_PACKET_SUPPORTED else 0) |||
          (if p.m_wakeBitmapCapabilities.BitmapPattern = true then
            S.NDIS_PM_WOL_BITMAP_PATTERN_SUPPORTED else 0)) ∧
      (p.InitializeNdisCapabilities K S MediaSpecificWakeUpEvents).SupportedProtocolOffloads =
        ((if p.m_powerOffloadArpCapabilities.ArpOffload = true then
            S.NDIS_PM_PROTOCOL_OFFLOAD_ARP_SUPPORTED else 0) |||
          (if p.m_powerOffloadNSCapabilities.NSOffload = true then
            S.NDIS_PM_PROTOCOL_OFFLOAD_NS_SUPPORTED else 0)) ∧
      (p.InitializeNdisCapabilities K S MediaSpecificWakeUpEvents).Flags =
        (if p.m_wakePacketFilterCapabilities.PacketFilterMatch = true then
          S.NDIS_PM_SELECTIVE_SUSPEND_SUPPORTED else 0) ∧
      (p.InitializeNdisCapabilities K S MediaSpecificWakeUpEvents).MediaSpecificWakeUpEvents =
        MediaSpecificWakeUpEvents := by
    rw [NxPowerPolicy.InitializeNdisCapabilities_eq]
    simp [NxPowerPolicy.InitializeNdisCapabilities.declare_eq]
  refine ⟨hfields, ?_, ?_⟩
  · intro hS
    obtain ⟨hMC, hMD, hMP, hBP, hSS, hARP, hNS, hw, hp, ho⟩ := hS
    obtain ⟨f1, f2, f3, f4, -⟩ := hfields
    rw [f1, f2, f3, f4]
    refine ⟨(two_flags_contains _ _ _ _ hMC hMD hw).1, (two_flags_contains _ _ _ _ hMC hMD hw).2,
      (two_flags_contains _ _ _ _ hMP hBP hp).1, (two_flags_contains _ _ _ _ hMP hBP hp).2,
      (two_flags_contains _ _ _ _ hARP hNS ho).1, (two_flags_contains _ _ _ _ hARP hNS ho).2,
      ?_⟩
    have hSS2 : ¬ 0 = S.NDIS_PM_SELECTIVE_SUSPEND_SUPPORTED := fun h => hSS h.symm
    cases p.m_wakePacketFilterCapabilities.PacketFilterMatch <;> simp [hSS2]
  · intro q hq
    simp only [NxPowerPolicy.capabilities, Prod.mk.injEq] at hq
    obtain ⟨q1, q2, q3, q4, q5, q6⟩ := hq
    unfold NxPowerPolicy.InitializeNdisCapabilities
    rw [NxPowerPolicy.InitializeNdisCapabilities.declare_eq,
      NxPowerPolicy.InitializeNdisCapabilities.declare_eq, q1, q2, q3, q4, q5, q6]

/-- C34 at the sample policy, which declares every capability except wake on media
disconnect: `SupportedWakeUpEvents` holds the MEDIA_CONNECT flag only, the two other
fields hold both of their flags, `Flags` holds the SELECTIVE_SUSPEND flag, and the
MEDIA_DISCONNECT flag is in its field iff MediaDisconnect is declared; the policy with
entries, which has the same capability state, gets the same descriptor. -/
theorem C34_descriptor_flags_follow_capabilities_witness :
    ((samplePolicy.InitializeNdisCapabilities sampleConstants sampleCapabilityConstants
          7).SupportedWakeUpEvents = 0x1 ∧
      (samplePolicy.InitializeNdisCapabilities sampleConstants sampleCapabilityConstants
          7).SupportedWoLPacketPatterns = 0x3 ∧
      (samplePolicy.InitializeNdisCapabilities sampleConstants sampleCapabilityConstants
          7).SupportedProtocolOffloads = 0x3 ∧
      (samplePolicy.InitializeNdisCapabilities sampleConstants sampleCapabilityConstants
          7).Flags = 0x2 ∧
      (samplePolicy.InitializeNdisCapabilities sampleConstants sampleCapabilityConstants
          7).MediaSpecificWakeUpEvents = 7) ∧
    ((samplePolicy.InitializeNdisCapabilities sampleConstants sampleCapabilityConstants
          7).SupportedWakeUpEvents &&& 0x2 = 0x2 ↔
      samplePolicy.m_wakeMediaChangeCapabilities.MediaDisconnect = true) ∧
    samplePolicyWithEntries.InitializeNdisCapabilities sampleConstants
        sampleCapabilityConstants 7 =
      samplePolicy.InitializeNdisCapabilities sampleConstants sampleCapabilityConstants 7 :=
  ⟨(C34_descriptor_flags_follow_capabilities sampleConstants sampleCapabilityConstants
      samplePolicy 7).1,
    ((C34_descriptor_flags_follow_capabilities sampleConstants sampleCapabilityConstants
      samplePolicy 7).2.1 (by decide)).2.1,
    (C34_descriptor_flags_follow_capabilities sampleConstants sampleCapabilityConstants
      samplePolicy 7).2.2 samplePolicyWithEntries rfl⟩


/-- The three minimum wake-up states of the descriptor: each is D2 when the test of the
routine on the declared flags holds, and 0 otherwise. -/
theorem NxPowerPolicy.InitializeNdisCapabilities_wake_up_states (K : NdisConstants)
    (S : NdisCapabilityConstants) (p : NxPowerPolicy) (MediaSpecificWakeUpEvents : Nat) :
    (p.InitializeNdisCapabilities K S MediaSpecificWakeUpEvents).MinPatternWakeUp =
        (if ((if p.m_magicPacketCapabilities.MagicPacket = true then
                S.NDIS_PM_WOL_MAGIC_PACKET_SUPPORTED else 0) |||
              (if p.m_wakeBitmapCapabilities.BitmapPattern = true then
                S.NDIS_PM_WOL_BITMAP_PATTERN_SUPPORTED else 0)) &&&
            S.NDIS_PM_WOL_BITMAP_PATTERN_SUPPORTED ≠ 0 then S.NdisDeviceStateD2 else 0) ∧
      (p.InitializeNdisCapabilities K S MediaSpecificWakeUpEvents).MinMagicPacketWakeUp =
        (if ((if p.m_magicPacketCapabilities.MagicPacket = true then
                S.NDIS_PM_WOL_MAGIC_PACKET_SUPPORTED else 0) |||
              (if p.m_wakeBitmapCapabilities.BitmapPattern = true then
                S.NDIS_PM_WOL_BITMAP_PATTERN_SUPPORTED else 0)) &&&
            K.NDIS_PM_WOL_MAGIC_PACKET_ENABLED ≠ 0 then S.NdisDeviceStateD2 else 0) ∧
      (p.InitializeNdisCapabilities K S MediaSpecificWakeUpEvents).MinLinkChangeWakeUp =
        (if ((if p.m_wakeMediaChangeCapabilities.MediaConnect = true then
                S.NDIS_PM_WAKE_ON_MEDIA_CONNECT_SUPPORTED else 0) |||
              (if p.m_wakeMediaChangeCapabilities.MediaDisconnect = true then
                S.NDIS_PM_WAKE_ON_MEDIA_DISCONNECT_SUPPORTED else 0)) &&&
            S.NDIS_PM_WAKE_ON_MEDIA_CONNECT_SUPPORTED ≠ 0 then S.NdisDeviceStateD2 else 0) := by
  rw [NxPowerPolicy.InitializeNdisCapabilities_eq]
  simp [NxPowerPolicy.InitializeNdisCapabilities.declare_eq]

/-- A field made of two flags that share no bit meets a flag exactly when the flag was
put in. -/
theorem two_flags_meets (a b : Bool) (x y : Nat) (hx : x ≠ 0) (hy : y ≠ 0)
    (hxy : x &&& y = 0) :
    ((((if a = true then x else 0) ||| (if b = true then y else 0)) &&& x ≠ 0) ↔ a = true) ∧
    ((((if a = true then x else 0) ||| (if b = true then y else 0)) &&& y ≠ 0) ↔ b = true) := by
  have hyx := (Nat.and_comm _ _).trans hxy
  cases a <;> cases b <;> simp [lor_land_distrib, hxy, hyx, hx, hy]

/-- With `SUPPORTED` flags that share no bit, `MinLinkChangeWakeUp` follows MediaConnect
alone: it is D2 when MediaConnect is declared and 0 when it is not, whatever
MediaDisconnect is. -/
theorem NxPowerPolicy.InitializeNdisCapabilities_MinLinkChangeWakeUp (K : NdisConstants)
    (S : NdisCapabilityConstants) (p : NxPowerPolicy) (MediaSpecificWakeUpEvents : Nat)
    (hS : SupportedFlagsDistinct S) :
    (p.InitializeNdisCapabilities K S MediaSpecificWakeUpEvents).MinLinkChangeWakeUp =
      (if p.m_wakeMediaChangeCapabilities.MediaConnect = true then
        S.NdisDeviceStateD2 else 0) := by
  obtain ⟨hMC, hMD, -, -, -, -, -, hw, -, -⟩ := hS
  rw [(NxPowerPolicy.InitializeNdisCapabilities_wake_up_states K S p
    MediaSpecificWakeUpEvents).2.2]
  by_cases h : p.m_wakeMediaChangeCapabilities.MediaConnect = true
  · rw [if_pos ((two_flags_meets _ _ _ _ hMC hMD hw).1.mpr h), if_pos h]
  · rw [if_neg (fun hc => h ((two_flags_meets _ _ _ _ hMC hMD hw).1.mp hc)), if_neg h]

/-- C35, as stated, fails: on the policy that declares wake on media disconnect and not
wake on media connect, with the MEDIA_CONNECT and MEDIA_DISCONNECT flags on the bits 0
and 1 and D2 as the state 3, `InitializeNdisCapabilities` reports the MEDIA_DISCONNECT
flag and leaves `MinLinkChangeWakeUp` at 0, not at D2: the test before the assignment
reads the MEDIA_CONNECT flag only. -/
theorem C35_media_disconnect_alone_not_d2 :
    samplePolicyMediaDisconnectOnly.m_wakeMediaChangeCapabilities.MediaDisconnect = true ∧
    (samplePolicyMediaDisconnectOnly.InitializeNdisCapabilities sampleConstants
      sampleCapabilityConstants 0).SupportedWakeUpEvents =
      sampleCapabilityConstants.NDIS_PM_WAKE_ON_MEDIA_DISCONNECT_SUPPORTED ∧
    (samplePolicyMediaDisconnectOnly.InitializeNdisCapabilities sampleConstants
      sampleCapabilityConstants 0).MinLinkChangeWakeUp = 0 ∧
    (samplePolicyMediaDisconnectOnly.InitializeNdisCapabilities sampleConstants
      sampleCapabilityConstants 0).MinLinkChangeWakeUp ≠
      sampleCapabilityConstants.NdisDeviceStateD2 := by
  decide

/-- C35, amended: the `SUPPORTED` flags of a field being non-zero and sharing no bit, and
D2 not being the state 0: for every capability state in which MediaConnect is declared,
with or without MediaDisconnect, `InitializeNdisCapabilities` sets `MinLinkChangeWakeUp`
to device state D2; when MediaConnect is not declared (neither kind declared, or
MediaDisconnect alone) the field is left unspecified (zero).  So the field is D2 if and
only if MediaConnect is declared. -/
theorem C35_link_change_wake_up_follows_media_connect (K : NdisConstants)
    (S : NdisCapabilityConstants) (p : NxPowerPolicy) (MediaSpecificWakeUpEvents : Nat)
    (hS : SupportedFlagsDistinct S) (hD2 : S.NdisDeviceStateD2 ≠ 0) :
    (p.m_wakeMediaChangeCapabilities.MediaConnect = true →
      (p.InitializeNdisCapabilities K S MediaSpecificWakeUpEvents).MinLinkChangeWakeUp =
        S.NdisDeviceStateD2) ∧
    (p.m_wakeMediaChangeCapabilities.MediaConnect = false →
      (p.InitializeNdisCapabilities K S MediaSpecificWakeUpEvents).MinLinkChangeWakeUp =
        0) ∧
    ((p.InitializeNdisCapabilities K S MediaSpecificWakeUpEvents).MinLinkChangeWakeUp =
        S.NdisDeviceStateD2 ↔ p.m_wakeMediaChangeCapabilities.MediaConnect = true) := by
  have hlink := NxPowerPolicy.InitializeNdisCapabilities_MinLinkChangeWakeUp K S p
    MediaSpecificWakeUpEvents hS
  rw [hlink]
  refine ⟨fun h => if_pos h, fun h => ?_, ?_⟩
  · rw [if_neg (fun hc => by rw [hc] at h; cases h)]
  · by_cases h : p.m_wakeMediaChangeCapabilities.MediaConnect = true
    · rw [if_pos h]
      exact ⟨fun _ => h, fun _ => rfl⟩
    · rw [if_neg h]
      exact ⟨fun h0 => absurd h0.symm hD2, fun h1 => absurd h1 h⟩

/-- The amended C35 at sample policies: the sample policy declares MediaConnect and gets
D2 (the state 3); the policy that declares MediaDisconnect alone and the policy without
capabilities get 0. -/
theorem C35_link_change_wake_up_follows_media_connect_witness :
    samplePolicy.m_wakeMediaChangeCapabilities.MediaConnect = true ∧
    (samplePolicy.InitializeNdisCapabilities sampleConstants sampleCapabilityConstants
        0).MinLinkChangeWakeUp = 3 ∧
    (samplePolicyMediaDisconnectOnly.InitializeNdisCapabilities sampleConstants
        sampleCapabilityConstants 0).MinLinkChangeWakeUp = 0 ∧
    (samplePolicyNoCapabilities.InitializeNdisCapabilities sampleConstants
        sampleCapabilityConstants 0).MinLinkChangeWakeUp = 0 :=
  ⟨rfl,
    (C35_link_change_wake_up_follows_media_connect sampleConstants
      sampleCapabilityConstants samplePolicy 0 (by decide) (by decide)).1 rfl,
    (C35_link_change_wake_up_follows_media_connect sampleConstants
      sampleCapabilityConstants samplePolicyMediaDisconnectOnly 0 (by decide)
      (by decide)).2.1 rfl,
    (C35_link_change_wake_up_follows_media_connect sampleConstants
      sampleCapabilityConstants samplePolicyNoCapabilities 0 (by decide)
      (by decide)).2.1 rfl⟩

/-- C36: the `SUPPORTED` flags of a field being non-zero and sharing no bit, the mask
`NDIS_PM_WOL_MAGIC_PACKET_ENABLED` being the flag `NDIS_PM_WOL_MAGIC_PACKET_SUPPORTED`,
and D2 not being the state 0: for every capability state `InitializeNdisCapabilities`
sets `MinPatternWakeUp` to D2 if and only if BitmapPattern is declared and
`MinMagicPacketWakeUp` to D2 if and only if MagicPacket is declared, and each of the two
fields is 0 otherwise. -/
theorem C36_pattern_wake_up_states (K : NdisConstants) (S : NdisCapabilityConstants)
    (p : NxPowerPolicy) (MediaSpecificWakeUpEvents : Nat)
    (hS : SupportedFlagsDistinct S)
    (hmask : K.NDIS_PM_WOL_MAGIC_PACKET_ENABLED = S.NDIS_PM_WOL_MAGIC_PACKET_SUPPORTED)
    (hD2 : S.NdisDeviceStateD2 ≠ 0) :
    ((p.InitializeNdisCapabilities K S MediaSpecificWakeUpEvents).MinPatternWakeUp =
        S.NdisDeviceStateD2 ↔ p.m_wakeBitmapCapabilities.BitmapPattern = true) ∧
    (p.m_wakeBitmapCapabilities.BitmapPattern = false →
      (p.InitializeNdisCapabilities K S MediaSpecificWakeUpEvents).MinPatternWakeUp = 0) ∧
    ((p.InitializeNdisCapabilities K S MediaSpecificWakeUpEvents).MinMagicPacketWakeUp =
        S.NdisDeviceStateD2 ↔ p.m_magicPacketCapabilities.MagicPacket = true) ∧
    (p.m_magicPacketCapabilities.MagicPacket = false →
      (p.InitializeNdisCapabilities K S MediaSpecificWakeUpEvents).MinMagicPacketWakeUp =
        0) := by
  obtain ⟨-, -, hMP, hBP, -, -, -, -, hp, -⟩ := hS
  obtain ⟨h1, h2, -⟩ := NxPowerPolicy.InitializeNdisCapabilities_wake_up_states K S p
    MediaSpecificWakeUpEvents
  have hD2s : ¬ 0 = S.NdisDeviceStateD2 := fun h => hD2 h.symm
  have hb := (two_flags_meets p.m_magicPacketCapabilities.MagicPacket
    p.m_wakeBitmapCapabilities.BitmapPattern _ _ hMP hBP hp).2
  have hm := (two_flags_meets p.m_magicPacketCapabilities.MagicPacket
    p.m_wakeBitmapCapabilities.BitmapPattern _ _ hMP hBP hp).1
  rw [h1, h2, hmask]
  refine ⟨?_, ?_, ?_, ?_⟩
  · by_cases h : p.m_wakeBitmapCapabilities.BitmapPattern = true
    · rw [if_pos (hb.mpr h)]
      exact ⟨fun _ => h, fun _ => rfl⟩
    · rw [if_neg (fun hc => h (hb.mp hc))]
      exact ⟨fun h0 => absurd h0 hD2s, fun h1 => absurd h1 h⟩
  · intro h
    rw [if_neg (fun hc => by rw [hb.mp hc] at h; cases h)]
  · by_cases h : p.m_magicPacketCapabilities.MagicPacket = true
    · rw [if_pos (hm.mpr h)]
      exact ⟨fun _ => h, fun _ => rfl⟩
    · rw [if_neg (fun hc => h (hm.mp hc))]
      exact ⟨fun h0 => absurd h0 hD2s, fun h1 => absurd h1 h⟩
  · intro h
    rw [if_neg (fun hc => by rw [hm.mp hc] at h; cases h)]

/-- C36 at sample policies: the sample policy declares both kinds of pattern and gets
D2 in both fields; the policy without capabilities gets 0 in both. -/
theorem C36_pattern_wake_up_states_witness :
    (samplePolicy.InitializeNdisCapabilities sampleConstants sampleCapabilityConstants
        0).MinPatternWakeUp = 3 ∧
    (samplePolicy.InitializeNdisCapabilities sampleConstants sampleCapabilityConstants
        0).MinMagicPacketWakeUp = 3 ∧
    (samplePolicyNoCapabilities.InitializeNdisCapabilities sampleConstants
        sampleCapabilityConstants 0).MinPatternWakeUp = 0 ∧
    (samplePolicyNoCapabilities.InitializeNdisCapabilities sampleConstants
        sampleCapabilityConstants 0).MinMagicPacketWakeUp = 0 :=
  ⟨(C36_pattern_wake_up_states sampleConstants sampleCapabilityConstants samplePolicy 0
      (by decide) rfl (by decide)).1.mpr rfl,
    (C36_pattern_wake_up_states sampleConstants sampleCapabilityConstants samplePolicy 0
      (by decide) rfl (by decide)).2.2.1.mpr rfl,
    (C36_pattern_wake_up_states sampleConstants sampleCapabilityConstants
      samplePolicyNoCapabilities 0 (by decide) rfl (by decide)).2.1 rfl,
    (C36_pattern_wake_up_states sampleConstants sampleCapabilityConstants
      samplePolicyNoCapabilities 0 (by decide) rfl (by decide)).2.2.2 rfl⟩

/-! ## Lemmas on the frame of a cancellation -/

/-- The second loop of `CancelRequests`, in closed form: every member whose handle is in
`tmpCancelList` has its cancel link cleared, and each handle gets `Cancel` followed by
the release of the reference. -/
theorem NxRequestQueue.CancelRequests.cancelAll_eq (tmp : List Nat)
    (requests : List NxRequestObject) :
    NxRequestQueue.CancelRequests.cancelAll tmp requests =
      (requests.map (fun r => if r.GetFxObject ∈ tmp then
          { r with m_CancelTempListEntry := false } else r),
        [],
        tmp.flatMap (fun h =>
          [QueueEvent.Cancel h, QueueEvent.WdfObjectDereferenceWithTag h])) := by
  induction tmp generalizing requests with
  | nil => simp [NxRequestQueue.CancelRequests.cancelAll]
  | cons h next ih =>
    simp only [NxRequestQueue.CancelRequests.cancelAll, ih, clearCancelTempListEntry,
      List.map_map, List.flatMap_cons, List.cons_append, List.nil_append, Prod.mk.injEq,
      and_true]
    apply List.map_congr_left
    intro r _
    by_cases hh : r.Request.FxObject = h
    · by_cases hn : h ∈ next <;> simp [hh, hn, NxRequestObject.GetFxObject]
    · by_cases hn : r.Request.FxObject ∈ next <;> simp [hh, hn, NxRequestObject.GetFxObject]

/-- The trace and the in-flight list of `CancelRequests`, in closed form. -/
theorem NxRequestQueue.CancelRequests_eq (requests : List NxRequestObject)
    (RequestId : Nat) :
    NxRequestQueue.CancelRequests requests RequestId =
      ⟨(requests.map (fun r => if toCancel RequestId r = true then
            { r with m_CancellationStarted := true, m_CancelTempListEntry := true }
          else r)).map
          (fun r => if r.GetFxObject ∈
              (requests.filter (toCancel RequestId)).map NxRequestObject.GetFxObject then
            { r with m_CancelTempListEntry := false } else r),
        [],
        QueueEvent.KeAcquireSpinLock ::
          (requests.filter (toCancel RequestId)).map
            (fun r => QueueEvent.WdfObjectReferenceWithTag r.GetFxObject) ++
          QueueEvent.KeReleaseSpinLock ::
            ((requests.filter (toCancel RequestId)).map NxRequestObject.GetFxObject).flatMap
              (fun h => [QueueEvent.Cancel h, QueueEvent.WdfObjectDereferenceWithTag h])⟩ := by
  simp only [NxRequestQueue.CancelRequests, NxRequestQueue.CancelRequests.mark_eq,
    NxRequestQueue.CancelRequests.cancelAll_eq]

theorem referenced_append (a b : List QueueEvent) :
    referenced (a ++ b) = referenced a ++ referenced b := by
  induction a with
  | nil => rfl
  | cons e rest ih => cases e <;> simp [referenced, ih]

theorem dereferenced_append (a b : List QueueEvent) :
    dereferenced (a ++ b) = dereferenced a ++ dereferenced b := by
  induction a with
  | nil => rfl
  | cons e rest ih => cases e <;> simp [dereferenced, ih]

/-- The calls read off the part of the trace made under the lock. -/
theorem readers_map_reference (requests : List NxRequestObject) :
    referenced (requests.map
        (fun r => QueueEvent.WdfObjectReferenceWithTag r.GetFxObject)) =
        requests.map NxRequestObject.GetFxObject ∧
      dereferenced (requests.map
        (fun r => QueueEvent.WdfObjectReferenceWithTag r.GetFxObject)) = [] := by
  induction requests with
  | nil => exact ⟨rfl, rfl⟩
  | cons r rest ih => simp [referenced, dereferenced, ih]

/-- The calls read off the part of the trace made after the lock is released. -/
theorem readers_flatMap_cancel (tmp : List Nat) :
    referenced (tmp.flatMap (fun h =>
        [QueueEvent.Cancel h, QueueEvent.WdfObjectDereferenceWithTag h])) = [] ∧
      dereferenced (tmp.flatMap (fun h =>
        [QueueEvent.Cancel h, QueueEvent.WdfObjectDereferenceWithTag h])) = tmp := by
  induction tmp with
  | nil => exact ⟨rfl, rfl⟩
  | cons h rest ih =>
    rw [List.flatMap_cons]
    exact ⟨ih.1, congrArg (List.cons h) ih.2⟩

/-- A trace without `InsertTailList` and `RemoveEntryList` leaves the in-flight list as
it is. -/
theorem inFlightAfter_of_no_link_change (handles : List Nat) (trace : List QueueEvent)
    (h : ∀ e ∈ trace, (∀ x, e ≠ QueueEvent.InsertTailList x) ∧
      (∀ x, e ≠ QueueEvent.RemoveEntryList x)) :
    inFlightAfter handles trace = handles := by
  induction trace with
  | nil => rfl
  | cons e rest ih =>
    have hrest := ih (fun x hx => h x (List.mem_cons_of_mem _ hx))
    have he := h e (List.mem_cons_self _ _)
    cases e with
    | InsertTailList x => exact absurd rfl (he.1 x)
    | RemoveEntryList x => exact absurd rfl (he.2 x)
    | KeAcquireSpinLock => simpa [inFlightAfter] using hrest
    | KeReleaseSpinLock => simpa [inFlightAfter] using hrest
    | Dispatch c => simpa [inFlightAfter] using hrest
    | NdisMOidRequestComplete a b c => simpa [inFlightAfter] using hrest
    | WdfObjectReferenceWithTag x => simpa [inFlightAfter] using hrest
    | Cancel x => simpa [inFlightAfter] using hrest
    | WdfObjectDereferenceWithTag x => simpa [inFlightAfter] using hrest

/-- `CancelRequests` makes no call that links or unlinks a member of the in-flight
list. -/
theorem NxRequestQueue.CancelRequests_no_link_change (requests : List NxRequestObject)
    (RequestId : Nat) :
    ∀ e ∈ (NxRequestQueue.CancelRequests requests RequestId).Trace,
      (∀ x, e ≠ QueueEvent.InsertTailList x) ∧ (∀ x, e ≠ QueueEvent.RemoveEntryList x) := by
  intro e he
  rw [NxRequestQueue.CancelRequests_eq] at he
  rcases List.mem_cons.mp he with h | he
  · rw [h]
    exact ⟨fun _ hc => (by cases hc), fun _ hc => (by cases hc)⟩
  · rcases List.mem_append.mp he with he | he
    · obtain ⟨r, -, h⟩ := List.mem_map.mp he
      rw [← h]
      exact ⟨fun _ hc => (by cases hc), fun _ hc => (by cases hc)⟩
    · rcases List.mem_cons.mp he with h | he
      · rw [h]
        exact ⟨fun _ hc => (by cases hc), fun _ hc => (by cases hc)⟩
      · obtain ⟨x, -, hx⟩ := List.mem_flatMap.mp he
        rcases List.mem_cons.mp hx with h | hx
        · rw [h]
          exact ⟨fun _ hc => (by cases hc), fun _ hc => (by cases hc)⟩
        · rw [List.mem_singleton.mp hx]
          exact ⟨fun _ hc => (by cases hc), fun _ hc => (by cases hc)⟩

/-- The members of the in-flight list after `CancelRequests`: each keeps what ties it to
the list, and none is left linked in `tmpCancelList` unless it was so before. -/
theorem NxRequestQueue.CancelRequests_members (requests : List NxRequestObject)
    (RequestId : Nat) :
    (NxRequestQueue.CancelRequests requests RequestId).m_RequestsListHead.map
        NxRequestObject.tracking = requests.map NxRequestObject.tracking ∧
      ((∀ r ∈ requests, r.m_CancelTempListEntry = false) →
        ∀ r ∈ (NxRequestQueue.CancelRequests requests RequestId).m_RequestsListHead,
          r.m_CancelTempListEntry = false) := by
  rw [NxRequestQueue.CancelRequests_eq]
  constructor
  · simp only [List.map_map]
    apply List.map_congr_left
    intro r _
    simp only [Function.comp]
    by_cases hc : toCancel RequestId r = true <;>
      simp only [hc, if_true, Bool.false_eq_true, if_false] <;>
      split_ifs <;> rfl
  · intro hall r hr
    simp only [List.map_map, List.mem_map, Function.comp] at hr
    obtain ⟨r0, hr0, hr⟩ := hr
    rw [← hr]
    by_cases hc : toCancel RequestId r0 = true
    · simp only [hc, if_true]
      rw [if_pos ⟨r0, List.mem_filter.mpr ⟨hr0, hc⟩, rfl⟩]
    · simp only [hc, Bool.false_eq_true, if_false]
      split_ifs
      · rfl
      · exact hall r0 hr0

/-- The references taken and dropped by `CancelRequests`: one of each per cancelled
request, in the order of the calls of `Cancel`. -/
theorem NxRequestQueue.CancelRequests_references (requests : List NxRequestObject)
    (RequestId : Nat) :
    referenced (NxRequestQueue.CancelRequests requests RequestId).Trace =
        (requests.filter (toCancel RequestId)).map NxRequestObject.GetFxObject ∧
      dereferenced (NxRequestQueue.CancelRequests requests RequestId).Trace =
        (requests.filter (toCancel RequestId)).map NxRequestObject.GetFxObject := by
  rw [NxRequestQueue.CancelRequests_eq]
  obtain ⟨r1, d1⟩ := readers_map_reference (requests.filter (toCancel RequestId))
  obtain ⟨r2, d2⟩ := readers_flatMap_cancel
    ((requests.filter (toCancel RequestId)).map NxRequestObject.GetFxObject)
  constructor
  · show referenced (_ ++ QueueEvent.KeReleaseSpinLock :: _) = _
    rw [referenced_append]
    exact (congrArg₂ (fun a b => a ++ b) r1 r2).trans (List.append_nil _)
  · show dereferenced (_ ++ QueueEvent.KeReleaseSpinLock :: _) = _
    rw [dereferenced_append]
    exact (congrArg₂ (fun a b => a ++ b) d1 d2).trans (List.nil_append _)

/-! ## Claims on the frame of a cancellation -/

/-- C37: for every in-flight list and identifier, `CancelRequests` leaves the in-flight
list with the same members in the same order, each with the request, the link
`m_QueueListEntry` and the queue it had, and its trace holds no `InsertTailList` and no
`RemoveEntryList` on that list; `tmpCancelList` is empty when the routine returns, and no
member is left linked through `m_CancelTempListEntry` when none was before; `Cancel` is
called on the requests to cancel in the order of the in-flight list; and the reference
is taken once under the lock and dropped once after `Cancel` for each of them, and for
no other request: with pairwise distinct handles each cancelled handle is referenced
once and dereferenced once. -/
theorem C37_cancel_requests_frame (requests : List NxRequestObject) (RequestId : Nat) :
    ((NxRequestQueue.CancelRequests requests RequestId).m_RequestsListHead.map
          NxRequestObject.tracking = requests.map NxRequestObject.tracking ∧
      (NxRequestQueue.CancelRequests requests RequestId).m_RequestsListHead.map
          NxRequestObject.GetFxObject = requests.map NxRequestObject.GetFxObject ∧
      inFlightAfter (requests.map NxRequestObject.GetFxObject)
          (NxRequestQueue.CancelRequests requests RequestId).Trace =
        requests.map NxRequestObject.GetFxObject) ∧
    ((NxRequestQueue.CancelRequests requests RequestId).tmpCancelList = [] ∧
      ((∀ r ∈ requests, r.m_CancelTempListEntry = false) →
        ∀ r ∈ (NxRequestQueue.CancelRequests requests RequestId).m_RequestsListHead,
          r.m_CancelTempListEntry = false)) ∧
    cancelled (NxRequestQueue.CancelRequests requests RequestId).Trace =
      (requests.filter (toCancel RequestId)).map NxRequestObject.GetFxObject ∧
    ((NxRequestQueue.CancelRequests requests RequestId).Trace =
        QueueEvent.KeAcquireSpinLock ::
          (requests.filter (toCancel RequestId)).map
            (fun r => QueueEvent.WdfObjectReferenceWithTag r.GetFxObject) ++
          QueueEvent.KeReleaseSpinLock ::
            ((requests.filter (toCancel RequestId)).map NxRequestObject.GetFxObject).flatMap
              (fun h => [QueueEvent.Cancel h, QueueEvent.WdfObjectDereferenceWithTag h]) ∧
      referenced (NxRequestQueue.CancelRequests requests RequestId).Trace =
        cancelled (NxRequestQueue.CancelRequests requests RequestId).Trace ∧
      dereferenced (NxRequestQueue.CancelRequests requests RequestId).Trace =
        cancelled (NxRequestQueue.CancelRequests requests RequestId).Trace ∧
      ((requests.map NxRequestObject.GetFxObject).Nodup →
        ∀ h ∈ cancelled (NxRequestQueue.CancelRequests requests RequestId).Trace,
          (referenced (NxRequestQueue.CancelRequests requests RequestId).Trace).count h = 1 ∧
          (dereferenced (NxRequestQueue.CancelRequests requests RequestId).Trace).count h =
            1)) := by
  obtain ⟨hc, -, -, htmp⟩ := NxRequestQueue.CancelRequests_spec requests RequestId
  obtain ⟨href, hderef⟩ := NxRequestQueue.CancelRequests_references requests RequestId
  obtain ⟨htrack, hlink⟩ := NxRequestQueue.CancelRequests_members requests RequestId
  have hhandles : (NxRequestQueue.CancelRequests requests RequestId).m_RequestsListHead.map
      NxRequestObject.GetFxObject = requests.map NxRequestObject.GetFxObject := by
    have := congrArg (List.map (fun t : NxRequest × Bool × Option Nat => t.1.FxObject)) htrack
    simpa [List.map_map, Function.comp, NxRequestObject.tracking,
      NxRequestObject.GetFxObject] using this
  refine ⟨⟨htrack, hhandles, ?_⟩, ⟨htmp, hlink⟩, hc, ?_, ?_, ?_, ?_⟩
  · exact inFlightAfter_of_no_link_change _ _
      (NxRequestQueue.CancelRequests_no_link_change requests RequestId)
  · rw [NxRequestQueue.CancelRequests_eq]
  · rw [href, hc]
  · rw [hderef, hc]
  · intro hnodup h hh
    rw [href, hderef]
    rw [hc] at hh
    have hsub : ((requests.filter (toCancel RequestId)).map
        NxRequestObject.GetFxObject).Nodup :=
      hnodup.sublist (List.Sublist.map _ (List.filter_sublist _))
    exact ⟨List.count_eq_one_of_mem hsub hh, List.count_eq_one_of_mem hsub hh⟩

/-- C37 at a sample list: four requests in flight, of which 2000 and 2003 are to cancel
for the identifier 1.  The list holds the same four handles afterwards, `tmpCancelList`
is empty, `Cancel` is called on 2000 and then on 2003, and each of the two is referenced
once and dereferenced once. -/
theorem C37_cancel_requests_frame_witness :
    (NxRequestQueue.CancelRequests [sampleObject 2000 1 false, sampleObject 2001 2 false,
        sampleObject 2002 1 true, sampleObject 2003 1 false] 1).m_RequestsListHead.map
        NxRequestObject.GetFxObject = [2000, 2001, 2002, 2003] ∧
    (NxRequestQueue.CancelRequests [sampleObject 2000 1 false, sampleObject 2001 2 false,
        sampleObject 2002 1 true, sampleObject 2003 1 false] 1).tmpCancelList = [] ∧
    cancelled (NxRequestQueue.CancelRequests [sampleObject 2000 1 false,
        sampleObject 2001 2 false, sampleObject 2002 1 true, sampleObject 2003 1 false]
        1).Trace = [2000, 2003] ∧
    ((referenced (NxRequestQueue.CancelRequests [sampleObject 2000 1 false,
        sampleObject 2001 2 false, sampleObject 2002 1 true, sampleObject 2003 1 false]
        1).Trace).count 2003 = 1 ∧
      (dereferenced (NxRequestQueue.CancelRequests [sampleObject 2000 1 false,
        sampleObject 2001 2 false, sampleObject 2002 1 true, sampleObject 2003 1 false]
        1).Trace).count 2003 = 1) :=
  ⟨(C37_cancel_requests_frame [sampleObject 2000 1 false, sampleObject 2001 2 false,
      sampleObject 2002 1 true, sampleObject 2003 1 false] 1).1.2.1,
    (C37_cancel_requests_frame [sampleObject 2000 1 false, sampleObject 2001 2 false,
      sampleObject 2002 1 true, sampleObject 2003 1 false] 1).2.1.1,
    (C37_cancel_requests_frame [sampleObject 2000 1 false, sampleObject 2001 2 false,
      sampleObject 2002 1 true, sampleObject 2003 1 false] 1).2.2.1,
    (C37_cancel_requests_frame [sampleObject 2000 1 false, sampleObject 2001 2 false,
      sampleObject 2002 1 true, sampleObject 2003 1 false] 1).2.2.2.2.2.2 (by decide) 2003
      (by decide)⟩

/-! ## Lemmas on a repeated `SetParameters` -/

/-- The writes of `SetParameters` to the buffer read the media-change capabilities of
the policy only. -/
theorem NxPowerPolicy.SetParameters.adjust_congr (K : NdisConstants) (p q : NxPowerPolicy)
    (PmParams : NDIS_PM_PARAMETERS)
    (h : q.m_wakeMediaChangeCapabilities = p.m_wakeMediaChangeCapabilities) :
    NxPowerPolicy.SetParameters.adjust K q PmParams =
      NxPowerPolicy.SetParameters.adjust K p PmParams := by
  unfold NxPowerPolicy.SetParameters.adjust
  rw [h]

/-- `SetParameters` on a policy whose snapshot is already what the request stores:
nothing but the snapshot is written, and the snapshot keeps its value. -/
theorem NxPowerPolicy.SetParameters_of_stored (K : NdisConstants) (p : NxPowerPolicy)
    (Set : SET_INFORMATION NDIS_PM_PARAMETERS)
    (hlen : ¬ Set.InformationBufferLength < K.sizeof_NDIS_PM_PARAMETERS)
    (h : p.m_PMParameters = NxPowerPolicy.SetParameters.adjust K p Set.InformationBuffer) :
    p.SetParameters K Set =
      ⟨K.NDIS_STATUS_SUCCESS, p,
        NxPowerPolicy.SetParameters.adjust K p Set.InformationBuffer⟩ := by
  unfold NxPowerPolicy.SetParameters
  rw [if_neg hlen]
  dsimp only
  rw [← h]
  simp

/-- A bit test that holds keeps holding when flags are added to the value. -/
theorem testMask_lor_left (Value extra Mask : Nat) (h : testMask Value Mask = true) :
    testMask (Value ||| extra) Mask = true := by
  unfold testMask at h ⊢
  simp only [decide_eq_true_eq] at h ⊢
  rw [lor_land_distrib]
  intro hzero
  exact h ((lor_eq_zero_iff _ _).mp hzero).1

/-- Adding a flag that is already there changes nothing. -/
theorem lor_self_right (x b : Nat) : (x ||| b) ||| b = x ||| b := by
  rw [Nat.or_assoc, Nat.or_self]

/-- Adding a flag that was added before another one changes nothing. -/
theorem lor_lor_absorb (f a b : Nat) : ((f ||| a) ||| b) ||| a = (f ||| a) ||| b := by
  apply Nat.eq_of_testBit_eq
  intro i
  simp only [Nat.testBit_or]
  cases f.testBit i <;> cases a.testBit i <;> cases b.testBit i <;> rfl

/-- The writes of `SetParameters` to the buffer change nothing in a buffer that they
have already been made to. -/
theorem NxPowerPolicy.SetParameters.adjust_idem (K : NdisConstants) (p : NxPowerPolicy)
    (PmParams : NDIS_PM_PARAMETERS) :
    NxPowerPolicy.SetParameters.adjust K p (NxPowerPolicy.SetParameters.adjust K p PmParams) =
      NxPowerPolicy.SetParameters.adjust K p PmParams := by
  cases hss : NxPowerPolicy.SetParameters.isSelectiveSuspend K PmParams with
  | false =>
    rw [NxPowerPolicy.SetParameters.adjust_plain K p PmParams hss,
      NxPowerPolicy.SetParameters.adjust_plain K p PmParams hss]
  | true =>
    unfold NxPowerPolicy.SetParameters.isSelectiveSuspend at hss
    have m1 := testMask_lor_left _ K.NDIS_PM_WAKE_ON_LINK_CHANGE_ENABLED _ hss
    have m2 := testMask_lor_left _ K.NDIS_PM_WAKE_ON_MEDIA_DISCONNECT_ENABLED _ hss
    have m3 := testMask_lor_left _ K.NDIS_PM_WAKE_ON_MEDIA_DISCONNECT_ENABLED _ m1
    unfold NxPowerPolicy.SetParameters.adjust NxPowerPolicy.SetParameters.isSelectiveSuspend
    cases p.m_wakeMediaChangeCapabilities.MediaConnect <;>
      cases p.m_wakeMediaChangeCapabilities.MediaDisconnect <;>
      simp [hss, m1, m2, m3, lor_self_right, lor_lor_absorb]

/-- C38: for every policy state and every parameters buffer of sufficient length, a
second `SetParameters` with the same incoming values, right after the first, finds the
stored `WakeUpFlags`, `EnabledWoLPacketPatterns` and `EnabledProtocolOffloads` equal to
the values it is about to store, so that none of its three comparisons holds and it
recomputes nothing, and it leaves the policy (the snapshot, the flags given to both
built-in wake sources, every entry of both lists with its enabled flag) exactly as the
first call left it; both calls return `NDIS_STATUS_SUCCESS`.  The same holds when the
second call is given the buffer as the first call left it. -/
theorem C38_set_parameters_twice_is_once (K : NdisConstants) (p : NxPowerPolicy)
    (Set : SET_INFORMATION NDIS_PM_PARAMETERS)
    (hlen : ¬ Set.InformationBufferLength < K.sizeof_NDIS_PM_PARAMETERS) :
    ((p.SetParameters K Set).Policy.SetParameters K Set).Policy =
        (p.SetParameters K Set).Policy ∧
    (p.SetParameters K Set).Status = K.NDIS_STATUS_SUCCESS ∧
    ((p.SetParameters K Set).Policy.SetParameters K Set).Status = K.NDIS_STATUS_SUCCESS ∧
    ((p.SetParameters K Set).Policy.m_PMParameters.WakeUpFlags =
        (NxPowerPolicy.SetParameters.adjust K (p.SetParameters K Set).Policy
          Set.InformationBuffer).WakeUpFlags ∧
      (p.SetParameters K Set).Policy.m_PMParameters.EnabledWoLPacketPatterns =
        (NxPowerPolicy.SetParameters.adjust K (p.SetParameters K Set).Policy
          Set.InformationBuffer).EnabledWoLPacketPatterns ∧
      (p.SetParameters K Set).Policy.m_PMParameters.EnabledProtocolOffloads =
        (NxPowerPolicy.SetParameters.adjust K (p.SetParameters K Set).Policy
          Set.InformationBuffer).EnabledProtocolOffloads) ∧
    (((p.SetParameters K Set).Policy.SetParameters K Set).Policy.m_PMParameters =
        (p.SetParameters K Set).Policy.m_PMParameters ∧
      ((p.SetParameters K Set).Policy.SetParameters K Set).Policy.m_wakeOnMediaChange =
        (p.SetParameters K Set).Policy.m_wakeOnMediaChange ∧
      ((p.SetParameters K Set).Policy.SetParameters K Set).Policy.m_wakeOnPacketFilterMatch =
        (p.SetParameters K Set).Policy.m_wakeOnPacketFilterMatch ∧
      ((p.SetParameters K Set).Policy.SetParameters K Set).Policy.m_WakeListHead =
        (p.SetParameters K Set).Policy.m_WakeListHead ∧
      ((p.SetParameters K Set).Policy.SetParameters K Set).Policy.m_ProtocolOffloadListHead =
        (p.SetParameters K Set).Policy.m_ProtocolOffloadListHead) ∧
    ((p.SetParameters K Set).Policy.SetParameters K
        ⟨(p.SetParameters K Set).PmParams, Set.InformationBufferLength⟩).Policy =
      (p.SetParameters K Set).Policy := by
  obtain ⟨hst, hbuf, hsnap, -, -⟩ := NxPowerPolicy.SetParameters_state K p Set hlen
  obtain ⟨hcap, -⟩ := NxPowerPolicy.SetParameters_capabilities K p Set
  have hstored : (p.SetParameters K Set).Policy.m_PMParameters =
      NxPowerPolicy.SetParameters.adjust K (p.SetParameters K Set).Policy
        Set.InformationBuffer := by
    rw [NxPowerPolicy.SetParameters.adjust_congr K p _ _ hcap]
    exact hsnap
  have hsecond := NxPowerPolicy.SetParameters_of_stored K (p.SetParameters K Set).Policy Set
    hlen hstored
  have hpol : ((p.SetParameters K Set).Policy.SetParameters K Set).Policy =
      (p.SetParameters K Set).Policy := by rw [hsecond]
  have hstored2 : (p.SetParameters K Set).Policy.m_PMParameters =
      NxPowerPolicy.SetParameters.adjust K (p.SetParameters K Set).Policy
        (p.SetParameters K Set).PmParams := by
    rw [NxPowerPolicy.SetParameters.adjust_congr K p _ _ hcap, hbuf,
      NxPowerPolicy.SetParameters.adjust_idem]
    exact hsnap
  have hthird := NxPowerPolicy.SetParameters_of_stored K (p.SetParameters K Set).Policy
    ⟨(p.SetParameters K Set).PmParams, Set.InformationBufferLength⟩ hlen hstored2
  refine ⟨hpol, hst, by rw [hsecond], ⟨?_, ?_, ?_⟩, ?_, by rw [hthird]⟩
  · rw [← hstored]
  · rw [← hstored]
  · rw [← hstored]
  · rw [hpol]
    exact ⟨rfl, rfl, rfl, rfl, rfl⟩

/-- C38 at a sample request: on the policy with one disabled bitmap pattern and one
disabled ARP offload, the stack enables both kinds and asks for media disconnect and
selective suspend; the second call with the same values leaves the policy of the first
call, in which the pattern is disabled (selective suspend clears the pattern bits), the
offload is enabled and the built-in sources hold the flags 0x11. -/
theorem C38_set_parameters_twice_is_once_witness :
    ((samplePolicyWithEntries.SetParameters sampleConstants
        ⟨⟨0, 0x1, 0x1, 0x12⟩, 16⟩).Policy.SetParameters sampleConstants
        ⟨⟨0, 0x1, 0x1, 0x12⟩, 16⟩).Policy =
      (samplePolicyWithEntries.SetParameters sampleConstants
        ⟨⟨0, 0x1, 0x1, 0x12⟩, 16⟩).Policy ∧
    (samplePolicyWithEntries.SetParameters sampleConstants
        ⟨⟨0, 0x1, 0x1, 0x12⟩, 16⟩).Policy.m_ProtocolOffloadListHead =
      [⟨811, 7, .NetPowerOffloadTypeArp, true⟩] ∧
    (samplePolicyWithEntries.SetParameters sampleConstants
        ⟨⟨0, 0x1, 0x1, 0x12⟩, 16⟩).Policy.m_wakeOnMediaChange = ⟨some 0x11⟩ :=
  ⟨(C38_set_parameters_twice_is_once sampleConstants samplePolicyWithEntries
      ⟨⟨0, 0x1, 0x1, 0x12⟩, 16⟩ (by decide)).1,
    by decide, by decide⟩

/-! ## Claims on magic-packet entries -/

/-- C39: for every policy state, whatever preview callbacks are registered and whatever
a preview callback would return, `AddWakePattern` of valid length for the magic-packet
subtype calls no preview callback and does not depend on the preview status; with
MagicPacket declared and a successful factory it calls the factory only, returns
`NDIS_STATUS_SUCCESS` and links the entry at the head of the wake list. -/
theorem C39_magic_packet_never_previewed (K : NdisConstants) (p : NxPowerPolicy)
    (s : SET_INFORMATION NDIS_PM_WOL_PATTERN) (b m : NDIS_STATUS × NxWakePattern)
    (v : NTSTATUS)
    (hlen : ¬ s.InformationBufferLength < K.sizeof_NDIS_PM_WOL_PATTERN)
    (ht : s.InformationBuffer.WoLPacketType = .NdisPMWoLPacketMagicPacket) :
    (∀ c ∈ (p.AddWakePattern K s b m v).Calls, c.isPreview = false) ∧
    (∀ v2 : NTSTATUS, p.AddWakePattern K s b m v2 = p.AddWakePattern K s b m v) ∧
    (p.m_magicPacketCapabilities.MagicPacket = true → m.1 = K.NDIS_STATUS_SUCCESS →
      (p.AddWakePattern K s b m v).Status = K.NDIS_STATUS_SUCCESS ∧
      (p.AddWakePattern K s b m v).Calls =
        [PolicyEvent.NxWakeMagicPacket_CreateFromNdisWoLPattern p.m_adapter
          s.InformationBuffer] ∧
      (p.AddWakePattern K s b m v).Policy =
        { p with m_WakeListHead :=
            p.UpdatePatternEntryEnabledField K m.2 :: p.m_WakeListHead }) := by
  have hform : ∀ w : NTSTATUS, p.AddWakePattern K s b m w =
      if p.m_magicPacketCapabilities.MagicPacket = false then
        ⟨K.NDIS_STATUS_NOT_SUPPORTED, p, []⟩
      else if m.1 ≠ K.NDIS_STATUS_SUCCESS then
        ⟨m.1, p, [PolicyEvent.NxWakeMagicPacket_CreateFromNdisWoLPattern p.m_adapter
          s.InformationBuffer]⟩
      else
        ⟨K.NDIS_STATUS_SUCCESS,
          { p with m_WakeListHead :=
              p.UpdatePatternEntryEnabledField K m.2 :: p.m_WakeListHead },
          [PolicyEvent.NxWakeMagicPacket_CreateFromNdisWoLPattern p.m_adapter
            s.InformationBuffer]⟩ := by
    intro w
    rw [NxPowerPolicy.AddWakePattern_magic K p s b m w hlen ht]
    rfl
  refine ⟨?_, fun v2 => by rw [hform v2, hform v], ?_⟩
  · rw [hform v]
    intro c hc
    split_ifs at hc
    · exact absurd hc (List.not_mem_nil c)
    · rw [List.mem_singleton.mp hc]
      rfl
    · rw [List.mem_singleton.mp hc]
      rfl
  · intro hcap hfac
    rw [hform v, if_neg (by simp [hcap]), if_neg (by simp [hfac])]
    exact ⟨rfl, rfl, rfl⟩

/-- C39 at a sample request: the sample policy has a preview callback for bitmap
patterns, and the preview status on offer is list full; the magic packet is linked all
the same, the add succeeds, and the factory is the only call. -/
theorem C39_magic_packet_never_previewed_witness :
    samplePolicy.m_powerPolicyEventCallbacks.EvtDevicePreviewBitmapPattern = some 600 ∧
    (samplePolicy.AddWakePattern sampleConstants
        ⟨⟨.NdisPMWoLPacketMagicPacket, 4⟩, 64⟩
        (0, ⟨703, 4, .NetWakeSourceTypeBitmapPattern, false⟩)
        (0, ⟨704, 4, .NetWakeSourceTypeMagicPacket, false⟩) (0xC0232004 - 2 ^ 32)).Status =
      sampleConstants.NDIS_STATUS_SUCCESS ∧
    (samplePolicy.AddWakePattern sampleConstants
        ⟨⟨.NdisPMWoLPacketMagicPacket, 4⟩, 64⟩
        (0, ⟨703, 4, .NetWakeSourceTypeBitmapPattern, false⟩)
        (0, ⟨704, 4, .NetWakeSourceTypeMagicPacket, false⟩) (0xC0232004 - 2 ^ 32)).Calls =
      [PolicyEvent.NxWakeMagicPacket_CreateFromNdisWoLPattern 11
        ⟨.NdisPMWoLPacketMagicPacket, 4⟩] ∧
    (samplePolicy.AddWakePattern sampleConstants
        ⟨⟨.NdisPMWoLPacketMagicPacket, 4⟩, 64⟩
        (0, ⟨703, 4, .NetWakeSourceTypeBitmapPattern, false⟩)
        (0, ⟨704, 4, .NetWakeSourceTypeMagicPacket, false⟩)
        (0xC0232004 - 2 ^ 32)).Policy.m_WakeListHead =
      [⟨704, 4, .NetWakeSourceTypeMagicPacket, false⟩] :=
  ⟨rfl,
    ((C39_magic_packet_never_previewed sampleConstants samplePolicy
      ⟨⟨.NdisPMWoLPacketMagicPacket, 4⟩, 64⟩
      (0, ⟨703, 4, .NetWakeSourceTypeBitmapPattern, false⟩)
      (0, ⟨704, 4, .NetWakeSourceTypeMagicPacket, false⟩) (0xC0232004 - 2 ^ 32)
      (by decide) rfl).2.2 rfl rfl).1,
    ((C39_magic_packet_never_previewed sampleConstants samplePolicy
      ⟨⟨.NdisPMWoLPacketMagicPacket, 4⟩, 64⟩
      (0, ⟨703, 4, .NetWakeSourceTypeBitmapPattern, false⟩)
      (0, ⟨704, 4, .NetWakeSourceTypeMagicPacket, false⟩) (0xC0232004 - 2 ^ 32)
      (by decide) rfl).2.2 rfl rfl).2.1,
    by decide⟩

/-! ## Lemmas on the types of the offload entries -/

/-- The entry that `AddProtocolOffload` passes to
`UpdateProtocolOffloadEntryEnabledField` is the entry that the request brings to the
list. -/
theorem NxPowerPolicy.AddProtocolOffload.updated_eq (K : NdisConstants) (p : NxPowerPolicy)
    (s : SET_INFORMATION NDIS_PM_PROTOCOL_OFFLOAD) (a n : NDIS_STATUS × NxPowerOffload)
    (v : NTSTATUS) :
    NxPowerPolicy.AddProtocolOffload.updated K p s a n v =
      (specProtocolOffloadAdmitted K p s a n v).toList := by
  unfold NxPowerPolicy.AddProtocolOffload.updated specProtocolOffloadAdmitted
    NxPowerPolicy.AddProtocolOffload.finish.updated
  by_cases hlen : s.InformationBufferLength < K.sizeof_NDIS_PM_PROTOCOL_OFFLOAD
  · have hn : ¬ K.sizeof_NDIS_PM_PROTOCOL_OFFLOAD ≤ s.InformationBufferLength := by omega
    rw [if_pos hlen, if_neg hn]
    rfl
  · have hle : K.sizeof_NDIS_PM_PROTOCOL_OFFLOAD ≤ s.InformationBufferLength := by omega
    rw [if_neg hlen, if_pos hle]
    cases s.InformationBuffer.ProtocolOffloadType with
    | NdisPMProtocolOffloadIdIPv4ARP =>
      dsimp only
      cases p.m_powerOffloadArpCapabilities.ArpOffload <;>
        cases p.m_powerPolicyEventCallbacks.EvtDevicePreviewArpOffload <;>
        by_cases h1 : a.1 = K.NDIS_STATUS_SUCCESS <;>
        by_cases h2 : v = K.STATUS_NDIS_PM_PROTOCOL_OFFLOAD_LIST_FULL <;>
        by_cases h3 : v = STATUS_SUCCESS <;>
        simp [h1, h2] <;> simp [h3]
    | NdisPMProtocolOffloadIdIPv6NS =>
      dsimp only
      cases p.m_powerOffloadNSCapabilities.NSOffload <;>
        cases p.m_powerPolicyEventCallbacks.EvtDevicePreviewNSOffload <;>
        by_cases h1 : n.1 = K.NDIS_STATUS_SUCCESS <;>
        by_cases h2 : v = K.STATUS_NDIS_PM_PROTOCOL_OFFLOAD_LIST_FULL <;>
        by_cases h3 : v = STATUS_SUCCESS <;>
        simp [h1, h2] <;> simp [h3]
    | Other k => rfl

/-- The entry that an `AddProtocolOffload` request brings to the list is the one made by
the ARP factory or the one made by the NS factory. -/
theorem specProtocolOffloadAdmitted_created (K : NdisConstants) (p : NxPowerPolicy)
    (s : SET_INFORMATION NDIS_PM_PROTOCOL_OFFLOAD) (a n : NDIS_STATUS × NxPowerOffload)
    (v : NTSTATUS) (e : NxPowerOffload)
    (h : specProtocolOffloadAdmitted K p s a n v = some e) : e = a.2 ∨ e = n.2 := by
  unfold specProtocolOffloadAdmitted at h
  by_cases hlen : K.sizeof_NDIS_PM_PROTOCOL_OFFLOAD ≤ s.InformationBufferLength
  · rw [if_pos hlen] at h
    cases ht : s.InformationBuffer.ProtocolOffloadType with
    | NdisPMProtocolOffloadIdIPv4ARP =>
      rw [ht] at h
      dsimp only at h
      split_ifs at h
      exact Or.inl (Option.some.inj h).symm
    | NdisPMProtocolOffloadIdIPv6NS =>
      rw [ht] at h
      dsimp only at h
      split_ifs at h
      exact Or.inr (Option.some.inj h).symm
    | Other k =>
      rw [ht] at h
      cases h
  · rw [if_neg hlen] at h
    cases h

/-- A request whose factories yield entries of their own type keeps every entry of the
offload list of type ARP or NS. -/
theorem PolicyCall.run_typed (K : NdisConstants) (p : NxPowerPolicy) (c : PolicyCall)
    (h : OffloadsTyped p) (hty : c.factoriesTyped = true) : OffloadsTyped (c.run K p) := by
  cases c with
  | AddWakePattern s b m v =>
    have hrun : (PolicyCall.AddWakePattern s b m v).run K p =
        (p.AddWakePattern K s b m v).Policy := rfl
    rcases NxPowerPolicy.AddWakePattern_policy K p s b m v with heq | ⟨e, heq⟩
    · rw [hrun, heq]
      exact h
    · rw [hrun, heq]
      exact h
  | AddProtocolOffload s a n v =>
    have hrun : (PolicyCall.AddProtocolOffload s a n v).run K p =
        (p.AddProtocolOffload K s a n v).Policy := rfl
    rw [hrun]
    simp only [PolicyCall.factoriesTyped, Bool.and_eq_true, beq_iff_eq] at hty
    cases hspec : specProtocolOffloadAdmitted K p s a n v with
    | none =>
      rw [NxPowerPolicy.AddProtocolOffload_not_admitted K p s a n v hspec]
      exact h
    | some e =>
      rw [(NxPowerPolicy.AddProtocolOffload_admitted K p s a n v e hspec).2]
      intro x hx
      rcases List.mem_cons.mp hx with h1 | h2
      · rw [h1]
        show e.GetType = _ ∨ e.GetType = _
        rcases specProtocolOffloadAdmitted_created K p s a n v e hspec with he | he
        · rw [he]
          exact Or.inl hty.1
        · rw [he]
          exact Or.inr hty.2
      · exact h x h2
  | RemoveWakePattern s =>
    obtain ⟨-, hsame⟩ := NxPowerPolicy.RemoveWakePattern_sublist K p s
    intro x hx
    rw [show ((PolicyCall.RemoveWakePattern s).run K p).m_ProtocolOffloadListHead = _
      from hsame] at hx
    exact h x hx
  | RemoveProtocolOffload s =>
    obtain ⟨hsub, -⟩ := NxPowerPolicy.RemoveProtocolOffload_sublist K p s
    intro x hx
    exact h x (hsub.subset hx)
  | SetParameters s =>
    obtain ⟨-, h2⟩ := NxPowerPolicy.SetParameters_entries K p s
    have g := (map_offload_of_identity _ _ h2).2
    intro x hx
    have hmem : x.GetType ∈ ((PolicyCall.SetParameters s).run K
        p).m_ProtocolOffloadListHead.map NxPowerOffload.GetType :=
      List.mem_map.mpr ⟨x, hx, rfl⟩
    rw [show ((PolicyCall.SetParameters s).run K p).m_ProtocolOffloadListHead.map
      NxPowerOffload.GetType = _ from g] at hmem
    obtain ⟨y, hy, hyt⟩ := List.mem_map.mp hmem
    rw [← hyt]
    exact h y hy

/-- A sequence of requests whose factories yield entries of their own type keeps every
entry of the offload list of type ARP or NS. -/
theorem runCalls_typed (K : NdisConstants) (p : NxPowerPolicy) (calls : List PolicyCall)
    (h : OffloadsTyped p) (hty : calls.all PolicyCall.factoriesTyped = true) :
    OffloadsTyped (runCalls K p calls) := by
  induction calls generalizing p with
  | nil => exact h
  | cons c rest ih =>
    simp only [List.all_cons, Bool.and_eq_true] at hty
    exact ih (c.run K p) (PolicyCall.run_typed K p c h hty.1) hty.2

/-- The assertion of `UpdateProtocolOffloadEntryEnabledField` is not reached for an
entry of type ARP or NS. -/
theorem NxPowerPolicy.UpdateProtocolOffloadEntryEnabledField.asserts_of_typed
    (e : NxPowerOffload)
    (h : e.GetType = .NetPowerOffloadTypeArp ∨ e.GetType = .NetPowerOffloadTypeNS) :
    NxPowerPolicy.UpdateProtocolOffloadEntryEnabledField.asserts e = false := by
  unfold NxPowerPolicy.UpdateProtocolOffloadEntryEnabledField.asserts
  rcases h with h | h <;> rw [h]

/-! ## Claims on the types of the offload entries -/

/-- C40: start from a policy with an empty offload list and serve any sequence of
requests in which the ARP factory yields entries of type ARP and the NS factory entries
of type NS.  Then every entry of the offload list has the type ARP or NS, and every
entry that the next request passes to `UpdateProtocolOffloadEntryEnabledField` (the
entry being added by `AddProtocolOffload`, or each entry of the offload list in
`SetParameters`) has the type ARP or NS: the `default` case with the assertion
"Unexpected protocol offload type" is not reached. -/
theorem C40_offload_type_assertion_unreachable (K : NdisConstants) (p : NxPowerPolicy)
    (calls : List PolicyCall) (c : PolicyCall)
    (hoffload : p.m_ProtocolOffloadListHead = [])
    (hcalls : calls.all PolicyCall.factoriesTyped = true)
    (hc : c.factoriesTyped = true) :
    OffloadsTyped (runCalls K p calls) ∧
    ∀ e ∈ c.updatedOffloads K (runCalls K p calls),
      (e.GetType = .NetPowerOffloadTypeArp ∨ e.GetType = .NetPowerOffloadTypeNS) ∧
      NxPowerPolicy.UpdateProtocolOffloadEntryEnabledField.asserts e = false := by
  have hinv : OffloadsTyped (runCalls K p calls) := by
    apply runCalls_typed K p calls _ hcalls
    intro e he
    rw [hoffload] at he
    exact absurd he (List.not_mem_nil e)
  refine ⟨hinv, ?_⟩
  have key : ∀ e ∈ c.updatedOffloads K (runCalls K p calls),
      e.GetType = .NetPowerOffloadTypeArp ∨ e.GetType = .NetPowerOffloadTypeNS := by
    intro e he
    cases c with
    | AddWakePattern s b m v => exact absurd he (List.not_mem_nil e)
    | RemoveWakePattern s => exact absurd he (List.not_mem_nil e)
    | RemoveProtocolOffload s => exact absurd he (List.not_mem_nil e)
    | AddProtocolOffload s a n v =>
      simp only [PolicyCall.updatedOffloads,
        NxPowerPolicy.AddProtocolOffload.updated_eq, Option.mem_toList,
        Option.mem_def] at he
      simp only [PolicyCall.factoriesTyped, Bool.and_eq_true, beq_iff_eq] at hc
      rcases specProtocolOffloadAdmitted_created K _ s a n v e he with h1 | h1
      · rw [h1]
        exact Or.inl hc.1
      · rw [h1]
        exact Or.inr hc.2
    | SetParameters s =>
      simp only [PolicyCall.updatedOffloads,
        NxPowerPolicy.SetParameters.updatedOffloads] at he
      split_ifs at he
      · exact absurd he (List.not_mem_nil e)
      · exact hinv e he
      · exact absurd he (List.not_mem_nil e)
  intro e he
  exact ⟨key e he,
    NxPowerPolicy.UpdateProtocolOffloadEntryEnabledField.asserts_of_typed e (key e he)⟩

/-- C40 at the sample sequence of requests, after which the offload list holds the NS
offload 804: a `SetParameters` that changes `EnabledProtocolOffloads` passes that entry
to `UpdateProtocolOffloadEntryEnabledField`, and the assertion is not reached for it. -/
theorem C40_offload_type_assertion_unreachable_witness :
    (PolicyCall.SetParameters ⟨⟨0, 0, 0x1, 0⟩, 16⟩).updatedOffloads sampleConstants
        (runCalls sampleConstants samplePolicy sampleCalls) =
      [⟨804, 2, .NetPowerOffloadTypeNS, true⟩] ∧
    OffloadsTyped (runCalls sampleConstants samplePolicy sampleCalls) ∧
    ∀ e ∈ (PolicyCall.SetParameters ⟨⟨0, 0, 0x1, 0⟩, 16⟩).updatedOffloads sampleConstants
        (runCalls sampleConstants samplePolicy sampleCalls),
      (e.GetType = .NetPowerOffloadTypeArp ∨ e.GetType = .NetPowerOffloadTypeNS) ∧
      NxPowerPolicy.UpdateProtocolOffloadEntryEnabledField.asserts e = false :=
  ⟨by decide,
    C40_offload_type_assertion_unreachable sampleConstants samplePolicy sampleCalls
      (.SetParameters ⟨⟨0, 0, 0x1, 0⟩, 16⟩) rfl (by decide) rfl⟩

end NetAdapterCx
